import Mathlib

/-!
# Nested SVM (xen/arch/x86/hvm/svm/nestedsvm.c)

A shallow embedding of the nested-virtualisation core of `nestedsvm.c`.

* Machine integers are natural numbers; where the C arithmetic can wrap the
  reduction modulo `2 ^ w` is written out.
* The three control blocks of a vcpu (`nv_n1vmcx`, `nv_n2vmcx`, `nv_vvmcx`) are
  three `vmcb_struct` values held in the vcpu state; the active block pointer
  `v->arch.hvm.svm.vmcb` is a selector between the two host-owned blocks.
* Functions of the hypervisor that `nestedsvm.c` calls but does not define
  (register setters, guest-memory access, the p2m, the structural validator)
  are the fields of `Collab`; every function of the embedding takes them as
  its first argument.
-/

namespace NestedSVM

/-! ## Constants of the headers -/

/-- First error code of `nsvm_vmcb_prepare4vmrun` (nestedsvm.c line 20). -/
def NSVM_ERROR_VVMCB : Int := 1
/-- Second error code of `nsvm_vmcb_prepare4vmrun` (nestedsvm.c line 21). -/
def NSVM_ERROR_VMENTRY : Int := 2

/-- CR0.PE, protection enable (x86-defns.h). -/
def X86_CR0_PE : Nat := 0x00000001
/-- CR0.TS, task switched (x86-defns.h). -/
def X86_CR0_TS : Nat := 0x00000008
/-- RFLAGS.IF (x86-defns.h). -/
def X86_EFLAGS_IF : Nat := 0x00000200
/-- RFLAGS.VM (x86-defns.h). -/
def X86_EFLAGS_VM : Nat := 0x00020000
/-- Vector of the device-not-available exception. -/
def X86_EXC_NM : Nat := 7
/-- Vector of the invalid-opcode exception. -/
def X86_EXC_UD : Nat := 6
/-- Vector of the general-protection exception. -/
def X86_EXC_GP : Nat := 13
/-- Error code argument meaning that the event carries no error code. -/
def X86_EVENT_NO_EC : Int := -1
/-- Return code of the x86 emulator interface: success. -/
def X86EMUL_OKAY : Nat := 0
/-- Return code of the x86 emulator interface: an exception was raised. -/
def X86EMUL_EXCEPTION : Nat := 2
/-- Result of a guest-memory copy: success. -/
def HVMTRANS_okay : Nat := 0
/-- The address that stands for no physical address, all ones in 64 bits. -/
def INVALID_PADDR : Nat := 2 ^ 64 - 1
/-- PAUSE instruction intercept, bit 23 of the general-1 intercept word. -/
def GENERAL1_INTERCEPT_PAUSE : Nat := 1 <<< 23
/-- Size in bytes of an MSR permission map (two pages). -/
def MSRPM_SIZE : Nat := 8 * 1024
/-- Size of `unsigned long` in bytes (xen/config.h, `__SIZEOF_LONG__` on x86-64). -/
def BYTES_PER_LONG : Nat := 8
/-- Shift of a 4KiB page. -/
def PAGE_SHIFT : Nat := 12

/-- Size of a page in bytes. -/
def PAGE_SIZE : Nat := 1 <<< PAGE_SHIFT

/-! Exit codes, `enum VMEXIT_EXITCODE` of vmcb.h with the values of the AMD
architecture; an exit code is a `uint64_t`, so `VMEXIT_INVALID` (-1) is all
ones in 64 bits. -/

/-- Read of CR0, first exit code of the control registers. -/
def VMEXIT_CR0_READ : Nat := 0
/-- Read of CR15. -/
def VMEXIT_CR15_READ : Nat := 15
/-- Write of CR0. -/
def VMEXIT_CR0_WRITE : Nat := 16
/-- Write of CR15. -/
def VMEXIT_CR15_WRITE : Nat := 31
/-- Read of DR0, first exit code of the debug registers. -/
def VMEXIT_DR0_READ : Nat := 32
/-- Read of DR7. -/
def VMEXIT_DR7_READ : Nat := 39
/-- Write of DR0. -/
def VMEXIT_DR0_WRITE : Nat := 48
/-- Write of DR7. -/
def VMEXIT_DR7_WRITE : Nat := 55
/-- Exception 0 (divide error), first exit code of the exceptions. -/
def VMEXIT_EXCEPTION_DE : Nat := 64
/-- Exception 7, device not available. -/
def VMEXIT_EXCEPTION_NM : Nat := 71
/-- Exception 11, segment not present. -/
def VMEXIT_EXCEPTION_NP : Nat := 75
/-- Exception 12, stack fault. -/
def VMEXIT_EXCEPTION_SS : Nat := 76
/-- Exception 13, general protection. -/
def VMEXIT_EXCEPTION_GP : Nat := 77
/-- Exception 14, page fault. -/
def VMEXIT_EXCEPTION_PF : Nat := 78
/-- Exception 15. -/
def VMEXIT_EXCEPTION_15 : Nat := 79
/-- Exception 16, x87 floating point. -/
def VMEXIT_EXCEPTION_MF : Nat := 80
/-- Exception 17, alignment check. -/
def VMEXIT_EXCEPTION_AC : Nat := 81
/-- Exception 19, SIMD floating point, last exit code of the exceptions. -/
def VMEXIT_EXCEPTION_XF : Nat := 83
/-- Physical interrupt, first exit code of the general-1 intercepts. -/
def VMEXIT_INTR : Nat := 96
/-- Non-maskable interrupt. -/
def VMEXIT_NMI : Nat := 97
/-- Port I/O instruction. -/
def VMEXIT_IOIO : Nat := 123
/-- Access to an MSR. -/
def VMEXIT_MSR : Nat := 124
/-- Shutdown, last exit code of the general-1 intercepts. -/
def VMEXIT_SHUTDOWN : Nat := 127
/-- The VMRUN instruction, first exit code of the general-2 intercepts. -/
def VMEXIT_VMRUN : Nat := 128
/-- The VMMCALL instruction. -/
def VMEXIT_VMMCALL : Nat := 129
/-- The XSETBV instruction, last exit code of the general-2 range of line 965. -/
def VMEXIT_XSETBV : Nat := 141
/-- Nested page fault. -/
def VMEXIT_NPF : Nat := 1024
/-- Invalid guest state. -/
def VMEXIT_INVALID : Nat := 2 ^ 64 - 1

/-- The macro `test_bit(nr, addr)` of xen/bitops.h on an array of 64-bit words. -/
def test_bit (nr : Nat) (addr : Nat → Nat) : Bool := (addr (nr / 64)).testBit (nr % 64)

/-- The bit-field `port` of `ioio_info_t` (vmcb.h): bits 16 to 31 of EXITINFO1. -/
def ioio_info_port (bytes : Nat) : Nat := (bytes >>> 16) % 2 ^ 16
/-- The bit-field `sz16` of `ioio_info_t` (vmcb.h): bit 5 of EXITINFO1. -/
def ioio_info_sz16 (bytes : Nat) : Bool := bytes.testBit 5
/-- The bit-field `sz32` of `ioio_info_t` (vmcb.h): bit 6 of EXITINFO1. -/
def ioio_info_sz32 (bytes : Nat) : Bool := bytes.testBit 6

/-- State of an I/O request slot with no request in flight (public/hvm/ioreq.h). -/
def STATE_IOREQ_NONE : Nat := 0

/-- The C expression `x & ~m` on a `w`-bit unsigned operand `x`. -/
def clearBits (w : Nat) (x m : Nat) : Nat := x &&& (2 ^ w - 1 - m % 2 ^ w)

/-- The bit `EFER_SVME` of asm/msr-index.h (bit 12 of EFER). -/
def EFER_SVME : Nat := 1 <<< 12

/-- The bits of `enum GenericIntercept2bits` of vmcb.h that the file names,
with the positions of the AMD manual. -/
def GENERAL2_INTERCEPT_VMLOAD : Nat := 1 <<< 2

/-- See `GENERAL2_INTERCEPT_VMLOAD`. -/
def GENERAL2_INTERCEPT_VMSAVE : Nat := 1 <<< 3

/-- See `GENERAL2_INTERCEPT_VMLOAD`. -/
def GENERAL2_INTERCEPT_STGI : Nat := 1 <<< 4

/-- See `GENERAL2_INTERCEPT_VMLOAD`. -/
def GENERAL2_INTERCEPT_CLGI : Nat := 1 <<< 5

/-- The bit-field `vloadsave_enable` of `virt_ext_t` (vmcb.h): bit 1 of the word. -/
def virt_ext_vloadsave_enable : Nat := 1 <<< 1

/-! ## Data model -/

/-- A segment register of the save area (`struct segment_register`). -/
structure segment_register where
  sel : Nat := 0
  attr : Nat := 0
  limit : Nat := 0
  base : Nat := 0
  deriving DecidableEq, Inhabited

/-- The virtual-interrupt control word `vintr_t`, by bit-field. -/
structure vintr_t where
  tpr : Nat := 0
  irq : Bool := false
  vgif : Bool := false
  prio : Nat := 0
  ign_tpr : Bool := false
  intr_masking : Bool := false
  vgif_enable : Bool := false
  vector : Nat := 0
  deriving DecidableEq, Inhabited

/-- An event-injection word `intinfo_t`, by bit-field; `raw = 0` is `{}`. -/
structure intinfo_t where
  vector : Nat := 0
  type : Nat := 0
  ev : Bool := false
  resvd1 : Nat := 0
  v : Bool := false
  ec : Nat := 0
  deriving DecidableEq, Inhabited

/-- The clean bits `vmcbcleanbits_t`, by bit-field; `raw = 0` is `{}`. -/
structure vmcbcleanbits_t where
  intercepts : Bool := false
  iopm : Bool := false
  asid : Bool := false
  tpr : Bool := false
  np : Bool := false
  cr : Bool := false
  dr : Bool := false
  dt : Bool := false
  seg : Bool := false
  cr2 : Bool := false
  lbr : Bool := false
  avic : Bool := false
  cet : Bool := false
  resv : Nat := 0
  deriving DecidableEq, Inhabited

/-- The fields of `struct vmcb_struct` that `nestedsvm.c` reads or writes,
together with the VMSAVE/VMLOAD state the comments of the file refer to. -/
structure vmcb_struct where
  _cr_intercepts : Nat := 0
  _dr_intercepts : Nat := 0
  _exception_intercepts : Nat := 0
  _general1_intercepts : Nat := 0
  _general2_intercepts : Nat := 0
  _pause_filter_count : Nat := 0
  _iopm_base_pa : Nat := 0
  _msrpm_base_pa : Nat := 0
  _tsc_offset : Nat := 0
  _asid : Nat := 0
  tlb_control : Nat := 0
  _vintr : vintr_t := {}
  int_stat : Nat := 0
  exitcode : Nat := 0
  exitinfo1 : Nat := 0
  exitinfo2 : Nat := 0
  exit_int_info : intinfo_t := {}
  _np : Bool := false
  event_inj : intinfo_t := {}
  _h_cr3 : Nat := 0
  cleanbits : vmcbcleanbits_t := {}
  nextrip : Nat := 0
  guest_ins_len : Nat := 0
  guest_ins : List Nat := []
  virt_ext : Nat := 0
  es : segment_register := {}
  cs : segment_register := {}
  ss : segment_register := {}
  ds : segment_register := {}
  fs : segment_register := {}
  gs : segment_register := {}
  gdtr : segment_register := {}
  ldtr : segment_register := {}
  idtr : segment_register := {}
  tr : segment_register := {}
  _cpl : Nat := 0
  _efer : Nat := 0
  _cr4 : Nat := 0
  _cr3 : Nat := 0
  _cr0 : Nat := 0
  _dr7 : Nat := 0
  _dr6 : Nat := 0
  rflags : Nat := 0
  rip : Nat := 0
  rsp : Nat := 0
  rax : Nat := 0
  star : Nat := 0
  lstar : Nat := 0
  cstar : Nat := 0
  sfmask : Nat := 0
  kerngsbase : Nat := 0
  sysenter_cs : Nat := 0
  sysenter_esp : Nat := 0
  sysenter_eip : Nat := 0
  _cr2 : Nat := 0
  _g_pat : Nat := 0
  _debugctlmsr : Nat := 0
  _lastbranchfromip : Nat := 0
  _lastbranchtoip : Nat := 0
  _lastintfromip : Nat := 0
  _lastinttoip : Nat := 0
  deriving DecidableEq, Inhabited

/-- The guest registers `struct cpu_user_regs` that the file accesses. -/
structure cpu_user_regs where
  rax : Nat := 0
  rcx : Nat := 0
  rsp : Nat := 0
  rip : Nat := 0
  rflags : Nat := 0
  deriving DecidableEq, Inhabited

/-- Which host-owned block `v->arch.hvm.svm.vmcb` points to. -/
inductive vmcb_ptr where
  | n1vmcx
  | n2vmcx
  deriving DecidableEq, Inhabited

/-- The host flags `ns_hostflags`, by bit-field; `bytes = 0` is `{}`. -/
structure ns_hostflags_t where
  rflagsif : Bool := false
  vintrmask : Bool := false
  deriving DecidableEq, Inhabited

/-- The deferred exit `ns_vmexit`. -/
structure ns_vmexit_t where
  exitcode : Nat := 0
  exitinfo1 : Nat := 0
  exitinfo2 : Nat := 0
  deriving DecidableEq, Inhabited

/-- The state of one vcpu as far as `nestedsvm.c` sees it: the pieces of
`v->arch.hvm`, of `struct nestedvcpu` (`nv_*`) and of `struct nestedsvm`
(`ns_*`), and the contents of the three control blocks. The MSR permission
maps are word-indexed arrays of `unsigned long`. -/
structure Vcpu where
  guest_efer : Nat := 0
  guest_cr0 : Nat := 0
  guest_cr2 : Nat := 0
  guest_cr3 : Nat := 0
  guest_cr4 : Nat := 0
  guest_table : Nat := 0
  vmcb : vmcb_ptr := vmcb_ptr.n1vmcx
  vmcb_pa : Nat := 0
  msrpm : Nat → Nat := fun _ => 0
  event_delivery_mask : Bool := false
  n1vmcb : vmcb_struct := {}
  n2vmcb : vmcb_struct := {}
  vvmcb : vmcb_struct := {}
  nv_vvmcx_mapped : Bool := true
  nv_vvmcxaddr : Nat := 0
  nv_n1vmcx_pa : Nat := 0
  nv_n2vmcx_pa : Nat := 0
  nv_flushp2m : Bool := false
  nv_guestmode : Bool := false
  nv_vmswitch_in_progress : Bool := false
  nv_vmexit_pending : Bool := false
  nv_vmentry_pending : Bool := false
  nv_ioport80 : Bool := false
  nv_ioportED : Bool := false
  nv_p2m : Option Nat := none
  io_req_state : Nat := 0
  ns_gif : Bool := false
  ns_msr_hsavepa : Nat := 0
  ns_ovvmcb_pa : Nat := 0
  ns_cr_intercepts : Nat := 0
  ns_dr_intercepts : Nat := 0
  ns_exception_intercepts : Nat := 0
  ns_general1_intercepts : Nat := 0
  ns_general2_intercepts : Nat := 0
  ns_hap_enabled : Bool := false
  ns_vmcb_guestcr3 : Nat := 0
  ns_vmcb_hostcr3 : Nat := 0
  ns_asid : Nat := 0
  ns_hostflags : ns_hostflags_t := {}
  ns_vmexit : ns_vmexit_t := {}
  ns_iomap : Option (Bool × Bool) := none
  ns_iomap_pa : Nat := 0
  ns_oiomap_pa : Nat := 0
  ns_cached_msrpm : Nat → Nat := fun _ => 0
  ns_merged_msrpm : Nat → Nat := fun _ => 0
  ns_cr0 : Nat := 0
  deriving Inhabited

/-- Reasons for which an interrupt is not deliverable, `enum hvm_intblk` of
asm/hvm/hvm.h with the SVM reason `hvm_intblk_svm_gif`. -/
inductive hvm_intblk where
  | hvm_intblk_none
  | hvm_intblk_shadow
  | hvm_intblk_rflags_ie
  | hvm_intblk_tpr
  | hvm_intblk_nmi_iret
  | hvm_intblk_svm_gif
  deriving DecidableEq, Inhabited

/-- Result codes `enum nestedhvm_vmexits` (asm/hvm/nestedhvm.h). -/
inductive nestedhvm_vmexits where
  | NESTEDHVM_VMEXIT_DONE
  | NESTEDHVM_VMEXIT_CONTINUE
  | NESTEDHVM_VMEXIT_HOST
  | NESTEDHVM_VMEXIT_ERROR
  | NESTEDHVM_VMEXIT_FATALERROR
  | NESTEDHVM_VMEXIT_INJECT
  deriving DecidableEq, Inhabited

/-- What a function taking `(struct vcpu *v, struct cpu_user_regs *regs)` and
returning `int` leaves behind. -/
structure Out where
  v : Vcpu
  regs : cpu_user_regs
  rc : Int

/-! ## Collaborators -/

/-- The functions that `nestedsvm.c` calls and that live elsewhere in the
hypervisor. A setter returns the new vcpu state and its `X86EMUL_*` code. -/
structure Collab where
  /-- The macro `paging_mode_hap(v->domain)`; the mode is fixed at domain creation. -/
  paging_mode_hap : Bool
  /-- The macro `nestedhvm_paging_mode_hap(v)`. -/
  nestedhvm_paging_mode_hap : Vcpu → Bool
  /-- The call `hvm_set_efer(value)`. -/
  hvm_set_efer : Vcpu → Nat → Vcpu × Nat
  /-- The call `hvm_set_cr0(value, may_defer)`. -/
  hvm_set_cr0 : Vcpu → Nat → Bool → Vcpu × Nat
  /-- The call `hvm_set_cr3(value, noflush, may_defer)`. -/
  hvm_set_cr3 : Vcpu → Nat → Bool → Bool → Vcpu × Nat
  /-- The call `hvm_set_cr4(value, may_defer)`. -/
  hvm_set_cr4 : Vcpu → Nat → Bool → Vcpu × Nat
  /-- The call `hvm_update_guest_cr(v, cr)`. -/
  hvm_update_guest_cr : Vcpu → Nat → Vcpu
  /-- The call `hvm_inject_hw_exception(vector, errcode)`. -/
  hvm_inject_hw_exception : Vcpu → Nat → Int → Vcpu
  /-- The call `put_page(pagetable_get_page(v->arch.guest_table))`. -/
  put_page : Vcpu → Nat → Vcpu
  /-- The call `hvm_copy_from_guest_phys(buf, addr, size)`: from the old contents of
  `buf`, the return code and the new contents of `buf`. -/
  hvm_copy_from_guest_phys : Vcpu → (Nat → Nat) → Nat → Nat → Nat × (Nat → Nat)
  /-- The call `hvm_map_guest_frame_ro(gfn, permanent)`: the bits of the mapped page,
  or `none` for a NULL mapping. -/
  hvm_map_guest_frame_ro : Vcpu → Nat → Bool → Option (Nat → Bool)
  /-- The address `virt_to_maddr` of the shadow I/O bitmap chosen by
  `nestedhvm_vcpu_iomap_get`. -/
  virt_to_maddr_iomap : Option (Bool × Bool) → Nat
  /-- The address `virt_to_maddr(svm->ns_merged_msrpm)`. -/
  virt_to_maddr_merged_msrpm : Nat
  /-- The root `pagetable_get_paddr(p2m_get_pagetable(p2m_get_nestedp2m(v)))`. -/
  p2m_get_nestedp2m : Vcpu → Vcpu × Nat
  /-- The call `hvm_asid_flush_vcpu_asid(&vcpu_nestedhvm(v).nv_n2asid)`. -/
  hvm_asid_flush_vcpu_asid : Vcpu → Vcpu
  /-- The call `svm_vmcb_isvalid(from, vmcb, v, verbose)`: true when the block is
  malformed. It takes its arguments `const`. -/
  svm_vmcb_isvalid : vmcb_struct → Vcpu → Bool
  /-- The call `svm_vmsave_pa(pa)`. -/
  svm_vmsave_pa : Vcpu → Nat → Vcpu
  /-- The call `hvm_event_needs_reinjection(type, vector)`. -/
  hvm_event_needs_reinjection : Nat → Nat → Bool
  /-- The macro `nestedhvm_enabled(v->domain)`; fixed at domain creation. -/
  nestedhvm_enabled : Bool
  /-- The call `svm_get_insn_len(v, INSTR_VMRUN)`: the state it leaves and the length. -/
  svm_get_insn_len : Vcpu → Vcpu × Nat
  /-- The call `paging_update_paging_modes(v)`. -/
  paging_update_paging_modes : Vcpu → Vcpu
  /-- The call `hvm_map_guest_frame_rw(gfn, 1, &writable)`: the frame read as a
  control block and the flag `writable`, or `none` for a NULL mapping. -/
  hvm_map_guest_frame_rw : Vcpu → Nat → Option (vmcb_struct × Bool)
  /-- The call `svm_msrbit(msr_bitmap, msr)`: the offset in words of the returned
  pointer from `msr_bitmap`, or `none` for NULL. -/
  svm_msrbit : Nat → Option Nat

/-- The accessor `vmcb_set_np` of vmcb.h: it stores the flag and clears the
clean bit of the group the field belongs to. -/
def vmcb_set_np (vmcb : vmcb_struct) (value : Bool) : vmcb_struct :=
  { vmcb with _np := value, cleanbits := { vmcb.cleanbits with np := false } }

/-- The accessor `vmcb_get_np` of vmcb.h. -/
def vmcb_get_np (vmcb : vmcb_struct) : Bool := vmcb._np

/-- The accessor `vmcb_get_asid` of vmcb.h. -/
def vmcb_get_asid (vmcb : vmcb_struct) : Nat := vmcb._asid

/-- The block `v->arch.hvm.svm.vmcb` points to. -/
def Vcpu.active (v : Vcpu) : vmcb_struct :=
  match v.vmcb with
  | vmcb_ptr.n1vmcx => v.n1vmcb
  | vmcb_ptr.n2vmcx => v.n2vmcb

/-- A store through a pointer `p` that was read from `v->arch.hvm.svm.vmcb`. -/
def Vcpu.store (v : Vcpu) (p : vmcb_ptr) (f : vmcb_struct → vmcb_struct) : Vcpu :=
  match p with
  | vmcb_ptr.n1vmcx => { v with n1vmcb := f v.n1vmcb }
  | vmcb_ptr.n2vmcx => { v with n2vmcb := f v.n2vmcb }

/-- Modelled from the spec: `local_event_delivery_enable()` of asm/event.h is
not among the sources; setting the GIF "mirrors into the real event-delivery
mask", which it unmasks. -/
def local_event_delivery_enable (v : Vcpu) : Vcpu :=
  { v with event_delivery_mask := false }

/-- Modelled from the spec: `local_event_delivery_disable()` of asm/event.h is
not among the sources; clearing the GIF masks event delivery. -/
def local_event_delivery_disable (v : Vcpu) : Vcpu :=
  { v with event_delivery_mask := true }

/-- The macro `nestedhvm_vcpu_enter_guestmode` of asm/hvm/nestedhvm.h. -/
def nestedhvm_vcpu_enter_guestmode (v : Vcpu) : Vcpu := { v with nv_guestmode := true }

/-- The macro `nestedhvm_vcpu_exit_guestmode` of asm/hvm/nestedhvm.h. -/
def nestedhvm_vcpu_exit_guestmode (v : Vcpu) : Vcpu := { v with nv_guestmode := false }

/-- The macro `nestedhvm_vcpu_in_guestmode` of asm/hvm/nestedhvm.h. -/
def nestedhvm_vcpu_in_guestmode (v : Vcpu) : Bool := v.nv_guestmode

/-! ## nestedsvm.c -/

/-- Lines 23-29. -/
def nestedsvm_vcpu_clgi (v : Vcpu) : Vcpu :=
  local_event_delivery_disable { v with ns_gif := false }

/-- Lines 31-37. -/
def nestedsvm_vcpu_stgi (v : Vcpu) : Vcpu :=
  local_event_delivery_enable { v with ns_gif := true }

/-- Lines 39-69. The pointer `nv_vvmcx` is NULL when `nv_vvmcx_mapped` is
false; the frame mapped at line 54 is the new contents of the virtual block.
The calls `hvm_unmap_guest_frame` drop a reference and leave the vcpu state. -/
def nestedsvm_vmcb_map (c : Collab) (v : Vcpu) (vmcbaddr : Nat) : Vcpu × Int :=
  let v :=
    if v.nv_vvmcx_mapped = true ∧ v.nv_vvmcxaddr ≠ vmcbaddr then
      let v := { v with nv_vvmcx_mapped := false }
      { v with nv_vvmcxaddr := INVALID_PADDR }
    else v
  if v.nv_vvmcx_mapped = false then
    match c.hvm_map_guest_frame_rw v (vmcbaddr >>> PAGE_SHIFT) with
    | none => (v, 0)
    | some (vvmcx, writable) =>
      if writable = false then (v, 0)
      else
        let v := { v with vvmcb := vvmcx, nv_vvmcx_mapped := true }
        ({ v with nv_vvmcxaddr := vmcbaddr }, 1)
  else (v, 1)

/-- Lines 169-196. The blocks `vvmcb` and `n1vmcb` are only read; the result
is the returned CR0 and the new contents of `n2vmcb`. -/
def nestedsvm_fpu_vmentry (n1cr0 : Nat) (vvmcb n1vmcb n2vmcb : vmcb_struct) :
    Nat × vmcb_struct :=
  let vcr0 := vvmcb._cr0
  if n1cr0 &&& X86_CR0_TS = 0 ∧ n1vmcb._cr0 &&& X86_CR0_TS ≠ 0 then
    (vcr0 ||| X86_CR0_TS,
     { n2vmcb with
       _exception_intercepts := n2vmcb._exception_intercepts ||| (1 <<< X86_EXC_NM) })
  else if vcr0 &&& X86_CR0_TS = 0 ∧ n2vmcb._cr0 &&& X86_CR0_TS ≠ 0 then
    (clearBits 64 vcr0 X86_CR0_TS,
     { n2vmcb with
       _exception_intercepts := clearBits 32 n2vmcb._exception_intercepts (1 <<< X86_EXC_NM) })
  else
    (vcr0, n2vmcb)

/-- Lines 198-219. The result is the new contents of `n1vmcb`. -/
def nestedsvm_fpu_vmexit (n1vmcb n2vmcb : vmcb_struct) (n1cr0 guest_cr0 : Nat) :
    vmcb_struct :=
  if guest_cr0 &&& X86_CR0_TS = 0 ∧ n2vmcb._cr0 &&& X86_CR0_TS ≠ 0 then
    { n1vmcb with
      _cr0 := n1vmcb._cr0 ||| X86_CR0_TS,
      _exception_intercepts := n1vmcb._exception_intercepts ||| (1 <<< X86_EXC_NM) }
  else if n1cr0 &&& X86_CR0_TS = 0 ∧ n1vmcb._cr0 &&& X86_CR0_TS ≠ 0 then
    { n1vmcb with
      _cr0 := clearBits 64 n1vmcb._cr0 X86_CR0_TS,
      _exception_intercepts := clearBits 32 n1vmcb._exception_intercepts (1 <<< X86_EXC_NM) }
  else
    n1vmcb

/-- Lines 221-245. -/
def nsvm_vcpu_hostsave (v : Vcpu) (inst_len : Nat) : Vcpu × Int :=
  let v := { v with n1vmcb := { v.n1vmcb with rip := (v.n1vmcb.rip + inst_len) % 2 ^ 64 } }
  let v := { v with n1vmcb := { v.n1vmcb with _efer := v.guest_efer } }
  let v := { v with n1vmcb := { v.n1vmcb with _cr0 := v.guest_cr0 } }
  let v := { v with n1vmcb := { v.n1vmcb with _cr2 := v.guest_cr2 } }
  let v := { v with n1vmcb := { v.n1vmcb with _cr4 := v.guest_cr4 } }
  let v := { v with ns_hostflags :=
    { v.ns_hostflags with rflagsif := decide (v.n1vmcb.rflags &&& X86_EFLAGS_IF ≠ 0) } }
  (v, 0)

/-- The recurring sequel of a setter call: `if ( rc == X86EMUL_EXCEPTION )
hvm_inject_hw_exception(X86_EXC_GP, 0);` (the `gdprintk` has no effect on
the state). -/
def inject_gp_on_exception (c : Collab) (r : Vcpu × Nat) : Vcpu :=
  if r.2 = X86EMUL_EXCEPTION then c.hvm_inject_hw_exception r.1 X86_EXC_GP 0 else r.1

/-- Lines 247-345. -/
def nsvm_vcpu_hostrestore (c : Collab) (v : Vcpu) (regs : cpu_user_regs) : Out :=
  -- switch vmcb to l1 guest's vmcb
  let v := { v with vmcb := vmcb_ptr.n1vmcx }
  let v := { v with vmcb_pa := v.nv_n1vmcx_pa }
  -- EFER
  let v := { v with guest_efer := v.n1vmcb._efer }
  let v := inject_gp_on_exception c (c.hvm_set_efer v v.n1vmcb._efer)
  -- CR4
  let v := { v with guest_cr4 := v.n1vmcb._cr4 }
  let v := inject_gp_on_exception c (c.hvm_set_cr4 v v.n1vmcb._cr4 true)
  -- CR0
  let v := { v with n1vmcb := nestedsvm_fpu_vmexit v.n1vmcb v.n2vmcb v.ns_cr0 v.guest_cr0 }
  let v := { v with guest_cr0 := v.n1vmcb._cr0 ||| X86_CR0_PE }
  let v := { v with n1vmcb := { v.n1vmcb with rflags := clearBits 64 v.n1vmcb.rflags X86_EFLAGS_VM } }
  let v := inject_gp_on_exception c (c.hvm_set_cr0 v (v.n1vmcb._cr0 ||| X86_CR0_PE) true)
  let v := { v with ns_cr0 := v.guest_cr0 }
  -- CR2
  let v := { v with guest_cr2 := v.n1vmcb._cr2 }
  let v := c.hvm_update_guest_cr v 2
  -- CR3
  let v :=
    if c.nestedhvm_paging_mode_hap v = true then v
    else if c.paging_mode_hap = true then v
    else
      let v := if v.guest_table ≠ 0 then c.put_page v v.guest_table else v
      { v with guest_table := 0 }
  let v := inject_gp_on_exception c (c.hvm_set_cr3 v v.n1vmcb._cr3 false true)
  let regs := { regs with rax := v.n1vmcb.rax }
  let regs := { regs with rsp := v.n1vmcb.rsp }
  let regs := { regs with rip := v.n1vmcb.rip }
  let regs := { regs with rflags := v.n1vmcb.rflags }
  let v := { v with n1vmcb := { v.n1vmcb with _dr7 := 0 } }
  let v := { v with n1vmcb := { v.n1vmcb with _cpl := 0 } }
  let v := { v with n1vmcb := { v.n1vmcb with exit_int_info := {} } }
  let v := { v with n1vmcb := { v.n1vmcb with cleanbits := {} } }
  { v := v, regs := regs, rc := 0 }

/-- The loop of lines 390-391 after `n` rounds: round `i` stores
`msrpm[i] | ns_msrpm_ptr[i]` in `ns_merged_msrpm[i]`. -/
def nsvm_vmrun_permissionmap_loop (msrpm ns_msrpm_ptr : Nat → Nat) :
    Nat → (Nat → Nat) → (Nat → Nat)
  | 0, merged => merged
  | i + 1, merged =>
    Function.update (nsvm_vmrun_permissionmap_loop msrpm ns_msrpm_ptr i merged) i
      (msrpm i ||| ns_msrpm_ptr i)

/-- Lines 347-397. The pointer `host_vmcb` is read from `arch_svm->vmcb` on
entry; `ns_msrpm_ptr` aliases `ns_cached_msrpm`. -/
def nsvm_vmrun_permissionmap (c : Collab) (v : Vcpu) (_viopm : Bool) : Vcpu × Int :=
  let host_vmcb := v.vmcb
  let copy := c.hvm_copy_from_guest_phys v v.ns_cached_msrpm v.vvmcb._msrpm_base_pa MSRPM_SIZE
  let v := { v with ns_cached_msrpm := copy.2 }
  if copy.1 ≠ HVMTRANS_okay then (v, 1)
  else
    let v := { v with ns_oiomap_pa := v.ns_iomap_pa }
    let v := { v with ns_iomap_pa := v.vvmcb._iopm_base_pa }
    let ns_viomap := c.hvm_map_guest_frame_ro v (v.ns_iomap_pa >>> PAGE_SHIFT) false
    let ioport_80 := match ns_viomap with
      | some bits => bits 0x80
      | none => true
    let ioport_ed := match ns_viomap with
      | some bits => bits 0xed
      | none => true
    let v := { v with ns_iomap := some (ioport_80, ioport_ed) }
    let v := { v with nv_ioport80 := ioport_80 }
    let v := { v with nv_ioportED := ioport_ed }
    let merged := nsvm_vmrun_permissionmap_loop v.msrpm v.ns_cached_msrpm
      (MSRPM_SIZE / BYTES_PER_LONG) v.ns_merged_msrpm
    let v := { v with ns_merged_msrpm := merged }
    let v := v.store host_vmcb fun b => { b with _iopm_base_pa := c.virt_to_maddr_iomap v.ns_iomap }
    let v := v.store host_vmcb fun b => { b with _msrpm_base_pa := c.virt_to_maddr_merged_msrpm }
    (v, 0)

/-- Lines 399-413, for the blocks `nv_vvmcx` and `nv_n2vmcx` that both callers pass. -/
def nestedsvm_vmcb_set_nestedp2m (c : Collab) (v : Vcpu) : Vcpu :=
  let v := { v with ns_vmcb_hostcr3 := v.vvmcb._h_cr3 }
  let p2m := c.p2m_get_nestedp2m v
  let v := p2m.1
  { v with n2vmcb := { v.n2vmcb with _h_cr3 := p2m.2 } }

/-- Lines 420 and 431-434 of `nsvm_vmcb_prepare4vmrun`: the clean bits of the
virtual block are taken over only when the cached address is valid and is the
address of the virtual block; otherwise `clean` stays `{}`. -/
def nsvm_vmcb_prepare4vmrun_clean (v : Vcpu) : vmcbcleanbits_t :=
  if v.ns_ovvmcb_pa ≠ INVALID_PADDR ∧ v.ns_ovvmcb_pa = v.nv_vvmcxaddr then v.vvmcb.cleanbits
  else {}

/-- Lines 436-472 of `nsvm_vmcb_prepare4vmrun`: the merge step. -/
def nsvm_vmcb_prepare4vmrun_intercepts (v : Vcpu) (clean : vmcbcleanbits_t) : Vcpu :=
  let v :=
    if clean.intercepts = false then
      let v := { v with ns_cr_intercepts := v.vvmcb._cr_intercepts }
      let v := { v with ns_dr_intercepts := v.vvmcb._dr_intercepts }
      let v := { v with ns_exception_intercepts := v.vvmcb._exception_intercepts }
      let v := { v with ns_general1_intercepts := v.vvmcb._general1_intercepts }
      { v with ns_general2_intercepts := v.vvmcb._general2_intercepts }
    else v
  let v := { v with n2vmcb := { v.n2vmcb with
    _cr_intercepts := v.n1vmcb._cr_intercepts ||| v.vvmcb._cr_intercepts } }
  let v := { v with n2vmcb := { v.n2vmcb with
    _dr_intercepts := v.n1vmcb._dr_intercepts ||| v.vvmcb._dr_intercepts } }
  let v := { v with n2vmcb := { v.n2vmcb with
    _exception_intercepts := v.n1vmcb._exception_intercepts ||| v.vvmcb._exception_intercepts } }
  let v := { v with n2vmcb := { v.n2vmcb with
    _general1_intercepts := v.n1vmcb._general1_intercepts ||| v.vvmcb._general1_intercepts } }
  { v with n2vmcb := { v.n2vmcb with
    _general2_intercepts := v.n1vmcb._general2_intercepts ||| v.vvmcb._general2_intercepts } }

/-- Lines 474-482 of `nsvm_vmcb_prepare4vmrun`: pause filter and TSC offset.
The sum of the two 64-bit offsets wraps. -/
def nsvm_vmcb_prepare4vmrun_pause_tsc (v : Vcpu) : Vcpu :=
  let v :=
    if v.vvmcb._general1_intercepts &&& GENERAL1_INTERCEPT_PAUSE ≠ 0 then
      { v with n2vmcb := { v.n2vmcb with
        _pause_filter_count := min v.n1vmcb._pause_filter_count v.vvmcb._pause_filter_count } }
    else
      { v with n2vmcb := { v.n2vmcb with _pause_filter_count := v.n1vmcb._pause_filter_count } }
  { v with n2vmcb := { v.n2vmcb with
    _tsc_offset := (v.n1vmcb._tsc_offset + v.vvmcb._tsc_offset) % 2 ^ 64 } }

/-- Lines 489-514 of `nsvm_vmcb_prepare4vmrun`: the control area. -/
def nsvm_vmcb_prepare4vmrun_control (v : Vcpu) (clean : vmcbcleanbits_t) : Vcpu :=
  let v := { v with n2vmcb := { v.n2vmcb with tlb_control := v.vvmcb.tlb_control } }
  let v :=
    if clean.tpr = false then
      let v := { v with n2vmcb := { v.n2vmcb with _vintr := v.vvmcb._vintr } }
      { v with n2vmcb := { v.n2vmcb with _vintr := { v.n2vmcb._vintr with intr_masking := true } } }
    else v
  let v := { v with n2vmcb := { v.n2vmcb with int_stat := v.vvmcb.int_stat } }
  let v := { v with n2vmcb := { v.n2vmcb with exitcode := v.vvmcb.exitcode } }
  let v := { v with n2vmcb := { v.n2vmcb with exitinfo1 := v.vvmcb.exitinfo1 } }
  let v := { v with n2vmcb := { v.n2vmcb with exitinfo2 := v.vvmcb.exitinfo2 } }
  let v := { v with n2vmcb := { v.n2vmcb with exit_int_info := v.vvmcb.exit_int_info } }
  let v := { v with n2vmcb := { v.n2vmcb with event_inj := v.vvmcb.event_inj } }
  { v with n2vmcb := { v.n2vmcb with virt_ext := v.n1vmcb.virt_ext ||| v.vvmcb.virt_ext } }

/-- Lines 518-536 of `nsvm_vmcb_prepare4vmrun`: segments, CPL and descriptor tables. -/
def nsvm_vmcb_prepare4vmrun_segments (v : Vcpu) (clean : vmcbcleanbits_t) : Vcpu :=
  let v :=
    if clean.seg = false then
      let v := { v with n2vmcb := { v.n2vmcb with es := v.vvmcb.es } }
      let v := { v with n2vmcb := { v.n2vmcb with cs := v.vvmcb.cs } }
      let v := { v with n2vmcb := { v.n2vmcb with ss := v.vvmcb.ss } }
      let v := { v with n2vmcb := { v.n2vmcb with ds := v.vvmcb.ds } }
      { v with n2vmcb := { v.n2vmcb with _cpl := v.vvmcb._cpl } }
    else v
  if clean.dt = false then
    let v := { v with n2vmcb := { v.n2vmcb with gdtr := v.vvmcb.gdtr } }
    { v with n2vmcb := { v.n2vmcb with idtr := v.vvmcb.idtr } }
  else v

/-- Lines 538-566 of `nsvm_vmcb_prepare4vmrun`: EFER, CR4, CR0 with the
lazy-FPU handoff, CR2. -/
def nsvm_vmcb_prepare4vmrun_registers (c : Collab) (v : Vcpu) : Vcpu :=
  -- EFER
  let v := { v with guest_efer := v.vvmcb._efer }
  let v := inject_gp_on_exception c (c.hvm_set_efer v v.vvmcb._efer)
  -- CR4
  let v := { v with guest_cr4 := v.vvmcb._cr4 }
  let v := inject_gp_on_exception c (c.hvm_set_cr4 v v.vvmcb._cr4 true)
  -- CR0
  let v := { v with ns_cr0 := v.guest_cr0 }
  let fpu := nestedsvm_fpu_vmentry v.ns_cr0 v.vvmcb v.n1vmcb v.n2vmcb
  let cr0 := fpu.1
  let v := { v with n2vmcb := fpu.2 }
  let v := { v with guest_cr0 := v.vvmcb._cr0 }
  let v := inject_gp_on_exception c (c.hvm_set_cr0 v cr0 true)
  -- CR2
  let v := { v with guest_cr2 := v.vvmcb._cr2 }
  c.hvm_update_guest_cr v 2

/-- Lines 568-608 of `nsvm_vmcb_prepare4vmrun`: nested paging mode. -/
def nsvm_vmcb_prepare4vmrun_paging (c : Collab) (v : Vcpu) : Vcpu :=
  if c.nestedhvm_paging_mode_hap v = true then
    -- host nested paging + guest nested paging
    let v := { v with n2vmcb := vmcb_set_np v.n2vmcb true }
    let v := nestedsvm_vmcb_set_nestedp2m c v
    inject_gp_on_exception c (c.hvm_set_cr3 v v.vvmcb._cr3 false true)
  else if c.paging_mode_hap = true then
    -- host nested paging + guest shadow paging
    let v := { v with n2vmcb := vmcb_set_np v.n2vmcb true }
    let v := { v with n2vmcb := { v.n2vmcb with _h_cr3 := v.n1vmcb._h_cr3 } }
    inject_gp_on_exception c (c.hvm_set_cr3 v v.vvmcb._cr3 false true)
  else
    -- host shadow paging + guest shadow paging
    let v := { v with n2vmcb := vmcb_set_np v.n2vmcb false }
    { v with n2vmcb := { v.n2vmcb with _h_cr3 := 0x0 } }

/-- Lines 610-651 of `nsvm_vmcb_prepare4vmrun`: debug registers, RFLAGS, RIP,
RSP, RAX, PAT, the LBR state, and the shadow's own clean bits. -/
def nsvm_vmcb_prepare4vmrun_save (v : Vcpu) (clean : vmcbcleanbits_t) : Vcpu :=
  let v :=
    if clean.dr = false then
      let v := { v with n2vmcb := { v.n2vmcb with _dr7 := v.vvmcb._dr7 } }
      { v with n2vmcb := { v.n2vmcb with _dr6 := v.vvmcb._dr6 } }
    else v
  let v := { v with n2vmcb := { v.n2vmcb with rflags := v.vvmcb.rflags } }
  let v := { v with n2vmcb := { v.n2vmcb with rip := v.vvmcb.rip } }
  let v := { v with n2vmcb := { v.n2vmcb with rsp := v.vvmcb.rsp } }
  let v := { v with n2vmcb := { v.n2vmcb with rax := v.vvmcb.rax } }
  let v :=
    if clean.np = false then { v with n2vmcb := { v.n2vmcb with _g_pat := v.vvmcb._g_pat } }
    else v
  let v :=
    if clean.lbr = false then
      let v := { v with n2vmcb := { v.n2vmcb with _debugctlmsr := v.vvmcb._debugctlmsr } }
      let v := { v with n2vmcb := { v.n2vmcb with _lastbranchfromip := v.vvmcb._lastbranchfromip } }
      let v := { v with n2vmcb := { v.n2vmcb with _lastbranchtoip := v.vvmcb._lastbranchtoip } }
      let v := { v with n2vmcb := { v.n2vmcb with _lastintfromip := v.vvmcb._lastintfromip } }
      { v with n2vmcb := { v.n2vmcb with _lastinttoip := v.vvmcb._lastinttoip } }
    else v
  { v with n2vmcb := { v.n2vmcb with cleanbits := {} } }

/-- Lines 653-673 of `nsvm_vmcb_prepare4vmrun`: validation of the virtual
block, then of the shadow block, then the switch of the guest registers. -/
def nsvm_vmcb_prepare4vmrun_validate (c : Collab) (v : Vcpu) (regs : cpu_user_regs) : Out :=
  if c.svm_vmcb_isvalid v.vvmcb v = true then { v := v, regs := regs, rc := NSVM_ERROR_VVMCB }
  else if c.svm_vmcb_isvalid v.n2vmcb v = true then { v := v, regs := regs, rc := NSVM_ERROR_VMENTRY }
  else
    let regs := { regs with rax := v.vvmcb.rax }
    let regs := { regs with rip := v.vvmcb.rip }
    let regs := { regs with rsp := v.vvmcb.rsp }
    let regs := { regs with rflags := v.vvmcb.rflags }
    { v := v, regs := regs, rc := 0 }

/-- Lines 420-487 of `nsvm_vmcb_prepare4vmrun`: from the merge of the
intercepts to the building of the permission maps, with the value of `rc`
tested at line 486. -/
def nsvm_vmcb_prepare4vmrun_head (c : Collab) (v : Vcpu) (clean : vmcbcleanbits_t) :
    Vcpu × Int :=
  let v := nsvm_vmcb_prepare4vmrun_intercepts v clean
  let v := nsvm_vmcb_prepare4vmrun_pause_tsc v
  nsvm_vmrun_permissionmap c v clean.iopm

/-- Lines 489-673 of `nsvm_vmcb_prepare4vmrun`: what follows the permission maps. -/
def nsvm_vmcb_prepare4vmrun_tail (c : Collab) (v : Vcpu) (clean : vmcbcleanbits_t)
    (regs : cpu_user_regs) : Out :=
  let v := nsvm_vmcb_prepare4vmrun_control v clean
  let v := nsvm_vmcb_prepare4vmrun_segments v clean
  let v := nsvm_vmcb_prepare4vmrun_registers c v
  let v := nsvm_vmcb_prepare4vmrun_paging c v
  let v := nsvm_vmcb_prepare4vmrun_save v clean
  nsvm_vmcb_prepare4vmrun_validate c v regs

/-- Lines 415-674, the parts above in their order; the function returns at
line 487 when the permission maps cannot be built. -/
def nsvm_vmcb_prepare4vmrun (c : Collab) (v : Vcpu) (regs : cpu_user_regs) : Out :=
  let clean := nsvm_vmcb_prepare4vmrun_clean v
  let head := nsvm_vmcb_prepare4vmrun_head c v clean
  if head.2 ≠ 0 then { v := head.1, regs := regs, rc := head.2 }
  else nsvm_vmcb_prepare4vmrun_tail c head.1 clean regs

/-- Lines 676-733. -/
def nsvm_vcpu_vmentry (c : Collab) (v : Vcpu) (regs : cpu_user_regs) (inst_len : Nat) : Out :=
  let v := { v with ns_vmcb_guestcr3 := v.vvmcb._cr3 }
  let v := { v with ns_vmcb_hostcr3 := v.vvmcb._h_cr3 }
  let v := { v with nv_flushp2m := decide (v.vvmcb.tlb_control ≠ 0) }
  let v :=
    if v.ns_asid ≠ vmcb_get_asid v.vvmcb then
      let v := { v with nv_flushp2m := true }
      let v := c.hvm_asid_flush_vcpu_asid v
      { v with ns_asid := vmcb_get_asid v.vvmcb }
    else v
  let v := { v with ns_hap_enabled := vmcb_get_np v.vvmcb }
  let v := { v with ns_hostflags :=
    { v.ns_hostflags with vintrmask := v.vvmcb._vintr.intr_masking } }
  let save := nsvm_vcpu_hostsave v inst_len
  if save.2 ≠ 0 then { v := save.1, regs := regs, rc := save.2 }
  else
    let v := save.1
    let v := { v with vmcb := vmcb_ptr.n2vmcx }
    let v := { v with vmcb_pa := v.nv_n2vmcx_pa }
    let run := nsvm_vmcb_prepare4vmrun c v regs
    if run.rc ≠ 0 then run
    else { v := nestedsvm_vcpu_stgi run.v, regs := run.regs, rc := 0 }

/-- Lines 735-785. -/
def nsvm_vcpu_vmrun (c : Collab) (v : Vcpu) (regs : cpu_user_regs) : Out :=
  let len := c.svm_get_insn_len v
  let v := len.1
  let inst_len := len.2
  if inst_len = 0 then
    let v := { v with ns_vmexit := { v.ns_vmexit with exitcode := VMEXIT_SHUTDOWN } }
    { v := v, regs := regs, rc := -1 }
  else
    let v := { v with nv_vmswitch_in_progress := true }
    -- save host state
    let entry := nsvm_vcpu_vmentry c v regs inst_len
    let v := nestedhvm_vcpu_enter_guestmode entry.v
    if entry.rc = 0 then
      let v := if c.nestedhvm_paging_mode_hap v = false then c.paging_update_paging_modes v else v
      let v := { v with nv_vmswitch_in_progress := false }
      { v := v, regs := entry.regs, rc := 0 }
    else if entry.rc = NSVM_ERROR_VVMCB then
      let v := { v with ns_vmexit := { v.ns_vmexit with exitcode := VMEXIT_INVALID } }
      { v := v, regs := entry.regs, rc := -1 }
    else
      let v := c.hvm_inject_hw_exception v X86_EXC_UD X86_EVENT_NO_EC
      let v := { v with nv_vmswitch_in_progress := false }
      { v := v, regs := entry.regs, rc := 1 }

/-- Lines 803-830 of `nsvm_vcpu_vmexit_inject`: the switch on the exit code,
with its fall-throughs; `ei.exc.cr2` is the same storage as `exitinfo2`. -/
def nsvm_vcpu_vmexit_inject_info (c : Collab) (v : Vcpu) (exitcode : Nat) : Vcpu :=
  if exitcode = VMEXIT_INTR then
    if v.vvmcb.event_inj.v = true ∧ v.nv_vmentry_pending = true ∧
        c.hvm_event_needs_reinjection v.vvmcb.event_inj.type v.vvmcb.event_inj.vector = true then
      { v with vvmcb := { v.vvmcb with exit_int_info := v.vvmcb.event_inj } }
    else v
  else
    let v :=
      if exitcode = VMEXIT_EXCEPTION_PF then
        { v with vvmcb := { v.vvmcb with _cr2 := v.vvmcb.exitinfo2 } }
      else v
    let v :=
      if exitcode = VMEXIT_EXCEPTION_PF ∨ exitcode = VMEXIT_NPF then
        { v with vvmcb := { v.vvmcb with exitinfo2 := v.ns_vmexit.exitinfo2 } }
      else v
    if exitcode = VMEXIT_EXCEPTION_PF ∨ exitcode = VMEXIT_NPF ∨
        exitcode = VMEXIT_EXCEPTION_NP ∨ exitcode = VMEXIT_EXCEPTION_SS ∨
        exitcode = VMEXIT_EXCEPTION_GP ∨ exitcode = VMEXIT_EXCEPTION_15 ∨
        exitcode = VMEXIT_EXCEPTION_MF ∨ exitcode = VMEXIT_EXCEPTION_AC then
      { v with vvmcb := { v.vvmcb with exitinfo1 := v.ns_vmexit.exitinfo1 } }
    else v

/-- Lines 787-835. -/
def nsvm_vcpu_vmexit_inject (c : Collab) (v : Vcpu) (regs : cpu_user_regs) (exitcode : Nat) :
    Out :=
  let v := if v.nv_vmexit_pending = true then nsvm_vcpu_vmexit_inject_info c v exitcode else v
  let v := { v with vvmcb := { v.vvmcb with exitcode := exitcode } }
  let v := { v with vvmcb := { v.vvmcb with event_inj := {} } }
  { v := v, regs := regs, rc := 0 }

/-- Lines 852-878. The pointer `msr_bit` is `msr_bitmap` plus an offset in words. -/
def nsvm_vmcb_guest_intercepts_msr (c : Collab) (msr_bitmap : Nat → Nat) (msr : Nat)
    (write : Bool) : nestedhvm_vmexits :=
  match c.svm_msrbit msr with
  | none =>
    -- MSR not in the permission map: Let the guest handle it.
    nestedhvm_vmexits.NESTEDHVM_VMEXIT_INJECT
  | some msr_bit =>
    let msr := msr &&& 0x1fff
    let enabled :=
      if write = true then test_bit (msr * 2 + 1) fun i => msr_bitmap (msr_bit + i)
      else test_bit (msr * 2) fun i => msr_bitmap (msr_bit + i)
    if enabled = false then nestedhvm_vmexits.NESTEDHVM_VMEXIT_HOST
    else nestedhvm_vmexits.NESTEDHVM_VMEXIT_INJECT

/-- The loop of lines 907-918 of `nsvm_vmcb_guest_intercepts_ioio`, by the
value of `size` on entry of a round; the result is `enabled` at the `break`.
The value 0 does not occur: line 892 gives `size` the value 1, 2 or 4 and the
loop leaves when the decrement reaches 0. -/
def nsvm_vmcb_guest_intercepts_ioio_loop (c : Collab) (v : Vcpu) :
    Option (Nat → Bool) → Nat → Nat → Nat → Bool
  | _, _, _, 0 => false
  | io_bitmap, gfn, port, size + 1 =>
    let enabled :=
      match io_bitmap with
      | none => false
      | some bits => bits port
    if enabled = false ∨ size = 0 then enabled
    else
      let port := (port + 1) % 2 ^ 16
      if port = 8 * PAGE_SIZE then
        let gfn := gfn + 1
        nsvm_vmcb_guest_intercepts_ioio_loop c v (c.hvm_map_guest_frame_ro v gfn false) gfn
          (port - 8 * PAGE_SIZE) size
      else nsvm_vmcb_guest_intercepts_ioio_loop c v io_bitmap gfn port size

/-- Lines 880-925. The `default` of the switch at line 894 is dead code: `port`
is a `uint16_t`, below `2 * 8 * PAGE_SIZE`. -/
def nsvm_vmcb_guest_intercepts_ioio (c : Collab) (v : Vcpu) (iopm_pa exitinfo1 : Nat) :
    nestedhvm_vmexits :=
  let gfn := iopm_pa >>> PAGE_SHIFT
  let port := ioio_info_port exitinfo1
  let size := if ioio_info_sz32 exitinfo1 = true then 4
    else if ioio_info_sz16 exitinfo1 = true then 2 else 1
  let at_page := if port < 8 * PAGE_SIZE then (port, gfn) else (port - 8 * PAGE_SIZE, gfn + 1)
  let enabled := nsvm_vmcb_guest_intercepts_ioio_loop c v
    (c.hvm_map_guest_frame_ro v at_page.2 false) at_page.2 at_page.1 size
  if enabled = false then nestedhvm_vmexits.NESTEDHVM_VMEXIT_HOST
  else nestedhvm_vmexits.NESTEDHVM_VMEXIT_INJECT

/-- Lines 937-983 of `nsvm_vmcb_guest_intercepts_exitcode`, the first switch:
`some true` where the code reaches a `break`, `some false` where it returns 0,
`none` where it reaches `BUG()`. -/
def nsvm_vmcb_guest_intercepts_exitcode_first (c : Collab) (v : Vcpu) (exitcode : Nat) :
    Option Bool :=
  if (VMEXIT_CR0_READ ≤ exitcode ∧ exitcode ≤ VMEXIT_CR15_READ) ∨
      (VMEXIT_CR0_WRITE ≤ exitcode ∧ exitcode ≤ VMEXIT_CR15_WRITE) then
    let exit_bits := (1 <<< (exitcode - VMEXIT_CR0_READ)) % 2 ^ 64
    some (decide (v.ns_cr_intercepts &&& exit_bits ≠ 0))
  else if (VMEXIT_DR0_READ ≤ exitcode ∧ exitcode ≤ VMEXIT_DR7_READ) ∨
      (VMEXIT_DR0_WRITE ≤ exitcode ∧ exitcode ≤ VMEXIT_DR7_WRITE) then
    let exit_bits := (1 <<< (exitcode - VMEXIT_DR0_READ)) % 2 ^ 64
    some (decide (v.ns_dr_intercepts &&& exit_bits ≠ 0))
  else if VMEXIT_EXCEPTION_DE ≤ exitcode ∧ exitcode ≤ VMEXIT_EXCEPTION_XF then
    let exit_bits := (1 <<< (exitcode - VMEXIT_EXCEPTION_DE)) % 2 ^ 64
    some (decide (v.ns_exception_intercepts &&& exit_bits ≠ 0))
  else if VMEXIT_INTR ≤ exitcode ∧ exitcode ≤ VMEXIT_SHUTDOWN then
    let exit_bits := (1 <<< (exitcode - VMEXIT_INTR)) % 2 ^ 64
    some (decide (v.ns_general1_intercepts &&& exit_bits ≠ 0))
  else if VMEXIT_VMRUN ≤ exitcode ∧ exitcode ≤ VMEXIT_XSETBV then
    let exit_bits := (1 <<< (exitcode - VMEXIT_VMRUN)) % 2 ^ 64
    some (decide (v.ns_general2_intercepts &&& exit_bits ≠ 0))
  else if exitcode = VMEXIT_NPF then
    some (c.nestedhvm_paging_mode_hap v)
  else if exitcode = VMEXIT_INVALID then
    -- Always intercepted
    some true
  else none

/-- Lines 985-1009 of `nsvm_vmcb_guest_intercepts_exitcode`, the second
switch and the final `return 1`. -/
def nsvm_vmcb_guest_intercepts_exitcode_second (c : Collab) (v : Vcpu) (regs : cpu_user_regs)
    (exitcode : Nat) : Vcpu × Bool :=
  if exitcode = VMEXIT_MSR then
    let map := nestedsvm_vmcb_map c v v.nv_vvmcxaddr
    let v := map.1
    if map.2 = 0 then (v, true)
    else
      let vmexits := nsvm_vmcb_guest_intercepts_msr c v.ns_cached_msrpm (regs.rcx % 2 ^ 32)
        (decide (v.vvmcb.exitinfo1 ≠ 0))
      if vmexits = nestedhvm_vmexits.NESTEDHVM_VMEXIT_HOST then (v, false) else (v, true)
  else if exitcode = VMEXIT_IOIO then
    let map := nestedsvm_vmcb_map c v v.nv_vvmcxaddr
    let v := map.1
    if map.2 = 0 then (v, true)
    else
      let vmexits := nsvm_vmcb_guest_intercepts_ioio c v v.vvmcb._iopm_base_pa v.vvmcb.exitinfo1
      if vmexits = nestedhvm_vmexits.NESTEDHVM_VMEXIT_HOST then (v, false) else (v, true)
  else (v, true)

/-- Lines 927-1010: the new vcpu state and the returned flag, `none` for `BUG()`. -/
def nsvm_vmcb_guest_intercepts_exitcode (c : Collab) (v : Vcpu) (regs : cpu_user_regs)
    (exitcode : Nat) : Option (Vcpu × Bool) :=
  match nsvm_vmcb_guest_intercepts_exitcode_first c v exitcode with
  | none => none
  | some false => some (v, false)
  | some true => some (nsvm_vmcb_guest_intercepts_exitcode_second c v regs exitcode)

/-- Lines 1027-1079 of `nsvm_vmcb_prepare4vmexit`: the control area. -/
def nsvm_vmcb_prepare4vmexit_control (c : Collab) (v : Vcpu) : Vcpu :=
  let v := c.svm_vmsave_pa v v.nv_n1vmcx_pa
  let v := { v with ns_ovvmcb_pa := v.nv_vvmcxaddr }
  let v := { v with vvmcb := { v.vvmcb with tlb_control := 0 } }
  -- Virtual Interrupts
  let v := { v with vvmcb := { v.vvmcb with _vintr := v.n2vmcb._vintr } }
  let v :=
    if v.ns_hostflags.vintrmask = false then
      { v with vvmcb := { v.vvmcb with _vintr := { v.vvmcb._vintr with intr_masking := false } } }
    else v
  let v := { v with vvmcb := { v.vvmcb with int_stat := v.n2vmcb.int_stat } }
  -- Exit codes
  let v := { v with vvmcb := { v.vvmcb with
    exitcode := v.n2vmcb.exitcode,
    exitinfo1 := v.n2vmcb.exitinfo1,
    exitinfo2 := v.n2vmcb.exitinfo2,
    exit_int_info := v.n2vmcb.exit_int_info } }
  -- Interrupts
  let v :=
    if v.n2vmcb.event_inj.v = true ∧
        c.hvm_event_needs_reinjection v.n2vmcb.event_inj.type v.n2vmcb.event_inj.vector
          = true then
      { v with vvmcb := { v.vvmcb with exit_int_info := v.n2vmcb.event_inj } }
    else v
  { v with vvmcb := { v.vvmcb with event_inj := {} } }

/-- Lines 1081-1110 of `nsvm_vmcb_prepare4vmexit`: nested paging mode. -/
def nsvm_vmcb_prepare4vmexit_paging (c : Collab) (v : Vcpu) : Vcpu :=
  if c.nestedhvm_paging_mode_hap v = true then
    let v := { v with vvmcb := vmcb_set_np v.vvmcb (vmcb_get_np v.n2vmcb) }
    { v with vvmcb := { v.vvmcb with _cr3 := v.n2vmcb._cr3 } }
  else if c.paging_mode_hap = true then
    let v := { v with vvmcb := vmcb_set_np v.vvmcb false }
    let v := { v with vvmcb := { v.vvmcb with _h_cr3 := 0x0 } }
    { v with vvmcb := { v.vvmcb with _cr3 := v.n2vmcb._cr3 } }
  else
    let v := { v with vvmcb := vmcb_set_np v.vvmcb false }
    { v with vvmcb := { v.vvmcb with _h_cr3 := 0x0 } }

/-- Lines 1112-1150 of `nsvm_vmcb_prepare4vmexit`: NextRIP, decode assist,
segments, descriptor tables, CPL, EFER, CR4, CR0, DR7, DR6, each copied from
the shadow block. -/
def nsvm_vmcb_prepare4vmexit_segments (v : Vcpu) : Vcpu :=
  let v := { v with vvmcb := { v.vvmcb with
    nextrip := v.n2vmcb.nextrip,
    guest_ins_len := v.n2vmcb.guest_ins_len,
    guest_ins := v.n2vmcb.guest_ins } }
  let v := { v with vvmcb := { v.vvmcb with
    es := v.n2vmcb.es,
    cs := v.n2vmcb.cs,
    ss := v.n2vmcb.ss,
    ds := v.n2vmcb.ds,
    gdtr := v.n2vmcb.gdtr,
    idtr := v.n2vmcb.idtr } }
  { v with vvmcb := { v.vvmcb with
    _cpl := v.n2vmcb._cpl,
    _efer := v.n2vmcb._efer,
    _cr4 := v.n2vmcb._cr4,
    _cr0 := v.n2vmcb._cr0,
    _dr7 := v.n2vmcb._dr7,
    _dr6 := v.n2vmcb._dr6 } }

/-- Lines 1152-1162 of `nsvm_vmcb_prepare4vmexit`: RFLAGS, RIP, RSP and RAX
are stored from `regs` into the shadow block and from there into the virtual
block. -/
def nsvm_vmcb_prepare4vmexit_regs (v : Vcpu) (regs : cpu_user_regs) : Vcpu :=
  let v := { v with n2vmcb := { v.n2vmcb with rflags := regs.rflags } }
  let v := { v with vvmcb := { v.vvmcb with rflags := v.n2vmcb.rflags } }
  let v := { v with n2vmcb := { v.n2vmcb with rip := regs.rip } }
  let v := { v with vvmcb := { v.vvmcb with rip := v.n2vmcb.rip } }
  let v := { v with n2vmcb := { v.n2vmcb with rsp := regs.rsp } }
  let v := { v with vvmcb := { v.vvmcb with rsp := v.n2vmcb.rsp } }
  let v := { v with n2vmcb := { v.n2vmcb with rax := regs.rax } }
  { v with vvmcb := { v.vvmcb with rax := v.n2vmcb.rax } }

/-- Lines 1169-1182 of `nsvm_vmcb_prepare4vmexit`: CR2, PAT, the debug
control MSR and the LBR MSRs, each copied from the shadow block. -/
def nsvm_vmcb_prepare4vmexit_msrs (v : Vcpu) : Vcpu :=
  { v with vvmcb := { v.vvmcb with
    _cr2 := v.n2vmcb._cr2,
    _g_pat := v.n2vmcb._g_pat,
    _debugctlmsr := v.n2vmcb._debugctlmsr,
    _lastbranchfromip := v.n2vmcb._lastbranchfromip,
    _lastbranchtoip := v.n2vmcb._lastbranchtoip,
    _lastintfromip := v.n2vmcb._lastintfromip,
    _lastinttoip := v.n2vmcb._lastinttoip } }

/-- Lines 1019-1185, the parts above in their order. -/
def nsvm_vmcb_prepare4vmexit (c : Collab) (v : Vcpu) (regs : cpu_user_regs) : Out :=
  let v := nsvm_vmcb_prepare4vmexit_control c v
  let v := nsvm_vmcb_prepare4vmexit_paging c v
  let v := nsvm_vmcb_prepare4vmexit_segments v
  let v := nsvm_vmcb_prepare4vmexit_regs v regs
  let v := nsvm_vmcb_prepare4vmexit_msrs v
  { v := v, regs := regs, rc := 0 }

/-- Lines 1299-1359 of `nestedsvm_check_intercepts`: the verdict from the exit
code and `is_intercepted`, `none` for the `BUG()` of line 1332. -/
def nestedsvm_check_intercepts_verdict (c : Collab) (v : Vcpu) (exitcode : Nat)
    (is_intercepted : Bool) : Option nestedhvm_vmexits :=
  if exitcode = VMEXIT_INVALID then
    if is_intercepted = true then some nestedhvm_vmexits.NESTEDHVM_VMEXIT_INJECT
    else some nestedhvm_vmexits.NESTEDHVM_VMEXIT_HOST
  else if exitcode = VMEXIT_INTR ∨ exitcode = VMEXIT_NMI then
    some nestedhvm_vmexits.NESTEDHVM_VMEXIT_HOST
  else if exitcode = VMEXIT_EXCEPTION_NM then
    -- Host must handle lazy fpu context switching first.
    some nestedhvm_vmexits.NESTEDHVM_VMEXIT_HOST
  else if exitcode = VMEXIT_NPF then
    if c.nestedhvm_paging_mode_hap v = true then
      if is_intercepted = false then some nestedhvm_vmexits.NESTEDHVM_VMEXIT_FATALERROR
      -- host nested paging + guest nested paging
      else some nestedhvm_vmexits.NESTEDHVM_VMEXIT_HOST
    else if c.paging_mode_hap = true then
      if is_intercepted = true then some nestedhvm_vmexits.NESTEDHVM_VMEXIT_FATALERROR
      -- host nested paging + guest shadow paging
      else some nestedhvm_vmexits.NESTEDHVM_VMEXIT_HOST
    else
      -- host shadow paging + guest shadow paging
      none
  else if exitcode = VMEXIT_EXCEPTION_PF then
    if c.nestedhvm_paging_mode_hap v = true then
      -- host nested paging + guest nested paging
      if is_intercepted = false then some nestedhvm_vmexits.NESTEDHVM_VMEXIT_HOST
      else some nestedhvm_vmexits.NESTEDHVM_VMEXIT_INJECT
    else if c.paging_mode_hap = false then
      -- host shadow paging + guest shadow paging
      some nestedhvm_vmexits.NESTEDHVM_VMEXIT_HOST
    else
      -- host nested paging + guest shadow paging
      some nestedhvm_vmexits.NESTEDHVM_VMEXIT_INJECT
  else if exitcode = VMEXIT_VMMCALL then
    -- Always let the guest handle VMMCALL/VMCALL
    some nestedhvm_vmexits.NESTEDHVM_VMEXIT_INJECT
  else if is_intercepted = true then some nestedhvm_vmexits.NESTEDHVM_VMEXIT_INJECT
  else some nestedhvm_vmexits.NESTEDHVM_VMEXIT_HOST

/-- Lines 1286-1360: the new vcpu state and the verdict, `none` for `BUG()`. -/
def nestedsvm_check_intercepts (c : Collab) (v : Vcpu) (regs : cpu_user_regs)
    (exitcode : Nat) : Option (Vcpu × nestedhvm_vmexits) :=
  match nsvm_vmcb_guest_intercepts_exitcode c v regs exitcode with
  | none => none
  | some (v, is_intercepted) =>
    match nestedsvm_check_intercepts_verdict c v exitcode is_intercepted with
    | none => none
    | some verdict => some (v, verdict)

/-- Lines 1362-1381. -/
def nestedsvm_vmexit_n2n1 (c : Collab) (v : Vcpu) (regs : cpu_user_regs) :
    Vcpu × cpu_user_regs × nestedhvm_vmexits :=
  let ret := nestedhvm_vmexits.NESTEDHVM_VMEXIT_DONE
  let exit := nsvm_vmcb_prepare4vmexit c v regs
  let ret := if exit.rc ≠ 0 then nestedhvm_vmexits.NESTEDHVM_VMEXIT_ERROR else ret
  let restore := nsvm_vcpu_hostrestore c exit.v exit.regs
  let ret := if restore.rc ≠ 0 then nestedhvm_vmexits.NESTEDHVM_VMEXIT_FATALERROR else ret
  let v := nestedhvm_vcpu_exit_guestmode restore.v
  (v, restore.regs, ret)

/-- Lines 1424-1440 of `nestedsvm_vcpu_vmexit`: what follows the return to
the host state. -/
def nestedsvm_vcpu_vmexit_tail (c : Collab) (v : Vcpu) (regs : cpu_user_regs)
    (exitcode : Nat) : Vcpu × cpu_user_regs × nestedhvm_vmexits :=
  let inject := nsvm_vcpu_vmexit_inject c v regs exitcode
  let v := inject.v
  -- If l1 guest uses shadow paging, update the paging mode.
  let v := if c.nestedhvm_paging_mode_hap v = false then c.paging_update_paging_modes v else v
  let v := { v with nv_vmswitch_in_progress := false }
  if inject.rc ≠ 0 then (v, inject.regs, nestedhvm_vmexits.NESTEDHVM_VMEXIT_FATALERROR)
  else (v, inject.regs, nestedhvm_vmexits.NESTEDHVM_VMEXIT_DONE)

/-- Lines 1386-1441, `none` for the `BUG()` of line 1411. -/
def nestedsvm_vcpu_vmexit (c : Collab) (v : Vcpu) (regs : cpu_user_regs) (exitcode : Nat) :
    Option (Vcpu × cpu_user_regs × nestedhvm_vmexits) :=
  let v := { v with nv_vmswitch_in_progress := true }
  if nestedhvm_vcpu_in_guestmode v = true then
    let n2n1 := nestedsvm_vmexit_n2n1 c v regs
    match n2n1.2.2 with
    | nestedhvm_vmexits.NESTEDHVM_VMEXIT_FATALERROR => some n2n1
    | nestedhvm_vmexits.NESTEDHVM_VMEXIT_HOST => none
    | nestedhvm_vmexits.NESTEDHVM_VMEXIT_ERROR =>
      some (nestedsvm_vcpu_vmexit_tail c n2n1.1 n2n1.2.1 VMEXIT_INVALID)
    | _ => some (nestedsvm_vcpu_vmexit_tail c n2n1.1 n2n1.2.1 exitcode)
  else some (nestedsvm_vcpu_vmexit_tail c v regs exitcode)

/-- Lines 1464-1468 of `nsvm_vcpu_switch`, from the label `vmexit`. -/
def nsvm_vcpu_switch_vmexit (c : Collab) (v : Vcpu) (regs : cpu_user_regs) :
    Option (Vcpu × cpu_user_regs) :=
  match nestedsvm_vcpu_vmexit c v regs v.ns_vmexit.exitcode with
  | none => none
  | some exit =>
    let v := { exit.1 with nv_vmexit_pending := false }
    let v := { v with nv_vmentry_pending := false }
    some (v, exit.2.1)

/-- Lines 1483-1491 of `nsvm_vcpu_switch`. -/
def nsvm_vcpu_switch_nestedp2m (c : Collab) (v : Vcpu) : Vcpu :=
  if nestedhvm_vcpu_in_guestmode v = true ∧ c.nestedhvm_paging_mode_hap v = true then
    if v.nv_p2m = none then nestedsvm_vmcb_set_nestedp2m c v else v
  else v

/-- Lines 1444-1492 with `v` for `current` and `regs` for
`guest_cpu_user_regs()`; the result is `none` where `BUG()` is reached. -/
def nsvm_vcpu_switch (c : Collab) (v : Vcpu) (regs : cpu_user_regs) :
    Option (Vcpu × cpu_user_regs) :=
  if c.nestedhvm_enabled = false then some (v, regs)
  else if v.nv_vmexit_pending = true then nsvm_vcpu_switch_vmexit c v regs
  else if v.nv_vmentry_pending = true then
    let run := nsvm_vcpu_vmrun c v regs
    if run.rc ≠ 0 then nsvm_vcpu_switch_vmexit c run.v run.regs
    else
      let v := { run.v with nv_vmentry_pending := false }
      some (nsvm_vcpu_switch_nestedp2m c v, run.regs)
  else some (nsvm_vcpu_switch_nestedp2m c v, regs)

/-! ## A plain instance of the collaborators -/

/-- Collaborators that do nothing: every setter succeeds without touching the
state, the copy from guest memory succeeds and leaves the buffer as it is, no
guest frame can be mapped, both blocks pass validation, the guest's paging
mode is the recorded `ns_hap_enabled`, VMRUN decodes to its three bytes, and
the MSR permission map has the three regions of the architecture. -/
def idleCollab : Collab where
  paging_mode_hap := true
  nestedhvm_paging_mode_hap := fun v => v.ns_hap_enabled
  hvm_set_efer := fun v _ => (v, X86EMUL_OKAY)
  hvm_set_cr0 := fun v _ _ => (v, X86EMUL_OKAY)
  hvm_set_cr3 := fun v _ _ _ => (v, X86EMUL_OKAY)
  hvm_set_cr4 := fun v _ _ => (v, X86EMUL_OKAY)
  hvm_update_guest_cr := fun v _ => v
  hvm_inject_hw_exception := fun v _ _ => v
  put_page := fun v _ => v
  hvm_copy_from_guest_phys := fun _ buf _ _ => (HVMTRANS_okay, buf)
  hvm_map_guest_frame_ro := fun _ _ _ => none
  virt_to_maddr_iomap := fun _ => 0
  virt_to_maddr_merged_msrpm := 0
  p2m_get_nestedp2m := fun v => (v, 0)
  hvm_asid_flush_vcpu_asid := fun v => v
  svm_vmcb_isvalid := fun _ _ => false
  svm_vmsave_pa := fun v _ => v
  hvm_event_needs_reinjection := fun _ _ => false
  nestedhvm_enabled := true
  svm_get_insn_len := fun v => (v, 3)
  paging_update_paging_modes := fun v => v
  hvm_map_guest_frame_rw := fun _ _ => none
  svm_msrbit := fun msr =>
    if msr ≤ 0x1fff then some (0x0000 / BYTES_PER_LONG)
    else if 0xc0000000 ≤ msr ∧ msr ≤ 0xc0001fff then some (0x0800 / BYTES_PER_LONG)
    else if 0xc0010000 ≤ msr ∧ msr ≤ 0xc0011fff then some (0x1000 / BYTES_PER_LONG)
    else none

/-- Collaborators that behave like a register file: a setter succeeds and
stores its value in the guest's logical register and in the active block;
everything else is as in `idleCollab`. -/
def storeCollab : Collab :=
  { idleCollab with
    hvm_set_efer := fun v x =>
      (Vcpu.store { v with guest_efer := x } v.vmcb fun b => { b with _efer := x }, X86EMUL_OKAY)
    hvm_set_cr0 := fun v x _ =>
      (Vcpu.store { v with guest_cr0 := x } v.vmcb fun b => { b with _cr0 := x }, X86EMUL_OKAY)
    hvm_set_cr3 := fun v x _ _ =>
      (Vcpu.store { v with guest_cr3 := x } v.vmcb fun b => { b with _cr3 := x }, X86EMUL_OKAY)
    hvm_set_cr4 := fun v x _ =>
      (Vcpu.store { v with guest_cr4 := x } v.vmcb fun b => { b with _cr4 := x }, X86EMUL_OKAY) }

/-- A state for the examples of offset and pause-filter composition: host
offset 100 and filter count 10, guest offset 50 and filter count 3, the guest
intercepting PAUSE, the shadow block active. -/
def composeState : Vcpu :=
  { vmcb := vmcb_ptr.n2vmcx,
    n1vmcb := { _tsc_offset := 100, _pause_filter_count := 10, _cr_intercepts := 5 },
    vvmcb := { _tsc_offset := 50, _pause_filter_count := 3, _cr_intercepts := 3,
               _general1_intercepts := GENERAL1_INTERCEPT_PAUSE } }

/-! ## Frame conditions on the collaborators -/

/-- The state-changing collaborators leave the observation `f` of the vcpu
state as it is. -/
structure Collab.Preserves {α : Type} (c : Collab) (f : Vcpu → α) : Prop where
  hvm_set_efer : ∀ s x, f (c.hvm_set_efer s x).1 = f s
  hvm_set_cr0 : ∀ s x d, f (c.hvm_set_cr0 s x d).1 = f s
  hvm_set_cr3 : ∀ s x n d, f (c.hvm_set_cr3 s x n d).1 = f s
  hvm_set_cr4 : ∀ s x d, f (c.hvm_set_cr4 s x d).1 = f s
  hvm_update_guest_cr : ∀ s n, f (c.hvm_update_guest_cr s n) = f s
  hvm_inject_hw_exception : ∀ s x e, f (c.hvm_inject_hw_exception s x e) = f s
  put_page : ∀ s p, f (c.put_page s p) = f s
  p2m_get_nestedp2m : ∀ s, f (c.p2m_get_nestedp2m s).1 = f s
  hvm_asid_flush_vcpu_asid : ∀ s, f (c.hvm_asid_flush_vcpu_asid s) = f s
  svm_vmsave_pa : ∀ s pa, f (c.svm_vmsave_pa s pa) = f s
  svm_get_insn_len : ∀ s, f (c.svm_get_insn_len s).1 = f s
  paging_update_paging_modes : ∀ s, f (c.paging_update_paging_modes s) = f s

/-- The four register setters behave like a register file: each stores its
value in the guest's logical register and in the same register of the active
block and changes nothing else of the vcpu state; the return code is left
open. -/
structure Collab.RegisterFile (c : Collab) : Prop where
  hvm_set_efer : ∀ s x, (c.hvm_set_efer s x).1 =
    Vcpu.store { s with guest_efer := x } s.vmcb fun b => { b with _efer := x }
  hvm_set_cr0 : ∀ s x d, (c.hvm_set_cr0 s x d).1 =
    Vcpu.store { s with guest_cr0 := x } s.vmcb fun b => { b with _cr0 := x }
  hvm_set_cr3 : ∀ s x n d, (c.hvm_set_cr3 s x n d).1 =
    Vcpu.store { s with guest_cr3 := x } s.vmcb fun b => { b with _cr3 := x }
  hvm_set_cr4 : ∀ s x d, (c.hvm_set_cr4 s x d).1 =
    Vcpu.store { s with guest_cr4 := x } s.vmcb fun b => { b with _cr4 := x }

/-- The state-changing collaborators other than the four register setters
leave the observation `f` of the vcpu state as it is. -/
structure Collab.PreservesAside {α : Type} (c : Collab) (f : Vcpu → α) : Prop where
  hvm_update_guest_cr : ∀ s n, f (c.hvm_update_guest_cr s n) = f s
  hvm_inject_hw_exception : ∀ s x e, f (c.hvm_inject_hw_exception s x e) = f s
  put_page : ∀ s p, f (c.put_page s p) = f s
  p2m_get_nestedp2m : ∀ s, f (c.p2m_get_nestedp2m s).1 = f s
  hvm_asid_flush_vcpu_asid : ∀ s, f (c.hvm_asid_flush_vcpu_asid s) = f s
  svm_vmsave_pa : ∀ s pa, f (c.svm_vmsave_pa s pa) = f s
  svm_get_insn_len : ∀ s, f (c.svm_get_insn_len s).1 = f s
  paging_update_paging_modes : ∀ s, f (c.paging_update_paging_modes s) = f s

/-- What the pure parts of `nsvm_vmcb_prepare4vmrun` must leave alone for an
observation `g` of the shadow block to come through the function as the head
of the function (lines 436-482) set it. -/
structure UntouchedByTail {α : Type} (g : vmcb_struct → α) : Prop where
  pm : ∀ b x y, g { b with _iopm_base_pa := x, _msrpm_base_pa := y } = g b
  fpu : ∀ a b n1 n2, g (nestedsvm_fpu_vmentry a b n1 n2).2 = g n2
  np : ∀ b x, g (vmcb_set_np b x) = g b
  h_cr3 : ∀ b x, g { b with _h_cr3 := x } = g b
  control : ∀ v clean, g (nsvm_vmcb_prepare4vmrun_control v clean).n2vmcb = g v.n2vmcb
  segments : ∀ v clean, g (nsvm_vmcb_prepare4vmrun_segments v clean).n2vmcb = g v.n2vmcb
  save : ∀ v clean, g (nsvm_vmcb_prepare4vmrun_save v clean).n2vmcb = g v.n2vmcb

/-- The fields of a control block that lines 463-482 of
`nsvm_vmcb_prepare4vmrun` set and nothing later in the function writes: the
CR, DR, general-1 and general-2 intercepts, the pause-filter count and the
TSC offset. -/
def headView (b : vmcb_struct) : Nat × Nat × Nat × Nat × Nat × Nat :=
  (b._cr_intercepts, b._dr_intercepts, b._general1_intercepts, b._general2_intercepts,
    b._pause_filter_count, b._tsc_offset)

/-- What the parts of `nsvm_vmcb_prepare4vmrun` after the segments (lines
538-651) must leave alone for an observation `g` of the shadow block to come
through them. -/
structure UntouchedAfterSegments {α : Type} (g : vmcb_struct → α) : Prop where
  fpu : ∀ a b n1 n2, g (nestedsvm_fpu_vmentry a b n1 n2).2 = g n2
  np : ∀ b x, g (vmcb_set_np b x) = g b
  h_cr3 : ∀ b x, g { b with _h_cr3 := x } = g b
  save : ∀ v clean, g (nsvm_vmcb_prepare4vmrun_save v clean).n2vmcb = g v.n2vmcb

/-- The vcpu state with everything that `nsvm_vmcb_prepare4vmrun` itself
stores to blanked: the shadow block, the cached intercepts, the permission-map
bookkeeping, the logical EFER, CR0, CR2 and CR4, `ns_cr0`, `ns_vmcb_hostcr3`,
and the two bitmap addresses of the L1 block (written when it is the active
block). An observation that is a function of `outside` ignores the function's
own stores. -/
def Vcpu.outside (s : Vcpu) : Vcpu :=
  { s with
    guest_efer := 0, guest_cr0 := 0, guest_cr2 := 0, guest_cr4 := 0,
    n1vmcb := { s.n1vmcb with _iopm_base_pa := 0, _msrpm_base_pa := 0 },
    n2vmcb := {},
    nv_ioport80 := false, nv_ioportED := false,
    ns_cr_intercepts := 0, ns_dr_intercepts := 0, ns_exception_intercepts := 0,
    ns_general1_intercepts := 0, ns_general2_intercepts := 0,
    ns_vmcb_hostcr3 := 0, ns_iomap := none, ns_iomap_pa := 0, ns_oiomap_pa := 0,
    ns_cached_msrpm := fun _ => 0, ns_merged_msrpm := fun _ => 0, ns_cr0 := 0 }

/-- A state in which every clean bit of the virtual block is set and honoured:
the cached address is valid and is the address of the virtual block. -/
def cleanState : Vcpu :=
  { vmcb := vmcb_ptr.n2vmcx, nv_vvmcxaddr := 0x1000, ns_ovvmcb_pa := 0x1000,
    vvmcb := { _cr_intercepts := 1,
               _vintr := { intr_masking := true },
               cleanbits := { intercepts := true, iopm := true, asid := true, tpr := true,
                              np := true, cr := true, dr := true, dt := true, seg := true,
                              cr2 := true, lbr := true, avic := true, cet := true } } }

/-- The state `cleanState` after L1 has rewritten the CR intercepts of its
virtual block from 1 to 2 without clearing the clean bit. -/
def cleanStateRewritten : Vcpu :=
  { cleanState with vvmcb := { cleanState.vvmcb with _cr_intercepts := 2 } }

/-- A state in which the virtual block intercepts the device-not-available
exception and leaves CR0.TS clear, while CR0.TS is set in the shadow block. -/
def lazyFpuState : Vcpu :=
  { vmcb := vmcb_ptr.n2vmcx,
    vvmcb := { _exception_intercepts := 1 <<< X86_EXC_NM, _cr0 := X86_CR0_PE },
    n2vmcb := { _cr0 := X86_CR0_PE ||| X86_CR0_TS },
    n1vmcb := { _exception_intercepts := 1 <<< X86_EXC_GP } }

/-- A state in which L1 has not asked for nested paging. -/
def guestShadowState : Vcpu :=
  { vmcb := vmcb_ptr.n2vmcx, ns_hap_enabled := false, n1vmcb := { _h_cr3 := 0x5000 },
    n2vmcb := { _h_cr3 := 0x7000, _np := true } }

/-- The clean bit `bit` of the virtual block is honoured by
`nsvm_vmcb_prepare4vmrun`: the cached address `ns_ovvmcb_pa` is valid, it is
the address of the virtual block, and the bit is set. -/
@[reducible] def cleanHonoured (v : Vcpu) (bit : Bool) : Prop :=
  v.ns_ovvmcb_pa ≠ INVALID_PADDR ∧ v.ns_ovvmcb_pa = v.nv_vvmcxaddr ∧ bit = true

/-- The segment group of a control block: ES, CS, SS, DS and the CPL. -/
def segView (b : vmcb_struct) :
    segment_register × segment_register × segment_register × segment_register × Nat :=
  (b.es, b.cs, b.ss, b.ds, b._cpl)

/-- The descriptor-table group of a control block: GDTR and IDTR. -/
def dtView (b : vmcb_struct) : segment_register × segment_register := (b.gdtr, b.idtr)

/-- The debug-register group of a control block: DR7 and DR6. -/
def drView (b : vmcb_struct) : Nat × Nat := (b._dr7, b._dr6)

/-- The LBR group of a control block: the debug-control MSR and the four
last-branch MSRs. -/
def lbrView (b : vmcb_struct) : Nat × Nat × Nat × Nat × Nat :=
  (b._debugctlmsr, b._lastbranchfromip, b._lastbranchtoip, b._lastintfromip, b._lastinttoip)

/-- The six groups of a control block that `nsvm_vmcb_prepare4vmrun` copies
under a clean bit. -/
def groupView (b : vmcb_struct) :=
  (segView b, dtView b, drView b, lbrView b, b._g_pat, b._vintr)

/-- A state in which only the segment clean bit of the virtual block is set
and honoured, and the segment and descriptor-table groups of the virtual block
differ from those of the shadow block. -/
def gatingState : Vcpu :=
  { vmcb := vmcb_ptr.n2vmcx, nv_vvmcxaddr := 0x1000, ns_ovvmcb_pa := 0x1000,
    vvmcb := { es := { sel := 0x08 }, gdtr := { base := 0x100 }, cleanbits := { seg := true } },
    n2vmcb := { es := { sel := 0x10 }, gdtr := { base := 0x200 } } }

/-- The collaborators `idleCollab` with a guest-memory copy that fails. -/
def copyFaultCollab : Collab :=
  { idleCollab with hvm_copy_from_guest_phys := fun _ buf _ _ => (1, buf) }

/-! ## Interrupt blocking and deferred exits -/

/-- Lines 1541-1552. -/
def nestedsvm_gif_isset (v : Vcpu) : Bool :=
  let vmcb := v.active
  -- get the vmcb gif value if using vgif
  if vmcb._vintr.vgif_enable = true then vmcb._vintr.vgif
  else v.ns_gif

/-- Lines 1231-1256 of `nsvm_intr_blocked`: the block for guest mode, `none`
where the code falls through to line 1258. -/
def nsvm_intr_blocked_guestmode (v : Vcpu) : Option hvm_intblk :=
  if nestedhvm_vcpu_in_guestmode v = true then
    if v.ns_hostflags.vintrmask = true ∧ v.ns_hostflags.rflagsif = false then
      some hvm_intblk.hvm_intblk_rflags_ie
    else if v.io_req_state ≠ STATE_IOREQ_NONE then
      some hvm_intblk.hvm_intblk_shadow
    else if v.nv_vmexit_pending = false ∧ v.n2vmcb.exit_int_info.v = true then
      some hvm_intblk.hvm_intblk_shadow
    else none
  else none

/-- Lines 1221-1265. -/
def nsvm_intr_blocked (v : Vcpu) : hvm_intblk :=
  if nestedsvm_gif_isset v = false then hvm_intblk.hvm_intblk_svm_gif
  else
    match nsvm_intr_blocked_guestmode v with
    | some blocked => blocked
    | none =>
      if v.nv_vmexit_pending = true then hvm_intblk.hvm_intblk_rflags_ie
      else hvm_intblk.hvm_intblk_none

/-- Lines 1268-1284. The pointer `vmcb` is read from `v->arch.hvm.svm.vmcb` on entry. -/
def nestedsvm_vmexit_defer (v : Vcpu) (exitcode exitinfo1 exitinfo2 : Nat) : Vcpu :=
  let vmcb := v.vmcb
  let v :=
    if v.active._vintr.vgif_enable = true then
      v.store vmcb fun b => { b with _vintr := { b._vintr with vgif := false } }
    else nestedsvm_vcpu_clgi v
  let v := { v with ns_vmexit := { v.ns_vmexit with exitcode := exitcode } }
  let v := { v with ns_vmexit := { v.ns_vmexit with exitinfo1 := exitinfo1 } }
  let v := { v with ns_vmexit := { v.ns_vmexit with exitinfo2 := exitinfo2 } }
  { v with nv_vmexit_pending := true }

/-- A state with the GIF clear in which nothing else would block an interrupt. -/
def gifClearState : Vcpu := { ns_gif := false }

/-- A state with the GIF set, in guest mode, with a valid event latched in the
shadow block's `exit_int_info`. -/
def latchedState : Vcpu :=
  { ns_gif := true, nv_guestmode := true, n2vmcb := { exit_int_info := { v := true } } }

/-- A state with the GIF set, in guest mode, in which no interrupt is blocked. -/
def deliverableState : Vcpu := { ns_gif := true, nv_guestmode := true }

/-- A state in which the active block is the shadow block and holds the
virtual GIF, set. -/
def vgifState : Vcpu :=
  { vmcb := vmcb_ptr.n2vmcx, ns_gif := true,
    n2vmcb := { _vintr := { vgif_enable := true, vgif := true } } }

/-- Collaborators as in `idleCollab` with an I/O bitmap page that can be
mapped and has bit 0x80 set and every other bit clear. -/
def probeCollab : Collab :=
  { idleCollab with hvm_map_guest_frame_ro := fun _ _ _ => some fun bit => decide (bit = 0x80) }

/-- A state in guest mode on the shadow block, with L2 register values in the
shadow block, an event waiting for injection, and L1 values in the L1 block. -/
def exitState : Vcpu :=
  { vmcb := vmcb_ptr.n2vmcx, nv_guestmode := true,
    n1vmcb := { rax := 1, rsp := 2, rip := 3, rflags := 0x20002, _dr7 := 0x400, _cpl := 3,
                cleanbits := { seg := true } },
    n2vmcb := { rax := 10, rsp := 20, rip := 30, rflags := 0x202, _cpl := 3, _efer := 0x1500,
                exitcode := VMEXIT_VMMCALL, event_inj := { v := true, vector := 14 },
                es := { sel := 0x10 } } }

/-- A state whose host MSR bitmap has every word 5 and whose copy of L1's
bitmap has every word 3. -/
def msrState : Vcpu := { msrpm := fun _ => 5, ns_cached_msrpm := fun _ => 3 }

/-- The live fields that `nsvm_vmcb_prepare4vmexit` copies from the shadow
block as they are: segments, descriptor tables, CPL, EFER, CR0, CR2, CR4,
DR6, DR7, PAT, the debug-control and LBR MSRs, the exit code and exit
information 1 and 2. -/
def liveView (b : vmcb_struct) :=
  ((b.es, b.cs, b.ss, b.ds), (b.gdtr, b.idtr), b._cpl, b._efer, (b._cr0, b._cr2, b._cr4),
    (b._dr6, b._dr7), b._g_pat,
    (b._debugctlmsr, b._lastbranchfromip, b._lastbranchtoip, b._lastintfromip, b._lastinttoip),
    (b.exitcode, b.exitinfo1, b.exitinfo2))

/-! ## Exit classification and entry failures: views and examples -/

/-- Bit `q` of the I/O permission bitmap of L1 read as one array of bits over
the guest frames `gfn`, `gfn + 1`, ...: `none` when the frame that holds the
bit cannot be mapped. -/
def io_bitmap_bit (c : Collab) (v : Vcpu) (gfn q : Nat) : Option Bool :=
  (c.hvm_map_guest_frame_ro v (gfn + q / (8 * PAGE_SIZE)) false).map fun bits =>
    bits (q % (8 * PAGE_SIZE))

/-- The operand size that line 892 decodes from EXITINFO1. -/
def ioio_size (exitinfo1 : Nat) : Nat :=
  if ioio_info_sz32 exitinfo1 = true then 4 else if ioio_info_sz16 exitinfo1 = true then 2 else 1

/-- Frames of guest memory for the examples, by frame number and bit: every
bit is set but bit 0 of frame 2. -/
def ioBitmapFrames (gfn bit : Nat) : Bool := !(decide (gfn = 2) && decide (bit = 0))

/-- Collaborators as in `idleCollab` with every guest frame mappable
read-only, with the contents `ioBitmapFrames`. -/
def ioBitmapCollab : Collab :=
  { idleCollab with hvm_map_guest_frame_ro := fun _ gfn _ => some (ioBitmapFrames gfn) }

/-- A state whose cached masks intercept the write of CR0, the read of DR7,
the page fault, the HLT instruction and VMMCALL, and nothing else. -/
def lookupState : Vcpu :=
  { ns_cr_intercepts := 1 <<< 16, ns_dr_intercepts := 1 <<< 7,
    ns_exception_intercepts := 1 <<< 14, ns_general1_intercepts := 1 <<< 24,
    ns_general2_intercepts := 1 <<< 1 }

/-- Lines 685-722 of `nsvm_vcpu_vmentry`: the state on which line 724 calls
`nsvm_vmcb_prepare4vmrun` (`nsvm_vcpu_hostsave` returns 0). -/
def nsvm_vcpu_vmentry_switched (c : Collab) (v : Vcpu) (inst_len : Nat) : Vcpu :=
  let v := { v with ns_vmcb_guestcr3 := v.vvmcb._cr3 }
  let v := { v with ns_vmcb_hostcr3 := v.vvmcb._h_cr3 }
  let v := { v with nv_flushp2m := decide (v.vvmcb.tlb_control ≠ 0) }
  let v :=
    if v.ns_asid ≠ vmcb_get_asid v.vvmcb then
      let v := { v with nv_flushp2m := true }
      let v := c.hvm_asid_flush_vcpu_asid v
      { v with ns_asid := vmcb_get_asid v.vvmcb }
    else v
  let v := { v with ns_hap_enabled := vmcb_get_np v.vvmcb }
  let v := { v with ns_hostflags :=
    { v.ns_hostflags with vintrmask := v.vvmcb._vintr.intr_masking } }
  let v := (nsvm_vcpu_hostsave v inst_len).1
  let v := { v with vmcb := vmcb_ptr.n2vmcx }
  { v with vmcb_pa := v.nv_n2vmcx_pa }

/-- The call of `nsvm_vmcb_prepare4vmrun` at line 724 as `nsvm_vcpu_vmrun`
reaches it: after the decode of the instruction, line 750 and lines 685-722. -/
def nsvm_vcpu_vmrun_derive (c : Collab) (v : Vcpu) (regs : cpu_user_regs) : Out :=
  nsvm_vmcb_prepare4vmrun c
    (nsvm_vcpu_vmentry_switched c
      { (c.svm_get_insn_len v).1 with nv_vmswitch_in_progress := true }
      (c.svm_get_insn_len v).2) regs

/-- Collaborators as in `idleCollab` with a validator that rejects a control
block whose ASID is 0. -/
def strictCollab : Collab :=
  { idleCollab with svm_vmcb_isvalid := fun vmcb _ => decide (vmcb._asid = 0) }

/-- A state in which a VM entry is pending and the virtual block has ASID 0. -/
def badVirtualState : Vcpu := { nv_vmentry_pending := true }

/-- A state in which a VM entry is pending, the virtual block has ASID 1 and
the shadow block has ASID 0. -/
def badShadowState : Vcpu := { nv_vmentry_pending := true, vvmcb := { _asid := 1 } }

/-- Collaborators as in `idleCollab` with an instruction decoder that fails. -/
def noInsnCollab : Collab :=
  { idleCollab with svm_get_insn_len := fun v => (v, 0) }

/-- A state in which an exit and an entry are both pending, in guest mode on
the shadow block. -/
def bothPendingState : Vcpu :=
  { vmcb := vmcb_ptr.n2vmcx, nv_guestmode := true, nv_vmexit_pending := true,
    nv_vmentry_pending := true, ns_vmexit := { exitcode := VMEXIT_VMMCALL } }

/-- What the switch routine decides on: the active block, the guest mode and
the two flags of pending work. -/
def switchView (s : Vcpu) : vmcb_ptr × Bool × Bool × Bool :=
  (s.vmcb, s.nv_guestmode, s.nv_vmexit_pending, s.nv_vmentry_pending)

/-! ## Feature update, block mapping, the port walk and the exit assertion -/

/-- The accessor `vmcb_get_vintr` of vmcb.h. -/
def vmcb_get_vintr (vmcb : vmcb_struct) : vintr_t := vmcb._vintr

/-- The accessor `vmcb_set_vintr` of vmcb.h: it stores the word and clears the
clean bit of the TPR group. -/
def vmcb_set_vintr (vmcb : vmcb_struct) (value : vintr_t) : vmcb_struct :=
  { vmcb with _vintr := value, cleanbits := { vmcb.cleanbits with tpr := false } }

/-- The accessor `vmcb_get_general2_intercepts` of vmcb.h. -/
def vmcb_get_general2_intercepts (vmcb : vmcb_struct) : Nat := vmcb._general2_intercepts

/-- The accessor `vmcb_set_general2_intercepts` of vmcb.h: it stores the word
and clears the clean bit of the intercepts. -/
def vmcb_set_general2_intercepts (vmcb : vmcb_struct) (value : Nat) : vmcb_struct :=
  { vmcb with _general2_intercepts := value,
              cleanbits := { vmcb.cleanbits with intercepts := false } }

/-- The macro `nsvm_efer_svm_enabled` of asm/hvm/svm/nestedsvm.h:
`guest_efer & EFER_SVME`. -/
def nsvm_efer_svm_enabled (v : Vcpu) : Bool := decide (v.guest_efer &&& EFER_SVME ≠ 0)

/-- Lines 1621-1630 of `svm_nested_features_on_efer_update`, on the block
`vmcb` read at line 1610. -/
def svm_nested_features_on_efer_update_vloadsave_on (c : Collab)
    (cpu_has_svm_vloadsave : Bool) (v : Vcpu) (vmcb : vmcb_ptr) : Vcpu :=
  if v.active.virt_ext &&& virt_ext_vloadsave_enable = 0 ∧ c.paging_mode_hap = true ∧
      cpu_has_svm_vloadsave = true then
    let v := v.store vmcb fun b => { b with virt_ext := b.virt_ext ||| virt_ext_vloadsave_enable }
    let general2_intercepts := vmcb_get_general2_intercepts v.active
    let general2_intercepts := clearBits 32 general2_intercepts
      (GENERAL2_INTERCEPT_VMLOAD ||| GENERAL2_INTERCEPT_VMSAVE)
    v.store vmcb fun b => vmcb_set_general2_intercepts b general2_intercepts
  else v

/-- Lines 1632-1643 of `svm_nested_features_on_efer_update`. -/
def svm_nested_features_on_efer_update_vgif_on (cpu_has_svm_vgif : Bool) (v : Vcpu)
    (vmcb : vmcb_ptr) : Vcpu :=
  if v.active._vintr.vgif_enable = false ∧ cpu_has_svm_vgif = true then
    let vintr := vmcb_get_vintr v.active
    let vintr := { vintr with vgif := v.ns_gif }
    let vintr := { vintr with vgif_enable := true }
    let v := v.store vmcb fun b => vmcb_set_vintr b vintr
    let general2_intercepts := vmcb_get_general2_intercepts v.active
    let general2_intercepts := clearBits 32 general2_intercepts
      (GENERAL2_INTERCEPT_STGI ||| GENERAL2_INTERCEPT_CLGI)
    v.store vmcb fun b => vmcb_set_general2_intercepts b general2_intercepts
  else v

/-- Lines 1647-1654 of `svm_nested_features_on_efer_update`. -/
def svm_nested_features_on_efer_update_vloadsave_off (v : Vcpu) (vmcb : vmcb_ptr) : Vcpu :=
  if v.active.virt_ext &&& virt_ext_vloadsave_enable ≠ 0 then
    let v := v.store vmcb fun b =>
      { b with virt_ext := clearBits 64 b.virt_ext virt_ext_vloadsave_enable }
    let general2_intercepts := vmcb_get_general2_intercepts v.active
    let general2_intercepts := general2_intercepts |||
      (GENERAL2_INTERCEPT_VMLOAD ||| GENERAL2_INTERCEPT_VMSAVE)
    v.store vmcb fun b => vmcb_set_general2_intercepts b general2_intercepts
  else v

/-- Lines 1656-1666 of `svm_nested_features_on_efer_update`. -/
def svm_nested_features_on_efer_update_vgif_off (v : Vcpu) (vmcb : vmcb_ptr) : Vcpu :=
  if v.active._vintr.vgif_enable = true then
    let vintr := vmcb_get_vintr v.active
    let v := { v with ns_gif := vintr.vgif }
    let vintr := { vintr with vgif_enable := false }
    let v := v.store vmcb fun b => vmcb_set_vintr b vintr
    let general2_intercepts := vmcb_get_general2_intercepts v.active
    let general2_intercepts := general2_intercepts |||
      (GENERAL2_INTERCEPT_STGI ||| GENERAL2_INTERCEPT_CLGI)
    v.store vmcb fun b => vmcb_set_general2_intercepts b general2_intercepts
  else v

/-- Lines 1608-1668. The hardware features `cpu_has_svm_vloadsave` and
`cpu_has_svm_vgif` are parameters; the pointer `vmcb` is read from
`v->arch.hvm.svm.vmcb` on entry. -/
def svm_nested_features_on_efer_update (c : Collab)
    (cpu_has_svm_vloadsave cpu_has_svm_vgif : Bool) (v : Vcpu) : Vcpu :=
  let vmcb := v.vmcb
  if nsvm_efer_svm_enabled v = true then
    let v := svm_nested_features_on_efer_update_vloadsave_on c cpu_has_svm_vloadsave v vmcb
    svm_nested_features_on_efer_update_vgif_on cpu_has_svm_vgif v vmcb
  else
    let v := svm_nested_features_on_efer_update_vloadsave_off v vmcb
    svm_nested_features_on_efer_update_vgif_off v vmcb

/-- A state in which L1 has just set EFER.SVME with the GIF set, on a block
that still intercepts STGI and CLGI. -/
def svmeOnState : Vcpu :=
  { guest_efer := EFER_SVME, ns_gif := true,
    n1vmcb := { _general2_intercepts := 0x3f } }

/-- A state in which L1 has just cleared EFER.SVME while the block holds a
clear virtual GIF. -/
def svmeOffState : Vcpu :=
  { guest_efer := 0, ns_gif := true,
    n1vmcb := { _vintr := { vgif_enable := true, vgif := false }, virt_ext := 2 } }

/-- Lines 43-49 of `nestedsvm_vmcb_map`: a mapping held for another address
is given up. -/
def nestedsvm_vmcb_map_release (v : Vcpu) (vmcbaddr : Nat) : Vcpu :=
  if v.nv_vvmcx_mapped = true ∧ v.nv_vvmcxaddr ≠ vmcbaddr then
    let v := { v with nv_vvmcx_mapped := false }
    { v with nv_vvmcxaddr := INVALID_PADDR }
  else v

/-- Collaborators as in `idleCollab` with a guest in which frame 5 can be
mapped writable (it holds a control block with ASID 7), frame 6 can be mapped
read-only, and no other frame can be mapped. -/
def frameCollab : Collab :=
  { idleCollab with
    hvm_map_guest_frame_rw := fun _ gfn =>
      if gfn = 5 then some ({ _asid := 7 }, true)
      else if gfn = 6 then some ({}, false)
      else none }

/-- A state in which the virtual block is mapped for the address 0x9000. -/
def mappedState : Vcpu := { nv_vvmcx_mapped := true, nv_vvmcxaddr := 0x9000 }

/-- What a failed copy of L1's MSR permission map must leave alone: the merged
MSR bitmap, the selected I/O map and the bitmap base addresses of the two
host-owned blocks, one of which is the active block. -/
def bitmapView (s : Vcpu) :=
  (s.ns_merged_msrpm, s.ns_iomap, (s.n1vmcb._iopm_base_pa, s.n1vmcb._msrpm_base_pa),
    (s.n2vmcb._iopm_base_pa, s.n2vmcb._msrpm_base_pa))

/-- Lines 420-482 of `nsvm_vmcb_prepare4vmrun`: the state on which line 485
calls `nsvm_vmrun_permissionmap`. -/
def nsvm_vmcb_prepare4vmrun_merged (v : Vcpu) : Vcpu :=
  nsvm_vmcb_prepare4vmrun_pause_tsc
    (nsvm_vmcb_prepare4vmrun_intercepts v (nsvm_vmcb_prepare4vmrun_clean v))

/-- A state before a VMRUN in which L1 has asked for no masking of virtual
interrupts and no clean bit is honoured. -/
def unmaskedState : Vcpu :=
  { ns_ovvmcb_pa := INVALID_PADDR, ns_hostflags := { vintrmask := true },
    vvmcb := { _vintr := { intr_masking := false, tpr := 3 } } }

/-- A state before a VMRUN in which L1 has asked for masking of virtual
interrupts and no clean bit is honoured. -/
def maskedState : Vcpu :=
  { ns_ovvmcb_pa := INVALID_PADDR,
    vvmcb := { _vintr := { intr_masking := true, tpr := 3 } } }

/-- Lines 538-552 of `nsvm_vmcb_prepare4vmrun`: EFER and CR4, the part of
`nsvm_vmcb_prepare4vmrun_registers` before the lazy-FPU handoff. -/
def nsvm_vmcb_prepare4vmrun_efer_cr4 (c : Collab) (v : Vcpu) : Vcpu :=
  -- EFER
  let v := { v with guest_efer := v.vvmcb._efer }
  let v := inject_gp_on_exception c (c.hvm_set_efer v v.vvmcb._efer)
  -- CR4
  let v := { v with guest_cr4 := v.vvmcb._cr4 }
  inject_gp_on_exception c (c.hvm_set_cr4 v v.vvmcb._cr4 true)

/-- Lines 554-566 of `nsvm_vmcb_prepare4vmrun`: CR0 with the lazy-FPU handoff
and CR2, the rest of `nsvm_vmcb_prepare4vmrun_registers`. -/
def nsvm_vmcb_prepare4vmrun_cr0_cr2 (c : Collab) (v : Vcpu) : Vcpu :=
  -- CR0
  let v := { v with ns_cr0 := v.guest_cr0 }
  let fpu := nestedsvm_fpu_vmentry v.ns_cr0 v.vvmcb v.n1vmcb v.n2vmcb
  let cr0 := fpu.1
  let v := { v with n2vmcb := fpu.2 }
  let v := { v with guest_cr0 := v.vvmcb._cr0 }
  let v := inject_gp_on_exception c (c.hvm_set_cr0 v cr0 true)
  -- CR2
  let v := { v with guest_cr2 := v.vvmcb._cr2 }
  c.hvm_update_guest_cr v 2

/-- The state in which line 555 calls `nestedsvm_fpu_vmentry` when
`nsvm_vcpu_vmentry` runs on `v` and the permission maps are built: lines
685-722 of `nsvm_vcpu_vmentry`, then lines 420-552 of
`nsvm_vmcb_prepare4vmrun`. -/
def nsvm_vcpu_vmentry_cr0_state (c : Collab) (v : Vcpu) (inst_len : Nat) : Vcpu :=
  let v := nsvm_vcpu_vmentry_switched c v inst_len
  let clean := nsvm_vmcb_prepare4vmrun_clean v
  let v := (nsvm_vmcb_prepare4vmrun_head c v clean).1
  let v := nsvm_vmcb_prepare4vmrun_control v clean
  let v := nsvm_vmcb_prepare4vmrun_segments v clean
  nsvm_vmcb_prepare4vmrun_efer_cr4 c v

/-- A state before a VMRUN in which the host has deferred an FPU switch: TS
is set in the CR0 of the L1 block and clear in L1's logical CR0. -/
def deferredFpuState : Vcpu :=
  { guest_cr0 := 0x80000001, n1vmcb := { _cr0 := 0x80000009 },
    vvmcb := { _cr0 := 0x80000001 } }

/-- The CR0 of the L1 block and the logical CR0, the two values the first
branch of `nestedsvm_fpu_vmentry` compares. -/
def cr0View (s : Vcpu) : Nat × Nat := (s.n1vmcb._cr0, s.guest_cr0)

/-- Lines 894-905 of `nsvm_vmcb_guest_intercepts_ioio`: the switch on the
port, a `uint16_t`. The result is `port` and `gfn` after the case taken,
`none` for the `BUG()` of the `default`. -/
def nsvm_vmcb_guest_intercepts_ioio_switch (gfn port : Nat) : Option (Nat × Nat) :=
  if port ≤ 8 * PAGE_SIZE - 1 then
    -- first 4KB page
    some (port, gfn)
  else if 8 * PAGE_SIZE ≤ port ∧ port ≤ 2 * 8 * PAGE_SIZE - 1 then
    -- second 4KB page
    some (port - 8 * PAGE_SIZE, gfn + 1)
  else none

/-- The loop of lines 907-918 as in `nsvm_vmcb_guest_intercepts_ioio_loop`,
with two ghost results beside `enabled`: the pairs of frame and bit index
that `test_bit` was called on (a round whose `io_bitmap` is NULL is logged
with the index it would test), and the number of calls of
`hvm_map_guest_frame_ro` at line 915. -/
def nsvm_vmcb_guest_intercepts_ioio_traced (c : Collab) (v : Vcpu) :
    Option (Nat → Bool) → Nat → Nat → Nat → Bool × List (Nat × Nat) × Nat
  | _, _, _, 0 => (false, [], 0)
  | io_bitmap, gfn, port, size + 1 =>
    let enabled :=
      match io_bitmap with
      | none => false
      | some bits => bits port
    if enabled = false ∨ size = 0 then (enabled, [(gfn, port)], 0)
    else
      let tested := (gfn, port)
      let port := (port + 1) % 2 ^ 16
      if port = 8 * PAGE_SIZE then
        let gfn := gfn + 1
        let rest := nsvm_vmcb_guest_intercepts_ioio_traced c v
          (c.hvm_map_guest_frame_ro v gfn false) gfn (port - 8 * PAGE_SIZE) size
        (rest.1, tested :: rest.2.1, rest.2.2 + 1)
      else
        let rest := nsvm_vmcb_guest_intercepts_ioio_traced c v io_bitmap gfn port size
        (rest.1, tested :: rest.2.1, rest.2.2)

/-- Lines 796-799 of `nsvm_vcpu_vmexit_inject`: the condition of the `ASSERT`
that is evaluated, on the block `v->arch.hvm.svm.vmcb`. -/
def nsvm_vcpu_vmexit_inject_assert (v : Vcpu) : Bool :=
  let vmcb := v.active
  if vmcb._vintr.vgif_enable = true then vmcb._vintr.vgif == false
  else v.ns_gif == false

/-- Lines 1386-1423 of `nestedsvm_vcpu_vmexit`: the state on which line 1428
calls `nsvm_vcpu_vmexit_inject`, `none` where the function returns at line
1409 or reaches the `BUG()` of line 1411 before. -/
def nestedsvm_vcpu_vmexit_inject_state (c : Collab) (v : Vcpu) (regs : cpu_user_regs) :
    Option Vcpu :=
  let v := { v with nv_vmswitch_in_progress := true }
  if nestedhvm_vcpu_in_guestmode v = true then
    let n2n1 := nestedsvm_vmexit_n2n1 c v regs
    match n2n1.2.2 with
    | nestedhvm_vmexits.NESTEDHVM_VMEXIT_FATALERROR => none
    | nestedhvm_vmexits.NESTEDHVM_VMEXIT_HOST => none
    | _ => some n2n1.1
  else some v

/-- Lines 1444-1477 of `nsvm_vcpu_switch`: the state on which the call of
`nestedsvm_vcpu_vmexit` at the label `vmexit` reaches
`nsvm_vcpu_vmexit_inject`, `none` where the switch does not get there. -/
def nsvm_vcpu_switch_inject_state (c : Collab) (v : Vcpu) (regs : cpu_user_regs) :
    Option Vcpu :=
  if c.nestedhvm_enabled = false then none
  else if v.nv_vmexit_pending = true then nestedsvm_vcpu_vmexit_inject_state c v regs
  else if v.nv_vmentry_pending = true then
    let run := nsvm_vcpu_vmrun c v regs
    if run.rc ≠ 0 then nestedsvm_vcpu_vmexit_inject_state c run.v run.regs
    else none
  else none

/-- A state in which L1 has executed VMRUN with the GIF set: an entry is
pending on the L1 block, which does not use the hardware vGIF, and the
virtual block has ASID 0. -/
def gifSetEntryState : Vcpu := { nv_vmentry_pending := true, ns_gif := true }

/-- A state in which L2 runs on the shadow block while the L1 block uses the
hardware vGIF and holds the GIF that L1 had at its VMRUN, set. -/
def guestVgifState : Vcpu :=
  { vmcb := vmcb_ptr.n2vmcx, nv_guestmode := true, ns_gif := true,
    n1vmcb := { _vintr := { vgif_enable := true, vgif := true } } }

/-! ## The round trip and the repeated merge: views and examples -/

/-- The shadow block without EFER, CR0, CR2, CR3 and CR4, the registers that
the setters write into the active block, and without the #NM bit of its
exception intercepts. -/
def restView (b : vmcb_struct) : vmcb_struct :=
  { b with
    _efer := 0, _cr0 := 0, _cr2 := 0, _cr3 := 0, _cr4 := 0,
    _exception_intercepts := clearBits 32 b._exception_intercepts (1 <<< X86_EXC_NM) }

/-- The part of `restView` that `nsvm_vmcb_prepare4vmrun` sets by plain
copies: `restView` without the exception intercepts, the nested-paging flag
and root, the bitmap addresses and the clean bits. -/
def coreView (b : vmcb_struct) : vmcb_struct :=
  { b with
    _efer := 0, _cr0 := 0, _cr2 := 0, _cr3 := 0, _cr4 := 0,
    _exception_intercepts := 0, _np := false, _h_cr3 := 0, cleanbits := {},
    _iopm_base_pa := 0, _msrpm_base_pa := 0 }

/-- The fields of the L1 block that `nsvm_vmcb_prepare4vmrun` reads for the
shadow block: the five intercept words, the pause-filter count, the TSC
offset, the virtualisation extensions and the nested-paging root. -/
def hostView (b : vmcb_struct) :=
  ((b._cr_intercepts, b._dr_intercepts, b._exception_intercepts, b._general1_intercepts,
    b._general2_intercepts), b._pause_filter_count, b._tsc_offset, b.virt_ext, b._h_cr3)

/-- A state for two merges in succession: the shadow block is active, every
clean bit of the virtual block is set and honoured, the guest's CR0 has TS
clear while the CR0 of the L1 block has it set (`svm_fpu_leave` has run), and
the virtual block asks for a CR0 with TS clear. -/
def remergeState : Vcpu :=
  { vmcb := vmcb_ptr.n2vmcx, nv_vvmcxaddr := 0x1000, ns_ovvmcb_pa := 0x1000,
    guest_cr0 := X86_CR0_PE,
    n1vmcb := { _cr0 := X86_CR0_PE ||| X86_CR0_TS },
    vvmcb := { _cr0 := X86_CR0_PE,
               cleanbits := { intercepts := true, iopm := true, asid := true, tpr := true,
                              np := true, cr := true, dr := true, dt := true, seg := true,
                              cr2 := true, lbr := true, avic := true, cet := true } } }

/-- What lines 436-651 of `nsvm_vmcb_prepare4vmrun` make of the part
`coreView` of a shadow block, given the clean bits in force, the fields
`hostView` of the L1 block and the virtual block. -/
def mergedCore (clean : vmcbcleanbits_t) (n1 vv b : vmcb_struct) : vmcb_struct :=
  { b with
    _cr_intercepts := n1._cr_intercepts ||| vv._cr_intercepts,
    _dr_intercepts := n1._dr_intercepts ||| vv._dr_intercepts,
    _general1_intercepts := n1._general1_intercepts ||| vv._general1_intercepts,
    _general2_intercepts := n1._general2_intercepts ||| vv._general2_intercepts,
    _pause_filter_count :=
      if vv._general1_intercepts &&& GENERAL1_INTERCEPT_PAUSE ≠ 0 then
        min n1._pause_filter_count vv._pause_filter_count
      else n1._pause_filter_count,
    _tsc_offset := (n1._tsc_offset + vv._tsc_offset) % 2 ^ 64,
    tlb_control := vv.tlb_control,
    _vintr := if clean.tpr = false then { vv._vintr with intr_masking := true } else b._vintr,
    int_stat := vv.int_stat,
    exitcode := vv.exitcode,
    exitinfo1 := vv.exitinfo1,
    exitinfo2 := vv.exitinfo2,
    exit_int_info := vv.exit_int_info,
    event_inj := vv.event_inj,
    virt_ext := n1.virt_ext ||| vv.virt_ext,
    es := if clean.seg = false then vv.es else b.es,
    cs := if clean.seg = false then vv.cs else b.cs,
    ss := if clean.seg = false then vv.ss else b.ss,
    ds := if clean.seg = false then vv.ds else b.ds,
    _cpl := if clean.seg = false then vv._cpl else b._cpl,
    gdtr := if clean.dt = false then vv.gdtr else b.gdtr,
    idtr := if clean.dt = false then vv.idtr else b.idtr,
    _dr7 := if clean.dr = false then vv._dr7 else b._dr7,
    _dr6 := if clean.dr = false then vv._dr6 else b._dr6,
    rflags := vv.rflags,
    rip := vv.rip,
    rsp := vv.rsp,
    rax := vv.rax,
    _g_pat := if clean.np = false then vv._g_pat else b._g_pat,
    _debugctlmsr := if clean.lbr = false then vv._debugctlmsr else b._debugctlmsr,
    _lastbranchfromip := if clean.lbr = false then vv._lastbranchfromip else b._lastbranchfromip,
    _lastbranchtoip := if clean.lbr = false then vv._lastbranchtoip else b._lastbranchtoip,
    _lastintfromip := if clean.lbr = false then vv._lastintfromip else b._lastintfromip,
    _lastinttoip := if clean.lbr = false then vv._lastinttoip else b._lastinttoip }

/-- The vcpu state without what the merge and the register setters write:
`Vcpu.outside` without the logical CR3 and without the EFER, CR0, CR2, CR3 and
CR4 of the L1 block. -/
def Vcpu.ambient (s : Vcpu) : Vcpu :=
  { s.outside with
    guest_cr3 := 0,
    n1vmcb := { s.outside.n1vmcb with _efer := 0, _cr0 := 0, _cr2 := 0, _cr3 := 0, _cr4 := 0 } }

/-- The lookups among the collaborators answer alike in two states that differ
only in what the merge and the register setters write; the nested p2m root
may also depend on `ns_vmcb_hostcr3`, and the return code of a copy does not
depend on the old contents of the buffer. -/
structure Collab.Deterministic (c : Collab) : Prop where
  nestedhvm_paging_mode_hap : ∀ s t : Vcpu, s.ambient = t.ambient →
    c.nestedhvm_paging_mode_hap s = c.nestedhvm_paging_mode_hap t
  hvm_copy_from_guest_phys : ∀ (s t : Vcpu) (b d : Nat → Nat) (a n : Nat),
    s.ambient = t.ambient →
    (c.hvm_copy_from_guest_phys s b a n).1 = (c.hvm_copy_from_guest_phys t d a n).1
  hvm_map_guest_frame_ro : ∀ (s t : Vcpu) (g : Nat) (p : Bool), s.ambient = t.ambient →
    c.hvm_map_guest_frame_ro s g p = c.hvm_map_guest_frame_ro t g p
  p2m_get_nestedp2m : ∀ s t : Vcpu, s.ambient = t.ambient →
    s.ns_vmcb_hostcr3 = t.ns_vmcb_hostcr3 →
    (c.p2m_get_nestedp2m s).2 = (c.p2m_get_nestedp2m t).2

/-- The shadow block without the TS bit of its CR0 and without the #NM bit of
its exception intercepts, the two bits that the lazy-FPU handoff sets from the
live CR0. -/
def mergeView (b : vmcb_struct) : vmcb_struct :=
  { b with
    _cr0 := clearBits 64 b._cr0 X86_CR0_TS,
    _exception_intercepts := clearBits 32 b._exception_intercepts (1 <<< X86_EXC_NM) }

/-- The registers of a block that the setters write, CR0 without its TS bit. -/
def setterView (b : vmcb_struct) : Nat × Nat × Nat × Nat :=
  (b._efer, clearBits 64 b._cr0 X86_CR0_TS, b._cr3, b._cr4)

/-! ## Lemmas -/

theorem inject_gp_on_exception_preserves {α : Type} {c : Collab} {f : Vcpu → α}
    (h : c.Preserves f) (r : Vcpu × Nat) : f (inject_gp_on_exception c r) = f r.1 := by
  unfold inject_gp_on_exception
  split
  · exact h.hvm_inject_hw_exception _ _ _
  · rfl

theorem registers_n2 {α : Type} {c : Collab} {g : vmcb_struct → α}
    (h : c.Preserves fun s => g s.n2vmcb)
    (hfpu : ∀ a b n1 n2, g (nestedsvm_fpu_vmentry a b n1 n2).2 = g n2) (v : Vcpu) :
    g (nsvm_vmcb_prepare4vmrun_registers c v).n2vmcb = g v.n2vmcb := by
  have h1 : ∀ s x, g (c.hvm_set_efer s x).1.n2vmcb = g s.n2vmcb := h.hvm_set_efer
  have h2 : ∀ s x d, g (c.hvm_set_cr0 s x d).1.n2vmcb = g s.n2vmcb := h.hvm_set_cr0
  have h4 : ∀ s x d, g (c.hvm_set_cr4 s x d).1.n2vmcb = g s.n2vmcb := h.hvm_set_cr4
  have h5 : ∀ s n, g (c.hvm_update_guest_cr s n).n2vmcb = g s.n2vmcb := h.hvm_update_guest_cr
  have h6 : ∀ r, g (inject_gp_on_exception c r).n2vmcb = g r.1.n2vmcb :=
    inject_gp_on_exception_preserves h
  unfold nsvm_vmcb_prepare4vmrun_registers
  simp only [h1, h2, h4, h5, h6, hfpu]

theorem permissionmap_n2 {α : Type} {g : vmcb_struct → α}
    (hpm : ∀ b x y, g { b with _iopm_base_pa := x, _msrpm_base_pa := y } = g b)
    (c : Collab) (v : Vcpu) (viopm : Bool) :
    g (nsvm_vmrun_permissionmap c v viopm).1.n2vmcb = g v.n2vmcb := by
  unfold nsvm_vmrun_permissionmap
  cases hv : v.vmcb <;> simp only [Vcpu.store] <;> split <;> simp only [hpm]

theorem paging_n2 {α : Type} {c : Collab} {g : vmcb_struct → α}
    (h : c.Preserves fun s => g s.n2vmcb)
    (hnp : ∀ b x, g (vmcb_set_np b x) = g b)
    (hcr3 : ∀ b x, g { b with _h_cr3 := x } = g b) (v : Vcpu) :
    g (nsvm_vmcb_prepare4vmrun_paging c v).n2vmcb = g v.n2vmcb := by
  have h3 : ∀ s x n d, g (c.hvm_set_cr3 s x n d).1.n2vmcb = g s.n2vmcb := h.hvm_set_cr3
  have h6 : ∀ r, g (inject_gp_on_exception c r).n2vmcb = g r.1.n2vmcb :=
    inject_gp_on_exception_preserves h
  have h8 : ∀ s, g (c.p2m_get_nestedp2m s).1.n2vmcb = g s.n2vmcb := h.p2m_get_nestedp2m
  unfold nsvm_vmcb_prepare4vmrun_paging
  split
  · unfold nestedsvm_vmcb_set_nestedp2m
    simp only [h3, h6, h8, hnp, hcr3]
  · split
    · simp only [h3, h6, hnp, hcr3]
    · simp only [hnp, hcr3]

theorem validate_v (c : Collab) (v : Vcpu) (regs : cpu_user_regs) :
    (nsvm_vmcb_prepare4vmrun_validate c v regs).v = v := by
  unfold nsvm_vmcb_prepare4vmrun_validate
  split
  · rfl
  · split <;> rfl

theorem tail_v (c : Collab) (v : Vcpu) (clean : vmcbcleanbits_t) (regs : cpu_user_regs) :
    (nsvm_vmcb_prepare4vmrun_tail c v clean regs).v =
      nsvm_vmcb_prepare4vmrun_save
        (nsvm_vmcb_prepare4vmrun_paging c
          (nsvm_vmcb_prepare4vmrun_registers c
            (nsvm_vmcb_prepare4vmrun_segments (nsvm_vmcb_prepare4vmrun_control v clean) clean)))
        clean := by
  unfold nsvm_vmcb_prepare4vmrun_tail
  exact validate_v _ _ _

theorem tail_n2 {α : Type} {c : Collab} {g : vmcb_struct → α}
    (h : c.Preserves fun s => g s.n2vmcb) (hg : UntouchedByTail g)
    (v : Vcpu) (clean : vmcbcleanbits_t) (regs : cpu_user_regs) :
    g (nsvm_vmcb_prepare4vmrun_tail c v clean regs).v.n2vmcb = g v.n2vmcb := by
  rw [tail_v, hg.save, paging_n2 h hg.np hg.h_cr3, registers_n2 h hg.fpu, hg.segments, hg.control]

theorem prepare4vmrun_n2 {α : Type} {c : Collab} {g : vmcb_struct → α}
    (h : c.Preserves fun s => g s.n2vmcb) (hg : UntouchedByTail g)
    (v : Vcpu) (regs : cpu_user_regs) :
    g (nsvm_vmcb_prepare4vmrun c v regs).v.n2vmcb =
      g (nsvm_vmcb_prepare4vmrun_pause_tsc
          (nsvm_vmcb_prepare4vmrun_intercepts v (nsvm_vmcb_prepare4vmrun_clean v))).n2vmcb := by
  have hhead : ∀ clean, g (nsvm_vmcb_prepare4vmrun_head c v clean).1.n2vmcb =
      g (nsvm_vmcb_prepare4vmrun_pause_tsc (nsvm_vmcb_prepare4vmrun_intercepts v clean)).n2vmcb :=
    fun clean => permissionmap_n2 hg.pm c _ clean.iopm
  unfold nsvm_vmcb_prepare4vmrun
  simp only
  split
  · exact hhead _
  · rw [tail_n2 h hg]
    exact hhead _

theorem idleCollab_preserves {α : Type} (f : Vcpu → α) : idleCollab.Preserves f :=
  ⟨fun _ _ => rfl, fun _ _ _ => rfl, fun _ _ _ _ => rfl, fun _ _ _ => rfl, fun _ _ => rfl,
    fun _ _ _ => rfl, fun _ _ => rfl, fun _ => rfl, fun _ => rfl, fun _ _ => rfl,
    fun _ => rfl, fun _ => rfl⟩

theorem store_n2 {α : Type} {g : vmcb_struct → α} (f : vmcb_struct → vmcb_struct)
    (hf : ∀ b, g (f b) = g b) (v : Vcpu) (p : vmcb_ptr) :
    g (Vcpu.store v p f).n2vmcb = g v.n2vmcb := by
  cases p
  · rfl
  · exact hf _

/-- The register-file collaborators leave alone every observation of the
shadow block that does not look at EFER, CR0, CR3 or CR4. -/
theorem storeCollab_preserves_n2 {α : Type} {g : vmcb_struct → α}
    (hefer : ∀ b x, g { b with _efer := x } = g b)
    (hcr0 : ∀ b x, g { b with _cr0 := x } = g b)
    (hcr3 : ∀ b x, g { b with _cr3 := x } = g b)
    (hcr4 : ∀ b x, g { b with _cr4 := x } = g b) :
    storeCollab.Preserves fun s => g s.n2vmcb :=
  ⟨fun s x => store_n2 _ (fun b => hefer b x) { s with guest_efer := x } s.vmcb,
    fun s x _ => store_n2 _ (fun b => hcr0 b x) { s with guest_cr0 := x } s.vmcb,
    fun s x _ _ => store_n2 _ (fun b => hcr3 b x) { s with guest_cr3 := x } s.vmcb,
    fun s x _ => store_n2 _ (fun b => hcr4 b x) { s with guest_cr4 := x } s.vmcb,
    fun _ _ => rfl, fun _ _ _ => rfl, fun _ _ => rfl, fun _ => rfl, fun _ => rfl, fun _ _ => rfl,
    fun _ => rfl, fun _ => rfl⟩

/-- The lazy-FPU handoff changes nothing in the shadow block but its
exception intercepts. -/
theorem fpu_vmentry_n2 {α : Type} {g : vmcb_struct → α}
    (hexc : ∀ b x, g { b with _exception_intercepts := x } = g b)
    (a : Nat) (b n1 n2 : vmcb_struct) : g (nestedsvm_fpu_vmentry a b n1 n2).2 = g n2 := by
  unfold nestedsvm_fpu_vmentry
  simp only
  split
  · exact hexc _ _
  · split
    · exact hexc _ _
    · rfl

theorem untouched_headView : UntouchedByTail headView where
  pm := fun _ _ _ => rfl
  fpu := fpu_vmentry_n2 fun _ _ => rfl
  np := fun _ _ => rfl
  h_cr3 := fun _ _ => rfl
  control := by
    intro v clean
    unfold nsvm_vmcb_prepare4vmrun_control
    split <;> rfl
  segments := by
    intro v clean
    unfold nsvm_vmcb_prepare4vmrun_segments
    split <;> split <;> rfl
  save := by
    intro v clean
    unfold nsvm_vmcb_prepare4vmrun_save
    split <;> split <;> split <;> rfl

theorem untouchedByTail_comp {α β : Type} {g : vmcb_struct → α} (hg : UntouchedByTail g)
    (k : α → β) : UntouchedByTail fun b => k (g b) where
  pm := fun b x y => congrArg k (hg.pm b x y)
  fpu := fun a b n1 n2 => congrArg k (hg.fpu a b n1 n2)
  np := fun b x => congrArg k (hg.np b x)
  h_cr3 := fun b x => congrArg k (hg.h_cr3 b x)
  control := fun v clean => congrArg k (hg.control v clean)
  segments := fun v clean => congrArg k (hg.segments v clean)
  save := fun v clean => congrArg k (hg.save v clean)

theorem preserves_comp {α β : Type} {c : Collab} {f : Vcpu → α} (h : c.Preserves f)
    (k : α → β) : c.Preserves fun s => k (f s) where
  hvm_set_efer := fun s x => congrArg k (h.hvm_set_efer s x)
  hvm_set_cr0 := fun s x d => congrArg k (h.hvm_set_cr0 s x d)
  hvm_set_cr3 := fun s x n d => congrArg k (h.hvm_set_cr3 s x n d)
  hvm_set_cr4 := fun s x d => congrArg k (h.hvm_set_cr4 s x d)
  hvm_update_guest_cr := fun s n => congrArg k (h.hvm_update_guest_cr s n)
  hvm_inject_hw_exception := fun s x e => congrArg k (h.hvm_inject_hw_exception s x e)
  put_page := fun s p => congrArg k (h.put_page s p)
  p2m_get_nestedp2m := fun s => congrArg k (h.p2m_get_nestedp2m s)
  hvm_asid_flush_vcpu_asid := fun s => congrArg k (h.hvm_asid_flush_vcpu_asid s)
  svm_vmsave_pa := fun s pa => congrArg k (h.svm_vmsave_pa s pa)
  svm_get_insn_len := fun s => congrArg k (h.svm_get_insn_len s)
  paging_update_paging_modes := fun s => congrArg k (h.paging_update_paging_modes s)

theorem storeCollab_registerFile : storeCollab.RegisterFile :=
  ⟨fun _ _ => rfl, fun _ _ _ => rfl, fun _ _ _ _ => rfl, fun _ _ _ => rfl⟩

theorem storeCollab_aside {α : Type} (f : Vcpu → α) : storeCollab.PreservesAside f :=
  ⟨fun _ _ => rfl, fun _ _ _ => rfl, fun _ _ => rfl, fun _ => rfl, fun _ => rfl, fun _ _ => rfl,
    fun _ => rfl, fun _ => rfl⟩

theorem aside_comp {α β : Type} {c : Collab} {f : Vcpu → α} (h : c.PreservesAside f)
    (k : α → β) : c.PreservesAside fun s => k (f s) :=
  ⟨fun s n => congrArg k (h.hvm_update_guest_cr s n),
    fun s x e => congrArg k (h.hvm_inject_hw_exception s x e),
    fun s p => congrArg k (h.put_page s p),
    fun s => congrArg k (h.p2m_get_nestedp2m s),
    fun s => congrArg k (h.hvm_asid_flush_vcpu_asid s),
    fun s pa => congrArg k (h.svm_vmsave_pa s pa),
    fun s => congrArg k (h.svm_get_insn_len s),
    fun s => congrArg k (h.paging_update_paging_modes s)⟩

/-- An observation that the stores of a register file leave alone and that
the other collaborators preserve is preserved by all of them. -/
theorem preserves_of_registerFile {α : Type} {c : Collab} {f : Vcpu → α}
    (hr : c.RegisterFile) (hq : c.PreservesAside f)
    (hefer : ∀ (s : Vcpu) x,
      f (Vcpu.store { s with guest_efer := x } s.vmcb fun b => { b with _efer := x }) = f s)
    (hcr0 : ∀ (s : Vcpu) x,
      f (Vcpu.store { s with guest_cr0 := x } s.vmcb fun b => { b with _cr0 := x }) = f s)
    (hcr3 : ∀ (s : Vcpu) x,
      f (Vcpu.store { s with guest_cr3 := x } s.vmcb fun b => { b with _cr3 := x }) = f s)
    (hcr4 : ∀ (s : Vcpu) x,
      f (Vcpu.store { s with guest_cr4 := x } s.vmcb fun b => { b with _cr4 := x }) = f s) :
    c.Preserves f :=
  ⟨fun s x => (congrArg f (hr.hvm_set_efer s x)).trans (hefer s x),
    fun s x d => (congrArg f (hr.hvm_set_cr0 s x d)).trans (hcr0 s x),
    fun s x n d => (congrArg f (hr.hvm_set_cr3 s x n d)).trans (hcr3 s x),
    fun s x d => (congrArg f (hr.hvm_set_cr4 s x d)).trans (hcr4 s x),
    hq.hvm_update_guest_cr, hq.hvm_inject_hw_exception, hq.put_page, hq.p2m_get_nestedp2m,
    hq.hvm_asid_flush_vcpu_asid, hq.svm_vmsave_pa, hq.svm_get_insn_len,
    hq.paging_update_paging_modes⟩

theorem storeCollab_preserves_paging :
    (storeCollab.Preserves fun s => (s.n2vmcb._np, s.n2vmcb._h_cr3)) ∧
      (storeCollab.Preserves fun s => s.n1vmcb._h_cr3) ∧
      (storeCollab.Preserves fun s => s.ns_hap_enabled) := by
  refine ⟨preserves_of_registerFile storeCollab_registerFile (storeCollab_aside _) ?_ ?_ ?_ ?_,
    preserves_of_registerFile storeCollab_registerFile (storeCollab_aside _) ?_ ?_ ?_ ?_,
    preserves_of_registerFile storeCollab_registerFile (storeCollab_aside _) ?_ ?_ ?_ ?_⟩ <;>
  intro s x <;> cases s.vmcb <;> rfl

/-- The fields of `headView` come through `nsvm_vmcb_prepare4vmrun` as lines
463-482 set them, whatever the function returns. -/
theorem prepare4vmrun_headView {α : Type} (k : Nat × Nat × Nat × Nat × Nat × Nat → α)
    (c : Collab) (v : Vcpu) (regs : cpu_user_regs)
    (h : c.Preserves fun s => k (headView s.n2vmcb)) :
    k (headView (nsvm_vmcb_prepare4vmrun c v regs).v.n2vmcb) =
      k (headView (nsvm_vmcb_prepare4vmrun_pause_tsc
          (nsvm_vmcb_prepare4vmrun_intercepts v (nsvm_vmcb_prepare4vmrun_clean v))).n2vmcb) :=
  prepare4vmrun_n2 h (untouchedByTail_comp untouched_headView k) v regs

theorem headView_merged (v : Vcpu) (clean : vmcbcleanbits_t) :
    headView (nsvm_vmcb_prepare4vmrun_pause_tsc
        (nsvm_vmcb_prepare4vmrun_intercepts v clean)).n2vmcb =
      (v.n1vmcb._cr_intercepts ||| v.vvmcb._cr_intercepts,
       v.n1vmcb._dr_intercepts ||| v.vvmcb._dr_intercepts,
       v.n1vmcb._general1_intercepts ||| v.vvmcb._general1_intercepts,
       v.n1vmcb._general2_intercepts ||| v.vvmcb._general2_intercepts,
       (if v.vvmcb._general1_intercepts &&& GENERAL1_INTERCEPT_PAUSE ≠ 0 then
          min v.n1vmcb._pause_filter_count v.vvmcb._pause_filter_count
        else v.n1vmcb._pause_filter_count),
       (v.n1vmcb._tsc_offset + v.vvmcb._tsc_offset) % 2 ^ 64) := by
  unfold nsvm_vmcb_prepare4vmrun_pause_tsc nsvm_vmcb_prepare4vmrun_intercepts headView
  split <;> split <;> rfl

theorem storeCollab_preserves_headView {α : Type} (k : Nat × Nat × Nat × Nat × Nat × Nat → α) :
    storeCollab.Preserves fun s => k (headView s.n2vmcb) :=
  @storeCollab_preserves_n2 _ (fun b => k (headView b)) (fun _ _ => rfl) (fun _ _ => rfl)
    (fun _ _ => rfl) (fun _ _ => rfl)

theorem tail_n2_after_segments {α : Type} {c : Collab} {g : vmcb_struct → α}
    (h : c.Preserves fun s => g s.n2vmcb) (hg : UntouchedAfterSegments g)
    (v : Vcpu) (clean : vmcbcleanbits_t) (regs : cpu_user_regs) :
    g (nsvm_vmcb_prepare4vmrun_tail c v clean regs).v.n2vmcb =
      g (nsvm_vmcb_prepare4vmrun_segments (nsvm_vmcb_prepare4vmrun_control v clean)
          clean).n2vmcb := by
  rw [tail_v, hg.save, paging_n2 h hg.np hg.h_cr3, registers_n2 h hg.fpu]

/-! ### Observations outside the function's own stores -/

theorem intercepts_frame {α : Type} {f : Vcpu → α}
    (hf : ∀ s t : Vcpu, s.outside = t.outside → f s = f t)
    (v : Vcpu) (clean : vmcbcleanbits_t) :
    f (nsvm_vmcb_prepare4vmrun_intercepts v clean) = f v := by
  apply hf
  unfold nsvm_vmcb_prepare4vmrun_intercepts
  split <;> rfl

theorem pause_tsc_frame {α : Type} {f : Vcpu → α}
    (hf : ∀ s t : Vcpu, s.outside = t.outside → f s = f t) (v : Vcpu) :
    f (nsvm_vmcb_prepare4vmrun_pause_tsc v) = f v := by
  apply hf
  unfold nsvm_vmcb_prepare4vmrun_pause_tsc
  split <;> rfl

theorem store_outside (s : Vcpu) (p : vmcb_ptr) (F : vmcb_struct → vmcb_struct)
    (hF : ∀ b, { F b with _iopm_base_pa := 0, _msrpm_base_pa := 0 } =
      { b with _iopm_base_pa := 0, _msrpm_base_pa := 0 }) :
    (s.store p F).outside = s.outside := by
  cases p
  · show { s.outside with
        n1vmcb := { F s.n1vmcb with _iopm_base_pa := 0, _msrpm_base_pa := 0 } } = s.outside
    rw [hF]
    rfl
  · rfl

theorem permissionmap_frame {α : Type} {f : Vcpu → α}
    (hf : ∀ s t : Vcpu, s.outside = t.outside → f s = f t)
    (c : Collab) (v : Vcpu) (viopm : Bool) :
    f (nsvm_vmrun_permissionmap c v viopm).1 = f v := by
  apply hf
  unfold nsvm_vmrun_permissionmap
  simp only
  split
  · rfl
  · refine (store_outside _ _ _ ?_).trans ((store_outside _ _ _ ?_).trans ?_)
    · intro b
      rfl
    · intro b
      rfl
    · rfl

theorem control_frame {α : Type} {f : Vcpu → α}
    (hf : ∀ s t : Vcpu, s.outside = t.outside → f s = f t)
    (v : Vcpu) (clean : vmcbcleanbits_t) :
    f (nsvm_vmcb_prepare4vmrun_control v clean) = f v := by
  apply hf
  unfold nsvm_vmcb_prepare4vmrun_control
  split <;> rfl

theorem segments_frame {α : Type} {f : Vcpu → α}
    (hf : ∀ s t : Vcpu, s.outside = t.outside → f s = f t)
    (v : Vcpu) (clean : vmcbcleanbits_t) :
    f (nsvm_vmcb_prepare4vmrun_segments v clean) = f v := by
  apply hf
  unfold nsvm_vmcb_prepare4vmrun_segments
  split <;> split <;> rfl

theorem save_frame {α : Type} {f : Vcpu → α}
    (hf : ∀ s t : Vcpu, s.outside = t.outside → f s = f t)
    (v : Vcpu) (clean : vmcbcleanbits_t) :
    f (nsvm_vmcb_prepare4vmrun_save v clean) = f v := by
  apply hf
  unfold nsvm_vmcb_prepare4vmrun_save
  split <;> split <;> split <;> rfl

theorem registers_frame {α : Type} {c : Collab} {f : Vcpu → α}
    (h : c.Preserves f) (hf : ∀ s t : Vcpu, s.outside = t.outside → f s = f t) (v : Vcpu) :
    f (nsvm_vmcb_prepare4vmrun_registers c v) = f v := by
  have w1 : ∀ (s : Vcpu) a, f { s with guest_efer := a } = f s := fun s a => hf _ _ rfl
  have w2 : ∀ (s : Vcpu) a, f { s with guest_cr4 := a } = f s := fun s a => hf _ _ rfl
  have w3 : ∀ (s : Vcpu) a b d, f { s with ns_cr0 := a, n2vmcb := b, guest_cr0 := d } = f s :=
    fun s a b d => hf _ _ rfl
  have w6 : ∀ (s : Vcpu) a, f { s with guest_cr2 := a } = f s := fun s a => hf _ _ rfl
  have h1 := h.hvm_set_efer
  have h2 := h.hvm_set_cr0
  have h4 := h.hvm_set_cr4
  have h5 := h.hvm_update_guest_cr
  have h6 : ∀ r, f (inject_gp_on_exception c r) = f r.1 := inject_gp_on_exception_preserves h
  unfold nsvm_vmcb_prepare4vmrun_registers
  simp only [h1, h2, h4, h5, h6, w1, w2, w3, w6]

theorem paging_frame {α : Type} {c : Collab} {f : Vcpu → α}
    (h : c.Preserves f) (hf : ∀ s t : Vcpu, s.outside = t.outside → f s = f t) (v : Vcpu) :
    f (nsvm_vmcb_prepare4vmrun_paging c v) = f v := by
  have w1 : ∀ (s : Vcpu) a, f { s with n2vmcb := a } = f s := fun s a => hf _ _ rfl
  have w2 : ∀ (s : Vcpu) a b, f { s with n2vmcb := a, ns_vmcb_hostcr3 := b } = f s :=
    fun s a b => hf _ _ rfl
  have h3 := h.hvm_set_cr3
  have h6 : ∀ r, f (inject_gp_on_exception c r) = f r.1 := inject_gp_on_exception_preserves h
  have h8 := h.p2m_get_nestedp2m
  unfold nsvm_vmcb_prepare4vmrun_paging
  split
  · unfold nestedsvm_vmcb_set_nestedp2m
    simp only [h3, h6, h8, w1, w2]
  · split
    · simp only [h3, h6, w1]
    · simp only [w1]

/-- An observation that the collaborators preserve and that ignores the
function's own stores has the same value at the branch on the paging mode
(line 569) as on entry to `nsvm_vmcb_prepare4vmrun`. -/
theorem upto_paging_frame {α : Type} {c : Collab} {f : Vcpu → α}
    (h : c.Preserves f) (hf : ∀ s t : Vcpu, s.outside = t.outside → f s = f t)
    (v : Vcpu) (clean : vmcbcleanbits_t) :
    f (nsvm_vmcb_prepare4vmrun_registers c
        (nsvm_vmcb_prepare4vmrun_segments
          (nsvm_vmcb_prepare4vmrun_control (nsvm_vmcb_prepare4vmrun_head c v clean).1 clean)
          clean)) = f v := by
  rw [registers_frame h hf, segments_frame hf, control_frame hf]
  unfold nsvm_vmcb_prepare4vmrun_head
  rw [permissionmap_frame hf, pause_tsc_frame hf, intercepts_frame hf]

/-- An observation that the collaborators preserve and that ignores the
function's own stores has the same value after `nsvm_vmcb_prepare4vmrun` as
before it. -/
theorem prepare4vmrun_frame {α : Type} {c : Collab} {f : Vcpu → α}
    (h : c.Preserves f) (hf : ∀ s t : Vcpu, s.outside = t.outside → f s = f t)
    (v : Vcpu) (regs : cpu_user_regs) :
    f (nsvm_vmcb_prepare4vmrun c v regs).v = f v := by
  have hhead : ∀ clean, f (nsvm_vmcb_prepare4vmrun_head c v clean).1 = f v := by
    intro clean
    unfold nsvm_vmcb_prepare4vmrun_head
    rw [permissionmap_frame hf, pause_tsc_frame hf, intercepts_frame hf]
  unfold nsvm_vmcb_prepare4vmrun
  simp only
  split
  · exact hhead _
  · rw [tail_v, save_frame hf, paging_frame h hf, upto_paging_frame h hf]

/-! ### Bits of the exception intercepts other than the #NM bit -/

theorem testBit_or_nm (x i : Nat) (hi : i ≠ X86_EXC_NM) :
    (x ||| (1 <<< X86_EXC_NM)).testBit i = x.testBit i := by
  have h7 : ¬ (7 = i) := fun h => hi h.symm
  have hs : (1 <<< X86_EXC_NM : Nat) = 2 ^ 7 := by decide
  rw [hs, Nat.testBit_or, Nat.testBit_two_pow, decide_eq_false h7, Bool.or_false]

theorem testBit_clear_nm (x i : Nat) (hi : i ≠ X86_EXC_NM) (h32 : i < 32) :
    (clearBits 32 x (1 <<< X86_EXC_NM)).testBit i = x.testBit i := by
  have h7 : ¬ (7 = i) := fun h => hi h.symm
  have hm : 2 ^ 32 - 1 - (1 <<< X86_EXC_NM) % 2 ^ 32 = 2 ^ 32 - (2 ^ 7 + 1) := by decide
  unfold clearBits
  rw [hm, Nat.testBit_and, Nat.testBit_two_pow_sub_succ (by decide), Nat.testBit_two_pow,
    decide_eq_false h7, decide_eq_true h32]
  simp

theorem untouched_exception_bit (i : Nat) (hi : i ≠ X86_EXC_NM) (h32 : i < 32) :
    UntouchedByTail fun b => b._exception_intercepts.testBit i where
  pm := fun _ _ _ => rfl
  fpu := by
    intro a b n1 n2
    unfold nestedsvm_fpu_vmentry
    simp only
    split
    · exact testBit_or_nm _ _ hi
    · split
      · exact testBit_clear_nm _ _ hi h32
      · rfl
  np := fun _ _ => rfl
  h_cr3 := fun _ _ => rfl
  control := by
    intro v clean
    unfold nsvm_vmcb_prepare4vmrun_control
    split <;> rfl
  segments := by
    intro v clean
    unfold nsvm_vmcb_prepare4vmrun_segments
    split <;> split <;> rfl
  save := by
    intro v clean
    unfold nsvm_vmcb_prepare4vmrun_save
    split <;> split <;> split <;> rfl

theorem merged_exception_intercepts (v : Vcpu) (clean : vmcbcleanbits_t) :
    (nsvm_vmcb_prepare4vmrun_pause_tsc
        (nsvm_vmcb_prepare4vmrun_intercepts v clean)).n2vmcb._exception_intercepts =
      v.n1vmcb._exception_intercepts ||| v.vvmcb._exception_intercepts := by
  unfold nsvm_vmcb_prepare4vmrun_pause_tsc nsvm_vmcb_prepare4vmrun_intercepts
  split <;> split <;> rfl

/-! ### The virtual-interrupt word and the paging mode -/

theorem untouched_vintr : UntouchedAfterSegments fun b => b._vintr where
  fpu := fpu_vmentry_n2 fun _ _ => rfl
  np := fun _ _ => rfl
  h_cr3 := fun _ _ => rfl
  save := by
    intro v clean
    unfold nsvm_vmcb_prepare4vmrun_save
    split <;> split <;> split <;> rfl

theorem segments_vintr (v : Vcpu) (clean : vmcbcleanbits_t) :
    (nsvm_vmcb_prepare4vmrun_segments v clean).n2vmcb._vintr = v.n2vmcb._vintr := by
  unfold nsvm_vmcb_prepare4vmrun_segments
  split <;> split <;> rfl

theorem control_vintr_copied (v : Vcpu) (clean : vmcbcleanbits_t) (h : clean.tpr = false) :
    (nsvm_vmcb_prepare4vmrun_control v clean).n2vmcb._vintr =
      { v.vvmcb._vintr with intr_masking := true } := by
  unfold nsvm_vmcb_prepare4vmrun_control
  split
  · rfl
  · contradiction

theorem control_vintr_kept (v : Vcpu) (clean : vmcbcleanbits_t) (h : clean.tpr = true) :
    (nsvm_vmcb_prepare4vmrun_control v clean).n2vmcb._vintr = v.n2vmcb._vintr := by
  unfold nsvm_vmcb_prepare4vmrun_control
  split
  · rename_i hf
    rw [h] at hf
    cases hf
  · rfl

theorem head_n2 {α : Type} {g : vmcb_struct → α}
    (hpm : ∀ b x y, g { b with _iopm_base_pa := x, _msrpm_base_pa := y } = g b)
    (c : Collab) (v : Vcpu) (clean : vmcbcleanbits_t) :
    g (nsvm_vmcb_prepare4vmrun_head c v clean).1.n2vmcb =
      g (nsvm_vmcb_prepare4vmrun_pause_tsc
          (nsvm_vmcb_prepare4vmrun_intercepts v clean)).n2vmcb :=
  permissionmap_n2 hpm c _ clean.iopm

theorem merged_vintr (v : Vcpu) (clean : vmcbcleanbits_t) :
    (nsvm_vmcb_prepare4vmrun_pause_tsc
        (nsvm_vmcb_prepare4vmrun_intercepts v clean)).n2vmcb._vintr = v.n2vmcb._vintr := by
  unfold nsvm_vmcb_prepare4vmrun_pause_tsc nsvm_vmcb_prepare4vmrun_intercepts
  split <;> split <;> rfl

/-- When the permission maps are built, the function goes on with its tail. -/
theorem prepare4vmrun_of_head (c : Collab) (v : Vcpu) (regs : cpu_user_regs)
    (hhead : (nsvm_vmcb_prepare4vmrun_head c v (nsvm_vmcb_prepare4vmrun_clean v)).2 = 0) :
    nsvm_vmcb_prepare4vmrun c v regs =
      nsvm_vmcb_prepare4vmrun_tail c
        (nsvm_vmcb_prepare4vmrun_head c v (nsvm_vmcb_prepare4vmrun_clean v)).1
        (nsvm_vmcb_prepare4vmrun_clean v) regs := by
  unfold nsvm_vmcb_prepare4vmrun
  simp only
  rw [if_neg (not_not.mpr hhead)]

theorem save_np_h_cr3 (v : Vcpu) (clean : vmcbcleanbits_t) :
    ((nsvm_vmcb_prepare4vmrun_save v clean).n2vmcb._np,
      (nsvm_vmcb_prepare4vmrun_save v clean).n2vmcb._h_cr3) =
    (v.n2vmcb._np, v.n2vmcb._h_cr3) := by
  unfold nsvm_vmcb_prepare4vmrun_save
  split <;> split <;> split <;> rfl

theorem paging_np {c : Collab} (h : c.Preserves fun s => s.n2vmcb._np) (v : Vcpu) :
    (nsvm_vmcb_prepare4vmrun_paging c v).n2vmcb._np =
      (c.nestedhvm_paging_mode_hap v || c.paging_mode_hap) := by
  have h3 : ∀ s x n d, (c.hvm_set_cr3 s x n d).1.n2vmcb._np = s.n2vmcb._np := h.hvm_set_cr3
  have h6 : ∀ r, (inject_gp_on_exception c r).n2vmcb._np = r.1.n2vmcb._np :=
    inject_gp_on_exception_preserves h
  have h8 : ∀ s, (c.p2m_get_nestedp2m s).1.n2vmcb._np = s.n2vmcb._np := h.p2m_get_nestedp2m
  unfold nsvm_vmcb_prepare4vmrun_paging
  split
  · rename_i hn
    unfold nestedsvm_vmcb_set_nestedp2m
    simp only [h3, h6, h8, hn, vmcb_set_np, Bool.true_or]
  · rename_i hn
    split
    · rename_i hp
      simp only [h3, h6, hp, vmcb_set_np, Bool.or_true]
    · rename_i hp
      simp only [vmcb_set_np]
      simp only [Bool.not_eq_true] at hn hp
      rw [hn, hp]
      rfl

theorem paging_h_cr3_shadow (c : Collab) (v : Vcpu)
    (hn : c.nestedhvm_paging_mode_hap v = false) (hp : c.paging_mode_hap = false) :
    (nsvm_vmcb_prepare4vmrun_paging c v).n2vmcb._h_cr3 = 0 := by
  unfold nsvm_vmcb_prepare4vmrun_paging
  rw [if_neg (by simp [hn]), if_neg (by simp [hp])]

theorem paging_h_cr3_host {c : Collab} (h : c.Preserves fun s => s.n2vmcb._h_cr3) (v : Vcpu)
    (hn : c.nestedhvm_paging_mode_hap v = false) (hp : c.paging_mode_hap = true) :
    (nsvm_vmcb_prepare4vmrun_paging c v).n2vmcb._h_cr3 = v.n1vmcb._h_cr3 := by
  have h3 : ∀ s x n d, (c.hvm_set_cr3 s x n d).1.n2vmcb._h_cr3 = s.n2vmcb._h_cr3 :=
    h.hvm_set_cr3
  have h6 : ∀ r, (inject_gp_on_exception c r).n2vmcb._h_cr3 = r.1.n2vmcb._h_cr3 :=
    inject_gp_on_exception_preserves h
  unfold nsvm_vmcb_prepare4vmrun_paging
  rw [if_neg (by simp [hn]), if_pos hp]
  simp only [h3, h6]

theorem outside_ns_hap_enabled (s t : Vcpu) (h : s.outside = t.outside) :
    s.ns_hap_enabled = t.ns_hap_enabled := by
  have h2 := congrArg (fun u : Vcpu => u.ns_hap_enabled) h
  exact h2

theorem outside_n1_h_cr3 (s t : Vcpu) (h : s.outside = t.outside) :
    s.n1vmcb._h_cr3 = t.n1vmcb._h_cr3 := by
  have h2 := congrArg (fun u : Vcpu => u.n1vmcb._h_cr3) h
  exact h2

/-! ### Groups copied under a clean bit -/

theorem clean_bit_true_iff (v : Vcpu) (bit : vmcbcleanbits_t → Bool) (h0 : bit {} = false) :
    bit (nsvm_vmcb_prepare4vmrun_clean v) = true ↔ cleanHonoured v (bit v.vvmcb.cleanbits) := by
  unfold nsvm_vmcb_prepare4vmrun_clean cleanHonoured
  split
  · rename_i h
    exact ⟨fun hb => ⟨h.1, h.2, hb⟩, fun hb => hb.2.2⟩
  · rename_i h
    constructor
    · intro hb
      rw [h0] at hb
      cases hb
    · intro hb
      exact absurd ⟨hb.1, hb.2.1⟩ h

theorem clean_bit_false_iff (v : Vcpu) (bit : vmcbcleanbits_t → Bool) (h0 : bit {} = false) :
    bit (nsvm_vmcb_prepare4vmrun_clean v) = false ↔
      ¬ cleanHonoured v (bit v.vvmcb.cleanbits) := by
  rw [← clean_bit_true_iff v bit h0]
  simp

theorem outside_vvmcb (s t : Vcpu) (h : s.outside = t.outside) : s.vvmcb = t.vvmcb := by
  have h2 := congrArg (fun u : Vcpu => u.vvmcb) h
  exact h2

theorem head_vvmcb (c : Collab) (v : Vcpu) (clean : vmcbcleanbits_t) :
    (nsvm_vmcb_prepare4vmrun_head c v clean).1.vvmcb = v.vvmcb := by
  unfold nsvm_vmcb_prepare4vmrun_head
  rw [permissionmap_frame outside_vvmcb, pause_tsc_frame outside_vvmcb,
    intercepts_frame outside_vvmcb]

theorem merged_groupView (v : Vcpu) (clean : vmcbcleanbits_t) :
    groupView (nsvm_vmcb_prepare4vmrun_pause_tsc
      (nsvm_vmcb_prepare4vmrun_intercepts v clean)).n2vmcb = groupView v.n2vmcb := by
  unfold nsvm_vmcb_prepare4vmrun_pause_tsc nsvm_vmcb_prepare4vmrun_intercepts
  split <;> split <;> rfl

theorem control_groupView (v : Vcpu) (clean : vmcbcleanbits_t) :
    groupView (nsvm_vmcb_prepare4vmrun_control v clean).n2vmcb =
      (segView v.n2vmcb, dtView v.n2vmcb, drView v.n2vmcb, lbrView v.n2vmcb, v.n2vmcb._g_pat,
        if clean.tpr = false then { v.vvmcb._vintr with intr_masking := true }
        else v.n2vmcb._vintr) := by
  unfold nsvm_vmcb_prepare4vmrun_control
  split <;> rfl

theorem segments_groupView (v : Vcpu) (clean : vmcbcleanbits_t) :
    groupView (nsvm_vmcb_prepare4vmrun_segments v clean).n2vmcb =
      (if clean.seg = false then segView v.vvmcb else segView v.n2vmcb,
        if clean.dt = false then dtView v.vvmcb else dtView v.n2vmcb,
        drView v.n2vmcb, lbrView v.n2vmcb, v.n2vmcb._g_pat, v.n2vmcb._vintr) := by
  unfold nsvm_vmcb_prepare4vmrun_segments
  split <;> split <;> rfl

theorem save_groupView (v : Vcpu) (clean : vmcbcleanbits_t) :
    groupView (nsvm_vmcb_prepare4vmrun_save v clean).n2vmcb =
      (segView v.n2vmcb, dtView v.n2vmcb,
        if clean.dr = false then drView v.vvmcb else drView v.n2vmcb,
        if clean.lbr = false then lbrView v.vvmcb else lbrView v.n2vmcb,
        if clean.np = false then v.vvmcb._g_pat else v.n2vmcb._g_pat,
        v.n2vmcb._vintr) := by
  unfold nsvm_vmcb_prepare4vmrun_save
  split <;> split <;> split <;> rfl

theorem outside_groupView_vvmcb (s t : Vcpu) (h : s.outside = t.outside) :
    groupView s.vvmcb = groupView t.vvmcb :=
  congrArg groupView (outside_vvmcb s t h)

/-- The six groups of the shadow block after a run of
`nsvm_vmcb_prepare4vmrun` that gets past the permission maps, in terms of the
state on entry. -/
theorem prepare4vmrun_groupView (c : Collab) (v : Vcpu) (regs : cpu_user_regs)
    (h2 : c.Preserves fun s => groupView s.n2vmcb)
    (hv : c.Preserves fun s => groupView s.vvmcb)
    (hhead : (nsvm_vmcb_prepare4vmrun_head c v (nsvm_vmcb_prepare4vmrun_clean v)).2 = 0) :
    groupView (nsvm_vmcb_prepare4vmrun c v regs).v.n2vmcb =
      (if (nsvm_vmcb_prepare4vmrun_clean v).seg = false then segView v.vvmcb
        else segView v.n2vmcb,
       if (nsvm_vmcb_prepare4vmrun_clean v).dt = false then dtView v.vvmcb
        else dtView v.n2vmcb,
       if (nsvm_vmcb_prepare4vmrun_clean v).dr = false then drView v.vvmcb
        else drView v.n2vmcb,
       if (nsvm_vmcb_prepare4vmrun_clean v).lbr = false then lbrView v.vvmcb
        else lbrView v.n2vmcb,
       if (nsvm_vmcb_prepare4vmrun_clean v).np = false then v.vvmcb._g_pat
        else v.n2vmcb._g_pat,
       if (nsvm_vmcb_prepare4vmrun_clean v).tpr = false then
        { v.vvmcb._vintr with intr_masking := true }
        else v.n2vmcb._vintr) := by
  obtain ⟨clean, hclean⟩ : ∃ cl, cl = nsvm_vmcb_prepare4vmrun_clean v := ⟨_, rfl⟩
  obtain ⟨H, hH⟩ : ∃ H, H = (nsvm_vmcb_prepare4vmrun_head c v clean).1 := ⟨_, rfl⟩
  obtain ⟨X, hX⟩ : ∃ X, X = nsvm_vmcb_prepare4vmrun_control H clean := ⟨_, rfl⟩
  obtain ⟨S, hS⟩ : ∃ S, S = nsvm_vmcb_prepare4vmrun_segments X clean := ⟨_, rfl⟩
  obtain ⟨Y, hY⟩ : ∃ Y, Y = nsvm_vmcb_prepare4vmrun_paging c
      (nsvm_vmcb_prepare4vmrun_registers c S) := ⟨_, rfl⟩
  have hfin : (nsvm_vmcb_prepare4vmrun c v regs).v = nsvm_vmcb_prepare4vmrun_save Y clean := by
    rw [prepare4vmrun_of_head c v regs hhead, tail_v, hY, hS, hX, hH, hclean]
  -- the head leaves the groups and the virtual block alone
  have hHn2 : groupView H.n2vmcb = groupView v.n2vmcb := by
    rw [hH]
    exact (@head_n2 _ groupView (fun _ _ _ => rfl) c v clean).trans (merged_groupView v clean)
  have hHvv : H.vvmcb = v.vvmcb := by
    rw [hH]
    exact head_vvmcb c v clean
  have hXvv : X.vvmcb = v.vvmcb := by
    rw [hX, control_frame outside_vvmcb, hHvv]
  have hXg := control_groupView H clean
  rw [← hX, hHvv] at hXg
  have hSg := segments_groupView X clean
  rw [← hS, hXvv] at hSg
  have hYn2 : groupView Y.n2vmcb = groupView S.n2vmcb := by
    rw [hY, paging_n2 h2 (fun _ _ => rfl) (fun _ _ => rfl),
      registers_n2 h2 (fpu_vmentry_n2 fun _ _ => rfl)]
  have hYvv : groupView Y.vvmcb = groupView v.vvmcb := by
    rw [hY, paging_frame hv outside_groupView_vvmcb, hS, hX, hH,
      upto_paging_frame hv outside_groupView_vvmcb]
  have hfg := save_groupView Y clean
  rw [← hfin] at hfg
  rw [hfg]
  -- components
  have a1 : segView Y.n2vmcb = if clean.seg = false then segView v.vvmcb
      else segView v.n2vmcb := by
    have e1 : segView Y.n2vmcb = segView S.n2vmcb := congrArg Prod.fst hYn2
    have e2 := congrArg Prod.fst hSg
    have e3 : segView X.n2vmcb = segView H.n2vmcb := congrArg Prod.fst hXg
    have e4 : segView H.n2vmcb = segView v.n2vmcb := congrArg Prod.fst hHn2
    rw [e1]
    exact e2.trans (by rw [e3, e4])
  have a2 : dtView Y.n2vmcb = if clean.dt = false then dtView v.vvmcb
      else dtView v.n2vmcb := by
    have e1 : dtView Y.n2vmcb = dtView S.n2vmcb := congrArg (fun t => t.2.1) hYn2
    have e2 := congrArg (fun t => t.2.1) hSg
    have e3 : dtView X.n2vmcb = dtView H.n2vmcb := congrArg (fun t => t.2.1) hXg
    have e4 : dtView H.n2vmcb = dtView v.n2vmcb := congrArg (fun t => t.2.1) hHn2
    rw [e1]
    exact e2.trans (by rw [e3, e4])
  have a3 : drView Y.n2vmcb = drView v.n2vmcb := by
    have e1 : drView Y.n2vmcb = drView S.n2vmcb := congrArg (fun t => t.2.2.1) hYn2
    have e2 : drView S.n2vmcb = drView X.n2vmcb := congrArg (fun t => t.2.2.1) hSg
    have e3 : drView X.n2vmcb = drView H.n2vmcb := congrArg (fun t => t.2.2.1) hXg
    have e4 : drView H.n2vmcb = drView v.n2vmcb := congrArg (fun t => t.2.2.1) hHn2
    rw [e1, e2, e3, e4]
  have a4 : lbrView Y.n2vmcb = lbrView v.n2vmcb := by
    have e1 : lbrView Y.n2vmcb = lbrView S.n2vmcb := congrArg (fun t => t.2.2.2.1) hYn2
    have e2 : lbrView S.n2vmcb = lbrView X.n2vmcb := congrArg (fun t => t.2.2.2.1) hSg
    have e3 : lbrView X.n2vmcb = lbrView H.n2vmcb := congrArg (fun t => t.2.2.2.1) hXg
    have e4 : lbrView H.n2vmcb = lbrView v.n2vmcb := congrArg (fun t => t.2.2.2.1) hHn2
    rw [e1, e2, e3, e4]
  have a5 : Y.n2vmcb._g_pat = v.n2vmcb._g_pat := by
    have e1 : Y.n2vmcb._g_pat = S.n2vmcb._g_pat := congrArg (fun t => t.2.2.2.2.1) hYn2
    have e2 : S.n2vmcb._g_pat = X.n2vmcb._g_pat := congrArg (fun t => t.2.2.2.2.1) hSg
    have e3 : X.n2vmcb._g_pat = H.n2vmcb._g_pat := congrArg (fun t => t.2.2.2.2.1) hXg
    have e4 : H.n2vmcb._g_pat = v.n2vmcb._g_pat := congrArg (fun t => t.2.2.2.2.1) hHn2
    rw [e1, e2, e3, e4]
  have a6 : Y.n2vmcb._vintr = if clean.tpr = false then
      { v.vvmcb._vintr with intr_masking := true } else v.n2vmcb._vintr := by
    have e1 : Y.n2vmcb._vintr = S.n2vmcb._vintr := congrArg (fun t => t.2.2.2.2.2) hYn2
    have e2 : S.n2vmcb._vintr = X.n2vmcb._vintr := congrArg (fun t => t.2.2.2.2.2) hSg
    have e3 := congrArg (fun t => t.2.2.2.2.2) hXg
    have e4 : H.n2vmcb._vintr = v.n2vmcb._vintr := congrArg (fun t => t.2.2.2.2.2) hHn2
    rw [e1, e2]
    exact e3.trans (by rw [e4])
  have b3 : drView Y.vvmcb = drView v.vvmcb := congrArg (fun t => t.2.2.1) hYvv
  have b4 : lbrView Y.vvmcb = lbrView v.vvmcb := congrArg (fun t => t.2.2.2.1) hYvv
  have b5 : Y.vvmcb._g_pat = v.vvmcb._g_pat := congrArg (fun t => t.2.2.2.2.1) hYvv
  rw [a1, a2, a3, a4, a5, a6, b3, b4, b5, hclean]

theorem ite_clean {α : Type} (v : Vcpu) (bit : vmcbcleanbits_t → Bool) (h0 : bit {} = false)
    (A B : α) :
    (if bit (nsvm_vmcb_prepare4vmrun_clean v) = false then A else B) =
      if cleanHonoured v (bit v.vvmcb.cleanbits) then B else A := by
  by_cases h : cleanHonoured v (bit v.vvmcb.cleanbits)
  · rw [if_pos h, if_neg]
    rw [clean_bit_false_iff v bit h0]
    exact not_not.mpr h
  · rw [if_neg h, if_pos ((clean_bit_false_iff v bit h0).mpr h)]

/-! ## The claims -/

/-- C1: once the merge step of `nsvm_vmcb_prepare4vmrun` (lines 436-472) has
run, whatever the clean bits, the CR, DR, general-1 and general-2 intercept
masks of the shadow block are the bitwise OR of the masks of the L1 block and
of the virtual block, so that every bit set in either is set in the shadow;
and the masks are still these when the function returns, if the collaborators
do not write them. -/
theorem prepare4vmrun_intercepts_union (c : Collab) (v : Vcpu) (regs : cpu_user_regs)
    (clean : vmcbcleanbits_t) :
    ((nsvm_vmcb_prepare4vmrun_intercepts v clean).n2vmcb._cr_intercepts
        = v.n1vmcb._cr_intercepts ||| v.vvmcb._cr_intercepts ∧
      (nsvm_vmcb_prepare4vmrun_intercepts v clean).n2vmcb._dr_intercepts
        = v.n1vmcb._dr_intercepts ||| v.vvmcb._dr_intercepts ∧
      (nsvm_vmcb_prepare4vmrun_intercepts v clean).n2vmcb._general1_intercepts
        = v.n1vmcb._general1_intercepts ||| v.vvmcb._general1_intercepts ∧
      (nsvm_vmcb_prepare4vmrun_intercepts v clean).n2vmcb._general2_intercepts
        = v.n1vmcb._general2_intercepts ||| v.vvmcb._general2_intercepts) ∧
    (∀ i,
      ((v.n1vmcb._cr_intercepts.testBit i = true ∨ v.vvmcb._cr_intercepts.testBit i = true) →
        (nsvm_vmcb_prepare4vmrun_intercepts v clean).n2vmcb._cr_intercepts.testBit i = true) ∧
      ((v.n1vmcb._dr_intercepts.testBit i = true ∨ v.vvmcb._dr_intercepts.testBit i = true) →
        (nsvm_vmcb_prepare4vmrun_intercepts v clean).n2vmcb._dr_intercepts.testBit i = true) ∧
      ((v.n1vmcb._general1_intercepts.testBit i = true ∨
          v.vvmcb._general1_intercepts.testBit i = true) →
        (nsvm_vmcb_prepare4vmrun_intercepts v clean).n2vmcb._general1_intercepts.testBit i
          = true) ∧
      ((v.n1vmcb._general2_intercepts.testBit i = true ∨
          v.vvmcb._general2_intercepts.testBit i = true) →
        (nsvm_vmcb_prepare4vmrun_intercepts v clean).n2vmcb._general2_intercepts.testBit i
          = true)) ∧
    ((c.Preserves fun s => (s.n2vmcb._cr_intercepts, s.n2vmcb._dr_intercepts,
        s.n2vmcb._general1_intercepts, s.n2vmcb._general2_intercepts)) →
      ((nsvm_vmcb_prepare4vmrun c v regs).v.n2vmcb._cr_intercepts,
        (nsvm_vmcb_prepare4vmrun c v regs).v.n2vmcb._dr_intercepts,
        (nsvm_vmcb_prepare4vmrun c v regs).v.n2vmcb._general1_intercepts,
        (nsvm_vmcb_prepare4vmrun c v regs).v.n2vmcb._general2_intercepts) =
      (v.n1vmcb._cr_intercepts ||| v.vvmcb._cr_intercepts,
        v.n1vmcb._dr_intercepts ||| v.vvmcb._dr_intercepts,
        v.n1vmcb._general1_intercepts ||| v.vvmcb._general1_intercepts,
        v.n1vmcb._general2_intercepts ||| v.vvmcb._general2_intercepts)) := by
  have hm : ((nsvm_vmcb_prepare4vmrun_intercepts v clean).n2vmcb._cr_intercepts
        = v.n1vmcb._cr_intercepts ||| v.vvmcb._cr_intercepts ∧
      (nsvm_vmcb_prepare4vmrun_intercepts v clean).n2vmcb._dr_intercepts
        = v.n1vmcb._dr_intercepts ||| v.vvmcb._dr_intercepts ∧
      (nsvm_vmcb_prepare4vmrun_intercepts v clean).n2vmcb._general1_intercepts
        = v.n1vmcb._general1_intercepts ||| v.vvmcb._general1_intercepts ∧
      (nsvm_vmcb_prepare4vmrun_intercepts v clean).n2vmcb._general2_intercepts
        = v.n1vmcb._general2_intercepts ||| v.vvmcb._general2_intercepts) := by
    unfold nsvm_vmcb_prepare4vmrun_intercepts
    split <;> exact ⟨rfl, rfl, rfl, rfl⟩
  refine ⟨hm, fun i => ?_, fun h => ?_⟩
  · rw [hm.1, hm.2.1, hm.2.2.1, hm.2.2.2]
    simp only [Nat.testBit_or, Bool.or_eq_true]
    exact ⟨id, id, id, id⟩
  · have hfin := prepare4vmrun_headView (fun t => (t.1, t.2.1, t.2.2.1, t.2.2.2.1)) c v regs h
    rw [headView_merged] at hfin
    exact hfin

/-- Witness of C1 with the register-file collaborators: L1 mask 5 and guest
mask 3 give the shadow CR mask 7 when the function returns. -/
theorem prepare4vmrun_intercepts_union_witness :
    (storeCollab.Preserves fun s => (s.n2vmcb._cr_intercepts, s.n2vmcb._dr_intercepts,
        s.n2vmcb._general1_intercepts, s.n2vmcb._general2_intercepts)) ∧
      (nsvm_vmcb_prepare4vmrun storeCollab composeState {}).v.n2vmcb._cr_intercepts = 7 :=
  ⟨storeCollab_preserves_headView fun t => (t.1, t.2.1, t.2.2.1, t.2.2.2.1),
    congrArg Prod.fst
      ((prepare4vmrun_intercepts_union storeCollab composeState {} {}).2.2
        (storeCollab_preserves_headView fun t => (t.1, t.2.1, t.2.2.1, t.2.2.2.1)))⟩

/-- C2, as stated, fails: with do-nothing collaborators the derivation
succeeds, the virtual block intercepts #NM, and the lazy-FPU handoff (second
branch of `nestedsvm_fpu_vmentry`) clears the #NM bit of the shadow's
exception intercepts. -/
theorem prepare4vmrun_exception_union_fails :
    (nsvm_vmcb_prepare4vmrun idleCollab lazyFpuState {}).rc = 0 ∧
      lazyFpuState.vvmcb._exception_intercepts.testBit X86_EXC_NM = true ∧
      (nsvm_vmcb_prepare4vmrun idleCollab lazyFpuState
        {}).v.n2vmcb._exception_intercepts.testBit X86_EXC_NM = false := by
  decide

/-- C2, amended: after `nsvm_vmcb_prepare4vmrun`, whatever it returns, every
bit of the 32-bit exception-intercept mask other than the #NM bit is set in
the shadow block exactly when it is set in the L1 block or in the virtual
block, so on those bits the shadow mask is a superset of both; provided the
collaborators do not write those bits of the shadow's mask. -/
theorem prepare4vmrun_exception_union_except_nm (c : Collab) (v : Vcpu) (regs : cpu_user_regs)
    (h : ∀ i, i < 32 → i ≠ X86_EXC_NM →
      c.Preserves fun s => s.n2vmcb._exception_intercepts.testBit i) :
    ∀ i, i < 32 → i ≠ X86_EXC_NM →
      ((nsvm_vmcb_prepare4vmrun c v regs).v.n2vmcb._exception_intercepts.testBit i =
          (v.n1vmcb._exception_intercepts ||| v.vvmcb._exception_intercepts).testBit i) ∧
      ((v.n1vmcb._exception_intercepts.testBit i = true ∨
          v.vvmcb._exception_intercepts.testBit i = true) →
        (nsvm_vmcb_prepare4vmrun c v regs).v.n2vmcb._exception_intercepts.testBit i = true) := by
  intro i h32 hi
  have key : (nsvm_vmcb_prepare4vmrun c v regs).v.n2vmcb._exception_intercepts.testBit i =
      (v.n1vmcb._exception_intercepts ||| v.vvmcb._exception_intercepts).testBit i := by
    have hfin := prepare4vmrun_n2 (h i h32 hi) (untouched_exception_bit i hi h32) v regs
    rw [merged_exception_intercepts] at hfin
    exact hfin
  refine ⟨key, fun hor => ?_⟩
  rw [key, Nat.testBit_or, Bool.or_eq_true]
  exact hor

/-- Witness of C2 amended with the register-file collaborators: the #GP bit
that only the L1 block intercepts is set in the shadow's mask. -/
theorem prepare4vmrun_exception_union_except_nm_witness :
    (∀ i, i < 32 → i ≠ X86_EXC_NM →
      storeCollab.Preserves fun s => s.n2vmcb._exception_intercepts.testBit i) ∧
    (nsvm_vmcb_prepare4vmrun storeCollab lazyFpuState
      {}).v.n2vmcb._exception_intercepts.testBit X86_EXC_GP = true :=
  ⟨fun i _ _ => @storeCollab_preserves_n2 _ (fun b => b._exception_intercepts.testBit i)
      (fun _ _ => rfl) (fun _ _ => rfl) (fun _ _ => rfl) (fun _ _ => rfl),
    ((prepare4vmrun_exception_union_except_nm storeCollab lazyFpuState {}
      (fun i _ _ => @storeCollab_preserves_n2 _ (fun b => b._exception_intercepts.testBit i)
        (fun _ _ => rfl) (fun _ _ => rfl) (fun _ _ => rfl) (fun _ _ => rfl)))
      X86_EXC_GP (by decide) (by decide)).2 (Or.inl (by decide))⟩

/-- C6, as stated, fails: with the intercepts clean bit set and honoured, two
runs that differ only in the CR intercepts L1 has written to its virtual block
(1 and 2) give different shadow CR intercepts (1 and 2), although the L1 block
and the cached intercepts (both 0) are the same. -/
theorem prepare4vmrun_clean_intercepts_reread :
    (nsvm_vmcb_prepare4vmrun_clean cleanState).intercepts = true ∧
      (nsvm_vmcb_prepare4vmrun_clean cleanStateRewritten).intercepts = true ∧
      cleanState.n1vmcb = cleanStateRewritten.n1vmcb ∧
      cleanState.ns_cr_intercepts = cleanStateRewritten.ns_cr_intercepts ∧
      cleanState.n1vmcb._cr_intercepts ||| cleanState.ns_cr_intercepts = 0 ∧
      (nsvm_vmcb_prepare4vmrun idleCollab cleanState {}).v.n2vmcb._cr_intercepts = 1 ∧
      (nsvm_vmcb_prepare4vmrun idleCollab cleanStateRewritten {}).v.n2vmcb._cr_intercepts = 2 := by
  decide

/-- C6, amended: when the intercepts clean bit of the virtual block is set and
the cached address is valid and is the address of the virtual block, the merge
step of `nsvm_vmcb_prepare4vmrun` leaves the five cached L1 intercepts
`ns_*_intercepts` as they were, and still merges the five shadow masks from
the L1 block and the current intercept fields of the virtual block. -/
theorem prepare4vmrun_clean_intercepts_cache (v : Vcpu)
    (hpa : v.ns_ovvmcb_pa ≠ INVALID_PADDR) (haddr : v.ns_ovvmcb_pa = v.nv_vvmcxaddr)
    (hclean : v.vvmcb.cleanbits.intercepts = true) :
    ((nsvm_vmcb_prepare4vmrun_intercepts v (nsvm_vmcb_prepare4vmrun_clean v)).ns_cr_intercepts,
      (nsvm_vmcb_prepare4vmrun_intercepts v (nsvm_vmcb_prepare4vmrun_clean v)).ns_dr_intercepts,
      (nsvm_vmcb_prepare4vmrun_intercepts v
        (nsvm_vmcb_prepare4vmrun_clean v)).ns_exception_intercepts,
      (nsvm_vmcb_prepare4vmrun_intercepts v
        (nsvm_vmcb_prepare4vmrun_clean v)).ns_general1_intercepts,
      (nsvm_vmcb_prepare4vmrun_intercepts v
        (nsvm_vmcb_prepare4vmrun_clean v)).ns_general2_intercepts) =
      (v.ns_cr_intercepts, v.ns_dr_intercepts, v.ns_exception_intercepts,
        v.ns_general1_intercepts, v.ns_general2_intercepts) ∧
    ((nsvm_vmcb_prepare4vmrun_intercepts v
        (nsvm_vmcb_prepare4vmrun_clean v)).n2vmcb._cr_intercepts,
      (nsvm_vmcb_prepare4vmrun_intercepts v
        (nsvm_vmcb_prepare4vmrun_clean v)).n2vmcb._dr_intercepts,
      (nsvm_vmcb_prepare4vmrun_intercepts v
        (nsvm_vmcb_prepare4vmrun_clean v)).n2vmcb._exception_intercepts,
      (nsvm_vmcb_prepare4vmrun_intercepts v
        (nsvm_vmcb_prepare4vmrun_clean v)).n2vmcb._general1_intercepts,
      (nsvm_vmcb_prepare4vmrun_intercepts v
        (nsvm_vmcb_prepare4vmrun_clean v)).n2vmcb._general2_intercepts) =
      (v.n1vmcb._cr_intercepts ||| v.vvmcb._cr_intercepts,
        v.n1vmcb._dr_intercepts ||| v.vvmcb._dr_intercepts,
        v.n1vmcb._exception_intercepts ||| v.vvmcb._exception_intercepts,
        v.n1vmcb._general1_intercepts ||| v.vvmcb._general1_intercepts,
        v.n1vmcb._general2_intercepts ||| v.vvmcb._general2_intercepts) := by
  have hc : (nsvm_vmcb_prepare4vmrun_clean v).intercepts = true := by
    unfold nsvm_vmcb_prepare4vmrun_clean
    rw [if_pos ⟨hpa, haddr⟩]
    exact hclean
  unfold nsvm_vmcb_prepare4vmrun_intercepts
  split
  · rename_i hf
    rw [hc] at hf
    cases hf
  · exact ⟨rfl, rfl⟩

/-- Witness of C6 amended: in `cleanStateRewritten` the cached CR intercepts
stay 0 while the shadow's are merged from the rewritten virtual block. -/
theorem prepare4vmrun_clean_intercepts_cache_witness :
    cleanStateRewritten.ns_ovvmcb_pa ≠ INVALID_PADDR ∧
      cleanStateRewritten.ns_ovvmcb_pa = cleanStateRewritten.nv_vvmcxaddr ∧
      cleanStateRewritten.vvmcb.cleanbits.intercepts = true ∧
      (nsvm_vmcb_prepare4vmrun_intercepts cleanStateRewritten
        (nsvm_vmcb_prepare4vmrun_clean cleanStateRewritten)).ns_cr_intercepts = 0 ∧
      (nsvm_vmcb_prepare4vmrun_intercepts cleanStateRewritten
        (nsvm_vmcb_prepare4vmrun_clean cleanStateRewritten)).n2vmcb._cr_intercepts = 0 ||| 2 :=
  ⟨by decide, by decide, by decide,
    congrArg Prod.fst
      (prepare4vmrun_clean_intercepts_cache cleanStateRewritten (by decide) (by decide)
        (by decide)).1,
    congrArg Prod.fst
      (prepare4vmrun_clean_intercepts_cache cleanStateRewritten (by decide) (by decide)
        (by decide)).2⟩

/-- C7: after `nsvm_vmcb_prepare4vmrun`, whatever it returns, the TSC offset
of the shadow block is the sum of the offsets of the L1 block and of the
virtual block modulo `2 ^ 64`, provided the collaborators do not write the
shadow's TSC offset; host 100 and guest 50 give 150. -/
theorem prepare4vmrun_tsc_offset (c : Collab) (v : Vcpu) (regs : cpu_user_regs)
    (h : c.Preserves fun s => s.n2vmcb._tsc_offset) :
    (nsvm_vmcb_prepare4vmrun c v regs).v.n2vmcb._tsc_offset
        = (v.n1vmcb._tsc_offset + v.vvmcb._tsc_offset) % 2 ^ 64 ∧
      (v.n1vmcb._tsc_offset = 100 → v.vvmcb._tsc_offset = 50 →
        (nsvm_vmcb_prepare4vmrun c v regs).v.n2vmcb._tsc_offset = 150) := by
  have key : (nsvm_vmcb_prepare4vmrun c v regs).v.n2vmcb._tsc_offset
      = (v.n1vmcb._tsc_offset + v.vvmcb._tsc_offset) % 2 ^ 64 := by
    have hfin := prepare4vmrun_headView (fun t => t.2.2.2.2.2) c v regs h
    rw [headView_merged] at hfin
    exact hfin
  refine ⟨key, fun h1 h2 => ?_⟩
  rw [key, h1, h2]
  rfl

/-- Witness of C7 with the register-file collaborators: host offset 100 and
guest offset 50 give 150. -/
theorem prepare4vmrun_tsc_offset_witness :
    (storeCollab.Preserves fun s => s.n2vmcb._tsc_offset) ∧
      (nsvm_vmcb_prepare4vmrun storeCollab composeState {}).v.n2vmcb._tsc_offset = 150 :=
  ⟨storeCollab_preserves_headView fun t => t.2.2.2.2.2,
    (prepare4vmrun_tsc_offset storeCollab composeState {}
      (storeCollab_preserves_headView fun t => t.2.2.2.2.2)).2 rfl rfl⟩

/-- C8: after `nsvm_vmcb_prepare4vmrun`, whatever it returns, the pause-filter
count of the shadow block is the minimum of the counts of the L1 block and of
the virtual block when the virtual block intercepts PAUSE, and the count of
the L1 block, whatever the guest's count, when it does not; provided the
collaborators do not write the shadow's pause-filter count. -/
theorem prepare4vmrun_pause_filter (c : Collab) (v : Vcpu) (regs : cpu_user_regs)
    (h : c.Preserves fun s => s.n2vmcb._pause_filter_count) :
    (v.vvmcb._general1_intercepts &&& GENERAL1_INTERCEPT_PAUSE ≠ 0 →
      (nsvm_vmcb_prepare4vmrun c v regs).v.n2vmcb._pause_filter_count
        = min v.n1vmcb._pause_filter_count v.vvmcb._pause_filter_count) ∧
    (v.vvmcb._general1_intercepts &&& GENERAL1_INTERCEPT_PAUSE = 0 →
      (nsvm_vmcb_prepare4vmrun c v regs).v.n2vmcb._pause_filter_count
        = v.n1vmcb._pause_filter_count) := by
  have hfin := prepare4vmrun_headView (fun t => t.2.2.2.2.1) c v regs h
  rw [headView_merged] at hfin
  have hfin2 : (nsvm_vmcb_prepare4vmrun c v regs).v.n2vmcb._pause_filter_count =
      if v.vvmcb._general1_intercepts &&& GENERAL1_INTERCEPT_PAUSE ≠ 0 then
        min v.n1vmcb._pause_filter_count v.vvmcb._pause_filter_count
      else v.n1vmcb._pause_filter_count := hfin
  constructor
  · intro hp
    rw [hfin2, if_pos hp]
  · intro hp
    rw [hfin2, if_neg (not_not.mpr hp)]

/-- Witness of C8 with the register-file collaborators: the guest intercepts
PAUSE, host count 10 and guest count 3 give 3. -/
theorem prepare4vmrun_pause_filter_witness :
    (storeCollab.Preserves fun s => s.n2vmcb._pause_filter_count) ∧
      composeState.vvmcb._general1_intercepts &&& GENERAL1_INTERCEPT_PAUSE ≠ 0 ∧
      (nsvm_vmcb_prepare4vmrun storeCollab composeState {}).v.n2vmcb._pause_filter_count = 3 :=
  ⟨storeCollab_preserves_headView fun t => t.2.2.2.2.1, by decide,
    (prepare4vmrun_pause_filter storeCollab composeState {}
      (storeCollab_preserves_headView fun t => t.2.2.2.2.1)).1 (by decide)⟩

/-- C9, as stated, fails: with the TPR clean bit of the virtual block set and
honoured, the derivation succeeds and leaves the shadow's virtual-interrupt
word as it was, here with the masking bit 0, although L1 asks for masking. -/
theorem prepare4vmrun_intr_masking_not_forced :
    (nsvm_vmcb_prepare4vmrun_clean cleanState).tpr = true ∧
      cleanState.vvmcb._vintr.intr_masking = true ∧
      (nsvm_vmcb_prepare4vmrun idleCollab cleanState {}).rc = 0 ∧
      (nsvm_vmcb_prepare4vmrun idleCollab cleanState {}).v.n2vmcb._vintr.intr_masking
        = false := by
  decide

/-- C9, amended: in a run of `nsvm_vmcb_prepare4vmrun` that gets past the
permission maps (line 486), the masking bit of the shadow's virtual-interrupt
word is 1 afterwards whenever the TPR clean bit is not honoured, whatever L1
asked for and whatever the shadow held; when the bit is honoured the shadow's
virtual-interrupt word is left as it was. The collaborators are assumed not
to write the shadow's virtual-interrupt word. -/
theorem prepare4vmrun_intr_masking (c : Collab) (v : Vcpu) (regs : cpu_user_regs)
    (h : c.Preserves fun s => s.n2vmcb._vintr)
    (hhead : (nsvm_vmcb_prepare4vmrun_head c v (nsvm_vmcb_prepare4vmrun_clean v)).2 = 0) :
    ((nsvm_vmcb_prepare4vmrun_clean v).tpr = false →
      (nsvm_vmcb_prepare4vmrun c v regs).v.n2vmcb._vintr.intr_masking = true) ∧
    ((nsvm_vmcb_prepare4vmrun_clean v).tpr = true →
      (nsvm_vmcb_prepare4vmrun c v regs).v.n2vmcb._vintr = v.n2vmcb._vintr) := by
  have key : (nsvm_vmcb_prepare4vmrun c v regs).v.n2vmcb._vintr =
      (nsvm_vmcb_prepare4vmrun_control
        (nsvm_vmcb_prepare4vmrun_head c v (nsvm_vmcb_prepare4vmrun_clean v)).1
        (nsvm_vmcb_prepare4vmrun_clean v)).n2vmcb._vintr := by
    rw [prepare4vmrun_of_head c v regs hhead]
    have ht := tail_n2_after_segments h untouched_vintr
      (nsvm_vmcb_prepare4vmrun_head c v (nsvm_vmcb_prepare4vmrun_clean v)).1
      (nsvm_vmcb_prepare4vmrun_clean v) regs
    rw [segments_vintr] at ht
    exact ht
  constructor
  · intro ht
    rw [key, control_vintr_copied _ _ ht]
  · intro ht
    rw [key, control_vintr_kept _ _ ht]
    have hh := @head_n2 _ (fun b => b._vintr) (fun _ _ _ => rfl) c v
      (nsvm_vmcb_prepare4vmrun_clean v)
    exact hh.trans (merged_vintr v (nsvm_vmcb_prepare4vmrun_clean v))

/-- Witness of C9 amended with the register-file collaborators: no clean bit
is set in `composeState`, and the shadow's masking bit is 1 afterwards. -/
theorem prepare4vmrun_intr_masking_witness :
    (storeCollab.Preserves fun s => s.n2vmcb._vintr) ∧
      (nsvm_vmcb_prepare4vmrun_head storeCollab composeState
        (nsvm_vmcb_prepare4vmrun_clean composeState)).2 = 0 ∧
      (nsvm_vmcb_prepare4vmrun_clean composeState).tpr = false ∧
      (nsvm_vmcb_prepare4vmrun storeCollab composeState {}).v.n2vmcb._vintr.intr_masking
        = true :=
  ⟨@storeCollab_preserves_n2 _ (fun b => b._vintr) (fun _ _ => rfl) (fun _ _ => rfl)
      (fun _ _ => rfl) (fun _ _ => rfl),
    by decide, by decide,
    (prepare4vmrun_intr_masking storeCollab composeState {}
      (@storeCollab_preserves_n2 _ (fun b => b._vintr) (fun _ _ => rfl) (fun _ _ => rfl)
        (fun _ _ => rfl) (fun _ _ => rfl)) (by decide)).1 (by decide)⟩

/-- C10: in a run of `nsvm_vmcb_prepare4vmrun` that gets past the permission
maps, and so reaches the branch on the paging mode of line 569, the shadow's
nested-paging flag is afterwards `paging_mode_hap(domain)`; with host and
guest both on shadow paging the flag is false and `h_cr3` is 0; with the host
on nested paging and the guest on shadow paging the flag is true and `h_cr3`
is that of the L1 block. The state is one of the three combinations that the
comments of lines 571, 583 and 598 name: `nestedhvm_paging_mode_hap(v)`, a
macro of asm/hvm/nestedhvm.h, holds only on a domain with nested paging. The
collaborators are assumed not to write the shadow's flag and `h_cr3`, the L1
block's `h_cr3` and `ns_hap_enabled`, on which alone
`nestedhvm_paging_mode_hap` depends. -/
theorem prepare4vmrun_paging_mode (c : Collab) (v : Vcpu) (regs : cpu_user_regs)
    (hnp : c.Preserves fun s => (s.n2vmcb._np, s.n2vmcb._h_cr3))
    (hn1 : c.Preserves fun s => s.n1vmcb._h_cr3)
    (hhap : c.Preserves fun s => s.ns_hap_enabled)
    (hdep : ∀ s t : Vcpu, s.ns_hap_enabled = t.ns_hap_enabled →
      c.nestedhvm_paging_mode_hap s = c.nestedhvm_paging_mode_hap t)
    (hmode : c.nestedhvm_paging_mode_hap v = true → c.paging_mode_hap = true)
    (hhead : (nsvm_vmcb_prepare4vmrun_head c v (nsvm_vmcb_prepare4vmrun_clean v)).2 = 0) :
    (nsvm_vmcb_prepare4vmrun c v regs).v.n2vmcb._np = c.paging_mode_hap ∧
    (c.nestedhvm_paging_mode_hap v = false → c.paging_mode_hap = false →
      (nsvm_vmcb_prepare4vmrun c v regs).v.n2vmcb._np = false ∧
      (nsvm_vmcb_prepare4vmrun c v regs).v.n2vmcb._h_cr3 = 0) ∧
    (c.nestedhvm_paging_mode_hap v = false → c.paging_mode_hap = true →
      (nsvm_vmcb_prepare4vmrun c v regs).v.n2vmcb._np = true ∧
      (nsvm_vmcb_prepare4vmrun c v regs).v.n2vmcb._h_cr3 = v.n1vmcb._h_cr3) := by
  -- the state in which line 569 tests the paging mode
  have hnested : c.nestedhvm_paging_mode_hap
      (nsvm_vmcb_prepare4vmrun_registers c
        (nsvm_vmcb_prepare4vmrun_segments
          (nsvm_vmcb_prepare4vmrun_control
            (nsvm_vmcb_prepare4vmrun_head c v (nsvm_vmcb_prepare4vmrun_clean v)).1
            (nsvm_vmcb_prepare4vmrun_clean v))
          (nsvm_vmcb_prepare4vmrun_clean v))) = c.nestedhvm_paging_mode_hap v :=
    hdep _ _ (upto_paging_frame hhap outside_ns_hap_enabled v _)
  have hcr3 : (nsvm_vmcb_prepare4vmrun_registers c
        (nsvm_vmcb_prepare4vmrun_segments
          (nsvm_vmcb_prepare4vmrun_control
            (nsvm_vmcb_prepare4vmrun_head c v (nsvm_vmcb_prepare4vmrun_clean v)).1
            (nsvm_vmcb_prepare4vmrun_clean v))
          (nsvm_vmcb_prepare4vmrun_clean v))).n1vmcb._h_cr3 = v.n1vmcb._h_cr3 :=
    upto_paging_frame hn1 outside_n1_h_cr3 v _
  have hfin := save_np_h_cr3
    (nsvm_vmcb_prepare4vmrun_paging c
      (nsvm_vmcb_prepare4vmrun_registers c
        (nsvm_vmcb_prepare4vmrun_segments
          (nsvm_vmcb_prepare4vmrun_control
            (nsvm_vmcb_prepare4vmrun_head c v (nsvm_vmcb_prepare4vmrun_clean v)).1
            (nsvm_vmcb_prepare4vmrun_clean v))
          (nsvm_vmcb_prepare4vmrun_clean v))))
    (nsvm_vmcb_prepare4vmrun_clean v)
  rw [← tail_v c _ _ regs, ← prepare4vmrun_of_head c v regs hhead] at hfin
  have hfin1 : (nsvm_vmcb_prepare4vmrun c v regs).v.n2vmcb._np =
      (nsvm_vmcb_prepare4vmrun_paging c
        (nsvm_vmcb_prepare4vmrun_registers c
          (nsvm_vmcb_prepare4vmrun_segments
            (nsvm_vmcb_prepare4vmrun_control
              (nsvm_vmcb_prepare4vmrun_head c v (nsvm_vmcb_prepare4vmrun_clean v)).1
              (nsvm_vmcb_prepare4vmrun_clean v))
            (nsvm_vmcb_prepare4vmrun_clean v)))).n2vmcb._np := congrArg Prod.fst hfin
  have hfin2 : (nsvm_vmcb_prepare4vmrun c v regs).v.n2vmcb._h_cr3 =
      (nsvm_vmcb_prepare4vmrun_paging c
        (nsvm_vmcb_prepare4vmrun_registers c
          (nsvm_vmcb_prepare4vmrun_segments
            (nsvm_vmcb_prepare4vmrun_control
              (nsvm_vmcb_prepare4vmrun_head c v (nsvm_vmcb_prepare4vmrun_clean v)).1
              (nsvm_vmcb_prepare4vmrun_clean v))
            (nsvm_vmcb_prepare4vmrun_clean v)))).n2vmcb._h_cr3 := congrArg Prod.snd hfin
  have hflag : (nsvm_vmcb_prepare4vmrun c v regs).v.n2vmcb._np =
      (c.nestedhvm_paging_mode_hap v || c.paging_mode_hap) := by
    rw [hfin1, paging_np (preserves_comp hnp Prod.fst), hnested]
  refine ⟨?_, fun hn hp => ⟨?_, ?_⟩, fun hn hp => ⟨?_, ?_⟩⟩
  · rw [hflag]
    cases hN : c.nestedhvm_paging_mode_hap v
    · rfl
    · rw [hmode hN]
      rfl
  · rw [hflag, hn, hp]
    rfl
  · rw [hfin2]
    exact paging_h_cr3_shadow c _ (hnested.trans hn) hp
  · rw [hflag, hn, hp]
    rfl
  · rw [hfin2, paging_h_cr3_host (preserves_comp hnp Prod.snd) _ (hnested.trans hn) hp, hcr3]

/-- Witness of C10 with the register-file collaborators on a domain with
nested paging and a guest on shadow paging: the flag is set, as
`paging_mode_hap(domain)` is, and the shadow's `h_cr3`, 0x7000 before, is the
L1 block's 0x5000. -/
theorem prepare4vmrun_paging_mode_witness :
    (storeCollab.Preserves fun s => (s.n2vmcb._np, s.n2vmcb._h_cr3)) ∧
      (storeCollab.Preserves fun s => s.ns_hap_enabled) ∧
      (storeCollab.nestedhvm_paging_mode_hap guestShadowState = true →
        storeCollab.paging_mode_hap = true) ∧
      (nsvm_vmcb_prepare4vmrun_head storeCollab guestShadowState
        (nsvm_vmcb_prepare4vmrun_clean guestShadowState)).2 = 0 ∧
      (nsvm_vmcb_prepare4vmrun storeCollab guestShadowState {}).v.n2vmcb._np =
        storeCollab.paging_mode_hap ∧
      (nsvm_vmcb_prepare4vmrun storeCollab guestShadowState {}).v.n2vmcb._np = true ∧
      (nsvm_vmcb_prepare4vmrun storeCollab guestShadowState {}).v.n2vmcb._h_cr3 = 0x5000 :=
  ⟨storeCollab_preserves_paging.1, storeCollab_preserves_paging.2.2, fun _ => rfl, by decide,
    (prepare4vmrun_paging_mode storeCollab guestShadowState {}
      storeCollab_preserves_paging.1 storeCollab_preserves_paging.2.1
      storeCollab_preserves_paging.2.2 (fun _ _ h => h) (fun _ => rfl) (by decide)).1,
    ((prepare4vmrun_paging_mode storeCollab guestShadowState {}
      storeCollab_preserves_paging.1 storeCollab_preserves_paging.2.1
      storeCollab_preserves_paging.2.2 (fun _ _ h => h) (fun _ => rfl) (by decide)).2.2
      (by decide) (by decide)).1,
    ((prepare4vmrun_paging_mode storeCollab guestShadowState {}
      storeCollab_preserves_paging.1 storeCollab_preserves_paging.2.1
      storeCollab_preserves_paging.2.2 (fun _ _ h => h) (fun _ => rfl) (by decide)).2.2
      (by decide) (by decide)).2⟩

/-- C5, counterexample: the claim as written fails in two ways. With the
do-nothing collaborators and no clean bit for the virtual-interrupt group, the
run succeeds and the shadow's virtual-interrupt word is not the virtual
block's (interrupt masking is forced on). With a guest-memory copy that fails,
the run returns `NSVM_ERROR_VVMCB` before any group is copied: the
descriptor-table clean bit is clear, yet the shadow's GDTR is the old one and
not the virtual block's. -/
theorem prepare4vmrun_gating_not_plain_copy :
    ((nsvm_vmcb_prepare4vmrun idleCollab gatingState {}).rc = 0 ∧
      ¬ cleanHonoured gatingState gatingState.vvmcb.cleanbits.tpr ∧
      (nsvm_vmcb_prepare4vmrun idleCollab gatingState {}).v.n2vmcb._vintr ≠
        gatingState.vvmcb._vintr) ∧
    ((nsvm_vmcb_prepare4vmrun copyFaultCollab gatingState {}).rc = NSVM_ERROR_VVMCB ∧
      ¬ cleanHonoured gatingState gatingState.vvmcb.cleanbits.dt ∧
      (nsvm_vmcb_prepare4vmrun copyFaultCollab gatingState {}).v.n2vmcb.gdtr =
        gatingState.n2vmcb.gdtr ∧
      (nsvm_vmcb_prepare4vmrun copyFaultCollab gatingState {}).v.n2vmcb.gdtr ≠
        gatingState.vvmcb.gdtr) := by
  decide

/-- C5, amended: when the permission maps are built (the head of the function
returns 0) and the collaborators write neither the six groups of the shadow
block nor those of the virtual block, each group of the shadow block after
`nsvm_vmcb_prepare4vmrun` is the shadow's old group when the group's clean bit
is set in the virtual block and `ns_ovvmcb_pa` is valid and equal to
`nv_vvmcxaddr`, and the virtual block's group otherwise; the
virtual-interrupt word is copied with interrupt masking forced on. -/
theorem prepare4vmrun_clean_gating (c : Collab) (v : Vcpu) (regs : cpu_user_regs)
    (h2 : c.Preserves fun s => groupView s.n2vmcb)
    (hv : c.Preserves fun s => groupView s.vvmcb)
    (hhead : (nsvm_vmcb_prepare4vmrun_head c v (nsvm_vmcb_prepare4vmrun_clean v)).2 = 0) :
    groupView (nsvm_vmcb_prepare4vmrun c v regs).v.n2vmcb =
      (if cleanHonoured v v.vvmcb.cleanbits.seg then segView v.n2vmcb else segView v.vvmcb,
       if cleanHonoured v v.vvmcb.cleanbits.dt then dtView v.n2vmcb else dtView v.vvmcb,
       if cleanHonoured v v.vvmcb.cleanbits.dr then drView v.n2vmcb else drView v.vvmcb,
       if cleanHonoured v v.vvmcb.cleanbits.lbr then lbrView v.n2vmcb else lbrView v.vvmcb,
       if cleanHonoured v v.vvmcb.cleanbits.np then v.n2vmcb._g_pat else v.vvmcb._g_pat,
       if cleanHonoured v v.vvmcb.cleanbits.tpr then v.n2vmcb._vintr
        else { v.vvmcb._vintr with intr_masking := true }) := by
  rw [prepare4vmrun_groupView c v regs h2 hv hhead]
  have e1 := ite_clean v (fun b => b.seg) rfl (segView v.vvmcb) (segView v.n2vmcb)
  have e2 := ite_clean v (fun b => b.dt) rfl (dtView v.vvmcb) (dtView v.n2vmcb)
  have e3 := ite_clean v (fun b => b.dr) rfl (drView v.vvmcb) (drView v.n2vmcb)
  have e4 := ite_clean v (fun b => b.lbr) rfl (lbrView v.vvmcb) (lbrView v.n2vmcb)
  have e5 := ite_clean v (fun b => b.np) rfl v.vvmcb._g_pat v.n2vmcb._g_pat
  have e6 := ite_clean v (fun b => b.tpr) rfl
    ({ v.vvmcb._vintr with intr_masking := true } : vintr_t) v.n2vmcb._vintr
  simp only at e1 e2 e3 e4 e5 e6
  rw [e1, e2, e3, e4, e5, e6]

/-- C5, witness: in `gatingState` the segment clean bit is honoured and the
descriptor-table bit is not, so ES stays and GDTR is copied. -/
theorem prepare4vmrun_clean_gating_witness :
    (nsvm_vmcb_prepare4vmrun_head idleCollab gatingState
        (nsvm_vmcb_prepare4vmrun_clean gatingState)).2 = 0 ∧
    groupView (nsvm_vmcb_prepare4vmrun idleCollab gatingState {}).v.n2vmcb =
      (if cleanHonoured gatingState gatingState.vvmcb.cleanbits.seg then
          segView gatingState.n2vmcb else segView gatingState.vvmcb,
       if cleanHonoured gatingState gatingState.vvmcb.cleanbits.dt then
          dtView gatingState.n2vmcb else dtView gatingState.vvmcb,
       if cleanHonoured gatingState gatingState.vvmcb.cleanbits.dr then
          drView gatingState.n2vmcb else drView gatingState.vvmcb,
       if cleanHonoured gatingState gatingState.vvmcb.cleanbits.lbr then
          lbrView gatingState.n2vmcb else lbrView gatingState.vvmcb,
       if cleanHonoured gatingState gatingState.vvmcb.cleanbits.np then
          gatingState.n2vmcb._g_pat else gatingState.vvmcb._g_pat,
       if cleanHonoured gatingState gatingState.vvmcb.cleanbits.tpr then
          gatingState.n2vmcb._vintr
        else { gatingState.vvmcb._vintr with intr_masking := true }) :=
  ⟨by decide, prepare4vmrun_clean_gating idleCollab gatingState {}
    (idleCollab_preserves _) (idleCollab_preserves _) (by decide)⟩

/-! ## Exit classification -/

/-- The test `mask & (1ULL << k)` of the first-pass lookup is bit `k` of the mask. -/
theorem and_exit_bits (m k : Nat) (hk : k < 64) :
    decide (m &&& (1 <<< k) % 2 ^ 64 ≠ 0) = m.testBit k := by
  have hlt : 2 ^ k < 2 ^ 64 := Nat.pow_lt_pow_right (by decide) hk
  rw [Nat.one_shiftLeft, Nat.mod_eq_of_lt hlt, Nat.and_two_pow]
  cases h : m.testBit k
  · simp
  · simp

theorem exitcode_of_first_false (c : Collab) (v : Vcpu) (regs : cpu_user_regs) (exitcode : Nat)
    (h : nsvm_vmcb_guest_intercepts_exitcode_first c v exitcode = some false) :
    nsvm_vmcb_guest_intercepts_exitcode c v regs exitcode = some (v, false) := by
  unfold nsvm_vmcb_guest_intercepts_exitcode
  rw [h]

theorem exitcode_second_plain (c : Collab) (v : Vcpu) (regs : cpu_user_regs) (exitcode : Nat)
    (hmsr : exitcode ≠ VMEXIT_MSR) (hio : exitcode ≠ VMEXIT_IOIO) :
    nsvm_vmcb_guest_intercepts_exitcode_second c v regs exitcode = (v, true) := by
  unfold nsvm_vmcb_guest_intercepts_exitcode_second
  rw [if_neg hmsr, if_neg hio]

/-- Outside the two exit codes with a second pass, the lookup returns what
the first switch decides and leaves the vcpu state. -/
theorem exitcode_of_first (c : Collab) (v : Vcpu) (regs : cpu_user_regs) (exitcode : Nat)
    (b : Bool) (hmsr : exitcode ≠ VMEXIT_MSR) (hio : exitcode ≠ VMEXIT_IOIO)
    (h : nsvm_vmcb_guest_intercepts_exitcode_first c v exitcode = some b) :
    nsvm_vmcb_guest_intercepts_exitcode c v regs exitcode = some (v, b) := by
  cases b
  · exact exitcode_of_first_false c v regs exitcode h
  · unfold nsvm_vmcb_guest_intercepts_exitcode
    rw [h]
    simp only
    rw [exitcode_second_plain c v regs exitcode hmsr hio]

theorem first_cr (c : Collab) (v : Vcpu) (exitcode : Nat)
    (h : exitcode ≤ VMEXIT_CR15_WRITE) :
    nsvm_vmcb_guest_intercepts_exitcode_first c v exitcode =
      some (v.ns_cr_intercepts.testBit (exitcode - VMEXIT_CR0_READ)) := by
  have h31 : exitcode ≤ 31 := h
  unfold nsvm_vmcb_guest_intercepts_exitcode_first
  have hc : (VMEXIT_CR0_READ ≤ exitcode ∧ exitcode ≤ VMEXIT_CR15_READ) ∨
      (VMEXIT_CR0_WRITE ≤ exitcode ∧ exitcode ≤ VMEXIT_CR15_WRITE) := by
    unfold VMEXIT_CR0_READ VMEXIT_CR15_READ VMEXIT_CR0_WRITE VMEXIT_CR15_WRITE
    omega
  rw [if_pos hc]
  simp only
  rw [and_exit_bits _ _ (by unfold VMEXIT_CR0_READ; omega)]

theorem first_dr (c : Collab) (v : Vcpu) (exitcode : Nat)
    (h : (VMEXIT_DR0_READ ≤ exitcode ∧ exitcode ≤ VMEXIT_DR7_READ) ∨
      (VMEXIT_DR0_WRITE ≤ exitcode ∧ exitcode ≤ VMEXIT_DR7_WRITE)) :
    nsvm_vmcb_guest_intercepts_exitcode_first c v exitcode =
      some (v.ns_dr_intercepts.testBit (exitcode - VMEXIT_DR0_READ)) := by
  have hr : 32 ≤ exitcode ∧ exitcode ≤ 55 := by
    unfold VMEXIT_DR0_READ VMEXIT_DR7_READ VMEXIT_DR0_WRITE VMEXIT_DR7_WRITE at h
    omega
  unfold nsvm_vmcb_guest_intercepts_exitcode_first
  have hc : ¬ ((VMEXIT_CR0_READ ≤ exitcode ∧ exitcode ≤ VMEXIT_CR15_READ) ∨
      (VMEXIT_CR0_WRITE ≤ exitcode ∧ exitcode ≤ VMEXIT_CR15_WRITE)) := by
    unfold VMEXIT_CR0_READ VMEXIT_CR15_READ VMEXIT_CR0_WRITE VMEXIT_CR15_WRITE
    omega
  rw [if_neg hc, if_pos h]
  simp only
  rw [and_exit_bits _ _ (by unfold VMEXIT_DR0_READ; omega)]

theorem first_exception (c : Collab) (v : Vcpu) (exitcode : Nat)
    (h : VMEXIT_EXCEPTION_DE ≤ exitcode ∧ exitcode ≤ VMEXIT_EXCEPTION_XF) :
    nsvm_vmcb_guest_intercepts_exitcode_first c v exitcode =
      some (v.ns_exception_intercepts.testBit (exitcode - VMEXIT_EXCEPTION_DE)) := by
  have hr : 64 ≤ exitcode ∧ exitcode ≤ 83 := h
  unfold nsvm_vmcb_guest_intercepts_exitcode_first
  have hc : ¬ ((VMEXIT_CR0_READ ≤ exitcode ∧ exitcode ≤ VMEXIT_CR15_READ) ∨
      (VMEXIT_CR0_WRITE ≤ exitcode ∧ exitcode ≤ VMEXIT_CR15_WRITE)) := by
    unfold VMEXIT_CR0_READ VMEXIT_CR15_READ VMEXIT_CR0_WRITE VMEXIT_CR15_WRITE
    omega
  have hd : ¬ ((VMEXIT_DR0_READ ≤ exitcode ∧ exitcode ≤ VMEXIT_DR7_READ) ∨
      (VMEXIT_DR0_WRITE ≤ exitcode ∧ exitcode ≤ VMEXIT_DR7_WRITE)) := by
    unfold VMEXIT_DR0_READ VMEXIT_DR7_READ VMEXIT_DR0_WRITE VMEXIT_DR7_WRITE
    omega
  rw [if_neg hc, if_neg hd, if_pos h]
  simp only
  rw [and_exit_bits _ _ (by unfold VMEXIT_EXCEPTION_DE; omega)]

theorem first_general1 (c : Collab) (v : Vcpu) (exitcode : Nat)
    (h : VMEXIT_INTR ≤ exitcode ∧ exitcode ≤ VMEXIT_SHUTDOWN) :
    nsvm_vmcb_guest_intercepts_exitcode_first c v exitcode =
      some (v.ns_general1_intercepts.testBit (exitcode - VMEXIT_INTR)) := by
  have hr : 96 ≤ exitcode ∧ exitcode ≤ 127 := h
  unfold nsvm_vmcb_guest_intercepts_exitcode_first
  have hc : ¬ ((VMEXIT_CR0_READ ≤ exitcode ∧ exitcode ≤ VMEXIT_CR15_READ) ∨
      (VMEXIT_CR0_WRITE ≤ exitcode ∧ exitcode ≤ VMEXIT_CR15_WRITE)) := by
    unfold VMEXIT_CR0_READ VMEXIT_CR15_READ VMEXIT_CR0_WRITE VMEXIT_CR15_WRITE
    omega
  have hd : ¬ ((VMEXIT_DR0_READ ≤ exitcode ∧ exitcode ≤ VMEXIT_DR7_READ) ∨
      (VMEXIT_DR0_WRITE ≤ exitcode ∧ exitcode ≤ VMEXIT_DR7_WRITE)) := by
    unfold VMEXIT_DR0_READ VMEXIT_DR7_READ VMEXIT_DR0_WRITE VMEXIT_DR7_WRITE
    omega
  have he : ¬ (VMEXIT_EXCEPTION_DE ≤ exitcode ∧ exitcode ≤ VMEXIT_EXCEPTION_XF) := by
    unfold VMEXIT_EXCEPTION_DE VMEXIT_EXCEPTION_XF
    omega
  rw [if_neg hc, if_neg hd, if_neg he, if_pos h]
  simp only
  rw [and_exit_bits _ _ (by unfold VMEXIT_INTR; omega)]

theorem first_general2 (c : Collab) (v : Vcpu) (exitcode : Nat)
    (h : VMEXIT_VMRUN ≤ exitcode ∧ exitcode ≤ VMEXIT_XSETBV) :
    nsvm_vmcb_guest_intercepts_exitcode_first c v exitcode =
      some (v.ns_general2_intercepts.testBit (exitcode - VMEXIT_VMRUN)) := by
  have hr : 128 ≤ exitcode ∧ exitcode ≤ 141 := h
  unfold nsvm_vmcb_guest_intercepts_exitcode_first
  have hc : ¬ ((VMEXIT_CR0_READ ≤ exitcode ∧ exitcode ≤ VMEXIT_CR15_READ) ∨
      (VMEXIT_CR0_WRITE ≤ exitcode ∧ exitcode ≤ VMEXIT_CR15_WRITE)) := by
    unfold VMEXIT_CR0_READ VMEXIT_CR15_READ VMEXIT_CR0_WRITE VMEXIT_CR15_WRITE
    omega
  have hd : ¬ ((VMEXIT_DR0_READ ≤ exitcode ∧ exitcode ≤ VMEXIT_DR7_READ) ∨
      (VMEXIT_DR0_WRITE ≤ exitcode ∧ exitcode ≤ VMEXIT_DR7_WRITE)) := by
    unfold VMEXIT_DR0_READ VMEXIT_DR7_READ VMEXIT_DR0_WRITE VMEXIT_DR7_WRITE
    omega
  have he : ¬ (VMEXIT_EXCEPTION_DE ≤ exitcode ∧ exitcode ≤ VMEXIT_EXCEPTION_XF) := by
    unfold VMEXIT_EXCEPTION_DE VMEXIT_EXCEPTION_XF
    omega
  have hg : ¬ (VMEXIT_INTR ≤ exitcode ∧ exitcode ≤ VMEXIT_SHUTDOWN) := by
    unfold VMEXIT_INTR VMEXIT_SHUTDOWN
    omega
  rw [if_neg hc, if_neg hd, if_neg he, if_neg hg, if_pos h]
  simp only
  rw [and_exit_bits _ _ (by unfold VMEXIT_VMRUN; omega)]

theorem first_npf (c : Collab) (v : Vcpu) :
    nsvm_vmcb_guest_intercepts_exitcode_first c v VMEXIT_NPF =
      some (c.nestedhvm_paging_mode_hap v) := by
  rfl

theorem first_invalid (c : Collab) (v : Vcpu) :
    nsvm_vmcb_guest_intercepts_exitcode_first c v VMEXIT_INVALID = some true := by
  rfl

/-- C17: the first-pass lookup of `nsvm_vmcb_guest_intercepts_exitcode`. For an
exit code of the CR, DR, exception, general-1 (MSR and IOIO apart) or
general-2 range the function returns bit `exitcode - first code of the range`
of the cached mask of that range; `VMEXIT_INVALID` is reported as
intercepted; `VMEXIT_NPF` is intercepted exactly in nested-paging mode. In
all these cases the vcpu state is left as it is. -/
theorem guest_intercepts_exitcode_first_pass (c : Collab) (v : Vcpu) (regs : cpu_user_regs)
    (exitcode : Nat) :
    (((VMEXIT_CR0_READ ≤ exitcode ∧ exitcode ≤ VMEXIT_CR15_READ) ∨
        (VMEXIT_CR0_WRITE ≤ exitcode ∧ exitcode ≤ VMEXIT_CR15_WRITE)) →
      nsvm_vmcb_guest_intercepts_exitcode c v regs exitcode =
        some (v, v.ns_cr_intercepts.testBit (exitcode - VMEXIT_CR0_READ))) ∧
    (((VMEXIT_DR0_READ ≤ exitcode ∧ exitcode ≤ VMEXIT_DR7_READ) ∨
        (VMEXIT_DR0_WRITE ≤ exitcode ∧ exitcode ≤ VMEXIT_DR7_WRITE)) →
      nsvm_vmcb_guest_intercepts_exitcode c v regs exitcode =
        some (v, v.ns_dr_intercepts.testBit (exitcode - VMEXIT_DR0_READ))) ∧
    ((VMEXIT_EXCEPTION_DE ≤ exitcode ∧ exitcode ≤ VMEXIT_EXCEPTION_XF) →
      nsvm_vmcb_guest_intercepts_exitcode c v regs exitcode =
        some (v, v.ns_exception_intercepts.testBit (exitcode - VMEXIT_EXCEPTION_DE))) ∧
    ((VMEXIT_INTR ≤ exitcode ∧ exitcode ≤ VMEXIT_SHUTDOWN) →
      exitcode ≠ VMEXIT_MSR → exitcode ≠ VMEXIT_IOIO →
      nsvm_vmcb_guest_intercepts_exitcode c v regs exitcode =
        some (v, v.ns_general1_intercepts.testBit (exitcode - VMEXIT_INTR))) ∧
    ((VMEXIT_VMRUN ≤ exitcode ∧ exitcode ≤ VMEXIT_XSETBV) →
      nsvm_vmcb_guest_intercepts_exitcode c v regs exitcode =
        some (v, v.ns_general2_intercepts.testBit (exitcode - VMEXIT_VMRUN))) ∧
    nsvm_vmcb_guest_intercepts_exitcode c v regs VMEXIT_INVALID = some (v, true) ∧
    nsvm_vmcb_guest_intercepts_exitcode c v regs VMEXIT_NPF =
      some (v, c.nestedhvm_paging_mode_hap v) := by
  refine ⟨?_, ?_, ?_, ?_, ?_, ?_, ?_⟩
  · intro h
    have hr : exitcode ≤ 31 := by
      unfold VMEXIT_CR0_READ VMEXIT_CR15_READ VMEXIT_CR0_WRITE VMEXIT_CR15_WRITE at h
      omega
    refine exitcode_of_first c v regs exitcode _ ?_ ?_ (first_cr c v exitcode hr)
    · unfold VMEXIT_MSR
      omega
    · unfold VMEXIT_IOIO
      omega
  · intro h
    have hr : 32 ≤ exitcode ∧ exitcode ≤ 55 := by
      unfold VMEXIT_DR0_READ VMEXIT_DR7_READ VMEXIT_DR0_WRITE VMEXIT_DR7_WRITE at h
      omega
    refine exitcode_of_first c v regs exitcode _ ?_ ?_ (first_dr c v exitcode h)
    · unfold VMEXIT_MSR
      omega
    · unfold VMEXIT_IOIO
      omega
  · intro h
    have hr : 64 ≤ exitcode ∧ exitcode ≤ 83 := h
    refine exitcode_of_first c v regs exitcode _ ?_ ?_ (first_exception c v exitcode h)
    · unfold VMEXIT_MSR
      omega
    · unfold VMEXIT_IOIO
      omega
  · intro h hmsr hio
    exact exitcode_of_first c v regs exitcode _ hmsr hio (first_general1 c v exitcode h)
  · intro h
    have hr : 128 ≤ exitcode ∧ exitcode ≤ 141 := h
    refine exitcode_of_first c v regs exitcode _ ?_ ?_ (first_general2 c v exitcode h)
    · unfold VMEXIT_MSR
      omega
    · unfold VMEXIT_IOIO
      omega
  · exact exitcode_of_first c v regs _ _ (by decide) (by decide) (first_invalid c v)
  · exact exitcode_of_first c v regs _ _ (by decide) (by decide) (first_npf c v)

/-- C17, witness: in `lookupState` the write of CR0 is intercepted and the
read of CR0 is not; HLT (`VMEXIT_INTR + 24`) is intercepted. -/
theorem guest_intercepts_exitcode_first_pass_witness :
    nsvm_vmcb_guest_intercepts_exitcode idleCollab lookupState {} VMEXIT_CR0_WRITE =
      some (lookupState, true) ∧
    nsvm_vmcb_guest_intercepts_exitcode idleCollab lookupState {} VMEXIT_CR0_READ =
      some (lookupState, false) ∧
    nsvm_vmcb_guest_intercepts_exitcode idleCollab lookupState {} (VMEXIT_INTR + 24) =
      some (lookupState, true) :=
  ⟨(guest_intercepts_exitcode_first_pass idleCollab lookupState {} VMEXIT_CR0_WRITE).1
      (Or.inr ⟨by decide, by decide⟩),
    (guest_intercepts_exitcode_first_pass idleCollab lookupState {} VMEXIT_CR0_READ).1
      (Or.inl ⟨by decide, by decide⟩),
    (guest_intercepts_exitcode_first_pass idleCollab lookupState {} (VMEXIT_INTR + 24)).2.2.2.1
      ⟨by decide, by decide⟩ (by decide) (by decide)⟩

/-- The verdict of `nestedsvm_check_intercepts` when the lookup returns the
flag `b` and leaves the state. -/
theorem check_intercepts_of_lookup (c : Collab) (v : Vcpu) (regs : cpu_user_regs)
    (exitcode : Nat) (b : Bool)
    (h : nsvm_vmcb_guest_intercepts_exitcode c v regs exitcode = some (v, b)) :
    nestedsvm_check_intercepts c v regs exitcode =
      (nestedsvm_check_intercepts_verdict c v exitcode b).map fun verdict => (v, verdict) := by
  unfold nestedsvm_check_intercepts
  rw [h]
  simp only
  cases nestedsvm_check_intercepts_verdict c v exitcode b <;> rfl

theorem first_fixed (c : Collab) (v : Vcpu) :
    (∃ b, nsvm_vmcb_guest_intercepts_exitcode_first c v VMEXIT_INTR = some b) ∧
    (∃ b, nsvm_vmcb_guest_intercepts_exitcode_first c v VMEXIT_NMI = some b) ∧
    (∃ b, nsvm_vmcb_guest_intercepts_exitcode_first c v VMEXIT_EXCEPTION_NM = some b) ∧
    (∃ b, nsvm_vmcb_guest_intercepts_exitcode_first c v VMEXIT_VMMCALL = some b) :=
  ⟨⟨_, rfl⟩, ⟨_, rfl⟩, ⟨_, rfl⟩, ⟨_, rfl⟩⟩

/-- C15: for `VMEXIT_INTR`, `VMEXIT_NMI` and `VMEXIT_EXCEPTION_NM` the function
`nestedsvm_check_intercepts` returns `NESTEDHVM_VMEXIT_HOST`, and for
`VMEXIT_VMMCALL` it returns `NESTEDHVM_VMEXIT_INJECT`, whatever the cached
masks and the paging modes, and it leaves the vcpu state. -/
theorem check_intercepts_fixed_overrides (c : Collab) (v : Vcpu) (regs : cpu_user_regs) :
    nestedsvm_check_intercepts c v regs VMEXIT_INTR =
      some (v, nestedhvm_vmexits.NESTEDHVM_VMEXIT_HOST) ∧
    nestedsvm_check_intercepts c v regs VMEXIT_NMI =
      some (v, nestedhvm_vmexits.NESTEDHVM_VMEXIT_HOST) ∧
    nestedsvm_check_intercepts c v regs VMEXIT_EXCEPTION_NM =
      some (v, nestedhvm_vmexits.NESTEDHVM_VMEXIT_HOST) ∧
    nestedsvm_check_intercepts c v regs VMEXIT_VMMCALL =
      some (v, nestedhvm_vmexits.NESTEDHVM_VMEXIT_INJECT) := by
  obtain ⟨⟨b1, h1⟩, ⟨b2, h2⟩, ⟨b3, h3⟩, ⟨b4, h4⟩⟩ := first_fixed c v
  refine ⟨?_, ?_, ?_, ?_⟩
  · rw [check_intercepts_of_lookup c v regs _ b1
      (exitcode_of_first c v regs _ b1 (by decide) (by decide) h1)]
    rfl
  · rw [check_intercepts_of_lookup c v regs _ b2
      (exitcode_of_first c v regs _ b2 (by decide) (by decide) h2)]
    rfl
  · rw [check_intercepts_of_lookup c v regs _ b3
      (exitcode_of_first c v regs _ b3 (by decide) (by decide) h3)]
    rfl
  · rw [check_intercepts_of_lookup c v regs _ b4
      (exitcode_of_first c v regs _ b4 (by decide) (by decide) h4)]
    rfl

/-- C16, counterexample: with the domain in HAP mode and nested paging off for
L1, `nestedsvm_check_intercepts` classifies `VMEXIT_NPF` as
`NESTEDHVM_VMEXIT_HOST`, not as `NESTEDHVM_VMEXIT_FATALERROR`. -/
theorem check_intercepts_npf_not_fatal :
    idleCollab.paging_mode_hap = true ∧
    idleCollab.nestedhvm_paging_mode_hap guestShadowState = false ∧
    (nestedsvm_check_intercepts idleCollab guestShadowState {} VMEXIT_NPF).map Prod.snd =
      some nestedhvm_vmexits.NESTEDHVM_VMEXIT_HOST ∧
    (nestedsvm_check_intercepts idleCollab guestShadowState {} VMEXIT_NPF).map Prod.snd ≠
      some nestedhvm_vmexits.NESTEDHVM_VMEXIT_FATALERROR := by
  decide

/-- C16, amended: a `VMEXIT_NPF` that arrives while the domain uses HAP and
`nestedhvm_paging_mode_hap(v)` is false is classified
`NESTEDHVM_VMEXIT_HOST` by `nestedsvm_check_intercepts`, which leaves the vcpu
state: the lookup does not report the exit as intercepted in that mode, so
line 1326 is not reached. -/
theorem check_intercepts_npf_shadow_guest (c : Collab) (v : Vcpu) (regs : cpu_user_regs)
    (hhap : c.paging_mode_hap = true) (hnested : c.nestedhvm_paging_mode_hap v = false) :
    nestedsvm_check_intercepts c v regs VMEXIT_NPF =
      some (v, nestedhvm_vmexits.NESTEDHVM_VMEXIT_HOST) := by
  have h1 := first_npf c v
  rw [hnested] at h1
  rw [check_intercepts_of_lookup c v regs _ false
    (exitcode_of_first c v regs _ false (by decide) (by decide) h1)]
  unfold nestedsvm_check_intercepts_verdict
  rw [if_neg (by decide), if_neg (by decide), if_neg (by decide), if_pos rfl, hnested, hhap]
  rfl

/-- C16, witness: `idleCollab` has the domain in HAP mode, and in
`guestShadowState` L1 has not asked for nested paging. -/
theorem check_intercepts_npf_shadow_guest_witness :
    idleCollab.paging_mode_hap = true ∧
    idleCollab.nestedhvm_paging_mode_hap guestShadowState = false ∧
    nestedsvm_check_intercepts idleCollab guestShadowState {} VMEXIT_NPF =
      some (guestShadowState, nestedhvm_vmexits.NESTEDHVM_VMEXIT_HOST) :=
  ⟨rfl, rfl, check_intercepts_npf_shadow_guest idleCollab guestShadowState {} rfl rfl⟩

/-- C20: `nsvm_vmcb_guest_intercepts_msr` returns `NESTEDHVM_VMEXIT_HOST`
exactly when `svm_msrbit` returns a region and bit `2 * (msr & 0x1fff)` (read)
or `2 * (msr & 0x1fff) + 1` (write) of that region is clear; in every other
case it returns `NESTEDHVM_VMEXIT_INJECT`. -/
theorem guest_intercepts_msr_host_iff (c : Collab) (msr_bitmap : Nat → Nat) (msr : Nat)
    (write : Bool) :
    (nsvm_vmcb_guest_intercepts_msr c msr_bitmap msr write =
        nestedhvm_vmexits.NESTEDHVM_VMEXIT_HOST ↔
      ∃ msr_bit, c.svm_msrbit msr = some msr_bit ∧
        test_bit ((msr &&& 0x1fff) * 2 + (if write = true then 1 else 0))
          (fun i => msr_bitmap (msr_bit + i)) = false) ∧
    (nsvm_vmcb_guest_intercepts_msr c msr_bitmap msr write ≠
        nestedhvm_vmexits.NESTEDHVM_VMEXIT_HOST →
      nsvm_vmcb_guest_intercepts_msr c msr_bitmap msr write =
        nestedhvm_vmexits.NESTEDHVM_VMEXIT_INJECT) := by
  unfold nsvm_vmcb_guest_intercepts_msr
  cases hreg : c.svm_msrbit msr with
  | none => simp
  | some msr_bit =>
    cases write
    · cases h : test_bit ((msr &&& 0x1fff) * 2) fun i => msr_bitmap (msr_bit + i) <;> simp [h]
    · cases h : test_bit ((msr &&& 0x1fff) * 2 + 1) fun i => msr_bitmap (msr_bit + i) <;>
        simp [h]

theorem page_bits : 8 * PAGE_SIZE = 32768 := by decide

theorem io_bitmap_bit_here (c : Collab) (v : Vcpu) (gfn port : Nat) (hp : port < 8 * PAGE_SIZE) :
    io_bitmap_bit c v gfn port = some true ↔
      (match c.hvm_map_guest_frame_ro v gfn false with
        | none => false
        | some bits => bits port) = true := by
  unfold io_bitmap_bit
  rw [Nat.div_eq_of_lt hp, Nat.mod_eq_of_lt hp, Nat.add_zero]
  cases c.hvm_map_guest_frame_ro v gfn false <;> simp

theorem io_bitmap_bit_next (c : Collab) (v : Vcpu) (gfn q : Nat) :
    io_bitmap_bit c v (gfn + 1) q = io_bitmap_bit c v gfn (8 * PAGE_SIZE + q) := by
  unfold io_bitmap_bit
  rw [page_bits]
  have h1 : gfn + 1 + q / 32768 = gfn + (32768 + q) / 32768 := by omega
  have h2 : q % 32768 = (32768 + q) % 32768 := by omega
  rw [h1, h2]

theorem forall_lt_succ_shift (P : Nat → Prop) (n : Nat) :
    (∀ i, i < n + 1 → P i) ↔ P 0 ∧ ∀ i, i < n → P (i + 1) := by
  constructor
  · intro h
    exact ⟨h 0 (Nat.succ_pos n), fun i hi => h (i + 1) (Nat.succ_lt_succ hi)⟩
  · intro h i hi
    cases i with
    | zero => exact h.1
    | succ j => exact h.2 j (Nat.lt_of_succ_lt_succ hi)

theorem ioio_loop_succ (c : Collab) (v : Vcpu) (io_bitmap : Option (Nat → Bool))
    (gfn port size : Nat) :
    nsvm_vmcb_guest_intercepts_ioio_loop c v io_bitmap gfn port (size + 1) =
      if (match io_bitmap with
          | none => false
          | some bits => bits port) = false ∨ size = 0 then
        (match io_bitmap with
          | none => false
          | some bits => bits port)
      else if (port + 1) % 2 ^ 16 = 8 * PAGE_SIZE then
        nsvm_vmcb_guest_intercepts_ioio_loop c v (c.hvm_map_guest_frame_ro v (gfn + 1) false)
          (gfn + 1) ((port + 1) % 2 ^ 16 - 8 * PAGE_SIZE) size
      else nsvm_vmcb_guest_intercepts_ioio_loop c v io_bitmap gfn ((port + 1) % 2 ^ 16) size :=
  rfl

/-- The loop of lines 907-918 returns true exactly when every bit of the
access is mapped and set. -/
theorem ioio_loop_iff (c : Collab) (v : Vcpu) : ∀ (size gfn port : Nat),
    port < 8 * PAGE_SIZE →
    (nsvm_vmcb_guest_intercepts_ioio_loop c v (c.hvm_map_guest_frame_ro v gfn false) gfn port
        (size + 1) = true ↔
      ∀ i, i < size + 1 → io_bitmap_bit c v gfn (port + i) = some true) := by
  intro size
  induction size with
  | zero =>
    intro gfn port hp
    rw [ioio_loop_succ]
    simp only [or_true, if_true]
    rw [← io_bitmap_bit_here c v gfn port hp]
    constructor
    · intro h i hi
      have h0 : i = 0 := by omega
      rw [h0]
      exact h
    · intro h
      exact h 0 (by omega)
  | succ n ih =>
    intro gfn port hp
    rw [ioio_loop_succ]
    rw [forall_lt_succ_shift]
    simp only [Nat.add_zero]
    rw [io_bitmap_bit_here c v gfn port hp]
    have hp2 : port < 32768 := by
      rw [page_bits] at hp
      exact hp
    have hmod : (port + 1) % 2 ^ 16 = port + 1 := Nat.mod_eq_of_lt (by omega)
    cases hen : (match c.hvm_map_guest_frame_ro v gfn false with
        | none => false
        | some bits => bits port)
    · simp
    · simp only [hmod, Nat.succ_ne_zero, or_false, Bool.true_eq_false, if_false, true_and]
      by_cases hq : port + 1 = 8 * PAGE_SIZE
      · rw [if_pos hq, hq, Nat.sub_self, ih (gfn + 1) 0 (by rw [page_bits]; omega)]
        constructor
        · intro h i hi
          have := h i hi
          rw [io_bitmap_bit_next, Nat.zero_add] at this
          have he : port + (i + 1) = 8 * PAGE_SIZE + i := by omega
          rw [he]
          exact this
        · intro h i hi
          have := h i hi
          have he : port + (i + 1) = 8 * PAGE_SIZE + i := by omega
          rw [he] at this
          rw [io_bitmap_bit_next, Nat.zero_add]
          exact this
      · rw [if_neg hq, ih gfn (port + 1) (by rw [page_bits] at hq ⊢; omega)]
        constructor
        · intro h i hi
          have := h i hi
          have he : port + (i + 1) = port + 1 + i := by omega
          rw [he]
          exact this
        · intro h i hi
          have := h i hi
          have he : port + (i + 1) = port + 1 + i := by omega
          rw [he] at this
          exact this

theorem ioio_size_pos (exitinfo1 : Nat) : ∃ n, ioio_size exitinfo1 = n + 1 := by
  unfold ioio_size
  split
  · exact ⟨3, rfl⟩
  · split
    · exact ⟨1, rfl⟩
    · exact ⟨0, rfl⟩

theorem ioio_eq_loop (c : Collab) (v : Vcpu) (iopm_pa exitinfo1 : Nat) :
    nsvm_vmcb_guest_intercepts_ioio c v iopm_pa exitinfo1 =
      if nsvm_vmcb_guest_intercepts_ioio_loop c v
          (c.hvm_map_guest_frame_ro v
            (if ioio_info_port exitinfo1 < 8 * PAGE_SIZE then iopm_pa >>> PAGE_SHIFT
              else iopm_pa >>> PAGE_SHIFT + 1) false)
          (if ioio_info_port exitinfo1 < 8 * PAGE_SIZE then iopm_pa >>> PAGE_SHIFT
            else iopm_pa >>> PAGE_SHIFT + 1)
          (if ioio_info_port exitinfo1 < 8 * PAGE_SIZE then ioio_info_port exitinfo1
            else ioio_info_port exitinfo1 - 8 * PAGE_SIZE)
          (ioio_size exitinfo1) = false
      then nestedhvm_vmexits.NESTEDHVM_VMEXIT_HOST
      else nestedhvm_vmexits.NESTEDHVM_VMEXIT_INJECT := by
  unfold nsvm_vmcb_guest_intercepts_ioio ioio_size
  by_cases h : ioio_info_port exitinfo1 < 8 * PAGE_SIZE
  · simp only [if_pos h]
  · simp only [if_neg h]

/-- The walk of `nsvm_vmcb_guest_intercepts_ioio` finds the access enabled
exactly when every bit of the access is mapped and set. -/
theorem ioio_enabled_iff (c : Collab) (v : Vcpu) (iopm_pa exitinfo1 : Nat) :
    nsvm_vmcb_guest_intercepts_ioio_loop c v
        (c.hvm_map_guest_frame_ro v
          (if ioio_info_port exitinfo1 < 8 * PAGE_SIZE then iopm_pa >>> PAGE_SHIFT
            else iopm_pa >>> PAGE_SHIFT + 1) false)
        (if ioio_info_port exitinfo1 < 8 * PAGE_SIZE then iopm_pa >>> PAGE_SHIFT
          else iopm_pa >>> PAGE_SHIFT + 1)
        (if ioio_info_port exitinfo1 < 8 * PAGE_SIZE then ioio_info_port exitinfo1
          else ioio_info_port exitinfo1 - 8 * PAGE_SIZE)
        (ioio_size exitinfo1) = true ↔
      ∀ i, i < ioio_size exitinfo1 →
        io_bitmap_bit c v (iopm_pa >>> PAGE_SHIFT) (ioio_info_port exitinfo1 + i) = some true := by
  obtain ⟨n, hn⟩ := ioio_size_pos exitinfo1
  have hport : ioio_info_port exitinfo1 < 65536 := by
    unfold ioio_info_port
    exact Nat.mod_lt _ (by decide)
  rw [hn]
  by_cases h : ioio_info_port exitinfo1 < 8 * PAGE_SIZE
  · simp only [if_pos h]
    exact ioio_loop_iff c v n _ _ h
  · simp only [if_neg h]
    have h2 : ioio_info_port exitinfo1 - 8 * PAGE_SIZE < 8 * PAGE_SIZE := by
      rw [page_bits] at h ⊢
      omega
    rw [ioio_loop_iff c v n _ _ h2]
    have he : ∀ i, ioio_info_port exitinfo1 - 8 * PAGE_SIZE + i + 8 * PAGE_SIZE =
        ioio_info_port exitinfo1 + i := by
      intro i
      rw [page_bits] at h ⊢
      omega
    constructor
    · intro hh i hi
      have := hh i hi
      rw [io_bitmap_bit_next, Nat.add_comm (8 * PAGE_SIZE), he] at this
      exact this
    · intro hh i hi
      have := hh i hi
      rw [io_bitmap_bit_next, Nat.add_comm (8 * PAGE_SIZE), he]
      exact this

theorem ioio_inject_iff (c : Collab) (v : Vcpu) (iopm_pa exitinfo1 : Nat) :
    nsvm_vmcb_guest_intercepts_ioio c v iopm_pa exitinfo1 =
        nestedhvm_vmexits.NESTEDHVM_VMEXIT_INJECT ↔
      ∀ i, i < ioio_size exitinfo1 →
        io_bitmap_bit c v (iopm_pa >>> PAGE_SHIFT) (ioio_info_port exitinfo1 + i) = some true := by
  rw [ioio_eq_loop, ← ioio_enabled_iff]
  generalize nsvm_vmcb_guest_intercepts_ioio_loop c v _ _ _ _ = b
  cases b <;> simp

theorem ioio_host_iff (c : Collab) (v : Vcpu) (iopm_pa exitinfo1 : Nat) :
    nsvm_vmcb_guest_intercepts_ioio c v iopm_pa exitinfo1 =
        nestedhvm_vmexits.NESTEDHVM_VMEXIT_HOST ↔
      ¬ ∀ i, i < ioio_size exitinfo1 →
        io_bitmap_bit c v (iopm_pa >>> PAGE_SHIFT) (ioio_info_port exitinfo1 + i) = some true := by
  rw [ioio_eq_loop, ← ioio_enabled_iff]
  generalize nsvm_vmcb_guest_intercepts_ioio_loop c v _ _ _ _ = b
  cases b <;> simp

theorem io_bitmap_bit_of_map (c : Collab) (v : Vcpu) (gfn q : Nat) (bits : Nat → Bool)
    (h : c.hvm_map_guest_frame_ro v (gfn + q / (8 * PAGE_SIZE)) false = some bits) :
    io_bitmap_bit c v gfn q = some (bits (q % (8 * PAGE_SIZE))) := by
  unfold io_bitmap_bit
  rw [h]
  rfl

theorem io_bitmap_bit_of_unmapped (c : Collab) (v : Vcpu) (gfn q : Nat)
    (h : c.hvm_map_guest_frame_ro v (gfn + q / (8 * PAGE_SIZE)) false = none) :
    io_bitmap_bit c v gfn q = none := by
  unfold io_bitmap_bit
  rw [h]
  rfl

/-- C18: with every frame of L1's I/O bitmap that the access needs mappable
(`mem` gives the bits of the frames), `nsvm_vmcb_guest_intercepts_ioio` decodes
the port (16 bits) and the size (4 if `sz32`, else 2 if `sz16`, else 1) from
EXITINFO1 and returns `NESTEDHVM_VMEXIT_INJECT` exactly when each of the bits
`port`, ..., `port + size - 1` of the bitmap is set, and
`NESTEDHVM_VMEXIT_HOST` otherwise; the bitmap is the array of bits over the
consecutive frames from frame `iopm_pa >> PAGE_SHIFT`, so that bit `q` is bit
`q % 32768` of frame number `q / 32768` of the array. -/
theorem guest_intercepts_ioio_walk (c : Collab) (v : Vcpu) (iopm_pa exitinfo1 : Nat)
    (mem : Nat → Nat → Bool)
    (hmap : ∀ i, i < ioio_size exitinfo1 →
      c.hvm_map_guest_frame_ro v
          (iopm_pa >>> PAGE_SHIFT + (ioio_info_port exitinfo1 + i) / (8 * PAGE_SIZE)) false =
        some (mem (iopm_pa >>> PAGE_SHIFT + (ioio_info_port exitinfo1 + i) / (8 * PAGE_SIZE)))) :
    ioio_info_port exitinfo1 < 2 ^ 16 ∧
    ioio_size exitinfo1 = (if ioio_info_sz32 exitinfo1 = true then 4
      else if ioio_info_sz16 exitinfo1 = true then 2 else 1) ∧
    (nsvm_vmcb_guest_intercepts_ioio c v iopm_pa exitinfo1 =
        nestedhvm_vmexits.NESTEDHVM_VMEXIT_INJECT ↔
      ∀ i, i < ioio_size exitinfo1 →
        mem (iopm_pa >>> PAGE_SHIFT + (ioio_info_port exitinfo1 + i) / (8 * PAGE_SIZE))
          ((ioio_info_port exitinfo1 + i) % (8 * PAGE_SIZE)) = true) ∧
    (nsvm_vmcb_guest_intercepts_ioio c v iopm_pa exitinfo1 =
        nestedhvm_vmexits.NESTEDHVM_VMEXIT_HOST ↔
      ¬ ∀ i, i < ioio_size exitinfo1 →
        mem (iopm_pa >>> PAGE_SHIFT + (ioio_info_port exitinfo1 + i) / (8 * PAGE_SIZE))
          ((ioio_info_port exitinfo1 + i) % (8 * PAGE_SIZE)) = true) := by
  have hbits : (∀ i, i < ioio_size exitinfo1 →
      io_bitmap_bit c v (iopm_pa >>> PAGE_SHIFT) (ioio_info_port exitinfo1 + i) = some true) ↔
      ∀ i, i < ioio_size exitinfo1 →
        mem (iopm_pa >>> PAGE_SHIFT + (ioio_info_port exitinfo1 + i) / (8 * PAGE_SIZE))
          ((ioio_info_port exitinfo1 + i) % (8 * PAGE_SIZE)) = true := by
    constructor
    · intro h i hi
      have h1 := h i hi
      rw [io_bitmap_bit_of_map c v _ _ _ (hmap i hi)] at h1
      exact Option.some.inj h1
    · intro h i hi
      rw [io_bitmap_bit_of_map c v _ _ _ (hmap i hi), h i hi]
  refine ⟨?_, rfl, ?_, ?_⟩
  · unfold ioio_info_port
    exact Nat.mod_lt _ (by decide)
  · rw [ioio_inject_iff, hbits]
  · rw [ioio_host_iff, hbits]

/-- C18, witness: a 16-bit access to port 0x7FFF with the bitmap at 0x1000
straddles frames 1 and 2; bit 0 of frame 2 is clear, so the verdict is
`NESTEDHVM_VMEXIT_HOST`. -/
theorem guest_intercepts_ioio_walk_witness :
    ioio_info_port 0x7FFF0020 = 0x7FFF ∧ ioio_size 0x7FFF0020 = 2 ∧
    nsvm_vmcb_guest_intercepts_ioio ioBitmapCollab {} 0x1000 0x7FFF0020 =
      nestedhvm_vmexits.NESTEDHVM_VMEXIT_HOST ∧
    (nsvm_vmcb_guest_intercepts_ioio ioBitmapCollab {} 0x1000 0x7FFF0020 =
        nestedhvm_vmexits.NESTEDHVM_VMEXIT_HOST ↔
      ¬ ∀ i, i < ioio_size 0x7FFF0020 →
        ioBitmapFrames (0x1000 >>> PAGE_SHIFT + (ioio_info_port 0x7FFF0020 + i) / (8 * PAGE_SIZE))
          ((ioio_info_port 0x7FFF0020 + i) % (8 * PAGE_SIZE)) = true) :=
  ⟨by decide, by decide, by decide,
    (guest_intercepts_ioio_walk ioBitmapCollab {} 0x1000 0x7FFF0020 ioBitmapFrames
      (fun _ _ => rfl)).2.2.2⟩

/-- C19, counterexample: with no frame of the bitmap mappable,
`nsvm_vmcb_guest_intercepts_ioio` returns `NESTEDHVM_VMEXIT_HOST`, not
`NESTEDHVM_VMEXIT_INJECT`. -/
theorem guest_intercepts_ioio_unmapped_not_inject :
    (idleCollab.hvm_map_guest_frame_ro {} (0x1000 >>> PAGE_SHIFT) false).isNone = true ∧
    nsvm_vmcb_guest_intercepts_ioio idleCollab {} 0x1000 0 =
      nestedhvm_vmexits.NESTEDHVM_VMEXIT_HOST ∧
    nsvm_vmcb_guest_intercepts_ioio idleCollab {} 0x1000 0 ≠
      nestedhvm_vmexits.NESTEDHVM_VMEXIT_INJECT := by
  decide

/-- C19, amended: if a frame of L1's I/O permission bitmap that holds one of
the bits of the access cannot be mapped, `nsvm_vmcb_guest_intercepts_ioio`
returns `NESTEDHVM_VMEXIT_HOST`: line 909 takes a NULL mapping as a clear
bit. -/
theorem guest_intercepts_ioio_unmapped_host (c : Collab) (v : Vcpu) (iopm_pa exitinfo1 : Nat)
    (i : Nat) (hi : i < ioio_size exitinfo1)
    (hnone : c.hvm_map_guest_frame_ro v
      (iopm_pa >>> PAGE_SHIFT + (ioio_info_port exitinfo1 + i) / (8 * PAGE_SIZE)) false = none) :
    nsvm_vmcb_guest_intercepts_ioio c v iopm_pa exitinfo1 =
      nestedhvm_vmexits.NESTEDHVM_VMEXIT_HOST := by
  rw [ioio_host_iff]
  intro h
  have h1 := h i hi
  rw [io_bitmap_bit_of_unmapped c v _ _ hnone] at h1
  cases h1

/-- C19, witness: `idleCollab` maps no frame; a one-byte access to port 0. -/
theorem guest_intercepts_ioio_unmapped_host_witness :
    0 < ioio_size 0 ∧
    idleCollab.hvm_map_guest_frame_ro {}
      (0x1000 >>> PAGE_SHIFT + (ioio_info_port 0 + 0) / (8 * PAGE_SIZE)) false = none ∧
    nsvm_vmcb_guest_intercepts_ioio idleCollab {} 0x1000 0 =
      nestedhvm_vmexits.NESTEDHVM_VMEXIT_HOST :=
  ⟨by decide, rfl, guest_intercepts_ioio_unmapped_host idleCollab {} 0x1000 0 0 (by decide) rfl⟩

/-! ## Entry failures and the switch routine -/

theorem strictCollab_preserves {α : Type} (f : Vcpu → α) : strictCollab.Preserves f :=
  ⟨fun _ _ => rfl, fun _ _ _ => rfl, fun _ _ _ _ => rfl, fun _ _ _ => rfl, fun _ _ => rfl,
    fun _ _ _ => rfl, fun _ _ => rfl, fun _ => rfl, fun _ => rfl, fun _ _ => rfl,
    fun _ => rfl, fun _ => rfl⟩

theorem vmentry_eq (c : Collab) (v : Vcpu) (regs : cpu_user_regs) (inst_len : Nat) :
    nsvm_vcpu_vmentry c v regs inst_len =
      if (nsvm_vmcb_prepare4vmrun c (nsvm_vcpu_vmentry_switched c v inst_len) regs).rc ≠ 0 then
        nsvm_vmcb_prepare4vmrun c (nsvm_vcpu_vmentry_switched c v inst_len) regs
      else
        { v := nestedsvm_vcpu_stgi
            (nsvm_vmcb_prepare4vmrun c (nsvm_vcpu_vmentry_switched c v inst_len) regs).v,
          regs := (nsvm_vmcb_prepare4vmrun c (nsvm_vcpu_vmentry_switched c v inst_len) regs).regs,
          rc := 0 } := by
  rfl

/-- A run of `nsvm_vmcb_prepare4vmrun` that gets past the permission maps ends
with the validation of lines 653-673 on the state it returns. -/
theorem prepare4vmrun_validate (c : Collab) (v : Vcpu) (regs : cpu_user_regs)
    (hhead : (nsvm_vmcb_prepare4vmrun_head c v (nsvm_vmcb_prepare4vmrun_clean v)).2 = 0) :
    nsvm_vmcb_prepare4vmrun c v regs =
      nsvm_vmcb_prepare4vmrun_validate c (nsvm_vmcb_prepare4vmrun c v regs).v regs := by
  rw [prepare4vmrun_of_head c v regs hhead]
  unfold nsvm_vmcb_prepare4vmrun_tail
  simp only
  rw [validate_v]

theorem validate_virtual (c : Collab) (s : Vcpu) (regs : cpu_user_regs)
    (h : c.svm_vmcb_isvalid s.vvmcb s = true) :
    nsvm_vmcb_prepare4vmrun_validate c s regs = { v := s, regs := regs, rc := NSVM_ERROR_VVMCB } := by
  unfold nsvm_vmcb_prepare4vmrun_validate
  rw [if_pos h]

theorem validate_shadow (c : Collab) (s : Vcpu) (regs : cpu_user_regs)
    (h1 : c.svm_vmcb_isvalid s.vvmcb s = false) (h2 : c.svm_vmcb_isvalid s.n2vmcb s = true) :
    nsvm_vmcb_prepare4vmrun_validate c s regs =
      { v := s, regs := regs, rc := NSVM_ERROR_VMENTRY } := by
  unfold nsvm_vmcb_prepare4vmrun_validate
  rw [if_neg (by rw [h1]; decide), if_pos h2]

/-- What `nsvm_vcpu_vmrun` does when the instruction decodes and the
derivation of the shadow block fails. -/
theorem vmrun_of_failed (c : Collab) (v : Vcpu) (regs : cpu_user_regs)
    (hlen : (c.svm_get_insn_len v).2 ≠ 0) (hrc : (nsvm_vcpu_vmrun_derive c v regs).rc ≠ 0) :
    nsvm_vcpu_vmrun c v regs =
      if (nsvm_vcpu_vmrun_derive c v regs).rc = NSVM_ERROR_VVMCB then
        { v := { nestedhvm_vcpu_enter_guestmode (nsvm_vcpu_vmrun_derive c v regs).v with
            ns_vmexit := { (nsvm_vcpu_vmrun_derive c v regs).v.ns_vmexit with
              exitcode := VMEXIT_INVALID } },
          regs := (nsvm_vcpu_vmrun_derive c v regs).regs, rc := -1 }
      else
        { v := { c.hvm_inject_hw_exception
              (nestedhvm_vcpu_enter_guestmode (nsvm_vcpu_vmrun_derive c v regs).v)
              X86_EXC_UD X86_EVENT_NO_EC with nv_vmswitch_in_progress := false },
          regs := (nsvm_vcpu_vmrun_derive c v regs).regs, rc := 1 } := by
  unfold nsvm_vcpu_vmrun_derive at hrc ⊢
  unfold nsvm_vcpu_vmrun
  simp only
  rw [if_neg hlen, vmentry_eq, if_pos hrc, if_neg hrc]
  rfl

theorem vmrun_zero_length_eq (c : Collab) (v : Vcpu) (regs : cpu_user_regs)
    (hlen : (c.svm_get_insn_len v).2 = 0) :
    nsvm_vcpu_vmrun c v regs =
      { v := { (c.svm_get_insn_len v).1 with
          ns_vmexit := { (c.svm_get_insn_len v).1.ns_vmexit with exitcode := VMEXIT_SHUTDOWN } },
        regs := regs, rc := -1 } := by
  unfold nsvm_vcpu_vmrun
  simp only
  rw [if_pos hlen]

/-- The two validation failures of `nsvm_vmcb_prepare4vmrun`, for a run that
gets past the permission maps: the error code, with `regs` as on entry. -/
theorem prepare4vmrun_validation (c : Collab) (s : Vcpu) (regs : cpu_user_regs)
    (hhead : (nsvm_vmcb_prepare4vmrun_head c s (nsvm_vmcb_prepare4vmrun_clean s)).2 = 0) :
    (c.svm_vmcb_isvalid (nsvm_vmcb_prepare4vmrun c s regs).v.vvmcb
        (nsvm_vmcb_prepare4vmrun c s regs).v = true →
      (nsvm_vmcb_prepare4vmrun c s regs).rc = NSVM_ERROR_VVMCB ∧
      (nsvm_vmcb_prepare4vmrun c s regs).regs = regs) ∧
    (c.svm_vmcb_isvalid (nsvm_vmcb_prepare4vmrun c s regs).v.vvmcb
        (nsvm_vmcb_prepare4vmrun c s regs).v = false →
      c.svm_vmcb_isvalid (nsvm_vmcb_prepare4vmrun c s regs).v.n2vmcb
        (nsvm_vmcb_prepare4vmrun c s regs).v = true →
      (nsvm_vmcb_prepare4vmrun c s regs).rc = NSVM_ERROR_VMENTRY ∧
      (nsvm_vmcb_prepare4vmrun c s regs).regs = regs) := by
  have hval := prepare4vmrun_validate c s regs hhead
  constructor
  · intro hbad
    have hd := hval
    rw [validate_virtual c _ regs hbad] at hd
    constructor
    · rw [hd]
    · rw [hd]
  · intro hok hbad
    have hd := hval
    rw [validate_shadow c _ regs hok hbad] at hd
    constructor
    · rw [hd]
    · rw [hd]

/-- C11: in a run that gets past the permission maps, `nsvm_vmcb_prepare4vmrun`
returns `NSVM_ERROR_VVMCB` when the virtual block fails `svm_vmcb_isvalid` and
`NSVM_ERROR_VMENTRY` when the virtual block passes and the shadow block
fails, with `regs` as on entry; when `nsvm_vcpu_vmrun` has decoded the
instruction, the first code makes it return -1 with the pending exit code
`VMEXIT_INVALID` and the second makes it inject #UD and return 1, in both
cases with `regs` as on entry. -/
theorem vmrun_validation_failures (c : Collab) (v : Vcpu) (regs : cpu_user_regs)
    (hlen : (c.svm_get_insn_len v).2 ≠ 0) :
    (∀ s : Vcpu,
      (nsvm_vmcb_prepare4vmrun_head c s (nsvm_vmcb_prepare4vmrun_clean s)).2 = 0 →
      (c.svm_vmcb_isvalid (nsvm_vmcb_prepare4vmrun c s regs).v.vvmcb
          (nsvm_vmcb_prepare4vmrun c s regs).v = true →
        (nsvm_vmcb_prepare4vmrun c s regs).rc = NSVM_ERROR_VVMCB ∧
        (nsvm_vmcb_prepare4vmrun c s regs).regs = regs) ∧
      (c.svm_vmcb_isvalid (nsvm_vmcb_prepare4vmrun c s regs).v.vvmcb
          (nsvm_vmcb_prepare4vmrun c s regs).v = false →
        c.svm_vmcb_isvalid (nsvm_vmcb_prepare4vmrun c s regs).v.n2vmcb
          (nsvm_vmcb_prepare4vmrun c s regs).v = true →
        (nsvm_vmcb_prepare4vmrun c s regs).rc = NSVM_ERROR_VMENTRY ∧
        (nsvm_vmcb_prepare4vmrun c s regs).regs = regs)) ∧
    ((nsvm_vcpu_vmrun_derive c v regs).rc = NSVM_ERROR_VVMCB →
      (nsvm_vcpu_vmrun_derive c v regs).regs = regs →
      (nsvm_vcpu_vmrun c v regs).rc = -1 ∧
      (nsvm_vcpu_vmrun c v regs).v.ns_vmexit.exitcode = VMEXIT_INVALID ∧
      (nsvm_vcpu_vmrun c v regs).regs = regs) ∧
    ((nsvm_vcpu_vmrun_derive c v regs).rc = NSVM_ERROR_VMENTRY →
      (nsvm_vcpu_vmrun_derive c v regs).regs = regs →
      (nsvm_vcpu_vmrun c v regs).rc = 1 ∧
      (nsvm_vcpu_vmrun c v regs).v =
        { c.hvm_inject_hw_exception
            (nestedhvm_vcpu_enter_guestmode (nsvm_vcpu_vmrun_derive c v regs).v)
            X86_EXC_UD X86_EVENT_NO_EC with nv_vmswitch_in_progress := false } ∧
      (nsvm_vcpu_vmrun c v regs).regs = regs) := by
  refine ⟨fun s hhead => prepare4vmrun_validation c s regs hhead, ?_, ?_⟩
  · intro hrc hregs
    have hne : (nsvm_vcpu_vmrun_derive c v regs).rc ≠ 0 := by
      rw [hrc]
      decide
    rw [vmrun_of_failed c v regs hlen hne, if_pos hrc]
    exact ⟨rfl, rfl, hregs⟩
  · intro hrc hregs
    have hne : (nsvm_vcpu_vmrun_derive c v regs).rc ≠ 0 := by
      rw [hrc]
      decide
    have hnv : ¬ (nsvm_vcpu_vmrun_derive c v regs).rc = NSVM_ERROR_VVMCB := by
      rw [hrc]
      decide
    rw [vmrun_of_failed c v regs hlen hne, if_neg hnv]
    exact ⟨rfl, rfl, hregs⟩

/-- C11, witness: with the validator of `strictCollab`, the virtual block of
`badVirtualState` is rejected, and that of `badShadowState` passes while its
shadow block is rejected. -/
theorem vmrun_validation_failures_witness :
    (strictCollab.svm_get_insn_len badVirtualState).2 ≠ 0 ∧
    ((nsvm_vcpu_vmrun_derive strictCollab badVirtualState {}).rc = NSVM_ERROR_VVMCB ∧
      (nsvm_vcpu_vmrun strictCollab badVirtualState {}).rc = -1 ∧
      (nsvm_vcpu_vmrun strictCollab badVirtualState {}).v.ns_vmexit.exitcode = VMEXIT_INVALID ∧
      (nsvm_vcpu_vmrun strictCollab badVirtualState {}).regs = {}) ∧
    ((nsvm_vcpu_vmrun_derive strictCollab badShadowState {}).rc = NSVM_ERROR_VMENTRY ∧
      (nsvm_vcpu_vmrun strictCollab badShadowState {}).rc = 1 ∧
      (nsvm_vcpu_vmrun strictCollab badShadowState {}).regs = {}) :=
  have h1 := vmrun_validation_failures strictCollab badVirtualState {} (by decide)
  have h2 := vmrun_validation_failures strictCollab badShadowState {} (by decide)
  have a1 := (h1.1 _ (by decide)).1 (by decide)
  have a2 := (h2.1 _ (by decide)).2 (by decide) (by decide)
  have b1 := h1.2.1 a1.1 a1.2
  have b2 := h2.2.2 a2.1 a2.2
  ⟨by decide, ⟨a1.1, b1⟩, ⟨a2.1, b2.1, b2.2.2⟩⟩

/-- C12: when the decoded length of VMRUN is 0, `nsvm_vcpu_vmrun` returns -1
with `ns_vmexit.exitcode` set to `VMEXIT_SHUTDOWN` and stores nothing else:
the guest mode, `nv_vmswitch_in_progress`, the active block pointer, the
three control blocks and `regs` are as on entry, the decoder
(`svm_get_insn_len`, not in this file) being assumed to leave them. -/
theorem vmrun_zero_length (c : Collab) (v : Vcpu) (regs : cpu_user_regs)
    (hdec : ((c.svm_get_insn_len v).1.nv_guestmode,
        (c.svm_get_insn_len v).1.nv_vmswitch_in_progress, (c.svm_get_insn_len v).1.vmcb,
        (c.svm_get_insn_len v).1.n1vmcb, (c.svm_get_insn_len v).1.n2vmcb,
        (c.svm_get_insn_len v).1.vvmcb) =
      (v.nv_guestmode, v.nv_vmswitch_in_progress, v.vmcb, v.n1vmcb, v.n2vmcb, v.vvmcb))
    (hlen : (c.svm_get_insn_len v).2 = 0) :
    (nsvm_vcpu_vmrun c v regs).rc = -1 ∧
    (nsvm_vcpu_vmrun c v regs).v.ns_vmexit.exitcode = VMEXIT_SHUTDOWN ∧
    (nsvm_vcpu_vmrun c v regs).regs = regs ∧
    (nsvm_vcpu_vmrun c v regs).v =
      { (c.svm_get_insn_len v).1 with
        ns_vmexit := { (c.svm_get_insn_len v).1.ns_vmexit with exitcode := VMEXIT_SHUTDOWN } } ∧
    ((nsvm_vcpu_vmrun c v regs).v.nv_guestmode,
        (nsvm_vcpu_vmrun c v regs).v.nv_vmswitch_in_progress, (nsvm_vcpu_vmrun c v regs).v.vmcb,
        (nsvm_vcpu_vmrun c v regs).v.n1vmcb, (nsvm_vcpu_vmrun c v regs).v.n2vmcb,
        (nsvm_vcpu_vmrun c v regs).v.vvmcb) =
      (v.nv_guestmode, v.nv_vmswitch_in_progress, v.vmcb, v.n1vmcb, v.n2vmcb, v.vvmcb) := by
  rw [vmrun_zero_length_eq c v regs hlen]
  exact ⟨rfl, rfl, rfl, rfl, hdec⟩

/-- C12, witness: the decoder of `noInsnCollab` returns 0 and leaves the state. -/
theorem vmrun_zero_length_witness :
    (noInsnCollab.svm_get_insn_len bothPendingState).2 = 0 ∧
    (nsvm_vcpu_vmrun noInsnCollab bothPendingState {}).rc = -1 ∧
    (nsvm_vcpu_vmrun noInsnCollab bothPendingState {}).v.ns_vmexit.exitcode = VMEXIT_SHUTDOWN ∧
    (nsvm_vcpu_vmrun noInsnCollab bothPendingState {}).v.nv_guestmode =
      bothPendingState.nv_guestmode ∧
    (nsvm_vcpu_vmrun noInsnCollab bothPendingState {}).v.vmcb = bothPendingState.vmcb :=
  have h := vmrun_zero_length noInsnCollab bothPendingState {} rfl rfl
  ⟨rfl, h.1, h.2.1, congrArg (fun t => t.1) h.2.2.2.2, congrArg (fun t => t.2.2.1) h.2.2.2.2⟩

/-- The function `nsvm_vcpu_hostrestore` leaves the L1 block active, if the
collaborators do not move the pointer. -/
theorem hostrestore_vmcb {c : Collab} (h : c.Preserves fun s => s.vmcb) (v : Vcpu)
    (regs : cpu_user_regs) : (nsvm_vcpu_hostrestore c v regs).v.vmcb = vmcb_ptr.n1vmcx := by
  have h1 : ∀ s x, (c.hvm_set_efer s x).1.vmcb = s.vmcb := h.hvm_set_efer
  have h2 : ∀ s x d, (c.hvm_set_cr0 s x d).1.vmcb = s.vmcb := h.hvm_set_cr0
  have h3 : ∀ s x n d, (c.hvm_set_cr3 s x n d).1.vmcb = s.vmcb := h.hvm_set_cr3
  have h4 : ∀ s x d, (c.hvm_set_cr4 s x d).1.vmcb = s.vmcb := h.hvm_set_cr4
  have h5 : ∀ s n, (c.hvm_update_guest_cr s n).vmcb = s.vmcb := h.hvm_update_guest_cr
  have h6 : ∀ r, (inject_gp_on_exception c r).vmcb = r.1.vmcb :=
    inject_gp_on_exception_preserves h
  have h7 : ∀ s p, (c.put_page s p).vmcb = s.vmcb := h.put_page
  unfold nsvm_vcpu_hostrestore
  simp only [h1, h2, h3, h4, h5, h6, h7]
  split
  · simp only [h1, h2, h3, h4, h5, h6, h7]
  · split
    · simp only [h1, h2, h3, h4, h5, h6, h7]
    · split <;> simp only [h1, h2, h3, h4, h5, h6, h7]

theorem n2n1_state (c : Collab) (v : Vcpu) (regs : cpu_user_regs) :
    (nestedsvm_vmexit_n2n1 c v regs).1 =
      nestedhvm_vcpu_exit_guestmode
        (nsvm_vcpu_hostrestore c (nsvm_vmcb_prepare4vmexit c v regs).v
          (nsvm_vmcb_prepare4vmexit c v regs).regs).v := by
  rfl

theorem n2n1_vmcb {c : Collab} (hvmcb : c.Preserves fun s => s.vmcb) (v : Vcpu)
    (regs : cpu_user_regs) : (nestedsvm_vmexit_n2n1 c v regs).1.vmcb = vmcb_ptr.n1vmcx :=
  hostrestore_vmcb hvmcb (nsvm_vmcb_prepare4vmexit c v regs).v
    (nsvm_vmcb_prepare4vmexit c v regs).regs

theorem n2n1_guestmode (c : Collab) (v : Vcpu) (regs : cpu_user_regs) :
    (nestedsvm_vmexit_n2n1 c v regs).1.nv_guestmode = false := by
  rfl

/-- The switch of lines 803-830 writes the virtual block only. -/
theorem vmexit_inject_info_vvmcb (c : Collab) (v : Vcpu) (exitcode : Nat) :
    ∃ b, nsvm_vcpu_vmexit_inject_info c v exitcode = { v with vvmcb := b } := by
  unfold nsvm_vcpu_vmexit_inject_info
  split
  · split
    · exact ⟨_, rfl⟩
    · exact ⟨v.vvmcb, rfl⟩
  · simp only
    split <;> split <;> split <;> exact ⟨_, rfl⟩

/-- The function `nsvm_vcpu_vmexit_inject` writes the virtual block only. -/
theorem vmexit_inject_vvmcb (c : Collab) (v : Vcpu) (regs : cpu_user_regs) (exitcode : Nat) :
    ∃ b, (nsvm_vcpu_vmexit_inject c v regs exitcode).v = { v with vvmcb := b } := by
  unfold nsvm_vcpu_vmexit_inject
  simp only
  split
  · obtain ⟨b, hb⟩ := vmexit_inject_info_vvmcb c v exitcode
    rw [hb]
    exact ⟨_, rfl⟩
  · exact ⟨_, rfl⟩

/-- An observation that ignores the virtual block and
`nv_vmswitch_in_progress` and that `paging_update_paging_modes` preserves
comes through lines 1424-1440 of `nestedsvm_vcpu_vmexit`. -/
theorem vmexit_tail_frame {α : Type} {c : Collab} {f : Vcpu → α}
    (hp : ∀ s, f (c.paging_update_paging_modes s) = f s)
    (hvv : ∀ (s : Vcpu) b, f { s with vvmcb := b } = f s)
    (hsw : ∀ (s : Vcpu) b, f { s with nv_vmswitch_in_progress := b } = f s)
    (v : Vcpu) (regs : cpu_user_regs) (exitcode : Nat) :
    f (nestedsvm_vcpu_vmexit_tail c v regs exitcode).1 = f v := by
  have e : (nestedsvm_vcpu_vmexit_tail c v regs exitcode).1 =
      { (if c.nestedhvm_paging_mode_hap (nsvm_vcpu_vmexit_inject c v regs exitcode).v = false then
          c.paging_update_paging_modes (nsvm_vcpu_vmexit_inject c v regs exitcode).v
        else (nsvm_vcpu_vmexit_inject c v regs exitcode).v) with
        nv_vmswitch_in_progress := false } := by
    unfold nestedsvm_vcpu_vmexit_tail
    simp only
    split <;> rfl
  obtain ⟨b, hb⟩ := vmexit_inject_vvmcb c v regs exitcode
  rw [e, hsw]
  split
  · rw [hp, hb, hvv]
  · rw [hb, hvv]

/-- In guest mode `nestedsvm_vcpu_vmexit` returns to the host state and goes
on with lines 1424-1440: `nestedsvm_vmexit_n2n1` does not fail. -/
theorem vcpu_vmexit_guest (c : Collab) (v : Vcpu) (regs : cpu_user_regs) (exitcode : Nat)
    (hg : v.nv_guestmode = true) :
    nestedsvm_vcpu_vmexit c v regs exitcode =
      some (nestedsvm_vcpu_vmexit_tail c
        (nestedsvm_vmexit_n2n1 c { v with nv_vmswitch_in_progress := true } regs).1
        (nestedsvm_vmexit_n2n1 c { v with nv_vmswitch_in_progress := true } regs).2.1
        exitcode) := by
  have hg2 : nestedhvm_vcpu_in_guestmode { v with nv_vmswitch_in_progress := true } = true := hg
  unfold nestedsvm_vcpu_vmexit
  simp only
  rw [if_pos hg2]
  rfl

theorem vcpu_vmexit_host (c : Collab) (v : Vcpu) (regs : cpu_user_regs) (exitcode : Nat)
    (hg : v.nv_guestmode = false) :
    nestedsvm_vcpu_vmexit c v regs exitcode =
      some (nestedsvm_vcpu_vmexit_tail c { v with nv_vmswitch_in_progress := true } regs
        exitcode) := by
  have hg2 : ¬ nestedhvm_vcpu_in_guestmode { v with nv_vmswitch_in_progress := true } = true := by
    intro h
    have h2 : v.nv_guestmode = true := h
    rw [hg] at h2
    cases h2
  unfold nestedsvm_vcpu_vmexit
  simp only
  rw [if_neg hg2]

/-- The function `nestedsvm_vcpu_vmexit` returns (no `BUG()`); the state it
leaves is the one given here. -/
theorem vcpu_vmexit_some (c : Collab) (v : Vcpu) (regs : cpu_user_regs) (exitcode : Nat) :
    ∃ exit, nestedsvm_vcpu_vmexit c v regs exitcode = some exit := by
  cases hg : v.nv_guestmode
  · exact ⟨_, vcpu_vmexit_host c v regs exitcode hg⟩
  · exact ⟨_, vcpu_vmexit_guest c v regs exitcode hg⟩

/-- The label `vmexit` of `nsvm_vcpu_switch` is left with both flags clear. -/
theorem switch_vmexit_flags (c : Collab) (v : Vcpu) (regs : cpu_user_regs) :
    ∃ out, nsvm_vcpu_switch_vmexit c v regs = some out ∧
      out.1.nv_vmexit_pending = false ∧ out.1.nv_vmentry_pending = false := by
  obtain ⟨exit, hexit⟩ := vcpu_vmexit_some c v regs v.ns_vmexit.exitcode
  unfold nsvm_vcpu_switch_vmexit
  rw [hexit]
  exact ⟨_, rfl, rfl, rfl⟩

/-- After an exit from guest mode through the label `vmexit` the L1 block is
active and the vcpu is not in guest mode. -/
theorem switch_vmexit_guest {c : Collab} (hvmcb : c.Preserves fun s => s.vmcb)
    (hgm : c.Preserves fun s => s.nv_guestmode) (v : Vcpu) (regs : cpu_user_regs)
    (hg : v.nv_guestmode = true) :
    ∃ out, nsvm_vcpu_switch_vmexit c v regs = some out ∧
      out.1.vmcb = vmcb_ptr.n1vmcx ∧ nestedhvm_vcpu_in_guestmode out.1 = false := by
  unfold nsvm_vcpu_switch_vmexit
  rw [vcpu_vmexit_guest c v regs _ hg]
  refine ⟨_, rfl, ?_, ?_⟩
  · have ht := @vmexit_tail_frame _ c (fun s => s.vmcb) hvmcb.paging_update_paging_modes
      (fun _ _ => rfl) (fun _ _ => rfl)
      (nestedsvm_vmexit_n2n1 c { v with nv_vmswitch_in_progress := true } regs).1
      (nestedsvm_vmexit_n2n1 c { v with nv_vmswitch_in_progress := true } regs).2.1
      v.ns_vmexit.exitcode
    exact ht.trans (n2n1_vmcb hvmcb _ _)
  · have ht := @vmexit_tail_frame _ c (fun s => s.nv_guestmode) hgm.paging_update_paging_modes
      (fun _ _ => rfl) (fun _ _ => rfl)
      (nestedsvm_vmexit_n2n1 c { v with nv_vmswitch_in_progress := true } regs).1
      (nestedsvm_vmexit_n2n1 c { v with nv_vmswitch_in_progress := true } regs).2.1
      v.ns_vmexit.exitcode
    exact ht.trans (n2n1_guestmode c _ _)

/-- Once the instruction is decoded, `nsvm_vcpu_vmrun` leaves the vcpu in
guest mode, whatever it returns. -/
theorem vmrun_guestmode {c : Collab} (hgm : c.Preserves fun s => s.nv_guestmode) (v : Vcpu)
    (regs : cpu_user_regs) (hlen : (c.svm_get_insn_len v).2 ≠ 0) :
    (nsvm_vcpu_vmrun c v regs).v.nv_guestmode = true := by
  have h1 : ∀ s x e, (c.hvm_inject_hw_exception s x e).nv_guestmode = s.nv_guestmode :=
    hgm.hvm_inject_hw_exception
  have h2 : ∀ s, (c.paging_update_paging_modes s).nv_guestmode = s.nv_guestmode :=
    hgm.paging_update_paging_modes
  unfold nsvm_vcpu_vmrun
  simp only
  rw [if_neg hlen]
  split
  · split
    · simp only [h2]
      rfl
    · rfl
  · split
    · rfl
    · simp only [h1]
      rfl

/-- C13: if `nsvm_vcpu_switch` runs with a VM entry pending (and no exit
pending) and `nsvm_vcpu_vmrun`, having decoded the instruction, fails, then
`nsvm_vcpu_switch` returns with the L1 block active and the vcpu out of guest
mode; the collaborators are assumed not to move the active pointer nor to
change the guest mode. -/
theorem switch_failed_entry (c : Collab) (v : Vcpu) (regs : cpu_user_regs)
    (hvmcb : c.Preserves fun s => s.vmcb) (hgm : c.Preserves fun s => s.nv_guestmode)
    (hen : c.nestedhvm_enabled = true) (hx : v.nv_vmexit_pending = false)
    (he : v.nv_vmentry_pending = true) (hlen : (c.svm_get_insn_len v).2 ≠ 0)
    (hfail : (nsvm_vcpu_vmrun c v regs).rc ≠ 0) :
    ∃ out, nsvm_vcpu_switch c v regs = some out ∧
      out.1.vmcb = vmcb_ptr.n1vmcx ∧ nestedhvm_vcpu_in_guestmode out.1 = false := by
  have hen2 : ¬ c.nestedhvm_enabled = false := by
    rw [hen]
    decide
  have hx2 : ¬ v.nv_vmexit_pending = true := by
    rw [hx]
    decide
  unfold nsvm_vcpu_switch
  rw [if_neg hen2, if_neg hx2, if_pos he]
  simp only
  rw [if_pos hfail]
  exact switch_vmexit_guest hvmcb hgm _ _ (vmrun_guestmode hgm v regs hlen)

/-- C13, witness: with the validator of `strictCollab` the entry pending in
`badVirtualState` fails. -/
theorem switch_failed_entry_witness :
    (nsvm_vcpu_vmrun strictCollab badVirtualState {}).rc ≠ 0 ∧
    ∃ out, nsvm_vcpu_switch strictCollab badVirtualState {} = some out ∧
      out.1.vmcb = vmcb_ptr.n1vmcx ∧ nestedhvm_vcpu_in_guestmode out.1 = false :=
  ⟨by decide, switch_failed_entry strictCollab badVirtualState {}
    (strictCollab_preserves _) (strictCollab_preserves _)
    rfl rfl rfl (by decide) (by decide)⟩

theorem outside_exit_pending (s t : Vcpu) (h : s.outside = t.outside) :
    s.nv_vmexit_pending = t.nv_vmexit_pending := by
  have h2 := congrArg (fun u : Vcpu => u.nv_vmexit_pending) h
  exact h2

theorem vmentry_switched_exit_pending {c : Collab}
    (h : c.Preserves fun s => s.nv_vmexit_pending) (v : Vcpu) (inst_len : Nat) :
    (nsvm_vcpu_vmentry_switched c v inst_len).nv_vmexit_pending = v.nv_vmexit_pending := by
  have h1 : ∀ s, (c.hvm_asid_flush_vcpu_asid s).nv_vmexit_pending = s.nv_vmexit_pending :=
    h.hvm_asid_flush_vcpu_asid
  unfold nsvm_vcpu_vmentry_switched nsvm_vcpu_hostsave
  simp only
  split
  · simp only [h1]
  · rfl

theorem vmentry_exit_pending {c : Collab} (h : c.Preserves fun s => s.nv_vmexit_pending)
    (v : Vcpu) (regs : cpu_user_regs) (inst_len : Nat) :
    (nsvm_vcpu_vmentry c v regs inst_len).v.nv_vmexit_pending = v.nv_vmexit_pending := by
  have hrun := prepare4vmrun_frame h outside_exit_pending
    (nsvm_vcpu_vmentry_switched c v inst_len) regs
  rw [vmentry_switched_exit_pending h] at hrun
  rw [vmentry_eq]
  split
  · exact hrun
  · exact hrun

/-- The function `nsvm_vcpu_vmrun` leaves `nv_vmexit_pending` as it is, if the
collaborators do. -/
theorem vmrun_exit_pending {c : Collab} (h : c.Preserves fun s => s.nv_vmexit_pending)
    (v : Vcpu) (regs : cpu_user_regs) :
    (nsvm_vcpu_vmrun c v regs).v.nv_vmexit_pending = v.nv_vmexit_pending := by
  have h0 : ∀ s, (c.svm_get_insn_len s).1.nv_vmexit_pending = s.nv_vmexit_pending :=
    h.svm_get_insn_len
  have h1 : ∀ s x e, (c.hvm_inject_hw_exception s x e).nv_vmexit_pending = s.nv_vmexit_pending :=
    h.hvm_inject_hw_exception
  have h2 : ∀ s, (c.paging_update_paging_modes s).nv_vmexit_pending = s.nv_vmexit_pending :=
    h.paging_update_paging_modes
  have h3 := vmentry_exit_pending h
  unfold nsvm_vcpu_vmrun
  simp only
  split
  · exact h0 v
  · have h4 := h3 { (c.svm_get_insn_len v).1 with nv_vmswitch_in_progress := true } regs
      (c.svm_get_insn_len v).2
    have h5 : (nsvm_vcpu_vmentry c
        { (c.svm_get_insn_len v).1 with nv_vmswitch_in_progress := true } regs
        (c.svm_get_insn_len v).2).v.nv_vmexit_pending = v.nv_vmexit_pending := h4.trans (h0 v)
    split
    · split
      · simp only [h2]
        exact h5
      · exact h5
    · split
      · exact h5
      · simp only [h1]
        exact h5

theorem switch_nestedp2m_frame {α : Type} {c : Collab} {f : Vcpu → α} (h : c.Preserves f)
    (hn2 : ∀ (s : Vcpu) b, f { s with n2vmcb := b } = f s)
    (hcr3 : ∀ (s : Vcpu) x, f { s with ns_vmcb_hostcr3 := x } = f s) (v : Vcpu) :
    f (nsvm_vcpu_switch_nestedp2m c v) = f v := by
  unfold nsvm_vcpu_switch_nestedp2m
  split
  · split
    · unfold nestedsvm_vmcb_set_nestedp2m
      simp only
      rw [hn2, h.p2m_get_nestedp2m, hcr3]
    · rfl
  · rfl

/-- C14: on a vcpu of a domain with nested virtualisation, `nsvm_vcpu_switch`
returns with `nv_vmexit_pending` and `nv_vmentry_pending` both clear; and if
`nv_vmexit_pending` is set on entry it emulates the exit and runs no VM entry,
whatever `nv_vmentry_pending` is. The collaborators are assumed not to write
the two flags. -/
theorem switch_clears_pending (c : Collab) (v : Vcpu) (regs : cpu_user_regs)
    (hen : c.nestedhvm_enabled = true)
    (hexit : c.Preserves fun s => s.nv_vmexit_pending)
    (hentry : c.Preserves fun s => s.nv_vmentry_pending) :
    (∃ out, nsvm_vcpu_switch c v regs = some out ∧
      out.1.nv_vmexit_pending = false ∧ out.1.nv_vmentry_pending = false) ∧
    (v.nv_vmexit_pending = true →
      nsvm_vcpu_switch c v regs =
        (nestedsvm_vcpu_vmexit c v regs v.ns_vmexit.exitcode).map fun exit =>
          ({ exit.1 with nv_vmexit_pending := false, nv_vmentry_pending := false }, exit.2.1)) := by
  have hen2 : ¬ c.nestedhvm_enabled = false := by
    rw [hen]
    decide
  constructor
  · unfold nsvm_vcpu_switch
    rw [if_neg hen2]
    split
    · exact switch_vmexit_flags c v regs
    · rename_i hx
      have hx2 : v.nv_vmexit_pending = false := (Bool.not_eq_true _).mp hx
      split
      · simp only
        split
        · exact switch_vmexit_flags c _ _
        · refine ⟨_, rfl, ?_, ?_⟩
          · rw [switch_nestedp2m_frame hexit (fun _ _ => rfl) (fun _ _ => rfl)]
            exact (vmrun_exit_pending hexit v regs).trans hx2
          · rw [switch_nestedp2m_frame hentry (fun _ _ => rfl) (fun _ _ => rfl)]
      · rename_i he
        refine ⟨_, rfl, ?_, ?_⟩
        · rw [switch_nestedp2m_frame hexit (fun _ _ => rfl) (fun _ _ => rfl)]
          exact hx2
        · rw [switch_nestedp2m_frame hentry (fun _ _ => rfl) (fun _ _ => rfl)]
          exact (Bool.not_eq_true _).mp he
  · intro hx
    unfold nsvm_vcpu_switch
    rw [if_neg hen2, if_pos hx]
    unfold nsvm_vcpu_switch_vmexit
    cases nestedsvm_vcpu_vmexit c v regs v.ns_vmexit.exitcode <;> rfl

/-- C14, witness: in `bothPendingState` an exit and an entry are both pending. -/
theorem switch_clears_pending_witness :
    idleCollab.nestedhvm_enabled = true ∧
    bothPendingState.nv_vmexit_pending = true ∧ bothPendingState.nv_vmentry_pending = true ∧
    ∃ out, nsvm_vcpu_switch idleCollab bothPendingState {} = some out ∧
      out.1.nv_vmexit_pending = false ∧ out.1.nv_vmentry_pending = false :=
  ⟨rfl, rfl, rfl,
    (switch_clears_pending idleCollab bothPendingState {} rfl (idleCollab_preserves _)
      (idleCollab_preserves _)).1⟩

/-! ## Permission maps, interrupt blocking and the exit path -/

/-- After `n` rounds of the loop of lines 390-391 the words below `n` hold the
OR of the two bitmaps and the words from `n` on are untouched. -/
theorem permissionmap_loop_apply (msrpm ns_msrpm_ptr : Nat → Nat) :
    ∀ (n : Nat) (merged : Nat → Nat) (i : Nat),
      nsvm_vmrun_permissionmap_loop msrpm ns_msrpm_ptr n merged i =
        if i < n then msrpm i ||| ns_msrpm_ptr i else merged i := by
  intro n
  induction n with
  | zero =>
    intro merged i
    rfl
  | succ n ih =>
    intro merged i
    show Function.update (nsvm_vmrun_permissionmap_loop msrpm ns_msrpm_ptr n merged) n
      (msrpm n ||| ns_msrpm_ptr n) i = _
    rw [Function.update_apply, ih]
    by_cases h : i = n
    · rw [if_pos h, h, if_pos (Nat.lt_succ_self n)]
    · rw [if_neg h]
      by_cases h2 : i < n
      · rw [if_pos h2, if_pos (Nat.lt_succ_of_lt h2)]
      · rw [if_neg h2, if_neg (by omega)]

theorem permissionmap_copy_ok (c : Collab) (v : Vcpu) (viopm : Bool)
    (hrc : (nsvm_vmrun_permissionmap c v viopm).2 = 0) :
    (c.hvm_copy_from_guest_phys v v.ns_cached_msrpm v.vvmcb._msrpm_base_pa MSRPM_SIZE).1 =
      HVMTRANS_okay := by
  unfold nsvm_vmrun_permissionmap at hrc
  simp only at hrc
  split at hrc
  · cases hrc
  · rename_i h
    exact not_not.mp h

/-- A store through the active-block pointer leaves the permission-map
bookkeeping of the vcpu. -/
theorem store_bookkeeping (s : Vcpu) (p : vmcb_ptr) (f : vmcb_struct → vmcb_struct) :
    ((Vcpu.store s p f).ns_merged_msrpm, (Vcpu.store s p f).ns_cached_msrpm,
      (Vcpu.store s p f).msrpm, (Vcpu.store s p f).ns_iomap, (Vcpu.store s p f).nv_ioport80,
      (Vcpu.store s p f).nv_ioportED) =
    (s.ns_merged_msrpm, s.ns_cached_msrpm, s.msrpm, s.ns_iomap, s.nv_ioport80, s.nv_ioportED) := by
  cases p <;> rfl

/-- The permission-map bookkeeping after a successful
`nsvm_vmrun_permissionmap`. -/
theorem permissionmap_bookkeeping (c : Collab) (v : Vcpu) (viopm : Bool)
    (hok : (c.hvm_copy_from_guest_phys v v.ns_cached_msrpm v.vvmcb._msrpm_base_pa MSRPM_SIZE).1 =
      HVMTRANS_okay) :
    ((nsvm_vmrun_permissionmap c v viopm).1.ns_merged_msrpm,
      (nsvm_vmrun_permissionmap c v viopm).1.ns_cached_msrpm,
      (nsvm_vmrun_permissionmap c v viopm).1.msrpm,
      (nsvm_vmrun_permissionmap c v viopm).1.ns_iomap,
      (nsvm_vmrun_permissionmap c v viopm).1.nv_ioport80,
      (nsvm_vmrun_permissionmap c v viopm).1.nv_ioportED) =
    (nsvm_vmrun_permissionmap_loop v.msrpm
        (c.hvm_copy_from_guest_phys v v.ns_cached_msrpm v.vvmcb._msrpm_base_pa MSRPM_SIZE).2
        (MSRPM_SIZE / BYTES_PER_LONG) v.ns_merged_msrpm,
      (c.hvm_copy_from_guest_phys v v.ns_cached_msrpm v.vvmcb._msrpm_base_pa MSRPM_SIZE).2,
      v.msrpm,
      some
        ((match c.hvm_map_guest_frame_ro
            { v with
              ns_cached_msrpm := (c.hvm_copy_from_guest_phys v v.ns_cached_msrpm
                v.vvmcb._msrpm_base_pa MSRPM_SIZE).2,
              ns_oiomap_pa := v.ns_iomap_pa, ns_iomap_pa := v.vvmcb._iopm_base_pa }
            (v.vvmcb._iopm_base_pa >>> PAGE_SHIFT) false with
          | some bits => bits 0x80
          | none => true),
         (match c.hvm_map_guest_frame_ro
            { v with
              ns_cached_msrpm := (c.hvm_copy_from_guest_phys v v.ns_cached_msrpm
                v.vvmcb._msrpm_base_pa MSRPM_SIZE).2,
              ns_oiomap_pa := v.ns_iomap_pa, ns_iomap_pa := v.vvmcb._iopm_base_pa }
            (v.vvmcb._iopm_base_pa >>> PAGE_SHIFT) false with
          | some bits => bits 0xed
          | none => true)),
      (match c.hvm_map_guest_frame_ro
          { v with
            ns_cached_msrpm := (c.hvm_copy_from_guest_phys v v.ns_cached_msrpm
              v.vvmcb._msrpm_base_pa MSRPM_SIZE).2,
            ns_oiomap_pa := v.ns_iomap_pa, ns_iomap_pa := v.vvmcb._iopm_base_pa }
          (v.vvmcb._iopm_base_pa >>> PAGE_SHIFT) false with
        | some bits => bits 0x80
        | none => true),
      (match c.hvm_map_guest_frame_ro
          { v with
            ns_cached_msrpm := (c.hvm_copy_from_guest_phys v v.ns_cached_msrpm
              v.vvmcb._msrpm_base_pa MSRPM_SIZE).2,
            ns_oiomap_pa := v.ns_iomap_pa, ns_iomap_pa := v.vvmcb._iopm_base_pa }
          (v.vvmcb._iopm_base_pa >>> PAGE_SHIFT) false with
        | some bits => bits 0xed
        | none => true)) := by
  unfold nsvm_vmrun_permissionmap
  simp only
  rw [if_neg (not_not.mpr hok)]
  simp only
  rw [store_bookkeeping, store_bookkeeping]

/-- C21: after a successful `nsvm_vmrun_permissionmap`, every word `i` below
`MSRPM_SIZE / BYTES_PER_LONG` of the merged MSR bitmap is the OR of word `i`
of the host's bitmap `msrpm` and of the copy of L1's bitmap
(`ns_cached_msrpm`, as `hvm_copy_from_guest_phys` filled it); so a bit of the
word is set exactly when it is set in one of the two. -/
theorem permissionmap_merged_msrpm (c : Collab) (v : Vcpu) (viopm : Bool) (i : Nat)
    (hrc : (nsvm_vmrun_permissionmap c v viopm).2 = 0) (hi : i < MSRPM_SIZE / BYTES_PER_LONG) :
    (nsvm_vmrun_permissionmap c v viopm).1.ns_merged_msrpm i =
      (nsvm_vmrun_permissionmap c v viopm).1.msrpm i |||
        (nsvm_vmrun_permissionmap c v viopm).1.ns_cached_msrpm i ∧
    (nsvm_vmrun_permissionmap c v viopm).1.msrpm = v.msrpm ∧
    (nsvm_vmrun_permissionmap c v viopm).1.ns_cached_msrpm =
      (c.hvm_copy_from_guest_phys v v.ns_cached_msrpm v.vvmcb._msrpm_base_pa MSRPM_SIZE).2 ∧
    ∀ b, ((nsvm_vmrun_permissionmap c v viopm).1.ns_merged_msrpm i).testBit b =
      (((nsvm_vmrun_permissionmap c v viopm).1.msrpm i).testBit b ||
        ((nsvm_vmrun_permissionmap c v viopm).1.ns_cached_msrpm i).testBit b) := by
  have hb := permissionmap_bookkeeping c v viopm (permissionmap_copy_ok c v viopm hrc)
  have h1 := congrArg (fun t => t.1) hb
  have h2 := congrArg (fun t => t.2.1) hb
  have h3 := congrArg (fun t => t.2.2.1) hb
  simp only at h1 h2 h3
  have hm : (nsvm_vmrun_permissionmap c v viopm).1.ns_merged_msrpm i =
      (nsvm_vmrun_permissionmap c v viopm).1.msrpm i |||
        (nsvm_vmrun_permissionmap c v viopm).1.ns_cached_msrpm i := by
    rw [h1, h2, h3, permissionmap_loop_apply, if_pos hi]
  refine ⟨hm, h3, h2, ?_⟩
  intro b
  rw [hm, Nat.testBit_or]

/-- C21, witness: host words 5 and copied words 3 merge to 7. -/
theorem permissionmap_merged_msrpm_witness :
    (nsvm_vmrun_permissionmap idleCollab msrState false).2 = 0 ∧
    0 < MSRPM_SIZE / BYTES_PER_LONG ∧
    (nsvm_vmrun_permissionmap idleCollab msrState false).1.ns_merged_msrpm 0 = 7 :=
  ⟨by decide, by decide,
    (permissionmap_merged_msrpm idleCollab msrState false 0 (by decide) (by decide)).1⟩

/-- C22: after a successful `nsvm_vmrun_permissionmap`, with `page` the mapping
of the frame of L1's I/O bitmap (`ns_vmcb->_iopm_base_pa >> PAGE_SHIFT`), the
shadow I/O map is `nestedhvm_vcpu_iomap_get(p80, pED)` and `nv_ioport80`,
`nv_ioportED` are `p80`, `pED`, where `p80` and `pED` are bits 0x80 and 0xED
of the page when it is mapped and both true when it is not; a page with bit
0x80 set and bit 0xED clear selects the map `(true, false)`. -/
theorem permissionmap_io_probe (c : Collab) (v : Vcpu) (viopm : Bool)
    (page : Option (Nat → Bool))
    (hrc : (nsvm_vmrun_permissionmap c v viopm).2 = 0)
    (hpage : c.hvm_map_guest_frame_ro
      { v with
        ns_cached_msrpm := (c.hvm_copy_from_guest_phys v v.ns_cached_msrpm
          v.vvmcb._msrpm_base_pa MSRPM_SIZE).2,
        ns_oiomap_pa := v.ns_iomap_pa, ns_iomap_pa := v.vvmcb._iopm_base_pa }
      (v.vvmcb._iopm_base_pa >>> PAGE_SHIFT) false = page) :
    (nsvm_vmrun_permissionmap c v viopm).1.ns_iomap =
      some (page.elim true fun bits => bits 0x80, page.elim true fun bits => bits 0xed) ∧
    (nsvm_vmrun_permissionmap c v viopm).1.nv_ioport80 = (page.elim true fun bits => bits 0x80) ∧
    (nsvm_vmrun_permissionmap c v viopm).1.nv_ioportED = (page.elim true fun bits => bits 0xed) ∧
    (∀ bits, page = some bits → bits 0x80 = true → bits 0xed = false →
      (nsvm_vmrun_permissionmap c v viopm).1.ns_iomap = some (true, false)) := by
  have hb := permissionmap_bookkeeping c v viopm (permissionmap_copy_ok c v viopm hrc)
  rw [hpage] at hb
  have h4 := congrArg (fun t => t.2.2.2.1) hb
  have h5 := congrArg (fun t => t.2.2.2.2.1) hb
  have h6 := congrArg (fun t => t.2.2.2.2.2) hb
  simp only at h4 h5 h6
  cases page with
  | none => exact ⟨h4, h5, h6, fun bits hbits => Option.noConfusion hbits⟩
  | some bits0 =>
    refine ⟨h4, h5, h6, ?_⟩
    intro bits hbits h80 hed
    cases hbits
    rw [h4]
    show some (bits0 0x80, bits0 0xed) = some (true, false)
    rw [h80, hed]

/-- C22, witness: the page of `probeCollab` has bit 0x80 set and bit 0xED
clear. -/
theorem permissionmap_io_probe_witness :
    (nsvm_vmrun_permissionmap probeCollab {} false).2 = 0 ∧
    (nsvm_vmrun_permissionmap probeCollab {} false).1.ns_iomap = some (true, false) ∧
    (nsvm_vmrun_permissionmap probeCollab {} false).1.nv_ioport80 = true ∧
    (nsvm_vmrun_permissionmap probeCollab {} false).1.nv_ioportED = false :=
  have h := permissionmap_io_probe probeCollab {} false (some fun bit => decide (bit = 0x80))
    (by decide) rfl
  ⟨by decide, h.2.2.2 _ rfl (by decide) (by decide), h.2.1, h.2.2.1⟩

theorem intr_blocked_gif_clear (v : Vcpu) (h : nestedsvm_gif_isset v = false) :
    nsvm_intr_blocked v = hvm_intblk.hvm_intblk_svm_gif := by
  unfold nsvm_intr_blocked
  rw [if_pos h]

theorem intr_blocked_of_some (v : Vcpu) (b : hvm_intblk) (h : nestedsvm_gif_isset v = true)
    (hb : nsvm_intr_blocked_guestmode v = some b) : nsvm_intr_blocked v = b := by
  unfold nsvm_intr_blocked
  rw [if_neg (by rw [h]; decide), hb]

theorem intr_blocked_of_none (v : Vcpu) (h : nestedsvm_gif_isset v = true)
    (hb : nsvm_intr_blocked_guestmode v = none) :
    nsvm_intr_blocked v =
      if v.nv_vmexit_pending = true then hvm_intblk.hvm_intblk_rflags_ie
      else hvm_intblk.hvm_intblk_none := by
  unfold nsvm_intr_blocked
  rw [if_neg (by rw [h]; decide), hb]

/-- What the guest-mode block of `nsvm_intr_blocked` returns is never
`hvm_intblk_none`. -/
theorem intr_blocked_guestmode_ne_none (v : Vcpu) (b : hvm_intblk)
    (h : nsvm_intr_blocked_guestmode v = some b) : b ≠ hvm_intblk.hvm_intblk_none := by
  unfold nsvm_intr_blocked_guestmode at h
  split at h
  · split at h
    · cases h
      decide
    · split at h
      · cases h
        decide
      · split at h
        · cases h
          decide
        · cases h
  · cases h

/-- The guest-mode block of `nsvm_intr_blocked` falls through exactly when the
vcpu is not in guest mode or none of its three tests fires. -/
theorem intr_blocked_guestmode_none_iff (v : Vcpu) :
    nsvm_intr_blocked_guestmode v = none ↔
      (nestedhvm_vcpu_in_guestmode v = true →
        ¬ (v.ns_hostflags.vintrmask = true ∧ v.ns_hostflags.rflagsif = false) ∧
        v.io_req_state = STATE_IOREQ_NONE ∧
        ¬ (v.nv_vmexit_pending = false ∧ v.n2vmcb.exit_int_info.v = true)) := by
  unfold nsvm_intr_blocked_guestmode
  by_cases hg : nestedhvm_vcpu_in_guestmode v = true
  · rw [if_pos hg]
    by_cases h1 : v.ns_hostflags.vintrmask = true ∧ v.ns_hostflags.rflagsif = false
    · rw [if_pos h1]
      simp [hg, h1]
    · rw [if_neg h1]
      by_cases h2 : v.io_req_state ≠ STATE_IOREQ_NONE
      · rw [if_pos h2]
        simp [hg, h2]
      · rw [if_neg h2]
        by_cases h3 : v.nv_vmexit_pending = false ∧ v.n2vmcb.exit_int_info.v = true
        · rw [if_pos h3]
          simp [hg, h3]
        · rw [if_neg h3]
          simp only [true_iff]
          intro _
          exact ⟨h1, not_not.mp h2, h3⟩
  · rw [if_neg hg]
    simp [hg]

/-- C23: whenever the virtual GIF is clear, `nsvm_intr_blocked` returns
`hvm_intblk_svm_gif`, whatever the rest of the state; the GIF that
`nestedsvm_gif_isset` reads is the `vgif` bit of the active block when its
`vgif_enable` is set, and `ns_gif` otherwise. -/
theorem intr_blocked_when_gif_clear (v : Vcpu) (h : nestedsvm_gif_isset v = false) :
    nsvm_intr_blocked v = hvm_intblk.hvm_intblk_svm_gif ∧
    nestedsvm_gif_isset v =
      (if v.active._vintr.vgif_enable = true then v.active._vintr.vgif else v.ns_gif) :=
  ⟨intr_blocked_gif_clear v h, rfl⟩

/-- C23, witness: the GIF is clear in `gifClearState`. -/
theorem intr_blocked_when_gif_clear_witness :
    nestedsvm_gif_isset gifClearState = false ∧
    nsvm_intr_blocked gifClearState = hvm_intblk.hvm_intblk_svm_gif :=
  ⟨by decide, (intr_blocked_when_gif_clear gifClearState (by decide)).1⟩

/-- C24: in guest mode with a valid `exit_int_info` in the shadow block,
`nsvm_intr_blocked` does not return `hvm_intblk_none`, whatever the rest of
the state. -/
theorem intr_blocked_while_latched (v : Vcpu) (hg : nestedhvm_vcpu_in_guestmode v = true)
    (hv : v.n2vmcb.exit_int_info.v = true) :
    nsvm_intr_blocked v ≠ hvm_intblk.hvm_intblk_none := by
  cases hgif : nestedsvm_gif_isset v
  · rw [intr_blocked_gif_clear v hgif]
    decide
  · cases hb : nsvm_intr_blocked_guestmode v with
    | some b =>
      rw [intr_blocked_of_some v b hgif hb]
      exact intr_blocked_guestmode_ne_none v b hb
    | none =>
      rw [intr_blocked_of_none v hgif hb]
      have h3 := ((intr_blocked_guestmode_none_iff v).mp hb hg).2.2
      have hp : v.nv_vmexit_pending = true := by
        cases hpe : v.nv_vmexit_pending
        · exact absurd ⟨hpe, hv⟩ h3
        · rfl
      rw [if_pos hp]
      decide

/-- C24, witness: `latchedState` is in guest mode with a latched event. -/
theorem intr_blocked_while_latched_witness :
    nestedhvm_vcpu_in_guestmode latchedState = true ∧
    latchedState.n2vmcb.exit_int_info.v = true ∧
    nsvm_intr_blocked latchedState ≠ hvm_intblk.hvm_intblk_none :=
  ⟨rfl, rfl, intr_blocked_while_latched latchedState rfl rfl⟩

/-- C25: the function `nsvm_intr_blocked` returns `hvm_intblk_none` exactly
when the GIF is set, no deferred exit is pending and, in guest mode, it is not
the case that `vintrmask` is set with the saved RFLAGS.IF clear, no I/O
request is in flight and the shadow's `exit_int_info` is not valid; outside
guest mode with the GIF set it returns `hvm_intblk_rflags_ie` exactly when a
deferred exit is pending (and `hvm_intblk_none` otherwise). -/
theorem intr_blocked_none_iff (v : Vcpu) :
    (nsvm_intr_blocked v = hvm_intblk.hvm_intblk_none ↔
      nestedsvm_gif_isset v = true ∧ v.nv_vmexit_pending = false ∧
      (nestedhvm_vcpu_in_guestmode v = true →
        ¬ (v.ns_hostflags.vintrmask = true ∧ v.ns_hostflags.rflagsif = false) ∧
        v.io_req_state = STATE_IOREQ_NONE ∧ v.n2vmcb.exit_int_info.v = false)) ∧
    (nestedhvm_vcpu_in_guestmode v = false → nestedsvm_gif_isset v = true →
      (nsvm_intr_blocked v = hvm_intblk.hvm_intblk_rflags_ie ↔ v.nv_vmexit_pending = true) ∧
      (nsvm_intr_blocked v = hvm_intblk.hvm_intblk_none ↔ v.nv_vmexit_pending = false)) := by
  constructor
  · cases hgif : nestedsvm_gif_isset v
    · rw [intr_blocked_gif_clear v hgif]
      simp
    · cases hb : nsvm_intr_blocked_guestmode v with
      | some b =>
        rw [intr_blocked_of_some v b hgif hb]
        have hne := intr_blocked_guestmode_ne_none v b hb
        have hnn : ¬ nsvm_intr_blocked_guestmode v = none := by
          rw [hb]
          exact fun h => Option.noConfusion h
        rw [intr_blocked_guestmode_none_iff] at hnn
        constructor
        · intro h
          exact absurd h hne
        · intro h
          exfalso
          apply hnn
          intro hg
          obtain ⟨h1, h2, h3⟩ := h.2.2 hg
          refine ⟨h1, h2, ?_⟩
          intro h4
          rw [h3] at h4
          cases h4.2
      | none =>
        rw [intr_blocked_of_none v hgif hb]
        have hfall := (intr_blocked_guestmode_none_iff v).mp hb
        cases hp : v.nv_vmexit_pending
        · simp only [Bool.false_eq_true, if_false, true_and, true_iff]
          intro hg
          obtain ⟨h1, h2, h3⟩ := hfall hg
          refine ⟨h1, h2, ?_⟩
          cases he : v.n2vmcb.exit_int_info.v
          · rfl
          · exact absurd ⟨hp, he⟩ h3
        · simp
  · intro hg hgif
    have hb : nsvm_intr_blocked_guestmode v = none := by
      rw [intr_blocked_guestmode_none_iff]
      intro h
      rw [hg] at h
      cases h
    rw [intr_blocked_of_none v hgif hb]
    cases v.nv_vmexit_pending <;> simp

/-- The virtual GIF is clear after `nestedsvm_vmexit_defer`, in either
representation. -/
theorem vmexit_defer_gif (v : Vcpu) (exitcode exitinfo1 exitinfo2 : Nat) :
    nestedsvm_gif_isset (nestedsvm_vmexit_defer v exitcode exitinfo1 exitinfo2) = false := by
  unfold nestedsvm_vmexit_defer nestedsvm_gif_isset
  simp only
  by_cases h : v.active._vintr.vgif_enable = true
  · rw [if_pos h]
    unfold Vcpu.active at h ⊢
    unfold Vcpu.store
    cases hp : v.vmcb <;> rw [hp] at h <;> simp only at h <;> simp only [h, if_true]
  · rw [if_neg h]
    unfold Vcpu.active at h ⊢
    unfold nestedsvm_vcpu_clgi local_event_delivery_disable
    cases hp : v.vmcb <;> rw [hp] at h <;> simp only at h <;>
      simp only [h, Bool.false_eq_true, if_false]

/-- C26: after `nestedsvm_vmexit_defer` the payload `ns_vmexit` holds the
three values given, `nv_vmexit_pending` is set, and the virtual GIF is clear
as `nestedsvm_gif_isset` reads it, with `vgif_enable` and without, so that
`nsvm_intr_blocked` returns `hvm_intblk_svm_gif`. -/
theorem vmexit_defer_records (v : Vcpu) (exitcode exitinfo1 exitinfo2 : Nat) :
    (nestedsvm_vmexit_defer v exitcode exitinfo1 exitinfo2).ns_vmexit =
      { exitcode := exitcode, exitinfo1 := exitinfo1, exitinfo2 := exitinfo2 } ∧
    (nestedsvm_vmexit_defer v exitcode exitinfo1 exitinfo2).nv_vmexit_pending = true ∧
    nestedsvm_gif_isset (nestedsvm_vmexit_defer v exitcode exitinfo1 exitinfo2) = false ∧
    nsvm_intr_blocked (nestedsvm_vmexit_defer v exitcode exitinfo1 exitinfo2) =
      hvm_intblk.hvm_intblk_svm_gif :=
  ⟨rfl, rfl, vmexit_defer_gif v exitcode exitinfo1 exitinfo2,
    intr_blocked_gif_clear _ (vmexit_defer_gif v exitcode exitinfo1 exitinfo2)⟩

theorem prepare4vmexit_paging_view (c : Collab) (s : Vcpu) :
    ((nsvm_vmcb_prepare4vmexit_paging c s).n2vmcb,
      (nsvm_vmcb_prepare4vmexit_paging c s).vvmcb.exitcode,
      (nsvm_vmcb_prepare4vmexit_paging c s).vvmcb.exitinfo1,
      (nsvm_vmcb_prepare4vmexit_paging c s).vvmcb.exitinfo2,
      (nsvm_vmcb_prepare4vmexit_paging c s).vvmcb.exit_int_info,
      (nsvm_vmcb_prepare4vmexit_paging c s).vvmcb.event_inj) =
    (s.n2vmcb, s.vvmcb.exitcode, s.vvmcb.exitinfo1, s.vvmcb.exitinfo2, s.vvmcb.exit_int_info,
      s.vvmcb.event_inj) := by
  unfold nsvm_vmcb_prepare4vmexit_paging
  split
  · rfl
  · split <;> rfl

theorem prepare4vmexit_control_view (c : Collab) (v : Vcpu) :
    ((nsvm_vmcb_prepare4vmexit_control c v).n2vmcb,
      (nsvm_vmcb_prepare4vmexit_control c v).vvmcb.exitcode,
      (nsvm_vmcb_prepare4vmexit_control c v).vvmcb.exitinfo1,
      (nsvm_vmcb_prepare4vmexit_control c v).vvmcb.exitinfo2,
      (nsvm_vmcb_prepare4vmexit_control c v).vvmcb.exit_int_info,
      (nsvm_vmcb_prepare4vmexit_control c v).vvmcb.event_inj) =
    ((c.svm_vmsave_pa v v.nv_n1vmcx_pa).n2vmcb,
      (c.svm_vmsave_pa v v.nv_n1vmcx_pa).n2vmcb.exitcode,
      (c.svm_vmsave_pa v v.nv_n1vmcx_pa).n2vmcb.exitinfo1,
      (c.svm_vmsave_pa v v.nv_n1vmcx_pa).n2vmcb.exitinfo2,
      (if (c.svm_vmsave_pa v v.nv_n1vmcx_pa).n2vmcb.event_inj.v = true ∧
          c.hvm_event_needs_reinjection (c.svm_vmsave_pa v v.nv_n1vmcx_pa).n2vmcb.event_inj.type
            (c.svm_vmsave_pa v v.nv_n1vmcx_pa).n2vmcb.event_inj.vector = true then
        (c.svm_vmsave_pa v v.nv_n1vmcx_pa).n2vmcb.event_inj
      else (c.svm_vmsave_pa v v.nv_n1vmcx_pa).n2vmcb.exit_int_info),
      {}) := by
  unfold nsvm_vmcb_prepare4vmexit_control
  simp only
  split <;> split <;> rfl

/-- The shadow block, the exit code, the exit information and the two event
fields of the virtual block after `nsvm_vmcb_prepare4vmexit`. -/
theorem prepare4vmexit_view (c : Collab) (v : Vcpu) (regs : cpu_user_regs) :
    (nsvm_vmcb_prepare4vmexit c v regs).v.n2vmcb =
      { (c.svm_vmsave_pa v v.nv_n1vmcx_pa).n2vmcb with
        rflags := regs.rflags, rip := regs.rip, rsp := regs.rsp, rax := regs.rax } ∧
    ((nsvm_vmcb_prepare4vmexit c v regs).v.vvmcb.exitcode,
      (nsvm_vmcb_prepare4vmexit c v regs).v.vvmcb.exitinfo1,
      (nsvm_vmcb_prepare4vmexit c v regs).v.vvmcb.exitinfo2,
      (nsvm_vmcb_prepare4vmexit c v regs).v.vvmcb.exit_int_info,
      (nsvm_vmcb_prepare4vmexit c v regs).v.vvmcb.event_inj) =
    ((c.svm_vmsave_pa v v.nv_n1vmcx_pa).n2vmcb.exitcode,
      (c.svm_vmsave_pa v v.nv_n1vmcx_pa).n2vmcb.exitinfo1,
      (c.svm_vmsave_pa v v.nv_n1vmcx_pa).n2vmcb.exitinfo2,
      (if (c.svm_vmsave_pa v v.nv_n1vmcx_pa).n2vmcb.event_inj.v = true ∧
          c.hvm_event_needs_reinjection (c.svm_vmsave_pa v v.nv_n1vmcx_pa).n2vmcb.event_inj.type
            (c.svm_vmsave_pa v v.nv_n1vmcx_pa).n2vmcb.event_inj.vector = true then
        (c.svm_vmsave_pa v v.nv_n1vmcx_pa).n2vmcb.event_inj
      else (c.svm_vmsave_pa v v.nv_n1vmcx_pa).n2vmcb.exit_int_info),
      {}) := by
  have hp := prepare4vmexit_paging_view c (nsvm_vmcb_prepare4vmexit_control c v)
  rw [prepare4vmexit_control_view] at hp
  have hn2 := congrArg (fun t => t.1) hp
  have hrest := congrArg (fun t => t.2) hp
  simp only at hn2 hrest
  constructor
  · unfold nsvm_vmcb_prepare4vmexit nsvm_vmcb_prepare4vmexit_msrs nsvm_vmcb_prepare4vmexit_regs
      nsvm_vmcb_prepare4vmexit_segments
    simp only
    rw [hn2]
  · unfold nsvm_vmcb_prepare4vmexit nsvm_vmcb_prepare4vmexit_msrs nsvm_vmcb_prepare4vmexit_regs
      nsvm_vmcb_prepare4vmexit_segments
    simp only
    exact hrest

theorem prepare4vmexit_vvmcb_live (c : Collab) (v : Vcpu) (regs : cpu_user_regs) :
    liveView (nsvm_vmcb_prepare4vmexit c v regs).v.vvmcb =
      liveView (c.svm_vmsave_pa v v.nv_n1vmcx_pa).n2vmcb := by
  have hp := prepare4vmexit_paging_view c (nsvm_vmcb_prepare4vmexit_control c v)
  rw [prepare4vmexit_control_view] at hp
  have hn2 := congrArg (fun t => t.1) hp
  have he1 := congrArg (fun t => t.2.1) hp
  have he2 := congrArg (fun t => t.2.2.1) hp
  have he3 := congrArg (fun t => t.2.2.2.1) hp
  simp only at hn2 he1 he2 he3
  unfold nsvm_vmcb_prepare4vmexit nsvm_vmcb_prepare4vmexit_msrs nsvm_vmcb_prepare4vmexit_regs
    nsvm_vmcb_prepare4vmexit_segments liveView
  simp only
  rw [hn2, he1, he2, he3]

/-- C27: after `nsvm_vmcb_prepare4vmexit` the RIP, RSP, RFLAGS and RAX of the
virtual block and of the shadow block are those of `regs`, and the other live
fields of the virtual block (`liveView`) are those of the shadow block, which
the function leaves as they were when `svm_vmsave_pa` returned. -/
theorem prepare4vmexit_live_fields (c : Collab) (v : Vcpu) (regs : cpu_user_regs) :
    ((nsvm_vmcb_prepare4vmexit c v regs).v.vvmcb.rip,
      (nsvm_vmcb_prepare4vmexit c v regs).v.vvmcb.rsp,
      (nsvm_vmcb_prepare4vmexit c v regs).v.vvmcb.rflags,
      (nsvm_vmcb_prepare4vmexit c v regs).v.vvmcb.rax) =
      (regs.rip, regs.rsp, regs.rflags, regs.rax) ∧
    ((nsvm_vmcb_prepare4vmexit c v regs).v.n2vmcb.rip,
      (nsvm_vmcb_prepare4vmexit c v regs).v.n2vmcb.rsp,
      (nsvm_vmcb_prepare4vmexit c v regs).v.n2vmcb.rflags,
      (nsvm_vmcb_prepare4vmexit c v regs).v.n2vmcb.rax) =
      (regs.rip, regs.rsp, regs.rflags, regs.rax) ∧
    liveView (nsvm_vmcb_prepare4vmexit c v regs).v.vvmcb =
      liveView (nsvm_vmcb_prepare4vmexit c v regs).v.n2vmcb ∧
    liveView (nsvm_vmcb_prepare4vmexit c v regs).v.n2vmcb =
      liveView (c.svm_vmsave_pa v v.nv_n1vmcx_pa).n2vmcb := by
  have hn2 := (prepare4vmexit_view c v regs).1
  have hlive : liveView (nsvm_vmcb_prepare4vmexit c v regs).v.n2vmcb =
      liveView (c.svm_vmsave_pa v v.nv_n1vmcx_pa).n2vmcb := by
    rw [hn2]
    rfl
  refine ⟨?_, ?_, ?_, hlive⟩
  · unfold nsvm_vmcb_prepare4vmexit nsvm_vmcb_prepare4vmexit_msrs nsvm_vmcb_prepare4vmexit_regs
    rfl
  · rw [hn2]
  · rw [hlive]
    exact prepare4vmexit_vvmcb_live c v regs

/-- C27, witness: in `exitState` the shadow block holds RIP 30
and ES 0x10; with `regs.rip = 31` the virtual block ends with RIP 31 and ES
0x10. -/
theorem prepare4vmexit_live_fields_witness :
    (nsvm_vmcb_prepare4vmexit idleCollab exitState { rip := 31 }).v.vvmcb.rip = 31 ∧
    (nsvm_vmcb_prepare4vmexit idleCollab exitState { rip := 31 }).v.vvmcb.es.sel = 0x10 :=
  have h := prepare4vmexit_live_fields idleCollab exitState { rip := 31 }
  ⟨congrArg (fun t => t.1) h.1, congrArg (fun t => t.1.1.sel) (h.2.2.1.trans h.2.2.2)⟩

/-- C28, counterexample: in `exitState` the shadow block holds a valid event
for injection; after `nsvm_vmcb_prepare4vmexit` it still does. -/
theorem prepare4vmexit_shadow_event_kept :
    exitState.n2vmcb.event_inj.v = true ∧
    (nsvm_vmcb_prepare4vmexit idleCollab exitState {}).v.n2vmcb.event_inj ≠ {} ∧
    (nsvm_vmcb_prepare4vmexit idleCollab exitState {}).v.n2vmcb.event_inj =
      exitState.n2vmcb.event_inj := by
  decide

/-- C28, amended: after `nsvm_vmcb_prepare4vmexit` the `event_inj` of the
virtual block is zero, and the `event_inj` of the shadow block is the one the
shadow block held when `svm_vmsave_pa` returned. -/
theorem prepare4vmexit_event_inj (c : Collab) (v : Vcpu) (regs : cpu_user_regs) :
    (nsvm_vmcb_prepare4vmexit c v regs).v.vvmcb.event_inj = {} ∧
    (nsvm_vmcb_prepare4vmexit c v regs).v.n2vmcb.event_inj =
      (c.svm_vmsave_pa v v.nv_n1vmcx_pa).n2vmcb.event_inj := by
  have h := prepare4vmexit_view c v regs
  constructor
  · exact congrArg (fun t => t.2.2.2.2) h.2
  · rw [h.1]

/-- C29: after `nsvm_vmcb_prepare4vmexit` the `exit_int_info` of the virtual
block is the shadow block's `event_inj` when that event is valid and
`hvm_event_needs_reinjection` holds for its type and vector, and the shadow
block's `exit_int_info` otherwise; the `event_inj` of the virtual block is
zero in both cases. The shadow block's two fields are the same before and
after the function (from the return of `svm_vmsave_pa` on). -/
theorem prepare4vmexit_event_promotion (c : Collab) (v : Vcpu) (regs : cpu_user_regs) :
    (nsvm_vmcb_prepare4vmexit c v regs).v.vvmcb.exit_int_info =
      (if (nsvm_vmcb_prepare4vmexit c v regs).v.n2vmcb.event_inj.v = true ∧
          c.hvm_event_needs_reinjection
            (nsvm_vmcb_prepare4vmexit c v regs).v.n2vmcb.event_inj.type
            (nsvm_vmcb_prepare4vmexit c v regs).v.n2vmcb.event_inj.vector = true then
        (nsvm_vmcb_prepare4vmexit c v regs).v.n2vmcb.event_inj
      else (nsvm_vmcb_prepare4vmexit c v regs).v.n2vmcb.exit_int_info) ∧
    (nsvm_vmcb_prepare4vmexit c v regs).v.vvmcb.event_inj = {} ∧
    ((nsvm_vmcb_prepare4vmexit c v regs).v.n2vmcb.event_inj,
      (nsvm_vmcb_prepare4vmexit c v regs).v.n2vmcb.exit_int_info) =
      ((c.svm_vmsave_pa v v.nv_n1vmcx_pa).n2vmcb.event_inj,
        (c.svm_vmsave_pa v v.nv_n1vmcx_pa).n2vmcb.exit_int_info) := by
  have h := prepare4vmexit_view c v regs
  have h1 : (nsvm_vmcb_prepare4vmexit c v regs).v.n2vmcb.event_inj =
      (c.svm_vmsave_pa v v.nv_n1vmcx_pa).n2vmcb.event_inj := by
    rw [h.1]
  have h2 : (nsvm_vmcb_prepare4vmexit c v regs).v.n2vmcb.exit_int_info =
      (c.svm_vmsave_pa v v.nv_n1vmcx_pa).n2vmcb.exit_int_info := by
    rw [h.1]
  rw [h1, h2]
  exact ⟨congrArg (fun t => t.2.2.2.1) h.2, congrArg (fun t => t.2.2.2.2) h.2, rfl⟩

/-- C25, witness: in `deliverableState` the GIF is set, nothing is pending
and nothing is latched, in guest mode. -/
theorem intr_blocked_none_iff_witness :
    nsvm_intr_blocked deliverableState = hvm_intblk.hvm_intblk_none :=
  (intr_blocked_none_iff deliverableState).1.mpr
    ⟨by decide, rfl, fun _ => ⟨by decide, rfl, rfl⟩⟩

/-- C26, witness: a deferred exit on `vgifState`, whose active block holds the
virtual GIF, and on `deliverableState`, which uses `ns_gif`. -/
theorem vmexit_defer_records_witness :
    nestedsvm_gif_isset vgifState = true ∧ nestedsvm_gif_isset deliverableState = true ∧
    nsvm_intr_blocked (nestedsvm_vmexit_defer vgifState VMEXIT_INTR 0 0) =
      hvm_intblk.hvm_intblk_svm_gif ∧
    nsvm_intr_blocked (nestedsvm_vmexit_defer deliverableState VMEXIT_INTR 0 0) =
      hvm_intblk.hvm_intblk_svm_gif :=
  ⟨by decide, by decide, (vmexit_defer_records vgifState VMEXIT_INTR 0 0).2.2.2,
    (vmexit_defer_records deliverableState VMEXIT_INTR 0 0).2.2.2⟩

/-! ## Mapping, lazy FPU, failed entries and the port walk -/

theorem testBit_or_ts (x i : Nat) (hi : i ≠ 3) :
    (x ||| X86_CR0_TS).testBit i = x.testBit i := by
  have h3 : ¬ (3 = i) := fun h => hi h.symm
  have hs : (X86_CR0_TS : Nat) = 2 ^ 3 := by decide
  rw [hs, Nat.testBit_or, Nat.testBit_two_pow, decide_eq_false h3, Bool.or_false]

theorem testBit_clear_ts (x i : Nat) (hi : i ≠ 3) (h64 : i < 64) :
    (clearBits 64 x X86_CR0_TS).testBit i = x.testBit i := by
  have h3 : ¬ (3 = i) := fun h => hi h.symm
  have hm : 2 ^ 64 - 1 - X86_CR0_TS % 2 ^ 64 = 2 ^ 64 - (2 ^ 3 + 1) := by decide
  unfold clearBits
  rw [hm, Nat.testBit_and, Nat.testBit_two_pow_sub_succ (by decide), Nat.testBit_two_pow,
    decide_eq_false h3, decide_eq_true h64]
  simp

theorem testBit_ts_set (x : Nat) : (x ||| X86_CR0_TS).testBit 3 = true := by
  have hs : (X86_CR0_TS : Nat) = 2 ^ 3 := by decide
  rw [hs, Nat.testBit_or, Nat.testBit_two_pow]
  simp

theorem testBit_ts_cleared (x : Nat) : (clearBits 64 x X86_CR0_TS).testBit 3 = false := by
  have hm : 2 ^ 64 - 1 - X86_CR0_TS % 2 ^ 64 = 2 ^ 64 - (2 ^ 3 + 1) := by decide
  unfold clearBits
  rw [hm, Nat.testBit_and, Nat.testBit_two_pow_sub_succ (by decide), Nat.testBit_two_pow]
  simp

theorem testBit_nm_set (x : Nat) : (x ||| (1 <<< X86_EXC_NM)).testBit X86_EXC_NM = true := by
  have hs : (1 <<< X86_EXC_NM : Nat) = 2 ^ 7 := by decide
  have h7 : X86_EXC_NM = 7 := rfl
  rw [hs, h7, Nat.testBit_or, Nat.testBit_two_pow]
  simp

theorem testBit_nm_cleared (x : Nat) :
    (clearBits 32 x (1 <<< X86_EXC_NM)).testBit X86_EXC_NM = false := by
  have hm : 2 ^ 32 - 1 - (1 <<< X86_EXC_NM) % 2 ^ 32 = 2 ^ 32 - (2 ^ 7 + 1) := by decide
  have h7 : X86_EXC_NM = 7 := rfl
  unfold clearBits
  rw [hm, h7, Nat.testBit_and, Nat.testBit_two_pow_sub_succ (by decide), Nat.testBit_two_pow]
  simp

/-- C33: the lazy-FPU handoff of a VM entry. If CR0.TS is clear in L1's
logical CR0 `n1cr0` and set in the L1 block's CR0, the returned CR0 is the
virtual block's CR0 with TS set and the #NM bit of the shadow's exception
intercepts is set. Otherwise, if TS is clear in the virtual block's CR0 and
set in the shadow block's CR0, the returned CR0 has TS clear and the #NM bit
is cleared. In every case the returned CR0 agrees with the virtual block's
CR0 on each of the 64 bits other than TS, the exception intercepts of the
shadow block agree with the old ones on each of the 32 bits other than #NM,
and nothing else in the shadow block changes. -/
theorem fpu_vmentry_handoff (n1cr0 : Nat) (vvmcb n1vmcb n2vmcb : vmcb_struct) :
    (n1cr0 &&& X86_CR0_TS = 0 ∧ n1vmcb._cr0 &&& X86_CR0_TS ≠ 0 →
      (nestedsvm_fpu_vmentry n1cr0 vvmcb n1vmcb n2vmcb).1 = vvmcb._cr0 ||| X86_CR0_TS ∧
      (nestedsvm_fpu_vmentry n1cr0 vvmcb n1vmcb n2vmcb).1.testBit 3 = true ∧
      (nestedsvm_fpu_vmentry n1cr0 vvmcb n1vmcb n2vmcb).2._exception_intercepts =
        n2vmcb._exception_intercepts ||| (1 <<< X86_EXC_NM) ∧
      (nestedsvm_fpu_vmentry n1cr0 vvmcb n1vmcb n2vmcb).2._exception_intercepts.testBit
        X86_EXC_NM = true) ∧
    (¬ (n1cr0 &&& X86_CR0_TS = 0 ∧ n1vmcb._cr0 &&& X86_CR0_TS ≠ 0) →
      vvmcb._cr0 &&& X86_CR0_TS = 0 ∧ n2vmcb._cr0 &&& X86_CR0_TS ≠ 0 →
      (nestedsvm_fpu_vmentry n1cr0 vvmcb n1vmcb n2vmcb).1 = clearBits 64 vvmcb._cr0 X86_CR0_TS ∧
      (nestedsvm_fpu_vmentry n1cr0 vvmcb n1vmcb n2vmcb).1.testBit 3 = false ∧
      (nestedsvm_fpu_vmentry n1cr0 vvmcb n1vmcb n2vmcb).2._exception_intercepts =
        clearBits 32 n2vmcb._exception_intercepts (1 <<< X86_EXC_NM) ∧
      (nestedsvm_fpu_vmentry n1cr0 vvmcb n1vmcb n2vmcb).2._exception_intercepts.testBit
        X86_EXC_NM = false) ∧
    (¬ (n1cr0 &&& X86_CR0_TS = 0 ∧ n1vmcb._cr0 &&& X86_CR0_TS ≠ 0) →
      ¬ (vvmcb._cr0 &&& X86_CR0_TS = 0 ∧ n2vmcb._cr0 &&& X86_CR0_TS ≠ 0) →
      nestedsvm_fpu_vmentry n1cr0 vvmcb n1vmcb n2vmcb = (vvmcb._cr0, n2vmcb)) ∧
    (∀ i, i ≠ 3 → i < 64 →
      (nestedsvm_fpu_vmentry n1cr0 vvmcb n1vmcb n2vmcb).1.testBit i = vvmcb._cr0.testBit i) ∧
    (∀ i, i ≠ X86_EXC_NM → i < 32 →
      (nestedsvm_fpu_vmentry n1cr0 vvmcb n1vmcb n2vmcb).2._exception_intercepts.testBit i =
        n2vmcb._exception_intercepts.testBit i) ∧
    (nestedsvm_fpu_vmentry n1cr0 vvmcb n1vmcb n2vmcb).2 =
      { n2vmcb with _exception_intercepts :=
          (nestedsvm_fpu_vmentry n1cr0 vvmcb n1vmcb n2vmcb).2._exception_intercepts } := by
  unfold nestedsvm_fpu_vmentry
  simp only
  by_cases h1 : n1cr0 &&& X86_CR0_TS = 0 ∧ n1vmcb._cr0 &&& X86_CR0_TS ≠ 0
  · rw [if_pos h1]
    refine ⟨fun _ => ⟨rfl, testBit_ts_set _, rfl, testBit_nm_set _⟩, fun h => absurd h1 h,
      fun h => absurd h1 h, fun i hi _ => testBit_or_ts _ i hi,
      fun i hi _ => testBit_or_nm _ i hi, rfl⟩
  · rw [if_neg h1]
    by_cases h2 : vvmcb._cr0 &&& X86_CR0_TS = 0 ∧ n2vmcb._cr0 &&& X86_CR0_TS ≠ 0
    · rw [if_pos h2]
      refine ⟨fun h => absurd h h1,
        fun _ _ => ⟨rfl, testBit_ts_cleared _, rfl, testBit_nm_cleared _⟩,
        fun _ h => absurd h2 h, fun i hi h64 => testBit_clear_ts _ i hi h64,
        fun i hi h32 => testBit_clear_nm _ i hi h32, rfl⟩
    · rw [if_neg h2]
      exact ⟨fun h => absurd h h1, fun _ h => absurd h h2, fun _ _ => rfl,
        fun _ _ _ => rfl, fun _ _ _ => rfl, rfl⟩

/-- C33, witness: a deferred FPU switch of the host (TS set in the L1 block,
clear in L1's logical CR0) forces TS into the returned CR0 and #NM into the
shadow's intercepts; a shadow block with a stale TS has both cleared. -/
theorem fpu_vmentry_handoff_witness :
    ((nestedsvm_fpu_vmentry 0x1 { _cr0 := 0x80000001 } { _cr0 := 0x9 }
        { _exception_intercepts := 0x2000 }).1 = 0x80000009 ∧
      (nestedsvm_fpu_vmentry 0x1 { _cr0 := 0x80000001 } { _cr0 := 0x9 }
        { _exception_intercepts := 0x2000 }).2._exception_intercepts = 0x2080) ∧
    ((nestedsvm_fpu_vmentry 0x1 { _cr0 := 0x80000001 } { _cr0 := 0x1 }
        { _cr0 := 0x9, _exception_intercepts := 0x2080 }).1 = 0x80000001 ∧
      (nestedsvm_fpu_vmentry 0x1 { _cr0 := 0x80000001 } { _cr0 := 0x1 }
        { _cr0 := 0x9, _exception_intercepts := 0x2080 }).2._exception_intercepts = 0x2000) :=
  have a := (fpu_vmentry_handoff 0x1 { _cr0 := 0x80000001 } { _cr0 := 0x9 }
    { _exception_intercepts := 0x2000 }).1 (by decide)
  have b := (fpu_vmentry_handoff 0x1 { _cr0 := 0x80000001 } { _cr0 := 0x1 }
    { _cr0 := 0x9, _exception_intercepts := 0x2080 }).2.1 (by decide) (by decide)
  ⟨⟨a.1.trans (by decide), a.2.2.1.trans (by decide)⟩,
    ⟨b.1.trans (by decide), b.2.2.1.trans (by decide)⟩⟩

theorem store_active (v : Vcpu) (p : vmcb_ptr) (f : vmcb_struct → vmcb_struct)
    (hp : v.vmcb = p) :
    (v.store p f).active = f v.active ∧ (v.store p f).vmcb = p ∧
      (v.store p f).ns_gif = v.ns_gif := by
  subst hp
  unfold Vcpu.store Vcpu.active
  cases hv : v.vmcb <;> simp only [hv, and_self]

theorem and_clear_mask (w x m : Nat) (h : (2 ^ w - 1 - m % 2 ^ w) &&& m = 0) :
    clearBits w x m &&& m = 0 := by
  unfold clearBits
  rw [Nat.and_assoc, h, Nat.and_zero]

theorem or_and_self_mask (x m : Nat) : (x ||| m) &&& m = m := by
  apply Nat.eq_of_testBit_eq
  intro i
  rw [Nat.testBit_and, Nat.testBit_or]
  cases x.testBit i <;> cases m.testBit i <;> rfl

/-- The VMLOAD/VMSAVE block under EFER.SVME leaves the virtual-interrupt word
of the active block, the pointer and `ns_gif` as they are. -/
theorem vloadsave_on_gif (c : Collab) (f : Bool) (v : Vcpu) :
    (svm_nested_features_on_efer_update_vloadsave_on c f v v.vmcb).active._vintr =
        v.active._vintr ∧
      (svm_nested_features_on_efer_update_vloadsave_on c f v v.vmcb).vmcb = v.vmcb ∧
      (svm_nested_features_on_efer_update_vloadsave_on c f v v.vmcb).ns_gif = v.ns_gif := by
  unfold svm_nested_features_on_efer_update_vloadsave_on
  split
  · have h1 := store_active v v.vmcb
      (fun b => { b with virt_ext := b.virt_ext ||| virt_ext_vloadsave_enable }) rfl
    have h2 := fun g => store_active (v.store v.vmcb
      (fun b => { b with virt_ext := b.virt_ext ||| virt_ext_vloadsave_enable })) v.vmcb g h1.2.1
    simp only
    refine ⟨?_, (h2 _).2.1, ((h2 _).2.2).trans h1.2.2⟩
    rw [(h2 _).1, h1.1]
    rfl
  · exact ⟨rfl, rfl, rfl⟩

theorem vloadsave_off_gif (v : Vcpu) :
    (svm_nested_features_on_efer_update_vloadsave_off v v.vmcb).active._vintr =
        v.active._vintr ∧
      (svm_nested_features_on_efer_update_vloadsave_off v v.vmcb).vmcb = v.vmcb ∧
      (svm_nested_features_on_efer_update_vloadsave_off v v.vmcb).ns_gif = v.ns_gif := by
  unfold svm_nested_features_on_efer_update_vloadsave_off
  split
  · have h1 := store_active v v.vmcb
      (fun b => { b with virt_ext := clearBits 64 b.virt_ext virt_ext_vloadsave_enable }) rfl
    have h2 := fun g => store_active (v.store v.vmcb
      (fun b => { b with virt_ext := clearBits 64 b.virt_ext virt_ext_vloadsave_enable }))
      v.vmcb g h1.2.1
    simp only
    refine ⟨?_, (h2 _).2.1, ((h2 _).2.2).trans h1.2.2⟩
    rw [(h2 _).1, h1.1]
    rfl
  · exact ⟨rfl, rfl, rfl⟩

/-- The vGIF block under EFER.SVME, when it fires: the virtual-interrupt word
takes `ns_gif` as its virtual GIF, and STGI and CLGI are no longer intercepted. -/
theorem vgif_on_fires (v : Vcpu) (p : vmcb_ptr) (hp : v.vmcb = p)
    (hen : v.active._vintr.vgif_enable = false) :
    (svm_nested_features_on_efer_update_vgif_on true v p).active._vintr =
        { v.active._vintr with vgif := v.ns_gif, vgif_enable := true } ∧
      (svm_nested_features_on_efer_update_vgif_on true v p).active._general2_intercepts =
        clearBits 32 v.active._general2_intercepts
          (GENERAL2_INTERCEPT_STGI ||| GENERAL2_INTERCEPT_CLGI) ∧
      (svm_nested_features_on_efer_update_vgif_on true v p).ns_gif = v.ns_gif := by
  unfold svm_nested_features_on_efer_update_vgif_on
  rw [if_pos ⟨hen, rfl⟩]
  have h1 := fun g => store_active v p g hp
  have h2 := fun g1 g2 => store_active (v.store p g1) p g2 (h1 g1).2.1
  simp only
  refine ⟨?_, ?_, ((h2 _ _).2.2).trans (h1 _).2.2⟩
  · rw [(h2 _ _).1, (h1 _).1]
    rfl
  · rw [(h2 _ _).1, (h1 _).1]
    rfl

/-- The vGIF block without EFER.SVME, when it fires: `ns_gif` takes the
virtual GIF of the block, and STGI and CLGI are intercepted again. -/
theorem vgif_off_fires (v : Vcpu) (p : vmcb_ptr) (hp : v.vmcb = p)
    (hen : v.active._vintr.vgif_enable = true) :
    (svm_nested_features_on_efer_update_vgif_off v p).active._vintr =
        { v.active._vintr with vgif_enable := false } ∧
      (svm_nested_features_on_efer_update_vgif_off v p).active._general2_intercepts =
        v.active._general2_intercepts |||
          (GENERAL2_INTERCEPT_STGI ||| GENERAL2_INTERCEPT_CLGI) ∧
      (svm_nested_features_on_efer_update_vgif_off v p).ns_gif = v.active._vintr.vgif := by
  unfold svm_nested_features_on_efer_update_vgif_off
  rw [if_pos hen]
  have hp0 : ({ v with ns_gif := (vmcb_get_vintr v.active).vgif } : Vcpu).vmcb = p := hp
  have h1 := fun g => store_active { v with ns_gif := (vmcb_get_vintr v.active).vgif } p g hp0
  have h2 := fun g1 g2 => store_active
    (Vcpu.store { v with ns_gif := (vmcb_get_vintr v.active).vgif } p g1) p g2 (h1 g1).2.1
  simp only
  refine ⟨?_, ?_, ((h2 _ _).2.2).trans (h1 _).2.2⟩
  · rw [(h2 _ _).1, (h1 _).1]
    rfl
  · rw [(h2 _ _).1, (h1 _).1]
    rfl

theorem vgif_on_idle (f : Bool) (v : Vcpu) (p : vmcb_ptr)
    (h : ¬ (v.active._vintr.vgif_enable = false ∧ f = true)) :
    svm_nested_features_on_efer_update_vgif_on f v p = v := by
  unfold svm_nested_features_on_efer_update_vgif_on
  rw [if_neg h]

theorem vgif_off_idle (v : Vcpu) (p : vmcb_ptr) (h : ¬ v.active._vintr.vgif_enable = true) :
    svm_nested_features_on_efer_update_vgif_off v p = v := by
  unfold svm_nested_features_on_efer_update_vgif_off
  rw [if_neg h]

theorem gif_isset_eq (v : Vcpu) :
    nestedsvm_gif_isset v =
      if v.active._vintr.vgif_enable = true then v.active._vintr.vgif else v.ns_gif := by
  rfl

/-- C37: `svm_nested_features_on_efer_update` leaves the value of
`nestedsvm_gif_isset` as it is, for every state, every host paging mode and
every pair of hardware features. When it turns the hardware vGIF on
(EFER.SVME set, vGIF not yet enabled in the active block, feature present)
the block's virtual GIF is `ns_gif` and the STGI and CLGI bits of the
general-2 intercepts are clear; when it turns it off (EFER.SVME clear, vGIF
enabled) `ns_gif` is the block's virtual GIF and both bits are set; in every
other case the virtual-interrupt word and `ns_gif` are as they were. -/
theorem efer_update_preserves_gif (c : Collab) (cpu_has_svm_vloadsave cpu_has_svm_vgif : Bool)
    (v : Vcpu) :
    nestedsvm_gif_isset
        (svm_nested_features_on_efer_update c cpu_has_svm_vloadsave cpu_has_svm_vgif v) =
      nestedsvm_gif_isset v ∧
    (nsvm_efer_svm_enabled v = true → v.active._vintr.vgif_enable = false →
      cpu_has_svm_vgif = true →
      (svm_nested_features_on_efer_update c cpu_has_svm_vloadsave cpu_has_svm_vgif
        v).active._vintr.vgif_enable = true ∧
      (svm_nested_features_on_efer_update c cpu_has_svm_vloadsave cpu_has_svm_vgif
        v).active._vintr.vgif = v.ns_gif ∧
      (svm_nested_features_on_efer_update c cpu_has_svm_vloadsave cpu_has_svm_vgif
        v).active._general2_intercepts &&&
          (GENERAL2_INTERCEPT_STGI ||| GENERAL2_INTERCEPT_CLGI) = 0) ∧
    (nsvm_efer_svm_enabled v = false → v.active._vintr.vgif_enable = true →
      (svm_nested_features_on_efer_update c cpu_has_svm_vloadsave cpu_has_svm_vgif
        v).active._vintr.vgif_enable = false ∧
      (svm_nested_features_on_efer_update c cpu_has_svm_vloadsave cpu_has_svm_vgif
        v).ns_gif = v.active._vintr.vgif ∧
      (svm_nested_features_on_efer_update c cpu_has_svm_vloadsave cpu_has_svm_vgif
        v).active._general2_intercepts &&&
          (GENERAL2_INTERCEPT_STGI ||| GENERAL2_INTERCEPT_CLGI) =
        GENERAL2_INTERCEPT_STGI ||| GENERAL2_INTERCEPT_CLGI) ∧
    (¬ (nsvm_efer_svm_enabled v = true ∧ v.active._vintr.vgif_enable = false ∧
          cpu_has_svm_vgif = true) →
      ¬ (nsvm_efer_svm_enabled v = false ∧ v.active._vintr.vgif_enable = true) →
      (svm_nested_features_on_efer_update c cpu_has_svm_vloadsave cpu_has_svm_vgif
        v).active._vintr = v.active._vintr ∧
      (svm_nested_features_on_efer_update c cpu_has_svm_vloadsave cpu_has_svm_vgif
        v).ns_gif = v.ns_gif) := by
  unfold svm_nested_features_on_efer_update
  simp only
  by_cases hs : nsvm_efer_svm_enabled v = true
  · rw [if_pos hs]
    obtain ⟨w1, w2, w3⟩ := vloadsave_on_gif c cpu_has_svm_vloadsave v
    by_cases hf : v.active._vintr.vgif_enable = false ∧ cpu_has_svm_vgif = true
    · obtain ⟨hen, hfeat⟩ := hf
      subst hfeat
      have hen2 : (svm_nested_features_on_efer_update_vloadsave_on c cpu_has_svm_vloadsave v
          v.vmcb).active._vintr.vgif_enable = false := by rw [w1, hen]
      obtain ⟨g1, g2, g3⟩ := vgif_on_fires _ v.vmcb w2 hen2
      refine ⟨?_, fun _ _ _ => ⟨?_, ?_, ?_⟩, fun h => ?_, fun h => ?_⟩
      · rw [gif_isset_eq, gif_isset_eq, g1, g3, w3, hen]
        simp
      · rw [g1]
      · rw [g1, w3]
      · rw [g2]
        exact and_clear_mask 32 _ _ (by decide)
      · rw [hs] at h
        cases h
      · exact absurd ⟨hs, hen, rfl⟩ h
    · rw [vgif_on_idle _ _ _ (by rw [w1]; exact hf)]
      refine ⟨?_, fun _ h2 h3 => absurd ⟨h2, h3⟩ hf, fun h => ?_, fun _ _ => ⟨w1, w3⟩⟩
      · rw [gif_isset_eq, gif_isset_eq, w1, w3]
      · rw [hs] at h
        cases h
  · rw [if_neg hs]
    have hs2 : nsvm_efer_svm_enabled v = false := by simpa using hs
    obtain ⟨w1, w2, w3⟩ := vloadsave_off_gif v
    by_cases hen : v.active._vintr.vgif_enable = true
    · have hen2 : (svm_nested_features_on_efer_update_vloadsave_off v
          v.vmcb).active._vintr.vgif_enable = true := by rw [w1, hen]
      obtain ⟨g1, g2, g3⟩ := vgif_off_fires _ v.vmcb w2 hen2
      refine ⟨?_, fun h => absurd h hs, fun _ _ => ⟨?_, ?_, ?_⟩, fun _ h => ?_⟩
      · rw [gif_isset_eq, gif_isset_eq, g1, g3, w1, hen]
        simp
      · rw [g1]
      · rw [g3, w1]
      · rw [g2]
        exact or_and_self_mask _ _
      · exact absurd ⟨hs2, hen⟩ h
    · rw [vgif_off_idle _ _ (by rw [w1]; exact hen)]
      refine ⟨?_, fun h => absurd h hs, fun _ h => absurd h hen, fun _ _ => ⟨w1, w3⟩⟩
      rw [gif_isset_eq, gif_isset_eq, w1, w3]

/-- C37, witness: turning the vGIF on in `svmeOnState` and off in
`svmeOffState` keeps the value of `nestedsvm_gif_isset` and flips the STGI
and CLGI intercepts. -/
theorem efer_update_preserves_gif_witness :
    (nestedsvm_gif_isset svmeOnState = true ∧
      nestedsvm_gif_isset (svm_nested_features_on_efer_update idleCollab true true svmeOnState)
        = true ∧
      (svm_nested_features_on_efer_update idleCollab true true
        svmeOnState).n1vmcb._general2_intercepts = 0x3) ∧
    (nestedsvm_gif_isset svmeOffState = false ∧
      nestedsvm_gif_isset (svm_nested_features_on_efer_update idleCollab true true svmeOffState)
        = false ∧
      (svm_nested_features_on_efer_update idleCollab true true svmeOffState).ns_gif = false ∧
      (svm_nested_features_on_efer_update idleCollab true true
        svmeOffState).n1vmcb._general2_intercepts = 0x3c) :=
  have a := efer_update_preserves_gif idleCollab true true svmeOnState
  have b := efer_update_preserves_gif idleCollab true true svmeOffState
  ⟨⟨by decide, a.1.trans (by decide), by decide⟩,
    ⟨by decide, b.1.trans (by decide), (b.2.2.1 (by decide) (by decide)).2.1.trans (by decide),
      by decide⟩⟩

theorem vmcb_map_eq (c : Collab) (v : Vcpu) (a : Nat) :
    nestedsvm_vmcb_map c v a =
      (if v.nv_vvmcx_mapped = true ∧ v.nv_vvmcxaddr = a then (v, 1)
      else
        match c.hvm_map_guest_frame_rw (nestedsvm_vmcb_map_release v a) (a >>> PAGE_SHIFT) with
        | some (vvmcx, true) =>
          ({ v with vvmcb := vvmcx, nv_vvmcx_mapped := true, nv_vvmcxaddr := a }, 1)
        | _ => (nestedsvm_vmcb_map_release v a, 0) : Vcpu × Int) := by
  unfold nestedsvm_vmcb_map nestedsvm_vmcb_map_release
  cases hm : v.nv_vvmcx_mapped
  · simp only [Bool.false_eq_true, false_and, if_false]
    cases hr : c.hvm_map_guest_frame_rw v (a >>> PAGE_SHIFT) with
    | none => simp only [hm, if_true]
    | some r =>
      obtain ⟨b, w⟩ := r
      cases w
      · simp only [hm, if_true]
      · simp only [hm, if_true, Bool.true_eq_false, if_false]
  · by_cases ha : v.nv_vvmcxaddr = a
    · simp only [ha, ne_eq, not_true_eq_false, and_false, if_false, true_and, if_true, hm,
        Bool.true_eq_false]
    · simp only [ha, ne_eq, not_false_eq_true, and_self, if_true, and_false, if_false,
        Bool.true_eq_false]
      cases hr : c.hvm_map_guest_frame_rw
          { v with nv_vvmcx_mapped := false, nv_vvmcxaddr := INVALID_PADDR }
          (a >>> PAGE_SHIFT) with
      | none => rfl
      | some r =>
        obtain ⟨b, w⟩ := r
        cases w
        · rfl
        · rfl

theorem vmcb_map_release_unmapped (v : Vcpu) (a : Nat)
    (h : ¬ (v.nv_vvmcx_mapped = true ∧ v.nv_vvmcxaddr = a)) :
    (nestedsvm_vmcb_map_release v a).nv_vvmcx_mapped = false := by
  unfold nestedsvm_vmcb_map_release
  cases hm : v.nv_vvmcx_mapped
  · simp only [Bool.false_eq_true, false_and, if_false, hm]
  · have ha : v.nv_vvmcxaddr ≠ a := fun e => h ⟨hm, e⟩
    simp only [ha, ne_eq, not_false_eq_true, and_self, if_true]

/-- The outcome of `nestedsvm_vmcb_map` by cases: a hit on the cached
mapping, a fresh writable mapping, or a failure. -/
theorem vmcb_map_cases (c : Collab) (v : Vcpu) (a : Nat) :
    (v.nv_vvmcx_mapped = true ∧ v.nv_vvmcxaddr = a ∧ nestedsvm_vmcb_map c v a = (v, 1)) ∨
    (¬ (v.nv_vvmcx_mapped = true ∧ v.nv_vvmcxaddr = a) ∧
      ∃ b, c.hvm_map_guest_frame_rw (nestedsvm_vmcb_map_release v a) (a >>> PAGE_SHIFT) =
          some (b, true) ∧
        nestedsvm_vmcb_map c v a =
          ({ v with vvmcb := b, nv_vvmcx_mapped := true, nv_vvmcxaddr := a }, 1)) ∨
    (¬ (v.nv_vvmcx_mapped = true ∧ v.nv_vvmcxaddr = a) ∧
      (c.hvm_map_guest_frame_rw (nestedsvm_vmcb_map_release v a) (a >>> PAGE_SHIFT) = none ∨
        ∃ b, c.hvm_map_guest_frame_rw (nestedsvm_vmcb_map_release v a) (a >>> PAGE_SHIFT) =
          some (b, false)) ∧
      nestedsvm_vmcb_map c v a = (nestedsvm_vmcb_map_release v a, 0)) := by
  rw [vmcb_map_eq]
  by_cases h : v.nv_vvmcx_mapped = true ∧ v.nv_vvmcxaddr = a
  · exact Or.inl ⟨h.1, h.2, by rw [if_pos h]⟩
  · rw [if_neg h]
    cases hr : c.hvm_map_guest_frame_rw (nestedsvm_vmcb_map_release v a) (a >>> PAGE_SHIFT) with
    | none => exact Or.inr (Or.inr ⟨h, Or.inl rfl, rfl⟩)
    | some r =>
      obtain ⟨b, w⟩ := r
      cases w
      · exact Or.inr (Or.inr ⟨h, Or.inr ⟨b, rfl⟩, rfl⟩)
      · exact Or.inr (Or.inl ⟨h, b, rfl, rfl⟩)

theorem int_one_ne_zero : (1 : Int) ≠ 0 := by decide

theorem int_zero_ne_one : (0 : Int) ≠ 1 := by decide

/-- C31: `nestedsvm_vmcb_map(v, a)` returns 0 or 1. It returns 1 exactly when
the virtual block is mapped afterwards with `nv_vvmcxaddr = a`; a mapping made
by the call is the writable frame of `a` that `hvm_map_guest_frame_rw` gave.
It returns 0 exactly when no mapping for `a` is cached and the frame cannot
be mapped or is not writable, and then the virtual block is unmapped
afterwards. After a success a second call with the same address returns 1
and leaves the state as it is, without a call of `hvm_map_guest_frame_rw`
(the result is the same with collaborators `d` that cannot map any frame). -/
theorem vmcb_map_contract (c : Collab) (v : Vcpu) (a : Nat) :
    ((nestedsvm_vmcb_map c v a).2 = 0 ∨ (nestedsvm_vmcb_map c v a).2 = 1) ∧
    ((nestedsvm_vmcb_map c v a).2 = 1 ↔
      (nestedsvm_vmcb_map c v a).1.nv_vvmcx_mapped = true ∧
        (nestedsvm_vmcb_map c v a).1.nv_vvmcxaddr = a) ∧
    ((nestedsvm_vmcb_map c v a).2 = 1 → ¬ (v.nv_vvmcx_mapped = true ∧ v.nv_vvmcxaddr = a) →
      c.hvm_map_guest_frame_rw (nestedsvm_vmcb_map_release v a) (a >>> PAGE_SHIFT) =
        some ((nestedsvm_vmcb_map c v a).1.vvmcb, true)) ∧
    ((nestedsvm_vmcb_map c v a).2 = 0 ↔
      ¬ (v.nv_vvmcx_mapped = true ∧ v.nv_vvmcxaddr = a) ∧
        (c.hvm_map_guest_frame_rw (nestedsvm_vmcb_map_release v a) (a >>> PAGE_SHIFT) = none ∨
          ∃ b, c.hvm_map_guest_frame_rw (nestedsvm_vmcb_map_release v a) (a >>> PAGE_SHIFT) =
            some (b, false))) ∧
    ((nestedsvm_vmcb_map c v a).2 = 0 →
      (nestedsvm_vmcb_map c v a).1.nv_vvmcx_mapped = false) ∧
    ((nestedsvm_vmcb_map c v a).2 = 1 →
      ∀ d : Collab, nestedsvm_vmcb_map d (nestedsvm_vmcb_map c v a).1 a =
        ((nestedsvm_vmcb_map c v a).1, 1)) := by
  rcases vmcb_map_cases c v a with ⟨hm, ha, he⟩ | ⟨hn, b, hb, he⟩ | ⟨hn, hf, he⟩
  · rw [he]
    refine ⟨Or.inr rfl, ⟨fun _ => ⟨hm, ha⟩, fun _ => rfl⟩, fun _ h => absurd ⟨hm, ha⟩ h,
      ⟨fun h => ?_, fun h => absurd ⟨hm, ha⟩ h.1⟩, fun h => ?_, fun _ d => ?_⟩
    · exact (int_one_ne_zero h).elim
    · exact (int_one_ne_zero h).elim
    · rw [vmcb_map_eq, if_pos ⟨hm, ha⟩]
  · rw [he]
    refine ⟨Or.inr rfl, ⟨fun _ => ⟨rfl, rfl⟩, fun _ => rfl⟩, fun _ _ => hb,
      ⟨fun h => ?_, fun h => ?_⟩, fun h => ?_, fun _ d => ?_⟩
    · exact (int_one_ne_zero h).elim
    · rcases h.2 with h0 | ⟨b2, h2⟩
      · rw [hb] at h0
        cases h0
      · rw [hb] at h2
        cases h2
    · exact (int_one_ne_zero h).elim
    · rw [vmcb_map_eq, if_pos ⟨rfl, rfl⟩]
  · rw [he]
    have hu := vmcb_map_release_unmapped v a hn
    refine ⟨Or.inl rfl, ⟨fun h => ?_, fun h => ?_⟩, fun h => ?_, ⟨fun _ => ⟨hn, hf⟩, fun _ => rfl⟩,
      fun _ => hu, fun h => ?_⟩
    · exact (int_zero_ne_one h).elim
    · rw [hu] at h
      cases h.1
    · exact (int_zero_ne_one h).elim
    · exact (int_zero_ne_one h).elim

/-- C31, witness: with `frameCollab`, mapping the writable frame 5 succeeds
from an unmapped and from a mapped state and a second call changes nothing;
mapping the read-only frame 6 or the absent frame 7 fails and leaves the
virtual block unmapped. -/
theorem vmcb_map_contract_witness :
    ((nestedsvm_vmcb_map frameCollab mappedState 0x5000).2 = 1 ∧
      (nestedsvm_vmcb_map frameCollab mappedState 0x5000).1.nv_vvmcxaddr = 0x5000 ∧
      (nestedsvm_vmcb_map frameCollab mappedState 0x5000).1.vvmcb._asid = 7 ∧
      nestedsvm_vmcb_map idleCollab (nestedsvm_vmcb_map frameCollab mappedState 0x5000).1 0x5000 =
        ((nestedsvm_vmcb_map frameCollab mappedState 0x5000).1, 1)) ∧
    ((nestedsvm_vmcb_map frameCollab mappedState 0x6000).2 = 0 ∧
      (nestedsvm_vmcb_map frameCollab mappedState 0x6000).1.nv_vvmcx_mapped = false) ∧
    ((nestedsvm_vmcb_map frameCollab mappedState 0x7000).2 = 0 ∧
      (nestedsvm_vmcb_map frameCollab mappedState 0x7000).1.nv_vvmcx_mapped = false) :=
  have h5 := vmcb_map_contract frameCollab mappedState 0x5000
  have h6 := vmcb_map_contract frameCollab mappedState 0x6000
  have h7 := vmcb_map_contract frameCollab mappedState 0x7000
  have r5 : (nestedsvm_vmcb_map frameCollab mappedState 0x5000).2 = 1 := by decide
  have r6 : (nestedsvm_vmcb_map frameCollab mappedState 0x6000).2 = 0 := by decide
  have r7 : (nestedsvm_vmcb_map frameCollab mappedState 0x7000).2 = 0 := by decide
  ⟨⟨r5, (h5.2.1.mp r5).2, by decide, h5.2.2.2.2.2 r5 idleCollab⟩,
    ⟨r6, h6.2.2.2.2.1 r6⟩, ⟨r7, h7.2.2.2.2.1 r7⟩⟩

theorem permissionmap_of_copy_failure (c : Collab) (v : Vcpu) (viopm : Bool)
    (h : (c.hvm_copy_from_guest_phys v v.ns_cached_msrpm v.vvmcb._msrpm_base_pa MSRPM_SIZE).1 ≠
      HVMTRANS_okay) :
    nsvm_vmrun_permissionmap c v viopm =
      ({ v with ns_cached_msrpm :=
          (c.hvm_copy_from_guest_phys v v.ns_cached_msrpm v.vvmcb._msrpm_base_pa MSRPM_SIZE).2 },
        1) := by
  unfold nsvm_vmrun_permissionmap
  simp only
  rw [if_pos h]

theorem merged_bitmapView (v : Vcpu) (clean : vmcbcleanbits_t) :
    bitmapView (nsvm_vmcb_prepare4vmrun_pause_tsc (nsvm_vmcb_prepare4vmrun_intercepts v clean)) =
      bitmapView v := by
  unfold nsvm_vmcb_prepare4vmrun_pause_tsc nsvm_vmcb_prepare4vmrun_intercepts
  split <;> split <;> rfl

theorem prepare4vmrun_of_copy_failure (c : Collab) (s : Vcpu) (regs : cpu_user_regs)
    (h : (c.hvm_copy_from_guest_phys (nsvm_vmcb_prepare4vmrun_merged s)
        (nsvm_vmcb_prepare4vmrun_merged s).ns_cached_msrpm
        (nsvm_vmcb_prepare4vmrun_merged s).vvmcb._msrpm_base_pa MSRPM_SIZE).1 ≠
      HVMTRANS_okay) :
    (nsvm_vmcb_prepare4vmrun c s regs).rc = NSVM_ERROR_VVMCB ∧
      (nsvm_vmcb_prepare4vmrun c s regs).regs = regs ∧
      bitmapView (nsvm_vmcb_prepare4vmrun c s regs).v = bitmapView s := by
  have hp := permissionmap_of_copy_failure c _ (nsvm_vmcb_prepare4vmrun_clean s).iopm h
  have hb := merged_bitmapView s (nsvm_vmcb_prepare4vmrun_clean s)
  unfold nsvm_vmcb_prepare4vmrun_merged at hp
  unfold nsvm_vmcb_prepare4vmrun nsvm_vmcb_prepare4vmrun_head
  simp only
  rw [hp]
  simp only
  rw [if_pos (by decide)]
  exact ⟨rfl, rfl, hb⟩

/-- C35: when `hvm_copy_from_guest_phys` fails, `nsvm_vmrun_permissionmap`
returns 1 and changes nothing but the buffer `ns_cached_msrpm` the copy was
made into: the merged MSR bitmap, the selected I/O map and the bitmap base
addresses of the blocks are as before. `nsvm_vmcb_prepare4vmrun` then returns
that 1, which is `NSVM_ERROR_VVMCB`, the code of a malformed virtual block,
with `regs` and the same fields untouched; and `nsvm_vcpu_vmrun`, once the
instruction is decoded, returns -1 with the pending exit code
`VMEXIT_INVALID`. -/
theorem permissionmap_copy_failure (c : Collab) :
    NSVM_ERROR_VVMCB = 1 ∧
    (∀ (v : Vcpu) (viopm : Bool),
      (c.hvm_copy_from_guest_phys v v.ns_cached_msrpm v.vvmcb._msrpm_base_pa MSRPM_SIZE).1 ≠
        HVMTRANS_okay →
      (nsvm_vmrun_permissionmap c v viopm).2 = 1 ∧
      (nsvm_vmrun_permissionmap c v viopm).1 =
        { v with ns_cached_msrpm :=
          (c.hvm_copy_from_guest_phys v v.ns_cached_msrpm v.vvmcb._msrpm_base_pa MSRPM_SIZE).2 } ∧
      bitmapView (nsvm_vmrun_permissionmap c v viopm).1 = bitmapView v) ∧
    (∀ (s : Vcpu) (regs : cpu_user_regs),
      (c.hvm_copy_from_guest_phys (nsvm_vmcb_prepare4vmrun_merged s)
        (nsvm_vmcb_prepare4vmrun_merged s).ns_cached_msrpm
        (nsvm_vmcb_prepare4vmrun_merged s).vvmcb._msrpm_base_pa MSRPM_SIZE).1 ≠
        HVMTRANS_okay →
      (nsvm_vmcb_prepare4vmrun c s regs).rc = NSVM_ERROR_VVMCB ∧
      (nsvm_vmcb_prepare4vmrun c s regs).regs = regs ∧
      bitmapView (nsvm_vmcb_prepare4vmrun c s regs).v = bitmapView s) ∧
    (∀ (v : Vcpu) (regs : cpu_user_regs),
      (c.svm_get_insn_len v).2 ≠ 0 →
      (c.hvm_copy_from_guest_phys
        (nsvm_vmcb_prepare4vmrun_merged (nsvm_vcpu_vmentry_switched c
          { (c.svm_get_insn_len v).1 with nv_vmswitch_in_progress := true }
          (c.svm_get_insn_len v).2))
        (nsvm_vmcb_prepare4vmrun_merged (nsvm_vcpu_vmentry_switched c
          { (c.svm_get_insn_len v).1 with nv_vmswitch_in_progress := true }
          (c.svm_get_insn_len v).2)).ns_cached_msrpm
        (nsvm_vmcb_prepare4vmrun_merged (nsvm_vcpu_vmentry_switched c
          { (c.svm_get_insn_len v).1 with nv_vmswitch_in_progress := true }
          (c.svm_get_insn_len v).2)).vvmcb._msrpm_base_pa MSRPM_SIZE).1 ≠ HVMTRANS_okay →
      (nsvm_vcpu_vmrun c v regs).rc = -1 ∧
      (nsvm_vcpu_vmrun c v regs).v.ns_vmexit.exitcode = VMEXIT_INVALID) := by
  refine ⟨rfl, fun v viopm h => ?_, fun s regs h => prepare4vmrun_of_copy_failure c s regs h,
    fun v regs hlen hcopy => ?_⟩
  · rw [permissionmap_of_copy_failure c v viopm h]
    exact ⟨rfl, rfl, rfl⟩
  · have hrc : (nsvm_vcpu_vmrun_derive c v regs).rc = NSVM_ERROR_VVMCB :=
      (prepare4vmrun_of_copy_failure c _ regs hcopy).1
    have hne : (nsvm_vcpu_vmrun_derive c v regs).rc ≠ 0 := by
      rw [hrc]
      decide
    rw [vmrun_of_failed c v regs hlen hne, if_pos hrc]
    exact ⟨rfl, rfl⟩

/-- C35, witness: with a guest-memory copy that fails, the permission maps of
`msrState` are not built, the derivation returns 1 and the VMRUN of
`badShadowState`, whose virtual block is well formed, ends with -1 and the
pending exit code `VMEXIT_INVALID`. -/
theorem permissionmap_copy_failure_witness :
    ((nsvm_vmrun_permissionmap copyFaultCollab msrState false).2 = 1 ∧
      (nsvm_vmrun_permissionmap copyFaultCollab msrState false).1.ns_merged_msrpm 0 = 0) ∧
    (nsvm_vmcb_prepare4vmrun copyFaultCollab msrState {}).rc = 1 ∧
    (copyFaultCollab.svm_vmcb_isvalid badShadowState.vvmcb badShadowState = false ∧
      (nsvm_vcpu_vmrun copyFaultCollab badShadowState {}).rc = -1 ∧
      (nsvm_vcpu_vmrun copyFaultCollab badShadowState {}).v.ns_vmexit.exitcode =
        VMEXIT_INVALID) :=
  have h := permissionmap_copy_failure copyFaultCollab
  have a := h.2.1 msrState false (by decide)
  have b := h.2.2.1 msrState {} (by decide)
  have d := h.2.2.2 badShadowState {} (by decide) (by decide)
  ⟨⟨a.1, (congrFun (congrArg (fun t => t.1) a.2.2) 0).trans (by decide)⟩, b.1, by decide, d⟩

theorem head_of_rc (c : Collab) (v : Vcpu) (regs : cpu_user_regs)
    (h : (nsvm_vmcb_prepare4vmrun c v regs).rc = 0) :
    (nsvm_vmcb_prepare4vmrun_head c v (nsvm_vmcb_prepare4vmrun_clean v)).2 = 0 := by
  by_contra hne
  unfold nsvm_vmcb_prepare4vmrun at h
  simp only at h
  rw [if_pos hne] at h
  exact hne h

theorem vmentry_rc_zero (c : Collab) (v : Vcpu) (regs : cpu_user_regs) (inst_len : Nat)
    (h : (nsvm_vcpu_vmentry c v regs inst_len).rc = 0) :
    (nsvm_vmcb_prepare4vmrun c (nsvm_vcpu_vmentry_switched c v inst_len) regs).rc = 0 ∧
    (nsvm_vcpu_vmentry c v regs inst_len).v =
      nestedsvm_vcpu_stgi
        (nsvm_vmcb_prepare4vmrun c (nsvm_vcpu_vmentry_switched c v inst_len) regs).v := by
  rw [vmentry_eq] at h ⊢
  by_cases hr : (nsvm_vmcb_prepare4vmrun c (nsvm_vcpu_vmentry_switched c v inst_len) regs).rc ≠ 0
  · rw [if_pos hr] at h
    exact absurd h hr
  · rw [if_neg hr]
    exact ⟨not_not.mp hr, rfl⟩

/-- The host flag `vintrmask` that `nsvm_vcpu_vmentry` records (line 710). -/
theorem vmentry_switched_vintrmask {c : Collab}
    (h : c.Preserves fun t => t.vvmcb._vintr.intr_masking) (v : Vcpu) (inst_len : Nat) :
    (nsvm_vcpu_vmentry_switched c v inst_len).ns_hostflags.vintrmask =
      v.vvmcb._vintr.intr_masking := by
  have h1 : ∀ s, (c.hvm_asid_flush_vcpu_asid s).vvmcb._vintr.intr_masking =
      s.vvmcb._vintr.intr_masking := h.hvm_asid_flush_vcpu_asid
  unfold nsvm_vcpu_vmentry_switched nsvm_vcpu_hostsave
  simp only
  split
  · simp only [h1]
  · rfl

theorem outside_vintrmask (s t : Vcpu) (h : s.outside = t.outside) :
    s.ns_hostflags.vintrmask = t.ns_hostflags.vintrmask := by
  have h2 := congrArg (fun u : Vcpu => u.ns_hostflags.vintrmask) h
  exact h2

/-- The masking bit of the shadow block after a derivation that does not
honour the TPR clean bit. -/
theorem prepare4vmrun_masking_forced {c : Collab} (h : c.Preserves fun s => s.n2vmcb._vintr)
    (v : Vcpu) (regs : cpu_user_regs)
    (hhead : (nsvm_vmcb_prepare4vmrun_head c v (nsvm_vmcb_prepare4vmrun_clean v)).2 = 0)
    (ht : (nsvm_vmcb_prepare4vmrun_clean v).tpr = false) :
    (nsvm_vmcb_prepare4vmrun c v regs).v.n2vmcb._vintr.intr_masking = true := by
  rw [prepare4vmrun_of_head c v regs hhead]
  have hk := tail_n2_after_segments h untouched_vintr
    (nsvm_vmcb_prepare4vmrun_head c v (nsvm_vmcb_prepare4vmrun_clean v)).1
    (nsvm_vmcb_prepare4vmrun_clean v) regs
  rw [segments_vintr] at hk
  rw [hk, control_vintr_copied _ _ ht]

/-- The masking bit of the virtual block after `nsvm_vmcb_prepare4vmexit`
(lines 1052-1055). -/
theorem prepare4vmexit_masking (c : Collab) (s : Vcpu) (regs : cpu_user_regs) :
    (nsvm_vmcb_prepare4vmexit c s regs).v.vvmcb._vintr.intr_masking =
      if (c.svm_vmsave_pa s s.nv_n1vmcx_pa).ns_hostflags.vintrmask = false then false
      else (c.svm_vmsave_pa s s.nv_n1vmcx_pa).n2vmcb._vintr.intr_masking := by
  have hc : (nsvm_vmcb_prepare4vmexit_control c s).vvmcb._vintr.intr_masking =
      if (c.svm_vmsave_pa s s.nv_n1vmcx_pa).ns_hostflags.vintrmask = false then false
      else (c.svm_vmsave_pa s s.nv_n1vmcx_pa).n2vmcb._vintr.intr_masking := by
    unfold nsvm_vmcb_prepare4vmexit_control
    simp only
    split <;> split <;> rfl
  have hp : ∀ t, (nsvm_vmcb_prepare4vmexit_paging c t).vvmcb._vintr = t.vvmcb._vintr := by
    intro t
    unfold nsvm_vmcb_prepare4vmexit_paging
    split
    · rfl
    · split <;> rfl
  unfold nsvm_vmcb_prepare4vmexit nsvm_vmcb_prepare4vmexit_msrs nsvm_vmcb_prepare4vmexit_regs
    nsvm_vmcb_prepare4vmexit_segments
  simp only
  rw [hp]
  exact hc

/-- C38: let `nsvm_vcpu_vmentry` succeed on `v` with the TPR group of the
virtual block not honoured as clean. Then the entry records L1's masking
request in the host flag `vintrmask` and leaves the shadow block with masking
on. For every later state `s` that still has that host flag and that masking
bit of the shadow block (L2 has run without changing them),
`nsvm_vmcb_prepare4vmexit` gives the virtual block the masking bit L1 had
written before the entry. The collaborators are assumed not to write the
shadow's virtual-interrupt word, the host flag or the virtual block's
masking bit. -/
theorem vintr_masking_round_trip (c : Collab) (v s : Vcpu) (regs regs2 : cpu_user_regs)
    (inst_len : Nat)
    (hc : c.Preserves fun t =>
      (t.n2vmcb._vintr, t.ns_hostflags.vintrmask, t.vvmcb._vintr.intr_masking))
    (hrc : (nsvm_vcpu_vmentry c v regs inst_len).rc = 0)
    (htpr : (nsvm_vmcb_prepare4vmrun_clean (nsvm_vcpu_vmentry_switched c v inst_len)).tpr = false)
    (hflag : s.ns_hostflags.vintrmask =
      (nsvm_vcpu_vmentry c v regs inst_len).v.ns_hostflags.vintrmask)
    (hmask : s.n2vmcb._vintr.intr_masking =
      (nsvm_vcpu_vmentry c v regs inst_len).v.n2vmcb._vintr.intr_masking) :
    (nsvm_vcpu_vmentry c v regs inst_len).v.ns_hostflags.vintrmask =
        v.vvmcb._vintr.intr_masking ∧
    (nsvm_vcpu_vmentry c v regs inst_len).v.n2vmcb._vintr.intr_masking = true ∧
    (nsvm_vmcb_prepare4vmexit c s regs2).v.vvmcb._vintr.intr_masking =
      v.vvmcb._vintr.intr_masking := by
  have h2 : c.Preserves fun t => t.n2vmcb._vintr := preserves_comp hc fun t => t.1
  have hf : c.Preserves fun t => t.ns_hostflags.vintrmask := preserves_comp hc fun t => t.2.1
  have hv : c.Preserves fun t => t.vvmcb._vintr.intr_masking := preserves_comp hc fun t => t.2.2
  obtain ⟨hrun, hstate⟩ := vmentry_rc_zero c v regs inst_len hrc
  have hhead := head_of_rc c _ regs hrun
  have e1 : (nsvm_vcpu_vmentry c v regs inst_len).v.ns_hostflags.vintrmask =
      v.vvmcb._vintr.intr_masking := by
    rw [hstate]
    have hfr := prepare4vmrun_frame hf outside_vintrmask
      (nsvm_vcpu_vmentry_switched c v inst_len) regs
    exact hfr.trans (vmentry_switched_vintrmask hv v inst_len)
  have e2 : (nsvm_vcpu_vmentry c v regs inst_len).v.n2vmcb._vintr.intr_masking = true := by
    rw [hstate]
    exact prepare4vmrun_masking_forced h2 _ regs hhead htpr
  refine ⟨e1, e2, ?_⟩
  have s1 : (c.svm_vmsave_pa s s.nv_n1vmcx_pa).ns_hostflags.vintrmask =
      s.ns_hostflags.vintrmask := hf.svm_vmsave_pa s _
  have s2 : (c.svm_vmsave_pa s s.nv_n1vmcx_pa).n2vmcb._vintr = s.n2vmcb._vintr :=
    h2.svm_vmsave_pa s _
  rw [prepare4vmexit_masking, s1, s2, hflag, hmask, e1, e2]
  cases v.vvmcb._vintr.intr_masking <;> rfl

/-- C38, witness: L1 asks for no masking in `unmaskedState` and for masking in
`maskedState`; the shadow block runs with masking on in both, and the exit
from the state the entry left gives the virtual block L1's own bit. -/
theorem vintr_masking_round_trip_witness :
    ((nsvm_vcpu_vmentry idleCollab unmaskedState {} 3).v.n2vmcb._vintr.intr_masking = true ∧
      (nsvm_vmcb_prepare4vmexit idleCollab (nsvm_vcpu_vmentry idleCollab unmaskedState {} 3).v
        {}).v.vvmcb._vintr.intr_masking = false) ∧
    ((nsvm_vcpu_vmentry idleCollab maskedState {} 3).v.n2vmcb._vintr.intr_masking = true ∧
      (nsvm_vmcb_prepare4vmexit idleCollab (nsvm_vcpu_vmentry idleCollab maskedState {} 3).v
        {}).v.vvmcb._vintr.intr_masking = true) :=
  have a := vintr_masking_round_trip idleCollab unmaskedState
    (nsvm_vcpu_vmentry idleCollab unmaskedState {} 3).v {} {} 3 (idleCollab_preserves _)
    (by decide) (by decide) rfl rfl
  have b := vintr_masking_round_trip idleCollab maskedState
    (nsvm_vcpu_vmentry idleCollab maskedState {} 3).v {} {} 3 (idleCollab_preserves _)
    (by decide) (by decide) rfl rfl
  ⟨⟨a.2.1, a.2.2.trans (by decide)⟩, ⟨b.2.1, b.2.2.trans (by decide)⟩⟩

theorem switched_cr0View (c : Collab) (v : Vcpu) (inst_len : Nat) :
    (nsvm_vcpu_vmentry_switched c v inst_len).n1vmcb._cr0 =
      (nsvm_vcpu_vmentry_switched c v inst_len).guest_cr0 := by
  unfold nsvm_vcpu_vmentry_switched nsvm_vcpu_hostsave
  simp only

theorem store_cr0View (s : Vcpu) (p : vmcb_ptr) (F : vmcb_struct → vmcb_struct)
    (hF : ∀ b, (F b)._cr0 = b._cr0) : cr0View (s.store p F) = cr0View s := by
  cases p
  · show ((F s.n1vmcb)._cr0, s.guest_cr0) = (s.n1vmcb._cr0, s.guest_cr0)
    rw [hF]
  · rfl

theorem head_cr0View (c : Collab) (v : Vcpu) (clean : vmcbcleanbits_t) :
    cr0View (nsvm_vmcb_prepare4vmrun_head c v clean).1 = cr0View v := by
  have hm : cr0View (nsvm_vmcb_prepare4vmrun_pause_tsc
      (nsvm_vmcb_prepare4vmrun_intercepts v clean)) = cr0View v := by
    unfold nsvm_vmcb_prepare4vmrun_pause_tsc nsvm_vmcb_prepare4vmrun_intercepts
    split <;> split <;> rfl
  have hp : ∀ s viopm, cr0View (nsvm_vmrun_permissionmap c s viopm).1 = cr0View s := by
    intro s viopm
    unfold nsvm_vmrun_permissionmap
    simp only
    split
    · rfl
    · refine (store_cr0View _ _ _ ?_).trans ((store_cr0View _ _ _ ?_).trans ?_)
      · intro b
        rfl
      · intro b
        rfl
      · rfl
  unfold nsvm_vmcb_prepare4vmrun_head
  rw [hp, hm]

theorem control_segments_cr0View (v : Vcpu) (clean : vmcbcleanbits_t) :
    cr0View (nsvm_vmcb_prepare4vmrun_segments (nsvm_vmcb_prepare4vmrun_control v clean) clean) =
      cr0View v := by
  have h1 : ∀ s, cr0View (nsvm_vmcb_prepare4vmrun_segments s clean) = cr0View s := by
    intro s
    unfold nsvm_vmcb_prepare4vmrun_segments
    split <;> split <;> rfl
  have h2 : cr0View (nsvm_vmcb_prepare4vmrun_control v clean) = cr0View v := by
    unfold nsvm_vmcb_prepare4vmrun_control
    split <;> rfl
  rw [h1, h2]

theorem efer_cr4_cr0View (c : Collab)
    (hefer : ∀ s x, cr0View (c.hvm_set_efer s x).1 = cr0View s)
    (hcr4 : ∀ s x d, cr0View (c.hvm_set_cr4 s x d).1 = cr0View s)
    (hinj : ∀ s x e, cr0View (c.hvm_inject_hw_exception s x e) = cr0View s) (v : Vcpu) :
    cr0View (nsvm_vmcb_prepare4vmrun_efer_cr4 c v) = cr0View v := by
  have h6 : ∀ r, cr0View (inject_gp_on_exception c r) = cr0View r.1 := by
    intro r
    unfold inject_gp_on_exception
    split
    · exact hinj _ _ _
    · rfl
  unfold nsvm_vmcb_prepare4vmrun_efer_cr4
  simp only
  rw [h6, hcr4]
  show cr0View (inject_gp_on_exception c
    (c.hvm_set_efer { v with guest_efer := v.vvmcb._efer } v.vvmcb._efer)) = cr0View v
  rw [h6, hefer]
  rfl

/-- C34: in a run of `nsvm_vcpu_vmentry`, the state `nsvm_vcpu_vmentry_cr0_state`
is the one in which `nsvm_vmcb_prepare4vmrun` goes on with line 554, and there the
CR0 of the L1 block is the logical CR0 that `nsvm_vcpu_hostsave` stored in
it, provided `hvm_set_efer`, `hvm_set_cr4` and the injection of #GP after a
failed setter leave both values alone. So the condition of the first branch
of `nestedsvm_fpu_vmentry` (TS clear in `n1cr0`, set in `n1vmcb._cr0`) is
false, the call takes the second branch or none, and the CR0 it returns for
`hvm_set_cr0` has TS only if the virtual block's CR0 has it. -/
theorem vmentry_first_fpu_branch_dead (c : Collab) (v : Vcpu) (regs : cpu_user_regs)
    (inst_len : Nat)
    (hefer : ∀ s x, cr0View (c.hvm_set_efer s x).1 = cr0View s)
    (hcr4 : ∀ s x d, cr0View (c.hvm_set_cr4 s x d).1 = cr0View s)
    (hinj : ∀ s x e, cr0View (c.hvm_inject_hw_exception s x e) = cr0View s) :
    nsvm_vmcb_prepare4vmrun_tail c
        (nsvm_vmcb_prepare4vmrun_head c (nsvm_vcpu_vmentry_switched c v inst_len)
          (nsvm_vmcb_prepare4vmrun_clean (nsvm_vcpu_vmentry_switched c v inst_len))).1
        (nsvm_vmcb_prepare4vmrun_clean (nsvm_vcpu_vmentry_switched c v inst_len)) regs =
      nsvm_vmcb_prepare4vmrun_validate c
        (nsvm_vmcb_prepare4vmrun_save
          (nsvm_vmcb_prepare4vmrun_paging c
            (nsvm_vmcb_prepare4vmrun_cr0_cr2 c (nsvm_vcpu_vmentry_cr0_state c v inst_len)))
          (nsvm_vmcb_prepare4vmrun_clean (nsvm_vcpu_vmentry_switched c v inst_len))) regs ∧
    (nsvm_vcpu_vmentry_cr0_state c v inst_len).n1vmcb._cr0 =
      (nsvm_vcpu_vmentry_cr0_state c v inst_len).guest_cr0 ∧
    ¬ ((nsvm_vcpu_vmentry_cr0_state c v inst_len).guest_cr0 &&& X86_CR0_TS = 0 ∧
        (nsvm_vcpu_vmentry_cr0_state c v inst_len).n1vmcb._cr0 &&& X86_CR0_TS ≠ 0) ∧
    nestedsvm_fpu_vmentry (nsvm_vcpu_vmentry_cr0_state c v inst_len).guest_cr0
        (nsvm_vcpu_vmentry_cr0_state c v inst_len).vvmcb
        (nsvm_vcpu_vmentry_cr0_state c v inst_len).n1vmcb
        (nsvm_vcpu_vmentry_cr0_state c v inst_len).n2vmcb =
      (if (nsvm_vcpu_vmentry_cr0_state c v inst_len).vvmcb._cr0 &&& X86_CR0_TS = 0 ∧
          (nsvm_vcpu_vmentry_cr0_state c v inst_len).n2vmcb._cr0 &&& X86_CR0_TS ≠ 0 then
        (clearBits 64 (nsvm_vcpu_vmentry_cr0_state c v inst_len).vvmcb._cr0 X86_CR0_TS,
          { (nsvm_vcpu_vmentry_cr0_state c v inst_len).n2vmcb with
            _exception_intercepts :=
              clearBits 32
                (nsvm_vcpu_vmentry_cr0_state c v inst_len).n2vmcb._exception_intercepts
                (1 <<< X86_EXC_NM) })
      else ((nsvm_vcpu_vmentry_cr0_state c v inst_len).vvmcb._cr0,
        (nsvm_vcpu_vmentry_cr0_state c v inst_len).n2vmcb)) ∧
    ((nestedsvm_fpu_vmentry (nsvm_vcpu_vmentry_cr0_state c v inst_len).guest_cr0
        (nsvm_vcpu_vmentry_cr0_state c v inst_len).vvmcb
        (nsvm_vcpu_vmentry_cr0_state c v inst_len).n1vmcb
        (nsvm_vcpu_vmentry_cr0_state c v inst_len).n2vmcb).1.testBit 3 = true →
      (nsvm_vcpu_vmentry_cr0_state c v inst_len).vvmcb._cr0.testBit 3 = true) := by
  have hview : cr0View (nsvm_vcpu_vmentry_cr0_state c v inst_len) =
      cr0View (nsvm_vcpu_vmentry_switched c v inst_len) := by
    unfold nsvm_vcpu_vmentry_cr0_state
    simp only
    rw [efer_cr4_cr0View c hefer hcr4 hinj, control_segments_cr0View, head_cr0View]
  have heq : (nsvm_vcpu_vmentry_cr0_state c v inst_len).n1vmcb._cr0 =
      (nsvm_vcpu_vmentry_cr0_state c v inst_len).guest_cr0 := by
    have h1 := congrArg Prod.fst hview
    have h2 := congrArg Prod.snd hview
    simp only [cr0View] at h1 h2
    rw [h1, h2]
    exact switched_cr0View c v inst_len
  have hdead : ¬ ((nsvm_vcpu_vmentry_cr0_state c v inst_len).guest_cr0 &&& X86_CR0_TS = 0 ∧
      (nsvm_vcpu_vmentry_cr0_state c v inst_len).n1vmcb._cr0 &&& X86_CR0_TS ≠ 0) := by
    rw [heq]
    exact fun h => h.2 h.1
  have hfpu : nestedsvm_fpu_vmentry (nsvm_vcpu_vmentry_cr0_state c v inst_len).guest_cr0
        (nsvm_vcpu_vmentry_cr0_state c v inst_len).vvmcb
        (nsvm_vcpu_vmentry_cr0_state c v inst_len).n1vmcb
        (nsvm_vcpu_vmentry_cr0_state c v inst_len).n2vmcb =
      (if (nsvm_vcpu_vmentry_cr0_state c v inst_len).vvmcb._cr0 &&& X86_CR0_TS = 0 ∧
          (nsvm_vcpu_vmentry_cr0_state c v inst_len).n2vmcb._cr0 &&& X86_CR0_TS ≠ 0 then
        (clearBits 64 (nsvm_vcpu_vmentry_cr0_state c v inst_len).vvmcb._cr0 X86_CR0_TS,
          { (nsvm_vcpu_vmentry_cr0_state c v inst_len).n2vmcb with
            _exception_intercepts :=
              clearBits 32
                (nsvm_vcpu_vmentry_cr0_state c v inst_len).n2vmcb._exception_intercepts
                (1 <<< X86_EXC_NM) })
      else ((nsvm_vcpu_vmentry_cr0_state c v inst_len).vvmcb._cr0,
        (nsvm_vcpu_vmentry_cr0_state c v inst_len).n2vmcb)) := by
    unfold nestedsvm_fpu_vmentry
    simp only
    rw [if_neg hdead]
  refine ⟨rfl, heq, hdead, hfpu, ?_⟩
  rw [hfpu]
  split
  · intro h
    rw [testBit_ts_cleared] at h
    cases h
  · exact fun h => h

/-- C34, witness: in `deferredFpuState` the host has deferred an FPU switch
(TS set in the L1 block, clear in L1's logical CR0), yet after the save of the
host state the two values agree, the CR0 handed to `hvm_set_cr0` is the
virtual block's and the run ends without the #NM intercept. -/
theorem vmentry_first_fpu_branch_dead_witness :
    (deferredFpuState.guest_cr0 &&& X86_CR0_TS = 0 ∧
      deferredFpuState.n1vmcb._cr0 &&& X86_CR0_TS ≠ 0) ∧
    (nsvm_vcpu_vmentry_cr0_state idleCollab deferredFpuState 3).n1vmcb._cr0 = 0x80000001 ∧
    (nestedsvm_fpu_vmentry (nsvm_vcpu_vmentry_cr0_state idleCollab deferredFpuState 3).guest_cr0
        (nsvm_vcpu_vmentry_cr0_state idleCollab deferredFpuState 3).vvmcb
        (nsvm_vcpu_vmentry_cr0_state idleCollab deferredFpuState 3).n1vmcb
        (nsvm_vcpu_vmentry_cr0_state idleCollab deferredFpuState 3).n2vmcb).1 = 0x80000001 ∧
    (nsvm_vcpu_vmentry idleCollab deferredFpuState {} 3).rc = 0 ∧
    (nsvm_vcpu_vmentry idleCollab deferredFpuState {} 3).v.n2vmcb._exception_intercepts = 0 :=
  have h := vmentry_first_fpu_branch_dead idleCollab deferredFpuState {} 3 (fun _ _ => rfl)
    (fun _ _ _ => rfl) (fun _ _ _ => rfl)
  ⟨by decide, h.2.1.trans (by decide), (congrArg Prod.fst h.2.2.2.1).trans (by decide),
    by decide, by decide⟩

theorem ioio_traced_succ (c : Collab) (v : Vcpu) (io_bitmap : Option (Nat → Bool))
    (gfn port size : Nat) :
    nsvm_vmcb_guest_intercepts_ioio_traced c v io_bitmap gfn port (size + 1) =
      if (match io_bitmap with
          | none => false
          | some bits => bits port) = false ∨ size = 0 then
        ((match io_bitmap with
          | none => false
          | some bits => bits port), [(gfn, port)], 0)
      else if (port + 1) % 2 ^ 16 = 8 * PAGE_SIZE then
        ((nsvm_vmcb_guest_intercepts_ioio_traced c v (c.hvm_map_guest_frame_ro v (gfn + 1) false)
            (gfn + 1) ((port + 1) % 2 ^ 16 - 8 * PAGE_SIZE) size).1,
          (gfn, port) :: (nsvm_vmcb_guest_intercepts_ioio_traced c v
            (c.hvm_map_guest_frame_ro v (gfn + 1) false)
            (gfn + 1) ((port + 1) % 2 ^ 16 - 8 * PAGE_SIZE) size).2.1,
          (nsvm_vmcb_guest_intercepts_ioio_traced c v (c.hvm_map_guest_frame_ro v (gfn + 1) false)
            (gfn + 1) ((port + 1) % 2 ^ 16 - 8 * PAGE_SIZE) size).2.2 + 1)
      else
        ((nsvm_vmcb_guest_intercepts_ioio_traced c v io_bitmap gfn ((port + 1) % 2 ^ 16) size).1,
          (gfn, port) ::
            (nsvm_vmcb_guest_intercepts_ioio_traced c v io_bitmap gfn ((port + 1) % 2 ^ 16)
              size).2.1,
          (nsvm_vmcb_guest_intercepts_ioio_traced c v io_bitmap gfn ((port + 1) % 2 ^ 16)
            size).2.2) :=
  rfl

/-- Without its ghost results the traced loop is the loop. -/
theorem ioio_traced_enabled (c : Collab) (v : Vcpu) (size : Nat) :
    ∀ (io_bitmap : Option (Nat → Bool)) (gfn port : Nat),
      (nsvm_vmcb_guest_intercepts_ioio_traced c v io_bitmap gfn port size).1 =
        nsvm_vmcb_guest_intercepts_ioio_loop c v io_bitmap gfn port size := by
  induction size with
  | zero => intro io_bitmap gfn port; rfl
  | succ n ih =>
    intro io_bitmap gfn port
    rw [ioio_traced_succ, ioio_loop_succ]
    cases io_bitmap with
    | none => simp only [true_or, if_true]
    | some bits =>
      simp only
      by_cases h1 : bits port = false ∨ n = 0
      · rw [if_pos h1, if_pos h1]
      · rw [if_neg h1, if_neg h1]
        by_cases h2 : (port + 1) % 2 ^ 16 = 8 * PAGE_SIZE
        · rw [if_pos h2, if_pos h2]
          exact ih _ _ _
        · rw [if_neg h2, if_neg h2]
          exact ih _ _ _

/-- A walk that stays inside one page maps no further page and tests bits of
that page only. -/
theorem ioio_traced_within (c : Collab) (v : Vcpu) (size : Nat) :
    ∀ (io_bitmap : Option (Nat → Bool)) (gfn port : Nat), port + size ≤ 8 * PAGE_SIZE →
      (nsvm_vmcb_guest_intercepts_ioio_traced c v io_bitmap gfn port size).2.2 = 0 ∧
      (nsvm_vmcb_guest_intercepts_ioio_traced c v io_bitmap gfn port size).2.1.length ≤ size ∧
      ∀ t ∈ (nsvm_vmcb_guest_intercepts_ioio_traced c v io_bitmap gfn port size).2.1,
        t.1 = gfn ∧ t.2 < 8 * PAGE_SIZE := by
  induction size with
  | zero =>
    intro io_bitmap gfn port _
    exact ⟨rfl, Nat.le_refl _, fun t ht => absurd ht (List.not_mem_nil t)⟩
  | succ n ih =>
    intro io_bitmap gfn port hp
    rw [page_bits] at hp
    have hport : port < 8 * PAGE_SIZE := by
      rw [page_bits]
      omega
    rw [ioio_traced_succ]
    split
    · refine ⟨rfl, Nat.succ_le_succ (Nat.zero_le _), fun t ht => ?_⟩
      rw [List.mem_singleton] at ht
      rw [ht]
      exact ⟨rfl, hport⟩
    · rename_i hgo
      have hn : n ≠ 0 := fun h => hgo (Or.inr h)
      have hmod : (port + 1) % 2 ^ 16 = port + 1 := Nat.mod_eq_of_lt (by omega)
      have hne : ¬ (port + 1) % 2 ^ 16 = 8 * PAGE_SIZE := by
        rw [hmod, page_bits]
        omega
      rw [if_neg hne, hmod]
      obtain ⟨i1, i2, i3⟩ := ih io_bitmap gfn (port + 1) (by rw [page_bits]; omega)
      refine ⟨i1, Nat.succ_le_succ i2, fun t ht => ?_⟩
      rw [List.mem_cons] at ht
      rcases ht with ht | ht
      · rw [ht]
        exact ⟨rfl, hport⟩
      · exact i3 t ht

/-- A walk of at most `8 * PAGE_SIZE` ports that starts inside a page maps at
most one further page, tests at most `size` bits, each below `8 * PAGE_SIZE`,
in the page it starts in or in the next one. -/
theorem ioio_traced_bounds (c : Collab) (v : Vcpu) (size : Nat) :
    ∀ (io_bitmap : Option (Nat → Bool)) (gfn port : Nat), port < 8 * PAGE_SIZE →
      size ≤ 8 * PAGE_SIZE →
      (nsvm_vmcb_guest_intercepts_ioio_traced c v io_bitmap gfn port size).2.2 ≤ 1 ∧
      (nsvm_vmcb_guest_intercepts_ioio_traced c v io_bitmap gfn port size).2.1.length ≤ size ∧
      ∀ t ∈ (nsvm_vmcb_guest_intercepts_ioio_traced c v io_bitmap gfn port size).2.1,
        (t.1 = gfn ∨ t.1 = gfn + 1) ∧ t.2 < 8 * PAGE_SIZE := by
  induction size with
  | zero =>
    intro io_bitmap gfn port _ _
    exact ⟨Nat.zero_le _, Nat.le_refl _, fun t ht => absurd ht (List.not_mem_nil t)⟩
  | succ n ih =>
    intro io_bitmap gfn port hport hsize
    have hport2 := hport
    rw [page_bits] at hport2 hsize
    rw [ioio_traced_succ]
    split
    · refine ⟨Nat.zero_le _, Nat.succ_le_succ (Nat.zero_le _), fun t ht => ?_⟩
      rw [List.mem_singleton] at ht
      rw [ht]
      exact ⟨Or.inl rfl, hport⟩
    · have hmod : (port + 1) % 2 ^ 16 = port + 1 := Nat.mod_eq_of_lt (by omega)
      rw [hmod]
      split
      · rename_i hwrap
        rw [hwrap, Nat.sub_self]
        obtain ⟨i1, i2, i3⟩ := ioio_traced_within c v n
          (c.hvm_map_guest_frame_ro v (gfn + 1) false) (gfn + 1) 0 (by rw [page_bits]; omega)
        refine ⟨by rw [i1], Nat.succ_le_succ i2, fun t ht => ?_⟩
        rw [List.mem_cons] at ht
        rcases ht with ht | ht
        · rw [ht]
          exact ⟨Or.inl rfl, hport⟩
        · exact ⟨Or.inr (i3 t ht).1, (i3 t ht).2⟩
      · rename_i hnowrap
        rw [page_bits] at hnowrap
        obtain ⟨i1, i2, i3⟩ := ih io_bitmap gfn (port + 1) (by rw [page_bits]; omega)
          (by rw [page_bits]; omega)
        refine ⟨i1, Nat.succ_le_succ i2, fun t ht => ?_⟩
        rw [List.mem_cons] at ht
        rcases ht with ht | ht
        · rw [ht]
          exact ⟨Or.inl rfl, hport⟩
        · exact i3 t ht

theorem ioio_traced_nonempty (c : Collab) (v : Vcpu) (io_bitmap : Option (Nat → Bool))
    (gfn port n : Nat) :
    1 ≤ (nsvm_vmcb_guest_intercepts_ioio_traced c v io_bitmap gfn port (n + 1)).2.1.length := by
  rw [ioio_traced_succ]
  split
  · exact Nat.le_refl _
  · split
    · exact Nat.succ_le_succ (Nat.zero_le _)
    · exact Nat.succ_le_succ (Nat.zero_le _)

theorem ioio_info_port_lt (exitinfo1 : Nat) : ioio_info_port exitinfo1 < 2 * 8 * PAGE_SIZE := by
  unfold ioio_info_port
  have h : 2 * 8 * PAGE_SIZE = 2 ^ 16 := by decide
  rw [h]
  exact Nat.mod_lt _ (by decide)

theorem ioio_size_cases (exitinfo1 : Nat) :
    ioio_size exitinfo1 = 1 ∨ ioio_size exitinfo1 = 2 ∨ ioio_size exitinfo1 = 4 := by
  unfold ioio_size
  split
  · exact Or.inr (Or.inr rfl)
  · split
    · exact Or.inr (Or.inl rfl)
    · exact Or.inl rfl

/-- The switch of lines 894-905 takes one of its two cases for every port
that `ioio_info_port` decodes. -/
theorem ioio_switch_some (gfn exitinfo1 : Nat) :
    nsvm_vmcb_guest_intercepts_ioio_switch gfn (ioio_info_port exitinfo1) =
      some (if ioio_info_port exitinfo1 < 8 * PAGE_SIZE then (ioio_info_port exitinfo1, gfn)
        else (ioio_info_port exitinfo1 - 8 * PAGE_SIZE, gfn + 1)) := by
  have hlt := ioio_info_port_lt exitinfo1
  have h2 : 2 * 8 * PAGE_SIZE = 65536 := by decide
  rw [h2] at hlt
  unfold nsvm_vmcb_guest_intercepts_ioio_switch
  rw [h2, page_bits]
  by_cases h : ioio_info_port exitinfo1 < 32768
  · rw [if_pos (by omega), if_pos h]
  · rw [if_neg (by omega), if_pos (by omega), if_neg h]

/-- C36: for every EXITINFO1 the switch of `nsvm_vmcb_guest_intercepts_ioio`
takes one of its two cases, never the `BUG()` of the default: it leaves a port
`p` below `8 * PAGE_SIZE` in the first or the second page `g` of the bitmap.
The function then returns the verdict of the walk from there over `size`
ports, `size` being 1, 2 or 4; the walk runs at least one and at most `size`
rounds, every bit index it tests is below `8 * PAGE_SIZE` in page `g` or
`g + 1`, and it maps at most one further page. -/
theorem guest_intercepts_ioio_total (c : Collab) (v : Vcpu) (iopm_pa exitinfo1 : Nat) :
    ∃ p g,
      nsvm_vmcb_guest_intercepts_ioio_switch (iopm_pa >>> PAGE_SHIFT)
        (ioio_info_port exitinfo1) = some (p, g) ∧
      p < 8 * PAGE_SIZE ∧
      (g = iopm_pa >>> PAGE_SHIFT ∨ g = iopm_pa >>> PAGE_SHIFT + 1) ∧
      (ioio_size exitinfo1 = 1 ∨ ioio_size exitinfo1 = 2 ∨ ioio_size exitinfo1 = 4) ∧
      nsvm_vmcb_guest_intercepts_ioio c v iopm_pa exitinfo1 =
        (if (nsvm_vmcb_guest_intercepts_ioio_traced c v (c.hvm_map_guest_frame_ro v g false) g p
            (ioio_size exitinfo1)).1 = false
          then nestedhvm_vmexits.NESTEDHVM_VMEXIT_HOST
          else nestedhvm_vmexits.NESTEDHVM_VMEXIT_INJECT) ∧
      1 ≤ (nsvm_vmcb_guest_intercepts_ioio_traced c v (c.hvm_map_guest_frame_ro v g false) g p
        (ioio_size exitinfo1)).2.1.length ∧
      (nsvm_vmcb_guest_intercepts_ioio_traced c v (c.hvm_map_guest_frame_ro v g false) g p
        (ioio_size exitinfo1)).2.1.length ≤ ioio_size exitinfo1 ∧
      (∀ t ∈ (nsvm_vmcb_guest_intercepts_ioio_traced c v (c.hvm_map_guest_frame_ro v g false) g p
          (ioio_size exitinfo1)).2.1, t.2 < 8 * PAGE_SIZE ∧ (t.1 = g ∨ t.1 = g + 1)) ∧
      (nsvm_vmcb_guest_intercepts_ioio_traced c v (c.hvm_map_guest_frame_ro v g false) g p
        (ioio_size exitinfo1)).2.2 ≤ 1 := by
  have hsw := ioio_switch_some (iopm_pa >>> PAGE_SHIFT) exitinfo1
  have hlt := ioio_info_port_lt exitinfo1
  have hsz := ioio_size_cases exitinfo1
  have hsize : ioio_size exitinfo1 ≤ 8 * PAGE_SIZE := by
    rw [page_bits]
    rcases hsz with h | h | h <;> rw [h] <;> decide
  obtain ⟨n, hn⟩ := ioio_size_pos exitinfo1
  have hloop := ioio_eq_loop c v iopm_pa exitinfo1
  have key : ∀ p g, p < 8 * PAGE_SIZE →
      nsvm_vmcb_guest_intercepts_ioio c v iopm_pa exitinfo1 =
        (if nsvm_vmcb_guest_intercepts_ioio_loop c v (c.hvm_map_guest_frame_ro v g false) g p
            (ioio_size exitinfo1) = false
          then nestedhvm_vmexits.NESTEDHVM_VMEXIT_HOST
          else nestedhvm_vmexits.NESTEDHVM_VMEXIT_INJECT) →
      1 ≤ (nsvm_vmcb_guest_intercepts_ioio_traced c v (c.hvm_map_guest_frame_ro v g false) g p
        (ioio_size exitinfo1)).2.1.length ∧
      nsvm_vmcb_guest_intercepts_ioio c v iopm_pa exitinfo1 =
        (if (nsvm_vmcb_guest_intercepts_ioio_traced c v (c.hvm_map_guest_frame_ro v g false) g p
            (ioio_size exitinfo1)).1 = false
          then nestedhvm_vmexits.NESTEDHVM_VMEXIT_HOST
          else nestedhvm_vmexits.NESTEDHVM_VMEXIT_INJECT) ∧
      (nsvm_vmcb_guest_intercepts_ioio_traced c v (c.hvm_map_guest_frame_ro v g false) g p
        (ioio_size exitinfo1)).2.1.length ≤ ioio_size exitinfo1 ∧
      (∀ t ∈ (nsvm_vmcb_guest_intercepts_ioio_traced c v (c.hvm_map_guest_frame_ro v g false) g p
          (ioio_size exitinfo1)).2.1, t.2 < 8 * PAGE_SIZE ∧ (t.1 = g ∨ t.1 = g + 1)) ∧
      (nsvm_vmcb_guest_intercepts_ioio_traced c v (c.hvm_map_guest_frame_ro v g false) g p
        (ioio_size exitinfo1)).2.2 ≤ 1 := by
    intro p g hp hv
    obtain ⟨b1, b2, b3⟩ := ioio_traced_bounds c v (ioio_size exitinfo1)
      (c.hvm_map_guest_frame_ro v g false) g p hp hsize
    refine ⟨?_, ?_, b2, fun t ht => ⟨(b3 t ht).2, (b3 t ht).1⟩, b1⟩
    · rw [hn]
      exact ioio_traced_nonempty c v _ g p n
    · rw [ioio_traced_enabled]
      exact hv
  by_cases h : ioio_info_port exitinfo1 < 8 * PAGE_SIZE
  · rw [if_pos h] at hsw
    simp only [if_pos h] at hloop
    obtain ⟨k1, k2, k3, k4, k5⟩ := key _ _ h hloop
    exact ⟨_, _, hsw, h, Or.inl rfl, hsz, k2, k1, k3, k4, k5⟩
  · rw [if_neg h] at hsw
    simp only [if_neg h] at hloop
    have hp : ioio_info_port exitinfo1 - 8 * PAGE_SIZE < 8 * PAGE_SIZE := by
      have h2 : 2 * 8 * PAGE_SIZE = 65536 := by decide
      rw [h2] at hlt
      rw [page_bits]
      omega
    obtain ⟨k1, k2, k3, k4, k5⟩ := key _ _ hp hloop
    exact ⟨_, _, hsw, hp, Or.inr rfl, hsz, k2, k1, k3, k4, k5⟩

/-- C36, witness: a four-byte access at port 0x7ffe with `ioBitmapCollab`
walks the last two bits of the first page and the first two of the second,
which it maps on the way; the port 0xffff lies in the second page. -/
theorem guest_intercepts_ioio_total_witness :
    nsvm_vmcb_guest_intercepts_ioio_traced ioBitmapCollab {}
        (ioBitmapCollab.hvm_map_guest_frame_ro {} 5 false) 5 0x7ffe 4 =
      (true, [(5, 0x7ffe), (5, 0x7fff), (6, 0), (6, 1)], 1) ∧
    nsvm_vmcb_guest_intercepts_ioio_switch 5 0xffff = some (0x7fff, 6) ∧
    (∃ p g, nsvm_vmcb_guest_intercepts_ioio_switch (0x5000 >>> PAGE_SHIFT)
        (ioio_info_port 0x7ffe0040) = some (p, g) ∧ p < 8 * PAGE_SIZE) :=
  have h := guest_intercepts_ioio_total ioBitmapCollab {} 0x5000 0x7ffe0040
  ⟨by decide, by decide, h.elim fun p hp => hp.elim fun g hg => ⟨p, g, hg.1, hg.2.1⟩⟩

/-- The state `nestedsvm_vcpu_vmexit_inject_state` is the one that
`nestedsvm_vcpu_vmexit` hands to its tail, whose first step is the call of
`nsvm_vcpu_vmexit_inject`. -/
theorem vcpu_vmexit_of_inject_state (c : Collab) (v s : Vcpu) (regs : cpu_user_regs)
    (exitcode : Nat) (h : nestedsvm_vcpu_vmexit_inject_state c v regs = some s) :
    ∃ r e, nestedsvm_vcpu_vmexit c v regs exitcode =
      some (nestedsvm_vcpu_vmexit_tail c s r e) := by
  unfold nestedsvm_vcpu_vmexit_inject_state at h
  unfold nestedsvm_vcpu_vmexit
  simp only at h ⊢
  split
  · rename_i hg
    rw [if_pos hg] at h
    generalize nestedsvm_vmexit_n2n1 c { v with nv_vmswitch_in_progress := true } regs = x at h ⊢
    obtain ⟨x1, x2, x3⟩ := x
    cases x3 <;> simp only at h ⊢
    all_goals first
      | (cases h; done)
      | (cases h; exact ⟨_, _, rfl⟩)
  · rename_i hg
    rw [if_neg hg] at h
    cases h
    exact ⟨_, _, rfl⟩

/-- The state `nsvm_vcpu_switch_inject_state` is the one on which
`nsvm_vcpu_switch` runs the tail of `nestedsvm_vcpu_vmexit`. -/
theorem switch_of_inject_state (c : Collab) (v s : Vcpu) (regs : cpu_user_regs)
    (h : nsvm_vcpu_switch_inject_state c v regs = some s) :
    ∃ r e, nsvm_vcpu_switch c v regs =
      some ({ (nestedsvm_vcpu_vmexit_tail c s r e).1 with
              nv_vmexit_pending := false, nv_vmentry_pending := false },
        (nestedsvm_vcpu_vmexit_tail c s r e).2.1) := by
  have hsw : ∀ (w : Vcpu) (rg : cpu_user_regs),
      nestedsvm_vcpu_vmexit_inject_state c w rg = some s →
      ∃ r e, nsvm_vcpu_switch_vmexit c w rg =
        some ({ (nestedsvm_vcpu_vmexit_tail c s r e).1 with
                nv_vmexit_pending := false, nv_vmentry_pending := false },
          (nestedsvm_vcpu_vmexit_tail c s r e).2.1) := by
    intro w rg hw
    obtain ⟨r, e, he⟩ := vcpu_vmexit_of_inject_state c w s rg w.ns_vmexit.exitcode hw
    refine ⟨r, e, ?_⟩
    unfold nsvm_vcpu_switch_vmexit
    rw [he]
  unfold nsvm_vcpu_switch_inject_state at h
  unfold nsvm_vcpu_switch
  by_cases h0 : c.nestedhvm_enabled = false
  · rw [if_pos h0] at h
    cases h
  · rw [if_neg h0] at h ⊢
    by_cases h1 : v.nv_vmexit_pending = true
    · rw [if_pos h1] at h ⊢
      exact hsw v regs h
    · rw [if_neg h1] at h ⊢
      by_cases h2 : v.nv_vmentry_pending = true
      · rw [if_pos h2] at h ⊢
        simp only at h ⊢
        by_cases h3 : (nsvm_vcpu_vmrun c v regs).rc ≠ 0
        · rw [if_pos h3] at h ⊢
          exact hsw _ _ h
        · rw [if_neg h3] at h
          cases h
      · rw [if_neg h2] at h
        cases h

/-- An exit that `nestedsvm_vmexit_defer` queues outside guest mode reaches
`nsvm_vcpu_vmexit_inject` with the GIF clear: the block through which the
GIF was cleared is still the active one. -/
theorem inject_assert_after_defer_host (c : Collab) (v : Vcpu) (regs : cpu_user_regs)
    (exitcode exitinfo1 exitinfo2 : Nat) (hen : c.nestedhvm_enabled = true)
    (hhost : v.nv_guestmode = false) :
    (nsvm_vcpu_switch_inject_state c (nestedsvm_vmexit_defer v exitcode exitinfo1 exitinfo2)
      regs).map nsvm_vcpu_vmexit_inject_assert = some true := by
  unfold nsvm_vcpu_switch_inject_state
  rw [if_neg (by rw [hen]; decide)]
  have hp : (nestedsvm_vmexit_defer v exitcode exitinfo1 exitinfo2).nv_vmexit_pending = true := rfl
  rw [if_pos hp]
  unfold nestedsvm_vcpu_vmexit_inject_state
  have hg : ¬ nestedhvm_vcpu_in_guestmode
      { nestedsvm_vmexit_defer v exitcode exitinfo1 exitinfo2 with
        nv_vmswitch_in_progress := true } = true := by
    unfold nestedsvm_vmexit_defer nestedhvm_vcpu_in_guestmode nestedsvm_vcpu_clgi
      local_event_delivery_disable Vcpu.store
    simp only
    cases v.vmcb <;> split <;> simp [hhost]
  simp only
  rw [if_neg hg]
  unfold nestedsvm_vmexit_defer nsvm_vcpu_vmexit_inject_assert nestedsvm_vcpu_clgi
    local_event_delivery_disable Vcpu.store Vcpu.active
  simp only [Option.map_some']
  cases hv : v.vmcb <;> simp only [hv] <;> split <;> simp_all

/-- C32: the condition that `nsvm_vcpu_vmexit_inject` asserts is false when
`nsvm_vcpu_switch` reaches it after a VMRUN that L1 executed with the GIF set
and that fails, be it on a virtual block that `svm_vmcb_isvalid` rejects or
on an instruction that does not decode: nothing on these paths clears the
GIF. It is also false after an exit that `nestedsvm_vmexit_defer` queued in
guest mode when the L1 block holds a set virtual GIF: the GIF is cleared
through the shadow block, or in `ns_gif`, and asserted on the L1 block. -/
theorem vmexit_inject_assert_fails :
    ((nsvm_vcpu_vmrun strictCollab gifSetEntryState {}).rc = -1 ∧
      (nsvm_vcpu_vmrun strictCollab gifSetEntryState {}).v.ns_vmexit.exitcode = VMEXIT_INVALID ∧
      (nsvm_vcpu_switch_inject_state strictCollab gifSetEntryState {}).map
        nsvm_vcpu_vmexit_inject_assert = some false) ∧
    ((nsvm_vcpu_vmrun noInsnCollab gifSetEntryState {}).rc = -1 ∧
      (nsvm_vcpu_vmrun noInsnCollab gifSetEntryState {}).v.ns_vmexit.exitcode =
        VMEXIT_SHUTDOWN ∧
      (nsvm_vcpu_switch_inject_state noInsnCollab gifSetEntryState {}).map
        nsvm_vcpu_vmexit_inject_assert = some false) ∧
    (nestedsvm_gif_isset (nestedsvm_vmexit_defer guestVgifState VMEXIT_VMMCALL 0 0) = false ∧
      (nsvm_vcpu_switch_inject_state idleCollab
        (nestedsvm_vmexit_defer guestVgifState VMEXIT_VMMCALL 0 0) {}).map
        nsvm_vcpu_vmexit_inject_assert = some false) := by
  decide

/-! ## The round trip and the repeated merge -/

theorem or_and_mask (x m M : Nat) (h : m &&& M = 0) : (x ||| m) &&& M = x &&& M := by
  apply Nat.eq_of_testBit_eq
  intro i
  have hi := congrArg (fun t => t.testBit i) h
  simp only [Nat.testBit_and, Nat.zero_testBit] at hi
  rw [Nat.testBit_and, Nat.testBit_or, Nat.testBit_and]
  cases hm : m.testBit i
  · simp
  · rw [hm] at hi
    simp only [Bool.true_and] at hi
    rw [hi]
    simp

theorem clearBits_or (w x m : Nat) (h : m &&& (2 ^ w - 1 - m % 2 ^ w) = 0) :
    clearBits w (x ||| m) m = clearBits w x m :=
  or_and_mask x m _ h

theorem clearBits_idem (w x m : Nat) : clearBits w (clearBits w x m) m = clearBits w x m := by
  unfold clearBits
  rw [Nat.and_assoc, Nat.and_self]

/-- Applying `mergedCore` twice is applying it once. -/
theorem mergedCore_idem (clean : vmcbcleanbits_t) (n1 vv b : vmcb_struct) :
    mergedCore clean n1 vv (mergedCore clean n1 vv b) = mergedCore clean n1 vv b := by
  obtain ⟨i, io, a, tpr, np, cr, dr, dt, seg, cr2, lbr, avic, cet, resv⟩ := clean
  cases tpr <;> cases np <;> cases dr <;> cases dt <;> cases seg <;> cases lbr <;> rfl

/-- The stages of lines 436-651 that only copy, on the part `coreView` of the
shadow block. -/
theorem pure_stages_core (s : Vcpu) (clean : vmcbcleanbits_t) :
    coreView (nsvm_vmcb_prepare4vmrun_pause_tsc
        (nsvm_vmcb_prepare4vmrun_intercepts s clean)).n2vmcb =
      { coreView s.n2vmcb with
        _cr_intercepts := s.n1vmcb._cr_intercepts ||| s.vvmcb._cr_intercepts,
        _dr_intercepts := s.n1vmcb._dr_intercepts ||| s.vvmcb._dr_intercepts,
        _general1_intercepts := s.n1vmcb._general1_intercepts ||| s.vvmcb._general1_intercepts,
        _general2_intercepts := s.n1vmcb._general2_intercepts ||| s.vvmcb._general2_intercepts,
        _pause_filter_count :=
          if s.vvmcb._general1_intercepts &&& GENERAL1_INTERCEPT_PAUSE ≠ 0 then
            min s.n1vmcb._pause_filter_count s.vvmcb._pause_filter_count
          else s.n1vmcb._pause_filter_count,
        _tsc_offset := (s.n1vmcb._tsc_offset + s.vvmcb._tsc_offset) % 2 ^ 64 } := by
  unfold nsvm_vmcb_prepare4vmrun_pause_tsc nsvm_vmcb_prepare4vmrun_intercepts
  split <;> split <;> simp only [*, if_true, if_false, coreView]

theorem ambient_of_outside (s t : Vcpu) (h : s.outside = t.outside) : s.ambient = t.ambient := by
  unfold Vcpu.ambient
  rw [h]

theorem ambient_fields (s t : Vcpu) (h : s.ambient = t.ambient) :
    s.vvmcb = t.vvmcb ∧ hostView s.n1vmcb = hostView t.n1vmcb ∧ s.vmcb = t.vmcb ∧
      s.ns_ovvmcb_pa = t.ns_ovvmcb_pa ∧ s.nv_vvmcxaddr = t.nv_vvmcxaddr :=
  ⟨congrArg (fun a => a.vvmcb) h, congrArg (fun a => hostView a.n1vmcb) h,
    congrArg (fun a => a.vmcb) h, congrArg (fun a => a.ns_ovvmcb_pa) h,
    congrArg (fun a => a.nv_vvmcxaddr) h⟩

theorem ambient_clean (s t : Vcpu) (h : s.ambient = t.ambient) :
    nsvm_vmcb_prepare4vmrun_clean s = nsvm_vmcb_prepare4vmrun_clean t := by
  obtain ⟨h1, _, _, h4, h5⟩ := ambient_fields s t h
  unfold nsvm_vmcb_prepare4vmrun_clean
  rw [h1, h4, h5]

theorem store_ambient (s : Vcpu) (p : vmcb_ptr) (F : vmcb_struct → vmcb_struct)
    (hF : ∀ b,
      { F b with
        _efer := 0, _cr0 := 0, _cr2 := 0, _cr3 := 0, _cr4 := 0,
        _iopm_base_pa := 0, _msrpm_base_pa := 0 } =
      { b with
        _efer := 0, _cr0 := 0, _cr2 := 0, _cr3 := 0, _cr4 := 0,
        _iopm_base_pa := 0, _msrpm_base_pa := 0 }) :
    (s.store p F).ambient = s.ambient := by
  cases p
  · show { s.ambient with
        n1vmcb := { F s.n1vmcb with
                    _efer := 0, _cr0 := 0, _cr2 := 0, _cr3 := 0, _cr4 := 0,
                    _iopm_base_pa := 0, _msrpm_base_pa := 0 } } = s.ambient
    rw [hF]
    rfl
  · rfl

theorem storeCollab_preserves_ambient : storeCollab.Preserves Vcpu.ambient :=
  ⟨fun s x => store_ambient { s with guest_efer := x } s.vmcb
      (fun b => { b with _efer := x }) (fun _ => rfl),
    fun s x _ => store_ambient { s with guest_cr0 := x } s.vmcb
      (fun b => { b with _cr0 := x }) (fun _ => rfl),
    fun s x _ _ => store_ambient { s with guest_cr3 := x } s.vmcb
      (fun b => { b with _cr3 := x }) (fun _ => rfl),
    fun s x _ => store_ambient { s with guest_cr4 := x } s.vmcb
      (fun b => { b with _cr4 := x }) (fun _ => rfl),
    fun _ _ => rfl, fun _ _ _ => rfl, fun _ _ => rfl, fun _ => rfl, fun _ => rfl, fun _ _ => rfl,
    fun _ => rfl, fun _ => rfl⟩

theorem storeCollab_deterministic : storeCollab.Deterministic :=
  ⟨fun _ _ h => congrArg (fun a => a.ns_hap_enabled) h, fun _ _ _ _ _ _ _ => rfl,
    fun _ _ _ _ _ => rfl, fun _ _ _ _ => rfl⟩

theorem idleCollab_deterministic : idleCollab.Deterministic :=
  ⟨fun _ _ h => congrArg (fun a => a.ns_hap_enabled) h, fun _ _ _ _ _ _ _ => rfl,
    fun _ _ _ _ _ => rfl, fun _ _ _ _ => rfl⟩

/-- Lines 489-514 on the part `coreView` of the shadow block. -/
theorem control_core (s : Vcpu) (clean : vmcbcleanbits_t) (n1 vv b : vmcb_struct)
    (hn1 : s.n1vmcb.virt_ext = n1.virt_ext) (hvv : s.vvmcb = vv)
    (hb : coreView s.n2vmcb = b) :
    coreView (nsvm_vmcb_prepare4vmrun_control s clean).n2vmcb =
      { b with
        tlb_control := vv.tlb_control,
        _vintr := if clean.tpr = false then { vv._vintr with intr_masking := true } else b._vintr,
        int_stat := vv.int_stat,
        exitcode := vv.exitcode,
        exitinfo1 := vv.exitinfo1,
        exitinfo2 := vv.exitinfo2,
        exit_int_info := vv.exit_int_info,
        event_inj := vv.event_inj,
        virt_ext := n1.virt_ext ||| vv.virt_ext } := by
  subst hvv hb
  rw [← hn1]
  unfold nsvm_vmcb_prepare4vmrun_control
  obtain ⟨i, io, a, tpr, np, cr, dr, dt, seg, cr2, lbr, avic, cet, resv⟩ := clean
  cases tpr <;> rfl

/-- Lines 518-536 on the part `coreView` of the shadow block. -/
theorem segments_core (s : Vcpu) (clean : vmcbcleanbits_t) (vv b : vmcb_struct)
    (hvv : s.vvmcb = vv) (hb : coreView s.n2vmcb = b) :
    coreView (nsvm_vmcb_prepare4vmrun_segments s clean).n2vmcb =
      { b with
        es := if clean.seg = false then vv.es else b.es,
        cs := if clean.seg = false then vv.cs else b.cs,
        ss := if clean.seg = false then vv.ss else b.ss,
        ds := if clean.seg = false then vv.ds else b.ds,
        _cpl := if clean.seg = false then vv._cpl else b._cpl,
        gdtr := if clean.dt = false then vv.gdtr else b.gdtr,
        idtr := if clean.dt = false then vv.idtr else b.idtr } := by
  subst hvv hb
  unfold nsvm_vmcb_prepare4vmrun_segments
  obtain ⟨i, io, a, tpr, np, cr, dr, dt, seg, cr2, lbr, avic, cet, resv⟩ := clean
  cases seg <;> cases dt <;> rfl

/-- Lines 610-651 on the part `coreView` of the shadow block. -/
theorem save_core (s : Vcpu) (clean : vmcbcleanbits_t) (vv b : vmcb_struct)
    (hvv : s.vvmcb = vv) (hb : coreView s.n2vmcb = b) :
    coreView (nsvm_vmcb_prepare4vmrun_save s clean).n2vmcb =
      { b with
        _dr7 := if clean.dr = false then vv._dr7 else b._dr7,
        _dr6 := if clean.dr = false then vv._dr6 else b._dr6,
        rflags := vv.rflags,
        rip := vv.rip,
        rsp := vv.rsp,
        rax := vv.rax,
        _g_pat := if clean.np = false then vv._g_pat else b._g_pat,
        _debugctlmsr := if clean.lbr = false then vv._debugctlmsr else b._debugctlmsr,
        _lastbranchfromip :=
          if clean.lbr = false then vv._lastbranchfromip else b._lastbranchfromip,
        _lastbranchtoip := if clean.lbr = false then vv._lastbranchtoip else b._lastbranchtoip,
        _lastintfromip := if clean.lbr = false then vv._lastintfromip else b._lastintfromip,
        _lastinttoip := if clean.lbr = false then vv._lastinttoip else b._lastinttoip } := by
  subst hvv hb
  unfold nsvm_vmcb_prepare4vmrun_save
  split <;> split <;> split <;> simp only [*, if_true, if_false, coreView]

theorem coreView_untouched :
    (∀ b x y, coreView { b with _iopm_base_pa := x, _msrpm_base_pa := y } = coreView b) ∧
      (∀ a b n1 n2, coreView (nestedsvm_fpu_vmentry a b n1 n2).2 = coreView n2) ∧
      (∀ b x, coreView (vmcb_set_np b x) = coreView b) ∧
      (∀ b x, coreView { b with _h_cr3 := x } = coreView b) :=
  ⟨fun _ _ _ => rfl, fun a b n1 n2 => @fpu_vmentry_n2 _ coreView (fun _ _ => rfl) a b n1 n2,
    fun _ _ => rfl, fun _ _ => rfl⟩

theorem preserves_coreView {c : Collab} (hn2 : c.Preserves fun s => restView s.n2vmcb) :
    c.Preserves fun s => coreView s.n2vmcb :=
  preserves_comp hn2 coreView

theorem head_ambient (c : Collab) (v : Vcpu) (clean : vmcbcleanbits_t) :
    (nsvm_vmcb_prepare4vmrun_head c v clean).1.ambient = v.ambient := by
  unfold nsvm_vmcb_prepare4vmrun_head
  rw [permissionmap_frame ambient_of_outside, pause_tsc_frame ambient_of_outside,
    intercepts_frame ambient_of_outside]

/-- The part `coreView` of the shadow block after a run of
`nsvm_vmcb_prepare4vmrun` that gets past the permission maps. -/
theorem prepare4vmrun_core (c : Collab) (v : Vcpu) (regs : cpu_user_regs)
    (hamb : c.Preserves Vcpu.ambient) (hn2 : c.Preserves fun s => restView s.n2vmcb)
    (hhead : (nsvm_vmcb_prepare4vmrun_head c v (nsvm_vmcb_prepare4vmrun_clean v)).2 = 0) :
    coreView (nsvm_vmcb_prepare4vmrun c v regs).v.n2vmcb =
      mergedCore (nsvm_vmcb_prepare4vmrun_clean v) v.n1vmcb v.vvmcb (coreView v.n2vmcb) := by
  have hcore := preserves_coreView hn2
  obtain ⟨u1, u2, u3, u4⟩ := coreView_untouched
  rw [prepare4vmrun_of_head c v regs hhead, tail_v]
  obtain ⟨clean, hclean⟩ : ∃ k, k = nsvm_vmcb_prepare4vmrun_clean v := ⟨_, rfl⟩
  rw [← hclean]
  obtain ⟨H, hH⟩ : ∃ H, H = (nsvm_vmcb_prepare4vmrun_head c v clean).1 := ⟨_, rfl⟩
  rw [← hH]
  have aH : H.ambient = v.ambient := by rw [hH]; exact head_ambient c v clean
  have cH := (head_n2 u1 c v clean).trans (pure_stages_core v clean)
  rw [← hH] at cH
  obtain ⟨X, hX⟩ : ∃ X, X = nsvm_vmcb_prepare4vmrun_control H clean := ⟨_, rfl⟩
  rw [← hX]
  have aX : X.ambient = v.ambient := by
    rw [hX]
    exact (control_frame ambient_of_outside H clean).trans aH
  have cX := control_core H clean v.n1vmcb v.vvmcb _
    (congrArg (fun a => a.n1vmcb.virt_ext) aH) (ambient_fields _ _ aH).1 cH
  rw [← hX] at cX
  obtain ⟨S, hS⟩ : ∃ S, S = nsvm_vmcb_prepare4vmrun_segments X clean := ⟨_, rfl⟩
  rw [← hS]
  have aS : S.ambient = v.ambient := by
    rw [hS]
    exact (segments_frame ambient_of_outside X clean).trans aX
  have cS := segments_core X clean v.vvmcb _ (ambient_fields _ _ aX).1 cX
  rw [← hS] at cS
  obtain ⟨P, hP⟩ : ∃ P, P = nsvm_vmcb_prepare4vmrun_paging c
      (nsvm_vmcb_prepare4vmrun_registers c S) := ⟨_, rfl⟩
  rw [← hP]
  have aP : P.ambient = v.ambient := by
    rw [hP, paging_frame hamb ambient_of_outside, registers_frame hamb ambient_of_outside]
    exact aS
  have cP : coreView P.n2vmcb = _ :=
    (by rw [hP, paging_n2 hcore u3 u4, registers_n2 hcore u2] :
      coreView P.n2vmcb = coreView S.n2vmcb).trans cS
  rw [save_core P clean v.vvmcb _ (ambient_fields _ _ aP).1 cP]
  unfold mergedCore
  obtain ⟨i, io, a, tpr, np, cr, dr, dt, seg, cr2, lbr, avic, cet, resv⟩ := clean
  cases tpr <;> cases np <;> cases dr <;> cases dt <;> cases seg <;> cases lbr <;> rfl

theorem save_cleanbits (s : Vcpu) (clean : vmcbcleanbits_t) :
    (nsvm_vmcb_prepare4vmrun_save s clean).n2vmcb.cleanbits = {} := by
  unfold nsvm_vmcb_prepare4vmrun_save
  split <;> split <;> split <;> rfl

/-- The nested-paging flag and root that lines 568-608 leave in the shadow
block are the same from two states that differ only in what the merge and the
register setters write. -/
theorem paging_det {c : Collab} (hdet : c.Deterministic)
    (hn2 : c.Preserves fun s => restView s.n2vmcb) (s t : Vcpu) (ha : s.ambient = t.ambient) :
    (nsvm_vmcb_prepare4vmrun_paging c s).n2vmcb._np =
        (nsvm_vmcb_prepare4vmrun_paging c t).n2vmcb._np ∧
      (nsvm_vmcb_prepare4vmrun_paging c s).n2vmcb._h_cr3 =
        (nsvm_vmcb_prepare4vmrun_paging c t).n2vmcb._h_cr3 := by
  have hnp : c.Preserves fun s => s.n2vmcb._np := preserves_comp hn2 fun b => b._np
  have hh : c.Preserves fun s => s.n2vmcb._h_cr3 := preserves_comp hn2 fun b => b._h_cr3
  have hhap := hdet.nestedhvm_paging_mode_hap s t ha
  refine ⟨by rw [paging_np hnp, paging_np hnp, hhap], ?_⟩
  have h3 : ∀ s x n d, (c.hvm_set_cr3 s x n d).1.n2vmcb._h_cr3 = s.n2vmcb._h_cr3 :=
    hh.hvm_set_cr3
  have h6 : ∀ r, (inject_gp_on_exception c r).n2vmcb._h_cr3 = r.1.n2vmcb._h_cr3 :=
    inject_gp_on_exception_preserves hh
  cases hn : c.nestedhvm_paging_mode_hap t
  · rw [hn] at hhap
    cases hp : c.paging_mode_hap
    · rw [paging_h_cr3_shadow c s hhap hp, paging_h_cr3_shadow c t hn hp]
    · rw [paging_h_cr3_host hh s hhap hp, paging_h_cr3_host hh t hn hp]
      exact congrArg (fun a => a.n1vmcb._h_cr3) ha
  · rw [hn] at hhap
    unfold nsvm_vmcb_prepare4vmrun_paging
    rw [if_pos hhap, if_pos hn]
    unfold nestedsvm_vmcb_set_nestedp2m
    simp only [h3, h6]
    exact hdet.p2m_get_nestedp2m _ _ ha (congrArg (fun a => a.vvmcb._h_cr3) ha)

theorem permissionmap_rc (c : Collab) (s : Vcpu) (x : Bool) :
    (nsvm_vmrun_permissionmap c s x).2 =
      if (c.hvm_copy_from_guest_phys s s.ns_cached_msrpm s.vvmcb._msrpm_base_pa MSRPM_SIZE).1 ≠
          HVMTRANS_okay then 1
      else 0 := by
  unfold nsvm_vmrun_permissionmap
  simp only
  split <;> rfl

theorem permissionmap_rc_det {c : Collab} (hdet : c.Deterministic) (s t : Vcpu)
    (ha : s.ambient = t.ambient) (x y : Bool) :
    (nsvm_vmrun_permissionmap c s x).2 = (nsvm_vmrun_permissionmap c t y).2 := by
  have hv : s.vvmcb._msrpm_base_pa = t.vvmcb._msrpm_base_pa :=
    congrArg (fun a => a.vvmcb._msrpm_base_pa) ha
  rw [permissionmap_rc, permissionmap_rc, ← hv,
    hdet.hvm_copy_from_guest_phys s t s.ns_cached_msrpm t.ns_cached_msrpm
      s.vvmcb._msrpm_base_pa MSRPM_SIZE ha]

theorem permissionmap_n2_host (c : Collab) (s : Vcpu) (x : Bool)
    (h : s.vmcb = vmcb_ptr.n1vmcx) : (nsvm_vmrun_permissionmap c s x).1.n2vmcb = s.n2vmcb := by
  unfold nsvm_vmrun_permissionmap
  simp only [Vcpu.store, h]
  split <;> rfl

theorem permissionmap_n2_failed (c : Collab) (s : Vcpu) (x : Bool)
    (h : (nsvm_vmrun_permissionmap c s x).2 ≠ 0) :
    (nsvm_vmrun_permissionmap c s x).1.n2vmcb = s.n2vmcb := by
  unfold nsvm_vmrun_permissionmap at h ⊢
  simp only at h ⊢
  split
  · rfl
  · rename_i hc
    rw [if_neg hc] at h
    exact (h rfl).elim

theorem permissionmap_n2_shadow (c : Collab) (s : Vcpu) (x : Bool)
    (hs : (nsvm_vmrun_permissionmap c s x).2 = 0) (hact : s.vmcb = vmcb_ptr.n2vmcx) :
    (nsvm_vmrun_permissionmap c s x).1.n2vmcb =
      { s.n2vmcb with
        _iopm_base_pa := c.virt_to_maddr_iomap (nsvm_vmrun_permissionmap c s x).1.ns_iomap,
        _msrpm_base_pa := c.virt_to_maddr_merged_msrpm } := by
  have hcs := permissionmap_copy_ok c s x hs
  unfold nsvm_vmrun_permissionmap
  simp only [Vcpu.store, hact]
  rw [if_neg (not_not.mpr hcs)]

/-- The shadow I/O bitmap that `nsvm_vmrun_permissionmap` chooses is the same
from two states that differ only in what the merge and the register setters
write. -/
theorem permissionmap_ns_iomap_det {c : Collab} (hdet : c.Deterministic) (s t : Vcpu)
    (ha : s.ambient = t.ambient) (x y : Bool)
    (hs : (nsvm_vmrun_permissionmap c s x).2 = 0) :
    (nsvm_vmrun_permissionmap c s x).1.ns_iomap =
      (nsvm_vmrun_permissionmap c t y).1.ns_iomap := by
  have ht : (nsvm_vmrun_permissionmap c t y).2 = 0 :=
    (permissionmap_rc_det hdet s t ha x y).symm.trans hs
  have hpa : s.vvmcb._iopm_base_pa = t.vvmcb._iopm_base_pa :=
    congrArg (fun a => a.vvmcb._iopm_base_pa) ha
  have hmap : ∀ (p q : Nat → Nat),
      c.hvm_map_guest_frame_ro
          { s with
            ns_cached_msrpm := p, ns_oiomap_pa := s.ns_iomap_pa,
            ns_iomap_pa := s.vvmcb._iopm_base_pa }
          (s.vvmcb._iopm_base_pa >>> PAGE_SHIFT) false =
        c.hvm_map_guest_frame_ro
          { t with
            ns_cached_msrpm := q, ns_oiomap_pa := t.ns_iomap_pa,
            ns_iomap_pa := t.vvmcb._iopm_base_pa }
          (t.vvmcb._iopm_base_pa >>> PAGE_SHIFT) false := by
    intro p q
    rw [← hpa]
    exact hdet.hvm_map_guest_frame_ro _ _ _ _ ha
  have es := congrArg (fun p => p.2.2.2.1)
    (permissionmap_bookkeeping c s x (permissionmap_copy_ok c s x hs))
  have et := congrArg (fun p => p.2.2.2.1)
    (permissionmap_bookkeeping c t y (permissionmap_copy_ok c t y ht))
  simp only at es et
  rw [es, et, hmap _
    (c.hvm_copy_from_guest_phys t t.ns_cached_msrpm t.vvmcb._msrpm_base_pa MSRPM_SIZE).2]

theorem testBit_clear_nm_mask (x i : Nat) :
    (clearBits 32 x (1 <<< X86_EXC_NM)).testBit i =
      (x.testBit i && (decide (i < 32) && !decide (7 = i))) := by
  have hm : 2 ^ 32 - 1 - (1 <<< X86_EXC_NM) % 2 ^ 32 = 2 ^ 32 - (2 ^ 7 + 1) := by decide
  unfold clearBits
  rw [hm, Nat.testBit_and, Nat.testBit_two_pow_sub_succ (by decide), Nat.testBit_two_pow]

theorem clear_nm_congr (a b : Nat)
    (h : ∀ i, i ≠ X86_EXC_NM → i < 32 → a.testBit i = b.testBit i) :
    clearBits 32 a (1 <<< X86_EXC_NM) = clearBits 32 b (1 <<< X86_EXC_NM) := by
  apply Nat.eq_of_testBit_eq
  intro i
  rw [testBit_clear_nm_mask, testBit_clear_nm_mask]
  by_cases h7 : 7 = i
  · rw [decide_eq_true h7]
    simp
  · by_cases h32 : i < 32
    · rw [h i (fun e => h7 e.symm) h32]
    · rw [decide_eq_false h32]
      simp

theorem restView_ext (a b : vmcb_struct) (hcore : coreView a = coreView b)
    (hexc : clearBits 32 a._exception_intercepts (1 <<< X86_EXC_NM) =
      clearBits 32 b._exception_intercepts (1 <<< X86_EXC_NM))
    (hnp : a._np = b._np) (hh : a._h_cr3 = b._h_cr3) (hcl : a.cleanbits = b.cleanbits)
    (hio : a._iopm_base_pa = b._iopm_base_pa) (hms : a._msrpm_base_pa = b._msrpm_base_pa) :
    restView a = restView b := by
  have ha : restView a =
      { coreView a with
        _exception_intercepts := clearBits 32 a._exception_intercepts (1 <<< X86_EXC_NM),
        _np := a._np, _h_cr3 := a._h_cr3, cleanbits := a.cleanbits,
        _iopm_base_pa := a._iopm_base_pa, _msrpm_base_pa := a._msrpm_base_pa } := rfl
  have hb : restView b =
      { coreView b with
        _exception_intercepts := clearBits 32 b._exception_intercepts (1 <<< X86_EXC_NM),
        _np := b._np, _h_cr3 := b._h_cr3, cleanbits := b.cleanbits,
        _iopm_base_pa := b._iopm_base_pa, _msrpm_base_pa := b._msrpm_base_pa } := rfl
  rw [ha, hb, hcore, hexc, hnp, hh, hcl, hio, hms]

theorem mergedCore_congr (clean : vmcbcleanbits_t) (n1 m1 vv b : vmcb_struct)
    (h : hostView n1 = hostView m1) :
    mergedCore clean n1 vv b = mergedCore clean m1 vv b := by
  simp only [hostView, Prod.mk.injEq] at h
  obtain ⟨⟨h1, h2, _, h4, h5⟩, h6, h7, h8, _⟩ := h
  unfold mergedCore
  rw [h1, h2, h4, h5, h6, h7, h8]

/-- Bits of the shadow exception intercepts other than the #NM bit after a
run of `nsvm_vmcb_prepare4vmrun`. -/
theorem prepare4vmrun_exception_bits {c : Collab}
    (hn2 : c.Preserves fun s => restView s.n2vmcb) (v : Vcpu) (regs : cpu_user_regs)
    (i : Nat) (hi : i ≠ X86_EXC_NM) (h32 : i < 32) :
    (nsvm_vmcb_prepare4vmrun c v regs).v.n2vmcb._exception_intercepts.testBit i =
      (v.n1vmcb._exception_intercepts ||| v.vvmcb._exception_intercepts).testBit i := by
  have hfun : (fun s : Vcpu => s.n2vmcb._exception_intercepts.testBit i) =
      fun s => (restView s.n2vmcb)._exception_intercepts.testBit i :=
    funext fun s => (testBit_clear_nm _ _ hi h32).symm
  have hp : c.Preserves fun s => s.n2vmcb._exception_intercepts.testBit i := by
    rw [hfun]
    exact preserves_comp hn2 fun b => b._exception_intercepts.testBit i
  have hfin := prepare4vmrun_n2 hp (untouched_exception_bit i hi h32) v regs
  rw [merged_exception_intercepts] at hfin
  exact hfin

/-- The bitmap addresses, the nested-paging flag and root and the clean bits
of the shadow block after a run that gets past the permission maps. -/
theorem prepare4vmrun_side (c : Collab) (v : Vcpu) (regs : cpu_user_regs)
    (hn2 : c.Preserves fun s => restView s.n2vmcb)
    (hhead : (nsvm_vmcb_prepare4vmrun_head c v (nsvm_vmcb_prepare4vmrun_clean v)).2 = 0) :
    (nsvm_vmcb_prepare4vmrun c v regs).v.n2vmcb.cleanbits = {} ∧
      ((nsvm_vmcb_prepare4vmrun c v regs).v.n2vmcb._iopm_base_pa,
        (nsvm_vmcb_prepare4vmrun c v regs).v.n2vmcb._msrpm_base_pa) =
      ((nsvm_vmcb_prepare4vmrun_head c v (nsvm_vmcb_prepare4vmrun_clean v)).1.n2vmcb._iopm_base_pa,
        (nsvm_vmcb_prepare4vmrun_head c v
          (nsvm_vmcb_prepare4vmrun_clean v)).1.n2vmcb._msrpm_base_pa) ∧
      ((nsvm_vmcb_prepare4vmrun c v regs).v.n2vmcb._np,
        (nsvm_vmcb_prepare4vmrun c v regs).v.n2vmcb._h_cr3) =
      ((nsvm_vmcb_prepare4vmrun_paging c
          (nsvm_vmcb_prepare4vmrun_registers c
            (nsvm_vmcb_prepare4vmrun_segments
              (nsvm_vmcb_prepare4vmrun_control
                (nsvm_vmcb_prepare4vmrun_head c v (nsvm_vmcb_prepare4vmrun_clean v)).1
                (nsvm_vmcb_prepare4vmrun_clean v))
              (nsvm_vmcb_prepare4vmrun_clean v)))).n2vmcb._np,
        (nsvm_vmcb_prepare4vmrun_paging c
          (nsvm_vmcb_prepare4vmrun_registers c
            (nsvm_vmcb_prepare4vmrun_segments
              (nsvm_vmcb_prepare4vmrun_control
                (nsvm_vmcb_prepare4vmrun_head c v (nsvm_vmcb_prepare4vmrun_clean v)).1
                (nsvm_vmcb_prepare4vmrun_clean v))
              (nsvm_vmcb_prepare4vmrun_clean v)))).n2vmcb._h_cr3) := by
  have hbit : c.Preserves fun s => (s.n2vmcb._iopm_base_pa, s.n2vmcb._msrpm_base_pa) :=
    preserves_comp hn2 fun b => (b._iopm_base_pa, b._msrpm_base_pa)
  rw [prepare4vmrun_of_head c v regs hhead]
  refine ⟨?_, ?_, ?_⟩
  · rw [tail_v]
    exact save_cleanbits _ _
  · rw [@tail_n2_after_segments _ c (fun b => (b._iopm_base_pa, b._msrpm_base_pa)) hbit
      ⟨fun a b n1 n2 => @fpu_vmentry_n2 _ (fun b => (b._iopm_base_pa, b._msrpm_base_pa))
          (fun _ _ => rfl) a b n1 n2,
        fun _ _ => rfl, fun _ _ => rfl, fun s clean => by
          unfold nsvm_vmcb_prepare4vmrun_save
          split <;> split <;> split <;> rfl⟩]
    have hseg : ∀ s clean,
        ((nsvm_vmcb_prepare4vmrun_segments s clean).n2vmcb._iopm_base_pa,
          (nsvm_vmcb_prepare4vmrun_segments s clean).n2vmcb._msrpm_base_pa) =
        (s.n2vmcb._iopm_base_pa, s.n2vmcb._msrpm_base_pa) := by
      intro s clean
      unfold nsvm_vmcb_prepare4vmrun_segments
      split <;> split <;> rfl
    have hctl : ∀ s clean,
        ((nsvm_vmcb_prepare4vmrun_control s clean).n2vmcb._iopm_base_pa,
          (nsvm_vmcb_prepare4vmrun_control s clean).n2vmcb._msrpm_base_pa) =
        (s.n2vmcb._iopm_base_pa, s.n2vmcb._msrpm_base_pa) := by
      intro s clean
      unfold nsvm_vmcb_prepare4vmrun_control
      split <;> rfl
    exact (hseg _ _).trans (hctl _ _)
  · rw [tail_v]
    exact save_np_h_cr3 _ _

/-- Lines 463-482 on the whole shadow block. -/
theorem merged_n2 (s : Vcpu) (clean : vmcbcleanbits_t) (n1 vv : vmcb_struct)
    (h1 : hostView s.n1vmcb = hostView n1) (hv : s.vvmcb = vv) :
    (nsvm_vmcb_prepare4vmrun_pause_tsc (nsvm_vmcb_prepare4vmrun_intercepts s clean)).n2vmcb =
      { s.n2vmcb with
        _cr_intercepts := n1._cr_intercepts ||| vv._cr_intercepts,
        _dr_intercepts := n1._dr_intercepts ||| vv._dr_intercepts,
        _exception_intercepts := n1._exception_intercepts ||| vv._exception_intercepts,
        _general1_intercepts := n1._general1_intercepts ||| vv._general1_intercepts,
        _general2_intercepts := n1._general2_intercepts ||| vv._general2_intercepts,
        _pause_filter_count :=
          if vv._general1_intercepts &&& GENERAL1_INTERCEPT_PAUSE ≠ 0 then
            min n1._pause_filter_count vv._pause_filter_count
          else n1._pause_filter_count,
        _tsc_offset := (n1._tsc_offset + vv._tsc_offset) % 2 ^ 64 } := by
  subst hv
  simp only [hostView, Prod.mk.injEq] at h1
  obtain ⟨⟨h1, h2, h3, h4, h5⟩, h6, h7, _, _⟩ := h1
  rw [← h1, ← h2, ← h3, ← h4, ← h5, ← h6, ← h7]
  unfold nsvm_vmcb_prepare4vmrun_pause_tsc nsvm_vmcb_prepare4vmrun_intercepts
  split <;> split <;> simp only [*, if_true, if_false]

theorem prepare4vmrun_of_head_failed (c : Collab) (v : Vcpu) (regs : cpu_user_regs)
    (hhead : (nsvm_vmcb_prepare4vmrun_head c v (nsvm_vmcb_prepare4vmrun_clean v)).2 ≠ 0) :
    (nsvm_vmcb_prepare4vmrun c v regs).v.n2vmcb =
      (nsvm_vmcb_prepare4vmrun_pause_tsc
        (nsvm_vmcb_prepare4vmrun_intercepts v (nsvm_vmcb_prepare4vmrun_clean v))).n2vmcb := by
  unfold nsvm_vmcb_prepare4vmrun
  simp only
  rw [if_pos hhead]
  exact permissionmap_n2_failed c _ _ hhead

theorem merged_ambient (v : Vcpu) (clean : vmcbcleanbits_t) :
    (nsvm_vmcb_prepare4vmrun_pause_tsc (nsvm_vmcb_prepare4vmrun_intercepts v clean)).ambient =
      v.ambient :=
  (pause_tsc_frame ambient_of_outside _).trans (intercepts_frame ambient_of_outside v clean)

/-- C4, as stated, fails: with the register-file collaborators, every clean
bit of the virtual block set and honoured, and the virtual block and the L1
block the same before and after each run, the first run of
`nsvm_vmcb_prepare4vmrun` leaves the shadow block with the #NM intercept set
and CR0 = PE|TS, and the second run leaves it with the #NM intercept clear and
CR0 = PE: the lazy-FPU handoff reads the guest's CR0, which the first run has
replaced. Both runs return 0. -/
theorem prepare4vmrun_twice_differs :
    nsvm_vmcb_prepare4vmrun_clean remergeState =
        { intercepts := true, iopm := true, asid := true, tpr := true, np := true, cr := true,
          dr := true, dt := true, seg := true, cr2 := true, lbr := true, avic := true,
          cet := true } ∧
      remergeState.ns_ovvmcb_pa = remergeState.nv_vvmcxaddr ∧
      (nsvm_vmcb_prepare4vmrun storeCollab remergeState {}).rc = 0 ∧
      (nsvm_vmcb_prepare4vmrun storeCollab
        (nsvm_vmcb_prepare4vmrun storeCollab remergeState {}).v
        (nsvm_vmcb_prepare4vmrun storeCollab remergeState {}).regs).rc = 0 ∧
      (nsvm_vmcb_prepare4vmrun storeCollab remergeState {}).v.vvmcb = remergeState.vvmcb ∧
      (nsvm_vmcb_prepare4vmrun storeCollab remergeState {}).v.n1vmcb = remergeState.n1vmcb ∧
      (nsvm_vmcb_prepare4vmrun storeCollab
        (nsvm_vmcb_prepare4vmrun storeCollab remergeState {}).v
        (nsvm_vmcb_prepare4vmrun storeCollab remergeState {}).regs).v.vvmcb =
          remergeState.vvmcb ∧
      (nsvm_vmcb_prepare4vmrun storeCollab
        (nsvm_vmcb_prepare4vmrun storeCollab remergeState {}).v
        (nsvm_vmcb_prepare4vmrun storeCollab remergeState {}).regs).v.n1vmcb =
          remergeState.n1vmcb ∧
      (nsvm_vmcb_prepare4vmrun storeCollab remergeState {}).v.n2vmcb._exception_intercepts =
        1 <<< X86_EXC_NM ∧
      (nsvm_vmcb_prepare4vmrun storeCollab remergeState {}).v.n2vmcb._cr0 =
        X86_CR0_PE ||| X86_CR0_TS ∧
      (nsvm_vmcb_prepare4vmrun storeCollab
        (nsvm_vmcb_prepare4vmrun storeCollab remergeState {}).v
        (nsvm_vmcb_prepare4vmrun storeCollab remergeState {}).regs).v.n2vmcb._exception_intercepts =
          0 ∧
      (nsvm_vmcb_prepare4vmrun storeCollab
        (nsvm_vmcb_prepare4vmrun storeCollab remergeState {}).v
        (nsvm_vmcb_prepare4vmrun storeCollab remergeState {}).regs).v.n2vmcb._cr0 =
          X86_CR0_PE := by
  decide

/-- Two runs of `nsvm_vmcb_prepare4vmrun` in succession leave the part
`restView` of the shadow block as one run leaves it, whatever the runs
return, when the collaborators are deterministic and leave `Vcpu.ambient`
and that part of the shadow block alone. -/
theorem prepare4vmrun_twice_rest (c : Collab) (v : Vcpu) (regs regs2 : cpu_user_regs)
    (hamb : c.Preserves Vcpu.ambient) (hn2 : c.Preserves fun s => restView s.n2vmcb)
    (hdet : c.Deterministic) :
    restView (nsvm_vmcb_prepare4vmrun c (nsvm_vmcb_prepare4vmrun c v regs).v regs2).v.n2vmcb =
      restView (nsvm_vmcb_prepare4vmrun c v regs).v.n2vmcb := by
  obtain ⟨w, hw⟩ : ∃ w, w = (nsvm_vmcb_prepare4vmrun c v regs).v := ⟨_, rfl⟩
  rw [← hw]
  have aw : w.ambient = v.ambient := by
    rw [hw]
    exact prepare4vmrun_frame hamb ambient_of_outside v regs
  have hcl := ambient_clean w v aw
  obtain ⟨hvv, hhost, hact, _, _⟩ := ambient_fields w v aw
  obtain ⟨cl, hcl0⟩ : ∃ k, k = nsvm_vmcb_prepare4vmrun_clean v := ⟨_, rfl⟩
  rw [← hcl0] at hcl
  have aM : (nsvm_vmcb_prepare4vmrun_pause_tsc (nsvm_vmcb_prepare4vmrun_intercepts w cl)).ambient =
      (nsvm_vmcb_prepare4vmrun_pause_tsc (nsvm_vmcb_prepare4vmrun_intercepts v cl)).ambient :=
    (merged_ambient w cl).trans (aw.trans (merged_ambient v cl).symm)
  have hrc : (nsvm_vmcb_prepare4vmrun_head c w cl).2 =
      (nsvm_vmcb_prepare4vmrun_head c v cl).2 := by
    unfold nsvm_vmcb_prepare4vmrun_head
    exact permissionmap_rc_det hdet _ _ aM cl.iopm cl.iopm
  by_cases hv0 : (nsvm_vmcb_prepare4vmrun_head c v cl).2 = 0
  · have hw0 : (nsvm_vmcb_prepare4vmrun_head c w cl).2 = 0 := hrc.trans hv0
    rw [hcl0] at hv0
    rw [← hcl] at hw0
    have cw : coreView w.n2vmcb = mergedCore cl v.n1vmcb v.vvmcb (coreView v.n2vmcb) := by
      rw [hw, hcl0]
      exact prepare4vmrun_core c v regs hamb hn2 hv0
    have ew : ∀ i, i ≠ X86_EXC_NM → i < 32 → w.n2vmcb._exception_intercepts.testBit i =
        (v.n1vmcb._exception_intercepts ||| v.vvmcb._exception_intercepts).testBit i := by
      intro i hi h32
      rw [hw]
      exact prepare4vmrun_exception_bits hn2 v regs i hi h32
    have sw := prepare4vmrun_side c v regs hn2 hv0
    rw [← hw, ← hcl0] at sw
    obtain ⟨sw1, sw2, sw3⟩ := sw
    obtain ⟨sr1, sr2, sr3⟩ := prepare4vmrun_side c w regs2 hn2 hw0
    rw [hcl] at sr2 sr3 hw0
    rw [← hcl0] at hv0
    have aR := (upto_paging_frame hamb ambient_of_outside w cl).trans
      (aw.trans (upto_paging_frame hamb ambient_of_outside v cl).symm)
    have pd := paging_det hdet hn2 _ _ aR
    have hpair := sr3.trans ((Prod.ext pd.1 pd.2).trans sw3.symm)
    have hbits : ((nsvm_vmcb_prepare4vmrun_head c w cl).1.n2vmcb._iopm_base_pa,
          (nsvm_vmcb_prepare4vmrun_head c w cl).1.n2vmcb._msrpm_base_pa) =
        (w.n2vmcb._iopm_base_pa, w.n2vmcb._msrpm_base_pa) := by
      cases hp : v.vmcb
      · have hpw : (nsvm_vmcb_prepare4vmrun_pause_tsc
            (nsvm_vmcb_prepare4vmrun_intercepts w cl)).vmcb = vmcb_ptr.n1vmcx :=
          (congrArg (fun a => a.vmcb) (merged_ambient w cl)).trans (hact.trans hp)
        unfold nsvm_vmcb_prepare4vmrun_head
        rw [permissionmap_n2_host c _ _ hpw, merged_n2 w cl w.n1vmcb w.vvmcb rfl rfl]
      · have hpw : (nsvm_vmcb_prepare4vmrun_pause_tsc
            (nsvm_vmcb_prepare4vmrun_intercepts w cl)).vmcb = vmcb_ptr.n2vmcx :=
          (congrArg (fun a => a.vmcb) (merged_ambient w cl)).trans (hact.trans hp)
        have hpv : (nsvm_vmcb_prepare4vmrun_pause_tsc
            (nsvm_vmcb_prepare4vmrun_intercepts v cl)).vmcb = vmcb_ptr.n2vmcx :=
          (congrArg (fun a => a.vmcb) (merged_ambient v cl)).trans hp
        rw [sw2]
        unfold nsvm_vmcb_prepare4vmrun_head
        rw [permissionmap_n2_shadow c _ _ hw0 hpw, permissionmap_n2_shadow c _ _ hv0 hpv,
          permissionmap_ns_iomap_det hdet _ _ aM cl.iopm cl.iopm hw0]
    have hb := sr2.trans hbits
    apply restView_ext
    · rw [prepare4vmrun_core c w regs2 hamb hn2 (by rw [hcl]; exact hw0), hcl, hvv,
        mergedCore_congr cl _ _ _ _ hhost, cw, mergedCore_idem]
    · apply clear_nm_congr
      intro i hi h32
      have hexc : w.n1vmcb._exception_intercepts = v.n1vmcb._exception_intercepts :=
        congrArg (fun a => a.n1vmcb._exception_intercepts) aw
      rw [prepare4vmrun_exception_bits hn2 w regs2 i hi h32, ew i hi h32, hvv, hexc]
    · exact congrArg Prod.fst hpair
    · exact congrArg Prod.snd hpair
    · rw [sr1, sw1]
    · exact congrArg Prod.fst hb
    · exact congrArg Prod.snd hb
  · have hw0 : (nsvm_vmcb_prepare4vmrun_head c w cl).2 ≠ 0 := fun h => hv0 (hrc.symm.trans h)
    rw [hcl0] at hv0
    rw [← hcl] at hw0
    have hwn2 := prepare4vmrun_of_head_failed c v regs hv0
    rw [← hw, merged_n2 v _ v.n1vmcb v.vvmcb rfl rfl] at hwn2
    rw [prepare4vmrun_of_head_failed c w regs2 hw0, merged_n2 w _ v.n1vmcb v.vvmcb hhost hvv,
      hwn2]

theorem fpu_vmentry_cr0 (a : Nat) (vv n1 n2 : vmcb_struct) :
    clearBits 64 (nestedsvm_fpu_vmentry a vv n1 n2).1 X86_CR0_TS =
      clearBits 64 vv._cr0 X86_CR0_TS := by
  unfold nestedsvm_fpu_vmentry
  simp only
  split
  · exact clearBits_or 64 _ _ (by decide)
  · split
    · exact clearBits_idem 64 _ _
    · rfl

/-- Lines 538-566 with a register file, on the registers of the shadow block
that the setters write: when the shadow block is the active one it gets the
EFER and CR4 of the virtual block and, up to the TS bit, its CR0. -/
theorem registers_setterView {c : Collab} (hr : c.RegisterFile)
    (hq : c.PreservesAside fun s => (s.vmcb, s.vvmcb, setterView s.n2vmcb)) (v : Vcpu) :
    setterView (nsvm_vmcb_prepare4vmrun_registers c v).n2vmcb =
      if v.vmcb = vmcb_ptr.n2vmcx then
        (v.vvmcb._efer, clearBits 64 v.vvmcb._cr0 X86_CR0_TS, (setterView v.n2vmcb).2.2.1,
          v.vvmcb._cr4)
      else setterView v.n2vmcb := by
  -- the other collaborators
  have qp : c.PreservesAside fun s => s.vmcb := aside_comp hq fun t => t.1
  have qv : c.PreservesAside fun s => s.vvmcb := aside_comp hq fun t => t.2.1
  have qs : c.PreservesAside fun s => setterView s.n2vmcb := aside_comp hq fun t => t.2.2
  have ip : ∀ r, (inject_gp_on_exception c r).vmcb = r.1.vmcb := by
    intro r
    unfold inject_gp_on_exception
    split
    · exact qp.hvm_inject_hw_exception _ _ _
    · rfl
  have iv : ∀ r, (inject_gp_on_exception c r).vvmcb = r.1.vvmcb := by
    intro r
    unfold inject_gp_on_exception
    split
    · exact qv.hvm_inject_hw_exception _ _ _
    · rfl
  have is : ∀ r, setterView (inject_gp_on_exception c r).n2vmcb = setterView r.1.n2vmcb := by
    intro r
    unfold inject_gp_on_exception
    split
    · exact qs.hvm_inject_hw_exception _ _ _
    · rfl
  have us : ∀ s n, setterView (c.hvm_update_guest_cr s n).n2vmcb = setterView s.n2vmcb :=
    qs.hvm_update_guest_cr
  -- the setters
  have ep : ∀ s x, (c.hvm_set_efer s x).1.vmcb = s.vmcb := fun s x => by
    rw [hr.hvm_set_efer]; cases s.vmcb <;> rfl
  have ev : ∀ s x, (c.hvm_set_efer s x).1.vvmcb = s.vvmcb := fun s x => by
    rw [hr.hvm_set_efer]; cases s.vmcb <;> rfl
  have es : ∀ s x, setterView (c.hvm_set_efer s x).1.n2vmcb =
      if s.vmcb = vmcb_ptr.n2vmcx then
        (x, (setterView s.n2vmcb).2.1, (setterView s.n2vmcb).2.2.1, (setterView s.n2vmcb).2.2.2)
      else setterView s.n2vmcb := fun s x => by
    rw [hr.hvm_set_efer]; cases s.vmcb <;> rfl
  have fp : ∀ s x d, (c.hvm_set_cr4 s x d).1.vmcb = s.vmcb := fun s x d => by
    rw [hr.hvm_set_cr4]; cases s.vmcb <;> rfl
  have fv : ∀ s x d, (c.hvm_set_cr4 s x d).1.vvmcb = s.vvmcb := fun s x d => by
    rw [hr.hvm_set_cr4]; cases s.vmcb <;> rfl
  have fs : ∀ s x d, setterView (c.hvm_set_cr4 s x d).1.n2vmcb =
      if s.vmcb = vmcb_ptr.n2vmcx then
        ((setterView s.n2vmcb).1, (setterView s.n2vmcb).2.1, (setterView s.n2vmcb).2.2.1, x)
      else setterView s.n2vmcb := fun s x d => by
    rw [hr.hvm_set_cr4]; cases s.vmcb <;> rfl
  have gs : ∀ s x d, setterView (c.hvm_set_cr0 s x d).1.n2vmcb =
      if s.vmcb = vmcb_ptr.n2vmcx then
        ((setterView s.n2vmcb).1, clearBits 64 x X86_CR0_TS, (setterView s.n2vmcb).2.2.1,
          (setterView s.n2vmcb).2.2.2)
      else setterView s.n2vmcb := fun s x d => by
    rw [hr.hvm_set_cr0]; cases s.vmcb <;> rfl
  have ff : ∀ a vv n1 n2, setterView (nestedsvm_fpu_vmentry a vv n1 n2).2 = setterView n2 :=
    fun a vv n1 n2 => @fpu_vmentry_n2 _ setterView (fun _ _ => rfl) a vv n1 n2
  unfold nsvm_vmcb_prepare4vmrun_registers
  simp only [us, is, gs, fs, es, ff, ip, fp, ep, iv, fv, ev, fpu_vmentry_cr0]
  by_cases hv : v.vmcb = vmcb_ptr.n2vmcx
  · simp only [if_pos hv]
  · simp only [if_neg hv]

/-- Lines 568-608 with a register file, on the registers of the shadow block
that the setters write: CR3 is that of the virtual block when the shadow
block is the active one and the host uses nested paging. -/
theorem paging_setterView {c : Collab} (hr : c.RegisterFile)
    (hq : c.PreservesAside fun s => (s.vmcb, s.vvmcb, setterView s.n2vmcb)) (v : Vcpu) :
    setterView (nsvm_vmcb_prepare4vmrun_paging c v).n2vmcb =
      if v.vmcb = vmcb_ptr.n2vmcx ∧
          (c.nestedhvm_paging_mode_hap v = true ∨ c.paging_mode_hap = true) then
        ((setterView v.n2vmcb).1, (setterView v.n2vmcb).2.1, v.vvmcb._cr3,
          (setterView v.n2vmcb).2.2.2)
      else setterView v.n2vmcb := by
  have qp : c.PreservesAside fun s => s.vmcb := aside_comp hq fun t => t.1
  have qv : c.PreservesAside fun s => s.vvmcb := aside_comp hq fun t => t.2.1
  have qs : c.PreservesAside fun s => setterView s.n2vmcb := aside_comp hq fun t => t.2.2
  have is : ∀ r, setterView (inject_gp_on_exception c r).n2vmcb = setterView r.1.n2vmcb := by
    intro r
    unfold inject_gp_on_exception
    split
    · exact qs.hvm_inject_hw_exception _ _ _
    · rfl
  have pp := qp.p2m_get_nestedp2m
  have pv := qv.p2m_get_nestedp2m
  have ps := qs.p2m_get_nestedp2m
  have hs : ∀ s x n d, setterView (c.hvm_set_cr3 s x n d).1.n2vmcb =
      if s.vmcb = vmcb_ptr.n2vmcx then
        ((setterView s.n2vmcb).1, (setterView s.n2vmcb).2.1, x, (setterView s.n2vmcb).2.2.2)
      else setterView s.n2vmcb := fun s x n d => by
    rw [hr.hvm_set_cr3]; cases s.vmcb <;> rfl
  have np : ∀ b x, setterView (vmcb_set_np b x) = setterView b := fun _ _ => rfl
  have hc : ∀ (b : vmcb_struct) x, setterView { b with _h_cr3 := x } = setterView b :=
    fun _ _ => rfl
  unfold nsvm_vmcb_prepare4vmrun_paging
  by_cases hn : c.nestedhvm_paging_mode_hap v = true
  · rw [if_pos hn]
    unfold nestedsvm_vmcb_set_nestedp2m
    simp only [is, hs, pp, pv, ps, np, hc, hn, true_or, and_true]
  · rw [if_neg hn]
    by_cases hp : c.paging_mode_hap = true
    · rw [if_pos hp]
      simp only [is, hs, np, hc, hp, or_true, and_true]
    · rw [if_neg hp, if_neg fun h => h.2.elim hn hp]
      rfl

theorem untouched_setterView : UntouchedByTail setterView where
  pm := fun _ _ _ => rfl
  fpu := fun a b n1 n2 => @fpu_vmentry_n2 _ setterView (fun _ _ => rfl) a b n1 n2
  np := fun _ _ => rfl
  h_cr3 := fun _ _ => rfl
  control := by
    intro v clean
    unfold nsvm_vmcb_prepare4vmrun_control
    split <;> rfl
  segments := by
    intro v clean
    unfold nsvm_vmcb_prepare4vmrun_segments
    split <;> split <;> rfl
  save := by
    intro v clean
    unfold nsvm_vmcb_prepare4vmrun_save
    split <;> split <;> split <;> rfl

theorem untouched_cr2 : UntouchedByTail fun b => b._cr2 where
  pm := fun _ _ _ => rfl
  fpu := fun a b n1 n2 => @fpu_vmentry_n2 _ (fun b => b._cr2) (fun _ _ => rfl) a b n1 n2
  np := fun _ _ => rfl
  h_cr3 := fun _ _ => rfl
  control := by
    intro v clean
    unfold nsvm_vmcb_prepare4vmrun_control
    split <;> rfl
  segments := by
    intro v clean
    unfold nsvm_vmcb_prepare4vmrun_segments
    split <;> split <;> rfl
  save := by
    intro v clean
    unfold nsvm_vmcb_prepare4vmrun_save
    split <;> split <;> split <;> rfl

theorem merged_setterView (v : Vcpu) (clean : vmcbcleanbits_t) :
    setterView (nsvm_vmcb_prepare4vmrun_pause_tsc
        (nsvm_vmcb_prepare4vmrun_intercepts v clean)).n2vmcb = setterView v.n2vmcb ∧
      (nsvm_vmcb_prepare4vmrun_pause_tsc
        (nsvm_vmcb_prepare4vmrun_intercepts v clean)).n2vmcb._cr2 = v.n2vmcb._cr2 := by
  unfold nsvm_vmcb_prepare4vmrun_pause_tsc nsvm_vmcb_prepare4vmrun_intercepts
  split <;> split <;> exact ⟨rfl, rfl⟩

/-- With a register file whose other collaborators leave `Vcpu.ambient` and
the part `mergeView` of the shadow block alone, every collaborator leaves
`Vcpu.ambient`, the part `restView` of the shadow block and its CR2. -/
theorem registerFile_frames {c : Collab} (hr : c.RegisterFile)
    (hq : c.PreservesAside fun s => (s.ambient, mergeView s.n2vmcb)) :
    c.Preserves Vcpu.ambient ∧ (c.Preserves fun s => restView s.n2vmcb) ∧
      (c.Preserves fun s => s.n2vmcb._cr2) ∧
      c.PreservesAside fun s => (s.vmcb, s.vvmcb, setterView s.n2vmcb) := by
  have q1 : c.PreservesAside Vcpu.ambient := aside_comp hq Prod.fst
  have q2 : c.PreservesAside fun s => restView s.n2vmcb :=
    aside_comp hq fun t =>
      { t.2 with
        _efer := 0, _cr0 := 0, _cr2 := 0, _cr3 := 0, _cr4 := 0 }
  have q3 : c.PreservesAside fun s => s.n2vmcb._cr2 := aside_comp hq fun t => t.2._cr2
  have q4 : c.PreservesAside fun s => (s.vmcb, s.vvmcb, setterView s.n2vmcb) :=
    aside_comp hq fun t => (t.1.vmcb, t.1.vvmcb, t.2._efer, t.2._cr0, t.2._cr3, t.2._cr4)
  refine ⟨preserves_of_registerFile hr q1 ?_ ?_ ?_ ?_,
    preserves_of_registerFile hr q2 ?_ ?_ ?_ ?_,
    preserves_of_registerFile hr q3 ?_ ?_ ?_ ?_, q4⟩
  · exact fun s x => store_ambient { s with guest_efer := x } s.vmcb _ fun _ => rfl
  · exact fun s x => store_ambient { s with guest_cr0 := x } s.vmcb _ fun _ => rfl
  · exact fun s x => store_ambient { s with guest_cr3 := x } s.vmcb _ fun _ => rfl
  · exact fun s x => store_ambient { s with guest_cr4 := x } s.vmcb _ fun _ => rfl
  all_goals
    intro s x
    cases s.vmcb <;> rfl

/-- The registers of the shadow block that the setters write, after a run of
`nsvm_vmcb_prepare4vmrun` with a register file that gets past the permission
maps. -/
theorem prepare4vmrun_setterView {c : Collab} (hr : c.RegisterFile)
    (hamb : c.Preserves Vcpu.ambient)
    (hq : c.PreservesAside fun s => (s.vmcb, s.vvmcb, setterView s.n2vmcb))
    (v : Vcpu) (regs : cpu_user_regs)
    (hhead : (nsvm_vmcb_prepare4vmrun_head c v (nsvm_vmcb_prepare4vmrun_clean v)).2 = 0) :
    setterView (nsvm_vmcb_prepare4vmrun c v regs).v.n2vmcb =
      if v.vmcb = vmcb_ptr.n2vmcx then
        (v.vvmcb._efer, clearBits 64 v.vvmcb._cr0 X86_CR0_TS,
          (if c.nestedhvm_paging_mode_hap
                (nsvm_vmcb_prepare4vmrun_registers c
                  (nsvm_vmcb_prepare4vmrun_segments
                    (nsvm_vmcb_prepare4vmrun_control
                      (nsvm_vmcb_prepare4vmrun_head c v (nsvm_vmcb_prepare4vmrun_clean v)).1
                      (nsvm_vmcb_prepare4vmrun_clean v))
                    (nsvm_vmcb_prepare4vmrun_clean v))) = true ∨ c.paging_mode_hap = true then
            v.vvmcb._cr3
          else v.n2vmcb._cr3),
          v.vvmcb._cr4)
      else setterView v.n2vmcb := by
  obtain ⟨cl, hcl⟩ : ∃ k, k = nsvm_vmcb_prepare4vmrun_clean v := ⟨_, rfl⟩
  rw [prepare4vmrun_of_head c v regs hhead, tail_v, ← hcl]
  obtain ⟨A, hA⟩ : ∃ A, A = nsvm_vmcb_prepare4vmrun_segments
      (nsvm_vmcb_prepare4vmrun_control (nsvm_vmcb_prepare4vmrun_head c v cl).1 cl) cl := ⟨_, rfl⟩
  rw [← hA]
  have aA : A.ambient = v.ambient := by
    rw [hA, segments_frame ambient_of_outside, control_frame ambient_of_outside]
    exact head_ambient c v cl
  have sA : setterView A.n2vmcb = setterView v.n2vmcb := by
    rw [hA, untouched_setterView.segments, untouched_setterView.control,
      head_n2 untouched_setterView.pm]
    exact (merged_setterView v cl).1
  obtain ⟨R, hR⟩ : ∃ R, R = nsvm_vmcb_prepare4vmrun_registers c A := ⟨_, rfl⟩
  rw [← hR]
  have aR : R.ambient = v.ambient := by
    rw [hR, registers_frame hamb ambient_of_outside]
    exact aA
  have pA : A.vmcb = v.vmcb := congrArg (fun a => a.vmcb) aA
  have vA : A.vvmcb = v.vvmcb := congrArg (fun a => a.vvmcb) aA
  have pR : R.vmcb = v.vmcb := congrArg (fun a => a.vmcb) aR
  have vR : R.vvmcb = v.vvmcb := congrArg (fun a => a.vvmcb) aR
  have sR := registers_setterView hr hq A
  rw [← hR, pA, vA, sA] at sR
  rw [untouched_setterView.save, paging_setterView hr hq R, pR, vR, sR]
  by_cases hv : v.vmcb = vmcb_ptr.n2vmcx
  · rw [if_pos hv, if_pos hv]
    by_cases hm : c.nestedhvm_paging_mode_hap R = true ∨ c.paging_mode_hap = true
    · rw [if_pos ⟨hv, hm⟩, if_pos hm]
    · rw [if_neg fun h => hm h.2, if_neg hm]
      rfl
  · rw [if_neg hv, if_neg hv, if_neg fun h => hv h.1]

/-- A second run of `nsvm_vmcb_prepare4vmrun` starts from the same ambient
state as the first, with the same clean bits in force, gets the same answer
from the permission maps and takes the same branch on the paging mode. -/
theorem prepare4vmrun_second_run {c : Collab} (hamb : c.Preserves Vcpu.ambient)
    (hdet : c.Deterministic) (v w : Vcpu) (regs : cpu_user_regs)
    (hw : w = (nsvm_vmcb_prepare4vmrun c v regs).v) :
    w.ambient = v.ambient ∧
      nsvm_vmcb_prepare4vmrun_clean w = nsvm_vmcb_prepare4vmrun_clean v ∧
      (nsvm_vmcb_prepare4vmrun_head c w (nsvm_vmcb_prepare4vmrun_clean v)).2 =
        (nsvm_vmcb_prepare4vmrun_head c v (nsvm_vmcb_prepare4vmrun_clean v)).2 ∧
      c.nestedhvm_paging_mode_hap
          (nsvm_vmcb_prepare4vmrun_registers c
            (nsvm_vmcb_prepare4vmrun_segments
              (nsvm_vmcb_prepare4vmrun_control
                (nsvm_vmcb_prepare4vmrun_head c w (nsvm_vmcb_prepare4vmrun_clean v)).1
                (nsvm_vmcb_prepare4vmrun_clean v))
              (nsvm_vmcb_prepare4vmrun_clean v))) =
        c.nestedhvm_paging_mode_hap
          (nsvm_vmcb_prepare4vmrun_registers c
            (nsvm_vmcb_prepare4vmrun_segments
              (nsvm_vmcb_prepare4vmrun_control
                (nsvm_vmcb_prepare4vmrun_head c v (nsvm_vmcb_prepare4vmrun_clean v)).1
                (nsvm_vmcb_prepare4vmrun_clean v))
              (nsvm_vmcb_prepare4vmrun_clean v))) := by
  have aw : w.ambient = v.ambient := by
    rw [hw]
    exact prepare4vmrun_frame hamb ambient_of_outside v regs
  obtain ⟨cl, hcl⟩ : ∃ k, k = nsvm_vmcb_prepare4vmrun_clean v := ⟨_, rfl⟩
  rw [← hcl]
  refine ⟨aw, (ambient_clean w v aw).trans hcl.symm, ?_, ?_⟩
  · unfold nsvm_vmcb_prepare4vmrun_head
    exact permissionmap_rc_det hdet _ _
      ((merged_ambient w cl).trans (aw.trans (merged_ambient v cl).symm)) cl.iopm cl.iopm
  · exact hdet.nestedhvm_paging_mode_hap _ _
      ((upto_paging_frame hamb ambient_of_outside w cl).trans
        (aw.trans (upto_paging_frame hamb ambient_of_outside v cl).symm))

theorem mergeView_of_parts (a b : vmcb_struct) (h1 : restView a = restView b)
    (h2 : setterView a = setterView b) (h3 : a._cr2 = b._cr2) : mergeView a = mergeView b := by
  have ha : mergeView a =
      { restView a with
        _efer := (setterView a).1, _cr0 := (setterView a).2.1, _cr2 := a._cr2,
        _cr3 := (setterView a).2.2.1, _cr4 := (setterView a).2.2.2 } := rfl
  have hb : mergeView b =
      { restView b with
        _efer := (setterView b).1, _cr0 := (setterView b).2.1, _cr2 := b._cr2,
        _cr3 := (setterView b).2.2.1, _cr4 := (setterView b).2.2.2 } := rfl
  rw [ha, hb, h1, h2, h3]

/-- C4, amended: two runs of `nsvm_vmcb_prepare4vmrun` in succession leave the
shadow block as one run leaves it, whatever the clean bits of the virtual
block and the cached address (so also with all clean bits set and honoured)
and whatever the runs return, except for the TS bit of its CR0 and the #NM bit
of its exception intercepts, the two bits of the lazy-FPU handoff. The four
register setters are taken to behave like a register file, the other
collaborators to leave alone `Vcpu.ambient` (so the virtual block and what the
merge reads of the L1 block) and the shadow block up to these two bits, and
the lookups to be deterministic. -/
theorem prepare4vmrun_twice_except_fpu (c : Collab) (v : Vcpu) (regs regs2 : cpu_user_regs)
    (hr : c.RegisterFile) (hq : c.PreservesAside fun s => (s.ambient, mergeView s.n2vmcb))
    (hdet : c.Deterministic) :
    mergeView (nsvm_vmcb_prepare4vmrun c (nsvm_vmcb_prepare4vmrun c v regs).v regs2).v.n2vmcb =
      mergeView (nsvm_vmcb_prepare4vmrun c v regs).v.n2vmcb := by
  obtain ⟨hamb, hrest, hcr2, hq4⟩ := registerFile_frames hr hq
  have h1 := prepare4vmrun_twice_rest c v regs regs2 hamb hrest hdet
  obtain ⟨w, hw⟩ : ∃ w, w = (nsvm_vmcb_prepare4vmrun c v regs).v := ⟨_, rfl⟩
  rw [← hw] at h1 ⊢
  obtain ⟨aw, hcl, hrc, hhap⟩ := prepare4vmrun_second_run hamb hdet v w regs hw
  have hact : w.vmcb = v.vmcb := congrArg (fun a => a.vmcb) aw
  have hvv : w.vvmcb = v.vvmcb := congrArg (fun a => a.vvmcb) aw
  refine mergeView_of_parts _ _ h1 ?_
    ((prepare4vmrun_n2 hcr2 untouched_cr2 w regs2).trans (merged_setterView w _).2)
  by_cases hv0 : (nsvm_vmcb_prepare4vmrun_head c v (nsvm_vmcb_prepare4vmrun_clean v)).2 = 0
  · have sw := prepare4vmrun_setterView hr hamb hq4 v regs hv0
    rw [← hw] at sw
    rw [prepare4vmrun_setterView hr hamb hq4 w regs2 (by rw [hcl]; exact hrc.trans hv0), hcl,
      hhap, hact, hvv]
    by_cases hv : v.vmcb = vmcb_ptr.n2vmcx
    · rw [if_pos hv] at sw ⊢
      by_cases hm : c.nestedhvm_paging_mode_hap
          (nsvm_vmcb_prepare4vmrun_registers c
            (nsvm_vmcb_prepare4vmrun_segments
              (nsvm_vmcb_prepare4vmrun_control
                (nsvm_vmcb_prepare4vmrun_head c v (nsvm_vmcb_prepare4vmrun_clean v)).1
                (nsvm_vmcb_prepare4vmrun_clean v))
              (nsvm_vmcb_prepare4vmrun_clean v))) = true ∨ c.paging_mode_hap = true
      · rw [if_pos hm] at sw ⊢
        exact sw.symm
      · rw [if_neg hm] at sw ⊢
        have h3 : w.n2vmcb._cr3 = v.n2vmcb._cr3 := congrArg (fun t => t.2.2.1) sw
        rw [h3]
        exact sw.symm
    · rw [if_neg hv]
  · have hw0 : (nsvm_vmcb_prepare4vmrun_head c w (nsvm_vmcb_prepare4vmrun_clean w)).2 ≠ 0 := by
      rw [hcl]
      exact fun h => hv0 (hrc.symm.trans h)
    rw [prepare4vmrun_of_head_failed c w regs2 hw0]
    exact (merged_setterView w _).1

/-- Witness of C4 amended with the register-file collaborators on
`remergeState`, where the two runs differ in the #NM intercept and in the TS
bit of CR0. -/
theorem prepare4vmrun_twice_except_fpu_witness :
    storeCollab.RegisterFile ∧
      (storeCollab.PreservesAside fun s => (s.ambient, mergeView s.n2vmcb)) ∧
      storeCollab.Deterministic ∧
      mergeView (nsvm_vmcb_prepare4vmrun storeCollab
        (nsvm_vmcb_prepare4vmrun storeCollab remergeState {}).v
        (nsvm_vmcb_prepare4vmrun storeCollab remergeState {}).regs).v.n2vmcb =
      mergeView (nsvm_vmcb_prepare4vmrun storeCollab remergeState {}).v.n2vmcb :=
  ⟨storeCollab_registerFile, storeCollab_aside _, storeCollab_deterministic,
    prepare4vmrun_twice_except_fpu storeCollab remergeState {}
      (nsvm_vmcb_prepare4vmrun storeCollab remergeState {}).regs
      storeCollab_registerFile (storeCollab_aside _) storeCollab_deterministic⟩

end NestedSVM
